import Mathlib

/-!
HybridRendering: the frame orchestrator of `src/main.cpp`

A shallow embedding of the `Sample` application class: the GPU objects it
owns, the backend it talks to, the commands it records into a command
buffer, and the functions `init`, `window_resized`, `update` and the passes
they call.

Conventions of the embedding.

* A `Ptr` (shared pointer) is an `Option`; `reset()` stores `none`.
  Dereferencing a null `Ptr` has no defined result: the function returns
  `none`.
* A Vulkan object is a record of a handle (a number drawn from the backend's
  object counter) and the parameters it was created with.
* The backend keeps the chronological list of the calls that reach the
  device (`calls`) and the contents of the descriptor sets (`descriptors`).
* A command buffer is the list of the commands recorded into it, oldest
  first.
* `uint32_t` arithmetic is `% 2 ^ 32`, `size_t` arithmetic is `% 2 ^ 64`; a
  value passed for an `int32_t` parameter is converted by `i32`.
* Creation calls of the framework (`Image::create`, ...) are followed on the
  path on which they return an object. The two exceptions are `Mesh::load`,
  whose result the source compares with null, and the creation of a pipeline,
  whose failure the spec gives as fatal: a call that fails has no result, and
  neither has the function that made it.
-/

namespace HybridRendering

/-! ## Vulkan enumerations and flag sets -/

abbrev Handle := Nat

/-- Truncation to `uint32_t`. -/
def u32 (n : Nat) : Nat := n % 2 ^ 32

/-- Truncation to `size_t` (64 bit). -/
def usize (n : Nat) : Nat := n % 2 ^ 64

/-- Conversion of an unsigned value to `int32_t`: the low 32 bits, read in two's
complement. -/
def i32 (n : Nat) : Int :=
  if n % 2 ^ 32 < 2 ^ 31 then (n % 2 ^ 32 : Nat) else (n % 2 ^ 32 : Nat) - 2 ^ 32

inductive VkFormat
  | VK_FORMAT_R8_SNORM
  | VK_FORMAT_R8G8B8A8_UNORM
  | VK_FORMAT_R16G16B16A16_SFLOAT
  | VK_FORMAT_R32G32B32A32_SFLOAT
  | VK_FORMAT_D16_UNORM
  | VK_FORMAT_D32_SFLOAT
  | VK_FORMAT_D24_UNORM_S8_UINT
  | VK_FORMAT_D32_SFLOAT_S8_UINT
  deriving DecidableEq, Repr

inductive VkImageLayout
  | VK_IMAGE_LAYOUT_UNDEFINED
  | VK_IMAGE_LAYOUT_GENERAL
  | VK_IMAGE_LAYOUT_COLOR_ATTACHMENT_OPTIMAL
  | VK_IMAGE_LAYOUT_DEPTH_STENCIL_ATTACHMENT_OPTIMAL
  | VK_IMAGE_LAYOUT_SHADER_READ_ONLY_OPTIMAL
  deriving DecidableEq, Repr

inductive VkImageAspect
  | VK_IMAGE_ASPECT_COLOR_BIT
  | VK_IMAGE_ASPECT_DEPTH_BIT
  deriving DecidableEq, Repr

inductive VkDescriptorType
  | VK_DESCRIPTOR_TYPE_COMBINED_IMAGE_SAMPLER
  | VK_DESCRIPTOR_TYPE_STORAGE_IMAGE
  | VK_DESCRIPTOR_TYPE_UNIFORM_BUFFER_DYNAMIC
  | VK_DESCRIPTOR_TYPE_ACCELERATION_STRUCTURE_NV
  deriving DecidableEq, Repr

inductive VkPipelineBindPoint
  | VK_PIPELINE_BIND_POINT_GRAPHICS
  | VK_PIPELINE_BIND_POINT_RAY_TRACING_NV
  deriving DecidableEq, Repr

inductive VkAttachmentLoadOp
  | VK_ATTACHMENT_LOAD_OP_CLEAR
  | VK_ATTACHMENT_LOAD_OP_DONT_CARE
  deriving DecidableEq, Repr

inductive VkAttachmentStoreOp
  | VK_ATTACHMENT_STORE_OP_STORE
  | VK_ATTACHMENT_STORE_OP_DONT_CARE
  deriving DecidableEq, Repr

/-- The image usage bit mask, one flag per bit the sample uses. -/
structure VkImageUsageFlags where
  sampled : Bool := false
  storage : Bool := false
  color_attachment : Bool := false
  depth_stencil_attachment : Bool := false
  deriving DecidableEq, Repr

/-- Bitwise or of two usage masks. -/
def VkImageUsageFlags.or (a b : VkImageUsageFlags) : VkImageUsageFlags :=
  { sampled := a.sampled || b.sampled
    storage := a.storage || b.storage
    color_attachment := a.color_attachment || b.color_attachment
    depth_stencil_attachment := a.depth_stencil_attachment || b.depth_stencil_attachment }

instance : OrOp VkImageUsageFlags := ⟨VkImageUsageFlags.or⟩

def VK_IMAGE_USAGE_SAMPLED_BIT : VkImageUsageFlags := { sampled := true }
def VK_IMAGE_USAGE_STORAGE_BIT : VkImageUsageFlags := { storage := true }
def VK_IMAGE_USAGE_COLOR_ATTACHMENT_BIT : VkImageUsageFlags := { color_attachment := true }
def VK_IMAGE_USAGE_DEPTH_STENCIL_ATTACHMENT_BIT : VkImageUsageFlags :=
  { depth_stencil_attachment := true }

/-- The shader stage bit mask, one flag per bit the sample uses. -/
structure VkShaderStageFlags where
  vertex : Bool := false
  fragment : Bool := false
  raygen : Bool := false
  closest_hit : Bool := false
  miss : Bool := false
  deriving DecidableEq, Repr

/-- Bitwise or of two stage masks. -/
def VkShaderStageFlags.or (a b : VkShaderStageFlags) : VkShaderStageFlags :=
  { vertex := a.vertex || b.vertex
    fragment := a.fragment || b.fragment
    raygen := a.raygen || b.raygen
    closest_hit := a.closest_hit || b.closest_hit
    miss := a.miss || b.miss }

instance : OrOp VkShaderStageFlags := ⟨VkShaderStageFlags.or⟩

def VK_SHADER_STAGE_VERTEX_BIT : VkShaderStageFlags := { vertex := true }
def VK_SHADER_STAGE_FRAGMENT_BIT : VkShaderStageFlags := { fragment := true }
def VK_SHADER_STAGE_RAYGEN_BIT_NV : VkShaderStageFlags := { raygen := true }
def VK_SHADER_STAGE_CLOSEST_HIT_BIT_NV : VkShaderStageFlags := { closest_hit := true }
def VK_SHADER_STAGE_MISS_BIT_NV : VkShaderStageFlags := { miss := true }

/-- The constant `VK_WHOLE_SIZE` (all ones in a `VkDeviceSize`). -/
def VK_WHOLE_SIZE : Nat := 2 ^ 64 - 1

/-! ## GPU objects -/

/-- Object `dw::vk::Image`: `Image::create(backend, VK_IMAGE_TYPE_2D, width, height,
depth, mip_levels, array_size, format, memory_usage, usage, sample_count)`. -/
structure Image where
  handle : Handle
  width : Nat
  height : Nat
  depth : Nat
  mip_levels : Nat
  array_size : Nat
  format : VkFormat
  usage : VkImageUsageFlags
  deriving DecidableEq, Repr

/-- Object `dw::vk::ImageView`: a view of one image. -/
structure ImageView where
  handle : Handle
  image : Image
  aspect : VkImageAspect
  deriving DecidableEq, Repr

/-- One entry of `std::vector<VkAttachmentDescription>`. -/
structure VkAttachmentDescription where
  format : VkFormat
  loadOp : VkAttachmentLoadOp
  storeOp : VkAttachmentStoreOp
  stencilLoadOp : VkAttachmentLoadOp
  stencilStoreOp : VkAttachmentStoreOp
  initialLayout : VkImageLayout
  finalLayout : VkImageLayout
  deriving DecidableEq, Repr

/-- A `VkAttachmentReference`. -/
structure VkAttachmentReference where
  attachment : Nat
  layout : VkImageLayout
  deriving DecidableEq, Repr

/-- A `VkSubpassDescription` (graphics bind point; no input, resolve or preserve
attachments). -/
structure VkSubpassDescription where
  colorAttachments : List VkAttachmentReference
  depthStencilAttachment : Option VkAttachmentReference
  deriving DecidableEq, Repr

/-- Object `dw::vk::RenderPass`. -/
structure RenderPass where
  handle : Handle
  attachments : List VkAttachmentDescription
  subpasses : List VkSubpassDescription
  dependency_count : Nat
  deriving DecidableEq, Repr

/-- Object `dw::vk::Framebuffer`. -/
structure Framebuffer where
  handle : Handle
  render_pass : Handle
  views : List ImageView
  width : Nat
  height : Nat
  layers : Nat
  deriving DecidableEq, Repr

/-- Object `dw::vk::Buffer` with its persistently mapped memory, a byte per address. -/
structure Buffer where
  handle : Handle
  size : Nat
  mapped : Nat → Nat

/-- One `add_binding(binding, type, count, stages)` of a descriptor-set layout. -/
structure Binding where
  binding : Nat
  descriptorType : VkDescriptorType
  descriptorCount : Nat
  stageFlags : VkShaderStageFlags
  deriving DecidableEq, Repr

/-- Object `dw::vk::DescriptorSetLayout` with the bindings of its `Desc`. -/
structure DescriptorSetLayout where
  handle : Handle
  bindings : List Binding
  deriving DecidableEq, Repr

/-- Object `dw::vk::DescriptorSet`: a set allocated from a layout. -/
structure DescriptorSet where
  handle : Handle
  layout : DescriptorSetLayout
  deriving DecidableEq, Repr

/-- Object `dw::vk::PipelineLayout`: its descriptor-set layouts in slot order. -/
structure PipelineLayout where
  handle : Handle
  set_layouts : List DescriptorSetLayout
  deriving DecidableEq, Repr

/-- Object `dw::vk::ShaderModule` created from a file. -/
structure ShaderModule where
  handle : Handle
  path : String
  deriving DecidableEq, Repr

/-- One shader group of a shader binding table: module and entry point. -/
structure ShaderGroup where
  module : ShaderModule
  entry_point : String
  deriving DecidableEq, Repr

/-- The `ShaderBindingTable::Desc`: groups in the order they were added. -/
structure ShaderBindingTableDesc where
  ray_gen_groups : List ShaderGroup := []
  hit_groups : List ShaderGroup := []
  miss_groups : List ShaderGroup := []
  deriving DecidableEq, Repr

/-- Object `dw::vk::ShaderBindingTable`. -/
structure ShaderBindingTable where
  handle : Handle
  desc : ShaderBindingTableDesc
  miss_group_offset : Nat
  hit_group_offset : Nat
  deriving DecidableEq, Repr

/-- Object `dw::vk::RayTracingPipeline`. -/
structure RayTracingPipeline where
  handle : Handle
  recursion_depth : Nat
  shader_binding_table : ShaderBindingTable
  pipeline_layout : PipelineLayout
  shader_binding_table_buffer : Handle
  deriving DecidableEq, Repr

inductive VkCullMode
  | VK_CULL_MODE_NONE
  | VK_CULL_MODE_FRONT_BIT
  | VK_CULL_MODE_BACK_BIT
  deriving DecidableEq, Repr

inductive VkFrontFace
  | VK_FRONT_FACE_COUNTER_CLOCKWISE
  | VK_FRONT_FACE_CLOCKWISE
  deriving DecidableEq, Repr

inductive VkCompareOp
  | VK_COMPARE_OP_LESS
  | VK_COMPARE_OP_LESS_OR_EQUAL
  | VK_COMPARE_OP_ALWAYS
  deriving DecidableEq, Repr

inductive VkDynamicState
  | VK_DYNAMIC_STATE_VIEWPORT
  | VK_DYNAMIC_STATE_SCISSOR
  deriving DecidableEq, Repr

/-- The `GraphicsPipeline::Desc` that `create_gbuffer_pipeline` fills in. -/
structure GraphicsPipelineDesc where
  shader_stages : List (VkShaderStageFlags × ShaderModule × String)
  vertex_input_state : Nat
  primitive_restart_enable : Bool
  viewport_extent : Nat × Nat
  scissor_extent : Nat × Nat
  depth_clamp : Bool
  rasterizer_discard_enable : Bool
  cull_mode : VkCullMode
  front_face : VkFrontFace
  depth_bias : Bool
  sample_shading_enable : Bool
  depth_test_enable : Bool
  depth_write_enable : Bool
  depth_compare_op : VkCompareOp
  depth_bounds_test_enable : Bool
  stencil_test_enable : Bool
  logic_op_enable : Bool
  blend_attachments : List Bool
  pipeline_layout : PipelineLayout
  dynamic_states : List VkDynamicState
  render_pass : Handle
  deriving DecidableEq, Repr

/-- How a graphics pipeline was built: by `create_for_post_process` from two shader
files, or by `create` from a full description. -/
inductive GraphicsPipelineSource
  | post_process (vs fs : String) (layout : PipelineLayout) (render_pass : Handle)
  | desc (d : GraphicsPipelineDesc)
  deriving DecidableEq, Repr

/-- Object `dw::vk::GraphicsPipeline`. -/
structure GraphicsPipeline where
  handle : Handle
  source : GraphicsPipelineSource
  deriving DecidableEq, Repr

/-! ## Collaborators: mesh, scene, camera -/

/-- A `dw::Material`: its PBR descriptor set may be absent. -/
structure Material where
  pbr_descriptor_set : Option Handle
  deriving DecidableEq, Repr

/-- One `dw::SubMesh`. -/
structure SubMesh where
  index_count : Nat
  base_index : Nat
  base_vertex : Nat
  mat_idx : Nat
  deriving DecidableEq, Repr

/-- A `dw::Mesh` as the sample reads it. -/
structure Mesh where
  handle : Handle
  vertex_buffer : Handle
  index_buffer : Handle
  sub_meshes : List SubMesh
  materials : List Material
  vertex_input_state_desc : Nat
  ray_tracing_ready : Bool
  deriving DecidableEq, Repr

/-- Accessor `Mesh::material(idx)`: indexing past the material list has no defined result. -/
def Mesh.material (m : Mesh) (idx : Nat) : Option Material := m.materials[idx]?

/-- A `dw::Scene` after `initialize_for_ray_tracing`. -/
structure Scene where
  handle : Handle
  instances : List Handle
  acceleration_structure : Handle
  ray_tracing_geometry_descriptor_set_layout : DescriptorSetLayout
  material_descriptor_set_layout : DescriptorSetLayout
  ray_tracing_geometry_descriptor_set : Handle
  albedo_descriptor_set : Handle
  normal_descriptor_set : Handle
  roughness_descriptor_set : Handle
  metallic_descriptor_set : Handle
  deriving DecidableEq, Repr

/-- A `dw::Camera`. Its kinematics are floating point and external: the embedding keeps
the aspect ratio it was last given (numerator, denominator), the number of `update()`
calls, and `matrices`, which gives for both the bytes its matrices occupy in a
`Transforms` block. -/
structure Camera where
  aspect : Nat × Nat
  ticks : Nat
  matrices : Nat × Nat → Nat → Nat → Nat

/-- The bytes of the `Transforms` block that the camera's current matrices give. -/
def Camera.transforms (c : Camera) : Nat → Nat := c.matrices c.aspect c.ticks

/-- Method `Camera::update_projection(fov, near, far, aspect)`. -/
def Camera.update_projection (c : Camera) (aspect : Nat × Nat) : Camera :=
  { c with aspect := aspect }

/-- Method `Camera::update()`, after the translation and rotation deltas were set. -/
def Camera.update (c : Camera) : Camera := { c with ticks := c.ticks + 1 }

/-- The size of `struct Transforms`: five `mat4` of 64 bytes and two `vec4` of 16 bytes,
each aligned to 16. -/
def sizeof_Transforms : Nat := 5 * 64 + 2 * 16

/-! ## Descriptors -/

/-- A `VkDescriptorImageInfo`; `VK_NULL_HANDLE` as sampler is `none`. -/
structure VkDescriptorImageInfo where
  sampler : Option Handle
  imageView : ImageView
  imageLayout : VkImageLayout
  deriving DecidableEq, Repr

/-- A `VkDescriptorBufferInfo`. -/
structure VkDescriptorBufferInfo where
  buffer : Handle
  offset : Nat
  range : Nat
  deriving DecidableEq, Repr

/-- What a descriptor write points at: `pImageInfo`, `pBufferInfo`, or the
acceleration-structure record chained through `pNext`. -/
inductive DescriptorInfo
  | image (i : VkDescriptorImageInfo)
  | buffer (b : VkDescriptorBufferInfo)
  | acceleration_structure (accelerationStructureCount : Nat) (as : Handle)
  deriving DecidableEq, Repr

/-- A `VkWriteDescriptorSet` (zeroed first, so `dstArrayElement` is 0 unless set). -/
structure VkWriteDescriptorSet where
  dstSet : Handle
  dstBinding : Nat
  dstArrayElement : Nat := 0
  descriptorCount : Nat
  descriptorType : VkDescriptorType
  info : DescriptorInfo
  deriving DecidableEq, Repr

/-- What one binding of a descriptor set holds after a write. -/
structure Descriptor where
  descriptorType : VkDescriptorType
  descriptorCount : Nat
  info : DescriptorInfo
  deriving DecidableEq, Repr

/-! ## Commands recorded into a command buffer -/

/-- A `VkClearValue` written through `color.float32[0..3]`; the four floats the sample
stores are whole numbers. -/
structure VkClearValue where
  float32 : Int × Int × Int × Int
  deriving DecidableEq, Repr

/-- The commands the sample records. `begin_sample` and `end_sample` are the two ends of
a `DW_SCOPED_SAMPLE(name, cmd_buf)` profiling scope; `set_image_layout` is the image
barrier recorded by `dw::vk::utilities::set_image_layout`; `render_gui` stands for what
the framework's `render_gui(cmd_buf)` records. -/
inductive Cmd
  | begin_sample (name : String)
  | end_sample (name : String)
  | vkCmdBeginRenderPass (renderPass framebuffer : Handle) (extent : Nat × Nat)
      (clearValues : List VkClearValue)
  | vkCmdEndRenderPass
  | vkCmdSetViewport (x y width height minDepth maxDepth : Int)
  | vkCmdSetScissor (offset : Int × Int) (extent : Nat × Nat)
  | vkCmdBindPipeline (bindPoint : VkPipelineBindPoint) (pipeline : Handle)
  | vkCmdBindVertexBuffers (firstBinding : Nat) (buffers : List Handle) (offsets : List Nat)
  | vkCmdBindIndexBuffer (buffer : Handle) (offset : Nat)
  | vkCmdBindDescriptorSets (bindPoint : VkPipelineBindPoint) (layout : Handle)
      (firstSet : Nat) (sets : List Handle) (dynamicOffsets : List Nat)
  | vkCmdDrawIndexed (indexCount instanceCount firstIndex : Nat) (vertexOffset : Int)
      (firstInstance : Nat)
  | vkCmdDraw (vertexCount instanceCount firstVertex firstInstance : Nat)
  | vkCmdTraceRaysNV (raygenBuffer : Handle) (raygenOffset : Nat)
      (missBuffer : Handle) (missOffset missStride : Nat)
      (hitBuffer : Handle) (hitOffset hitStride : Nat)
      (callableBuffer : Option Handle) (callableOffset callableStride : Nat)
      (width height depth : Nat)
  | set_image_layout (image : Handle) (oldLayout newLayout : VkImageLayout)
  | render_gui
  deriving DecidableEq, Repr

abbrev CommandBuffer := List Cmd

/-! ## The backend -/

inductive ObjectKind
  | image
  | image_view
  | framebuffer
  | render_pass
  | buffer
  | descriptor_set_layout
  | descriptor_set
  | pipeline_layout
  | shader_module
  | shader_binding_table
  | graphics_pipeline
  | ray_tracing_pipeline
  | mesh
  | scene
  | acceleration_structure
  deriving DecidableEq, Repr

/-- A call that reaches the backend: the creation of an object, the release of the
sample's reference to one (`reset()` of a non-null pointer), `wait_idle()`, one
`vkUpdateDescriptorSets`, a `DW_LOG_INFO`, and `submit_and_present`. -/
inductive Event
  | create (kind : ObjectKind) (h : Handle)
  | release (kind : ObjectKind) (h : Handle)
  | wait_idle
  | vkUpdateDescriptorSets (writes : List VkWriteDescriptorSet)
  | log_info (msg : String)
  | submit_and_present (cmds : List Cmd)
  deriving DecidableEq, Repr

/-- The `dw::vk::Backend` the sample holds in `m_vk_backend`, with what the framework's
static accessors and loaders give: device limits, swapchain objects, the common sampler,
the PBR material layout, the asset files and the camera kinematics. -/
structure Backend where
  next_handle : Handle
  current_frame_idx : Nat
  kMaxFramesInFlight : Nat
  min_ubo_alignment : Nat
  swap_chain_depth_format : VkFormat
  shaderGroupHandleSize : Nat
  swapchain_render_pass : Handle
  swapchain_framebuffer : Handle
  common_sampler : Handle
  pbr_descriptor_set_layout : DescriptorSetLayout
  scene_geometry_bindings : List Binding
  scene_material_bindings : List Binding
  mesh_files : String → Option Mesh
  image_files : String → Image
  pipeline_creation_fails : VkPipelineBindPoint → Bool
  camera_matrices : Nat × Nat → Nat → Nat → Nat
  descriptors : Handle → Nat → Option Descriptor
  calls : List Event

/-- The backend after it created one object of kind `k`: the object got the handle
`next_handle`. -/
def Backend.created (b : Backend) (k : ObjectKind) : Backend :=
  { b with next_handle := b.next_handle + 1, calls := b.calls ++ [Event.create k b.next_handle] }

/-- The backend after `reset()` of a pointer to an object of kind `k`: releasing a null
pointer does nothing. -/
def Backend.reset (b : Backend) (k : ObjectKind) : Option Handle → Backend
  | none => b
  | some h => { b with calls := b.calls ++ [Event.release k h] }

/-- Call `m_vk_backend->wait_idle()`. -/
def Backend.wait_idle (b : Backend) : Backend :=
  { b with calls := b.calls ++ [Event.wait_idle] }

/-- Modelled from the spec: `Backend::aligned_dynamic_ubo_size`, which is not among the
sources. The spec gives it as `align_up(size, device_alignment)`, the size rounded up to
the device's minimum uniform-buffer offset alignment. -/
def Backend.aligned_dynamic_ubo_size (b : Backend) (size : Nat) : Nat :=
  (size + b.min_ubo_alignment - 1) / b.min_ubo_alignment * b.min_ubo_alignment

/-- The effect of one descriptor write on the descriptor contents. -/
def apply_write (d : Handle → Nat → Option Descriptor) (w : VkWriteDescriptorSet) :
    Handle → Nat → Option Descriptor :=
  fun set binding =>
    if set = w.dstSet ∧ binding = w.dstBinding then
      some { descriptorType := w.descriptorType, descriptorCount := w.descriptorCount,
             info := w.info }
    else d set binding

/-- Call `vkUpdateDescriptorSets(device, n, writes, 0, nullptr)`: the writes take effect
in array order. -/
def Backend.vkUpdateDescriptorSets (b : Backend) (writes : List VkWriteDescriptorSet) :
    Backend :=
  { b with descriptors := writes.foldl apply_write b.descriptors,
           calls := b.calls ++ [Event.vkUpdateDescriptorSets writes] }

/-- Call `dw::vk::Image::create`. -/
def Image.create (b : Backend) (width height depth mip_levels array_size : Nat)
    (format : VkFormat) (usage : VkImageUsageFlags) : Image :=
  { handle := b.next_handle, width := width, height := height, depth := depth,
    mip_levels := mip_levels, array_size := array_size, format := format, usage := usage }

/-- Call `dw::vk::Image::create_from_file`: the image the file holds. -/
def Image.create_from_file (b : Backend) (path : String) : Image :=
  { b.image_files path with handle := b.next_handle }

/-- Call `dw::vk::ImageView::create` (view type `VK_IMAGE_VIEW_TYPE_2D`). -/
def ImageView.create (b : Backend) (image : Image) (aspect : VkImageAspect) : ImageView :=
  { handle := b.next_handle, image := image, aspect := aspect }

/-- Call `dw::vk::Framebuffer::create`. -/
def Framebuffer.create (b : Backend) (render_pass : RenderPass) (views : List ImageView)
    (width height layers : Nat) : Framebuffer :=
  { handle := b.next_handle, render_pass := render_pass.handle, views := views,
    width := width, height := height, layers := layers }

/-- The backend after an assignment `m_x = T::create(...)`: the object is created, then
the reference the pointer held before, if any, is released. -/
def Backend.assigned (b : Backend) (k : ObjectKind) (old : Option Handle) : Backend :=
  (b.created k).reset k old

/-- Modelled from the spec: `dw::vk::GraphicsPipeline::create` and
`create_for_post_process`, which are not among the sources. The spec gives a
pipeline-creation failure at startup as fatal: it aborts startup. So on a device that
fails to create graphics pipelines the call has no result (it does not return to the
sample); else it returns the pipeline. -/
def GraphicsPipeline.create (b : Backend) (source : GraphicsPipelineSource) :
    Option GraphicsPipeline :=
  if b.pipeline_creation_fails .VK_PIPELINE_BIND_POINT_GRAPHICS then none
  else some { handle := b.next_handle, source := source }

/-- The backend after `m_x = GraphicsPipeline::create(...)` returned a pipeline. -/
def GraphicsPipeline.create_backend (b : Backend) (old : Option Handle) : Backend :=
  b.assigned .graphics_pipeline old

/-- Modelled from the spec: `dw::vk::RayTracingPipeline::create`, which is not among the
sources, on a `Desc` with the given recursion depth, shader binding table and pipeline
layout. The spec gives a pipeline-creation failure at startup as fatal: it aborts
startup. So on a device that fails to create ray-tracing pipelines the call has no result
(it does not return to the sample); else it returns the pipeline with the buffer created
for its table. -/
def RayTracingPipeline.create (b : Backend) (recursion_depth : Nat)
    (shader_binding_table : ShaderBindingTable) (pipeline_layout : PipelineLayout) :
    Option RayTracingPipeline :=
  if b.pipeline_creation_fails .VK_PIPELINE_BIND_POINT_RAY_TRACING_NV then none
  else some { handle := b.next_handle, recursion_depth := recursion_depth
              shader_binding_table := shader_binding_table
              pipeline_layout := pipeline_layout
              shader_binding_table_buffer := b.next_handle + 1 }

/-- The backend after `m_x = RayTracingPipeline::create(...)` returned a pipeline. -/
def RayTracingPipeline.create_backend (b : Backend) (old : Option Handle) : Backend :=
  (b.assigned .ray_tracing_pipeline old).created .buffer

/-- Call `dw::Mesh::load`: a null pointer when the file gives no mesh, else the mesh of
the file with a vertex and an index buffer created for it. -/
def Mesh.load (b : Backend) (path : String) : Option Mesh :=
  (b.mesh_files path).map fun m =>
    { m with handle := b.next_handle, vertex_buffer := b.next_handle + 1,
             index_buffer := b.next_handle + 2 }

/-- The backend after `dw::Mesh::load`. -/
def Mesh.load_backend (b : Backend) (path : String) : Backend :=
  match b.mesh_files path with
  | none => b
  | some _ => ((b.created .mesh).created .buffer).created .buffer

/-- Calls `Scene::create()`, `add_instance(mesh, identity)` and
`initialize_for_ray_tracing(backend)`: the scene with its acceleration structure, its two
descriptor-set layouts and its five descriptor sets. -/
def Scene.create (b : Backend) (mesh : Mesh) : Scene :=
  { handle := b.next_handle
    instances := [mesh.handle]
    acceleration_structure := b.next_handle + 1
    ray_tracing_geometry_descriptor_set_layout :=
      { handle := b.next_handle + 2, bindings := b.scene_geometry_bindings }
    material_descriptor_set_layout :=
      { handle := b.next_handle + 3, bindings := b.scene_material_bindings }
    ray_tracing_geometry_descriptor_set := b.next_handle + 4
    albedo_descriptor_set := b.next_handle + 5
    normal_descriptor_set := b.next_handle + 6
    roughness_descriptor_set := b.next_handle + 7
    metallic_descriptor_set := b.next_handle + 8 }

/-- The backend after the three scene calls of `Scene.create`. -/
def Scene.create_backend (b : Backend) : Backend :=
  ((((((((b.created .scene).created .acceleration_structure).created
    .descriptor_set_layout).created .descriptor_set_layout).created
    .descriptor_set).created .descriptor_set).created .descriptor_set).created
    .descriptor_set).created .descriptor_set

/-! ## The application object -/

/-- The `Sample` class: `m_width`, `m_height` and `m_vk_backend` come from
`dw::Application`, the other fields are the members declared in `main.cpp`.
`m_transforms` is the byte image of the `Transforms` member. -/
structure Sample where
  m_width : Nat
  m_height : Nat
  m_vk_backend : Backend
  m_ubo_size : Nat
  m_per_frame_ds : Option DescriptorSet
  m_per_frame_ds_layout : Option DescriptorSetLayout
  m_g_buffer_ds : Option DescriptorSet
  m_g_buffer_ds_layout : Option DescriptorSetLayout
  m_ubo : Option Buffer
  m_blue_noise : Option Image
  m_blue_noise_view : Option ImageView
  m_shadow_mask_ds : Option DescriptorSet
  m_shadow_mask_ds_layout : Option DescriptorSetLayout
  m_shadow_mask_pipeline : Option RayTracingPipeline
  m_shadow_mask_pipeline_layout : Option PipelineLayout
  m_shadow_mask_image : Option Image
  m_shadow_mask_view : Option ImageView
  m_shadow_mask_sbt : Option ShaderBindingTable
  m_reflection_ds : Option DescriptorSet
  m_reflection_ds_layout : Option DescriptorSetLayout
  m_reflection_pipeline : Option RayTracingPipeline
  m_reflection_pipeline_layout : Option PipelineLayout
  m_reflection_image : Option Image
  m_reflection_view : Option ImageView
  m_reflection_sbt : Option ShaderBindingTable
  m_deferred_pipeline : Option GraphicsPipeline
  m_deferred_pipeline_layout : Option PipelineLayout
  m_deferred_ds : Option DescriptorSet
  m_deferred_layout : Option DescriptorSetLayout
  m_g_buffer_1 : Option Image
  m_g_buffer_2 : Option Image
  m_g_buffer_3 : Option Image
  m_g_buffer_depth : Option Image
  m_g_buffer_1_view : Option ImageView
  m_g_buffer_2_view : Option ImageView
  m_g_buffer_3_view : Option ImageView
  m_g_buffer_depth_view : Option ImageView
  m_g_buffer_fbo : Option Framebuffer
  m_g_buffer_rp : Option RenderPass
  m_g_buffer_pipeline : Option GraphicsPipeline
  m_g_buffer_pipeline_layout : Option PipelineLayout
  m_main_camera : Option Camera
  m_mesh : Option Mesh
  m_scene : Option Scene
  m_transforms : Nat → Nat

/-- The application object before `init`: the framework has stored the window size and
the backend, every pointer member is null. -/
def Sample.start (width height : Nat) (b : Backend) : Sample :=
  { m_width := width, m_height := height, m_vk_backend := b, m_ubo_size := 0,
    m_per_frame_ds := none, m_per_frame_ds_layout := none, m_g_buffer_ds := none,
    m_g_buffer_ds_layout := none, m_ubo := none, m_blue_noise := none,
    m_blue_noise_view := none, m_shadow_mask_ds := none, m_shadow_mask_ds_layout := none,
    m_shadow_mask_pipeline := none, m_shadow_mask_pipeline_layout := none,
    m_shadow_mask_image := none, m_shadow_mask_view := none, m_shadow_mask_sbt := none,
    m_reflection_ds := none, m_reflection_ds_layout := none, m_reflection_pipeline := none,
    m_reflection_pipeline_layout := none, m_reflection_image := none,
    m_reflection_view := none, m_reflection_sbt := none, m_deferred_pipeline := none,
    m_deferred_pipeline_layout := none, m_deferred_ds := none, m_deferred_layout := none,
    m_g_buffer_1 := none, m_g_buffer_2 := none, m_g_buffer_3 := none,
    m_g_buffer_depth := none, m_g_buffer_1_view := none, m_g_buffer_2_view := none,
    m_g_buffer_3_view := none, m_g_buffer_depth_view := none, m_g_buffer_fbo := none,
    m_g_buffer_rp := none, m_g_buffer_pipeline := none, m_g_buffer_pipeline_layout := none,
    m_main_camera := none, m_mesh := none, m_scene := none, m_transforms := fun _ => 0 }

/-! ## Creation of the GPU resources -/

/-- Method `Sample::create_shaders`. -/
def create_shaders (s : Sample) : Bool × Sample := (true, s)

/-- Method `Sample::create_uniform_buffer`; the mapped memory starts zeroed. -/
def create_uniform_buffer (s : Sample) : Bool × Sample :=
  let m_ubo_size := s.m_vk_backend.aligned_dynamic_ubo_size sizeof_Transforms
  let m_ubo : Buffer :=
    { handle := s.m_vk_backend.next_handle
      size := usize (m_ubo_size * s.m_vk_backend.kMaxFramesInFlight)
      mapped := fun _ => 0 }
  (true, { s with m_ubo_size := m_ubo_size, m_ubo := some m_ubo,
                  m_vk_backend := s.m_vk_backend.assigned .buffer (s.m_ubo.map (·.handle)) })

/-- Method `Sample::load_mesh`. The mesh pointer is dereferenced before it is compared
with null. -/
def load_mesh (s : Sample) : Option (Bool × Sample) :=
  let b := s.m_vk_backend
  let m_mesh := Mesh.load b "mesh/sponza.obj"
  let b := (Mesh.load_backend b "mesh/sponza.obj").reset .mesh (s.m_mesh.map (·.handle))
  -- m_mesh->initialize_for_ray_tracing(m_vk_backend)
  match m_mesh with
  | none => none
  | some mesh =>
    let mesh := { mesh with ray_tracing_ready := true }
    let b := b.created .acceleration_structure
    let m_scene := Scene.create b mesh
    let b := (Scene.create_backend b).reset .scene (s.m_scene.map (·.handle))
    some (m_mesh.isSome, { s with m_mesh := some mesh, m_scene := some m_scene,
                                  m_vk_backend := b })

/-- Method `Sample::load_blue_noise`. -/
def load_blue_noise (s : Sample) : Sample :=
  let b := s.m_vk_backend
  let m_blue_noise := Image.create_from_file b "texture/LDR_RGBA_0.png"
  let b := b.assigned .image (s.m_blue_noise.map (·.handle))
  let m_blue_noise_view := ImageView.create b m_blue_noise .VK_IMAGE_ASPECT_COLOR_BIT
  let b := b.assigned .image_view (s.m_blue_noise_view.map (·.handle))
  { s with m_blue_noise := some m_blue_noise, m_blue_noise_view := some m_blue_noise_view,
           m_vk_backend := b }

/-- Method `Sample::create_output_images`: twelve `reset()` calls in the order of the
source, then the six images and their views at `m_width` x `m_height`. -/
def create_output_images (s : Sample) : Sample :=
  let b := s.m_vk_backend
  let b := b.reset .image (s.m_shadow_mask_image.map (·.handle))
  let b := b.reset .image_view (s.m_shadow_mask_view.map (·.handle))
  let b := b.reset .image (s.m_reflection_image.map (·.handle))
  let b := b.reset .image_view (s.m_reflection_view.map (·.handle))
  let b := b.reset .image (s.m_g_buffer_1.map (·.handle))
  let b := b.reset .image (s.m_g_buffer_2.map (·.handle))
  let b := b.reset .image (s.m_g_buffer_3.map (·.handle))
  let b := b.reset .image (s.m_g_buffer_depth.map (·.handle))
  let b := b.reset .image_view (s.m_g_buffer_1_view.map (·.handle))
  let b := b.reset .image_view (s.m_g_buffer_2_view.map (·.handle))
  let b := b.reset .image_view (s.m_g_buffer_3_view.map (·.handle))
  let b := b.reset .image_view (s.m_g_buffer_depth_view.map (·.handle))
  let m_shadow_mask_image := Image.create b s.m_width s.m_height 1 1 1 .VK_FORMAT_R8_SNORM
    (VK_IMAGE_USAGE_STORAGE_BIT ||| VK_IMAGE_USAGE_SAMPLED_BIT)
  let b := b.created .image
  let m_shadow_mask_view := ImageView.create b m_shadow_mask_image .VK_IMAGE_ASPECT_COLOR_BIT
  let b := b.created .image_view
  let m_reflection_image := Image.create b s.m_width s.m_height 1 1 1
    .VK_FORMAT_R16G16B16A16_SFLOAT (VK_IMAGE_USAGE_STORAGE_BIT ||| VK_IMAGE_USAGE_SAMPLED_BIT)
  let b := b.created .image
  let m_reflection_view := ImageView.create b m_reflection_image .VK_IMAGE_ASPECT_COLOR_BIT
  let b := b.created .image_view
  let m_g_buffer_1 := Image.create b s.m_width s.m_height 1 1 1 .VK_FORMAT_R8G8B8A8_UNORM
    (VK_IMAGE_USAGE_STORAGE_BIT ||| VK_IMAGE_USAGE_SAMPLED_BIT |||
      VK_IMAGE_USAGE_COLOR_ATTACHMENT_BIT)
  let b := b.created .image
  let m_g_buffer_2 := Image.create b s.m_width s.m_height 1 1 1 .VK_FORMAT_R16G16B16A16_SFLOAT
    (VK_IMAGE_USAGE_STORAGE_BIT ||| VK_IMAGE_USAGE_SAMPLED_BIT |||
      VK_IMAGE_USAGE_COLOR_ATTACHMENT_BIT)
  let b := b.created .image
  let m_g_buffer_3 := Image.create b s.m_width s.m_height 1 1 1 .VK_FORMAT_R32G32B32A32_SFLOAT
    (VK_IMAGE_USAGE_STORAGE_BIT ||| VK_IMAGE_USAGE_SAMPLED_BIT |||
      VK_IMAGE_USAGE_COLOR_ATTACHMENT_BIT)
  let b := b.created .image
  let m_g_buffer_depth := Image.create b s.m_width s.m_height 1 1 1 b.swap_chain_depth_format
    (VK_IMAGE_USAGE_SAMPLED_BIT ||| VK_IMAGE_USAGE_DEPTH_STENCIL_ATTACHMENT_BIT)
  let b := b.created .image
  let m_g_buffer_1_view := ImageView.create b m_g_buffer_1 .VK_IMAGE_ASPECT_COLOR_BIT
  let b := b.created .image_view
  let m_g_buffer_2_view := ImageView.create b m_g_buffer_2 .VK_IMAGE_ASPECT_COLOR_BIT
  let b := b.created .image_view
  let m_g_buffer_3_view := ImageView.create b m_g_buffer_3 .VK_IMAGE_ASPECT_COLOR_BIT
  let b := b.created .image_view
  let m_g_buffer_depth_view := ImageView.create b m_g_buffer_depth .VK_IMAGE_ASPECT_DEPTH_BIT
  let b := b.created .image_view
  { s with
    m_vk_backend := b
    m_shadow_mask_image := some m_shadow_mask_image
    m_shadow_mask_view := some m_shadow_mask_view
    m_reflection_image := some m_reflection_image
    m_reflection_view := some m_reflection_view
    m_g_buffer_1 := some m_g_buffer_1
    m_g_buffer_2 := some m_g_buffer_2
    m_g_buffer_3 := some m_g_buffer_3
    m_g_buffer_depth := some m_g_buffer_depth
    m_g_buffer_1_view := some m_g_buffer_1_view
    m_g_buffer_2_view := some m_g_buffer_2_view
    m_g_buffer_3_view := some m_g_buffer_3_view
    m_g_buffer_depth_view := some m_g_buffer_depth_view }

/-- The three colour attachments of the G-buffer render pass share everything but the
format. -/
def gbuffer_color_attachment (format : VkFormat) : VkAttachmentDescription :=
  { format := format
    loadOp := .VK_ATTACHMENT_LOAD_OP_CLEAR
    storeOp := .VK_ATTACHMENT_STORE_OP_STORE
    stencilLoadOp := .VK_ATTACHMENT_LOAD_OP_DONT_CARE
    stencilStoreOp := .VK_ATTACHMENT_STORE_OP_DONT_CARE
    initialLayout := .VK_IMAGE_LAYOUT_UNDEFINED
    finalLayout := .VK_IMAGE_LAYOUT_SHADER_READ_ONLY_OPTIMAL }

/-- Method `Sample::create_render_passes`. -/
def create_render_passes (s : Sample) : Sample :=
  let b := s.m_vk_backend
  let attachments : List VkAttachmentDescription :=
    [ gbuffer_color_attachment .VK_FORMAT_R8G8B8A8_UNORM,
      gbuffer_color_attachment .VK_FORMAT_R16G16B16A16_SFLOAT,
      gbuffer_color_attachment .VK_FORMAT_R32G32B32A32_SFLOAT,
      { format := b.swap_chain_depth_format
        loadOp := .VK_ATTACHMENT_LOAD_OP_CLEAR
        storeOp := .VK_ATTACHMENT_STORE_OP_STORE
        stencilLoadOp := .VK_ATTACHMENT_LOAD_OP_CLEAR
        stencilStoreOp := .VK_ATTACHMENT_STORE_OP_DONT_CARE
        initialLayout := .VK_IMAGE_LAYOUT_UNDEFINED
        finalLayout := .VK_IMAGE_LAYOUT_DEPTH_STENCIL_ATTACHMENT_OPTIMAL } ]
  let gbuffer_references : List VkAttachmentReference :=
    [ { attachment := 0, layout := .VK_IMAGE_LAYOUT_COLOR_ATTACHMENT_OPTIMAL },
      { attachment := 1, layout := .VK_IMAGE_LAYOUT_COLOR_ATTACHMENT_OPTIMAL },
      { attachment := 2, layout := .VK_IMAGE_LAYOUT_COLOR_ATTACHMENT_OPTIMAL } ]
  let depth_reference : VkAttachmentReference :=
    { attachment := 3, layout := .VK_IMAGE_LAYOUT_DEPTH_STENCIL_ATTACHMENT_OPTIMAL }
  let subpass_description : List VkSubpassDescription :=
    [ { colorAttachments := gbuffer_references, depthStencilAttachment := some depth_reference } ]
  let m_g_buffer_rp : RenderPass :=
    { handle := b.next_handle, attachments := attachments, subpasses := subpass_description,
      dependency_count := 2 }
  { s with m_g_buffer_rp := some m_g_buffer_rp,
           m_vk_backend := b.assigned .render_pass (s.m_g_buffer_rp.map (·.handle)) }

/-- Method `Sample::create_framebuffers`. The render pass and the four views are
dereferenced by `Framebuffer::create`. -/
def create_framebuffers (s : Sample) : Option Sample :=
  let b := s.m_vk_backend.reset .framebuffer (s.m_g_buffer_fbo.map (·.handle))
  match s.m_g_buffer_rp, s.m_g_buffer_1_view, s.m_g_buffer_2_view, s.m_g_buffer_3_view,
    s.m_g_buffer_depth_view with
  | some rp, some v1, some v2, some v3, some vd =>
    let m_g_buffer_fbo := Framebuffer.create b rp [v1, v2, v3, vd] s.m_width s.m_height 1
    some { s with m_g_buffer_fbo := some m_g_buffer_fbo, m_vk_backend := b.created .framebuffer }
  | _, _, _, _, _ => none

/-- Method `Sample::create_descriptor_set_layouts`: the five layouts in the order of the
source. -/
def create_descriptor_set_layouts (s : Sample) : Sample :=
  let b := s.m_vk_backend
  let rt_and_fragment : VkShaderStageFlags :=
    VK_SHADER_STAGE_RAYGEN_BIT_NV ||| VK_SHADER_STAGE_CLOSEST_HIT_BIT_NV |||
      VK_SHADER_STAGE_FRAGMENT_BIT
  let rt : VkShaderStageFlags :=
    VK_SHADER_STAGE_RAYGEN_BIT_NV ||| VK_SHADER_STAGE_CLOSEST_HIT_BIT_NV
  let m_deferred_layout : DescriptorSetLayout :=
    { handle := b.next_handle
      bindings :=
        [ ⟨0, .VK_DESCRIPTOR_TYPE_COMBINED_IMAGE_SAMPLER, 1, VK_SHADER_STAGE_FRAGMENT_BIT⟩,
          ⟨1, .VK_DESCRIPTOR_TYPE_COMBINED_IMAGE_SAMPLER, 1, VK_SHADER_STAGE_FRAGMENT_BIT⟩,
          ⟨2, .VK_DESCRIPTOR_TYPE_COMBINED_IMAGE_SAMPLER, 1, VK_SHADER_STAGE_FRAGMENT_BIT⟩,
          ⟨3, .VK_DESCRIPTOR_TYPE_COMBINED_IMAGE_SAMPLER, 1, VK_SHADER_STAGE_FRAGMENT_BIT⟩,
          ⟨4, .VK_DESCRIPTOR_TYPE_COMBINED_IMAGE_SAMPLER, 1, VK_SHADER_STAGE_FRAGMENT_BIT⟩ ] }
  let b := b.assigned .descriptor_set_layout (s.m_deferred_layout.map (·.handle))
  let m_g_buffer_ds_layout : DescriptorSetLayout :=
    { handle := b.next_handle
      bindings :=
        [ ⟨0, .VK_DESCRIPTOR_TYPE_COMBINED_IMAGE_SAMPLER, 1, rt_and_fragment⟩,
          ⟨1, .VK_DESCRIPTOR_TYPE_COMBINED_IMAGE_SAMPLER, 1, rt_and_fragment⟩,
          ⟨2, .VK_DESCRIPTOR_TYPE_COMBINED_IMAGE_SAMPLER, 1, rt_and_fragment⟩ ] }
  let b := b.assigned .descriptor_set_layout (s.m_g_buffer_ds_layout.map (·.handle))
  let m_shadow_mask_ds_layout : DescriptorSetLayout :=
    { handle := b.next_handle
      bindings :=
        [ ⟨0, .VK_DESCRIPTOR_TYPE_ACCELERATION_STRUCTURE_NV, 1, rt⟩,
          ⟨1, .VK_DESCRIPTOR_TYPE_STORAGE_IMAGE, 1, VK_SHADER_STAGE_RAYGEN_BIT_NV⟩ ] }
  let b := b.assigned .descriptor_set_layout (s.m_shadow_mask_ds_layout.map (·.handle))
  let m_reflection_ds_layout : DescriptorSetLayout :=
    { handle := b.next_handle
      bindings :=
        [ ⟨0, .VK_DESCRIPTOR_TYPE_ACCELERATION_STRUCTURE_NV, 1, rt⟩,
          ⟨1, .VK_DESCRIPTOR_TYPE_STORAGE_IMAGE, 1, VK_SHADER_STAGE_RAYGEN_BIT_NV⟩,
          ⟨2, .VK_DESCRIPTOR_TYPE_COMBINED_IMAGE_SAMPLER, 1, VK_SHADER_STAGE_RAYGEN_BIT_NV⟩ ] }
  let b := b.assigned .descriptor_set_layout (s.m_reflection_ds_layout.map (·.handle))
  let m_per_frame_ds_layout : DescriptorSetLayout :=
    { handle := b.next_handle
      bindings :=
        [ ⟨0, .VK_DESCRIPTOR_TYPE_UNIFORM_BUFFER_DYNAMIC, 1,
            VK_SHADER_STAGE_RAYGEN_BIT_NV ||| VK_SHADER_STAGE_CLOSEST_HIT_BIT_NV |||
              VK_SHADER_STAGE_FRAGMENT_BIT ||| VK_SHADER_STAGE_VERTEX_BIT⟩ ] }
  let b := b.assigned .descriptor_set_layout (s.m_per_frame_ds_layout.map (·.handle))
  { s with
    m_vk_backend := b
    m_deferred_layout := some m_deferred_layout
    m_g_buffer_ds_layout := some m_g_buffer_ds_layout
    m_shadow_mask_ds_layout := some m_shadow_mask_ds_layout
    m_reflection_ds_layout := some m_reflection_ds_layout
    m_per_frame_ds_layout := some m_per_frame_ds_layout }

/-- Call `m_vk_backend->allocate_descriptor_set(layout)`. -/
def Backend.allocate_descriptor_set (b : Backend) (layout : DescriptorSetLayout) :
    DescriptorSet :=
  { handle := b.next_handle, layout := layout }

/-- Method `Sample::create_descriptor_sets`; each layout pointer is dereferenced by the
allocation. -/
def create_descriptor_sets (s : Sample) : Option Sample :=
  match s.m_deferred_layout, s.m_per_frame_ds_layout, s.m_g_buffer_ds_layout,
    s.m_shadow_mask_ds_layout, s.m_reflection_ds_layout with
  | some deferred_layout, some per_frame_ds_layout, some g_buffer_ds_layout,
    some shadow_mask_ds_layout, some reflection_ds_layout =>
    let b := s.m_vk_backend
    let m_deferred_ds := b.allocate_descriptor_set deferred_layout
    let b := b.assigned .descriptor_set (s.m_deferred_ds.map (·.handle))
    let m_per_frame_ds := b.allocate_descriptor_set per_frame_ds_layout
    let b := b.assigned .descriptor_set (s.m_per_frame_ds.map (·.handle))
    let m_g_buffer_ds := b.allocate_descriptor_set g_buffer_ds_layout
    let b := b.assigned .descriptor_set (s.m_g_buffer_ds.map (·.handle))
    let m_shadow_mask_ds := b.allocate_descriptor_set shadow_mask_ds_layout
    let b := b.assigned .descriptor_set (s.m_shadow_mask_ds.map (·.handle))
    let m_reflection_ds := b.allocate_descriptor_set reflection_ds_layout
    let b := b.assigned .descriptor_set (s.m_reflection_ds.map (·.handle))
    some { s with
      m_vk_backend := b
      m_deferred_ds := some m_deferred_ds
      m_per_frame_ds := some m_per_frame_ds
      m_g_buffer_ds := some m_g_buffer_ds
      m_shadow_mask_ds := some m_shadow_mask_ds
      m_reflection_ds := some m_reflection_ds }
  | _, _, _, _, _ => none

/-- A write of one combined image sampler with the common sampler, as every sampled
binding of `write_descriptor_sets` is filled in. -/
def sampled_write (b : Backend) (dstSet : Handle) (dstBinding : Nat) (view : ImageView) :
    VkWriteDescriptorSet :=
  { dstSet := dstSet, dstBinding := dstBinding, descriptorCount := 1
    descriptorType := .VK_DESCRIPTOR_TYPE_COMBINED_IMAGE_SAMPLER
    info := .image { sampler := some b.common_sampler, imageView := view,
                     imageLayout := .VK_IMAGE_LAYOUT_SHADER_READ_ONLY_OPTIMAL } }

/-- A write of one storage image in general layout without sampler. -/
def storage_write (dstSet : Handle) (dstBinding : Nat) (view : ImageView) :
    VkWriteDescriptorSet :=
  { dstSet := dstSet, dstBinding := dstBinding, descriptorCount := 1
    descriptorType := .VK_DESCRIPTOR_TYPE_STORAGE_IMAGE
    info := .image { sampler := none, imageView := view,
                     imageLayout := .VK_IMAGE_LAYOUT_GENERAL } }

/-- A write of the scene's acceleration structure. -/
def acceleration_structure_write (dstSet : Handle) (dstBinding : Nat) (as : Handle) :
    VkWriteDescriptorSet :=
  { dstSet := dstSet, dstBinding := dstBinding, descriptorCount := 1
    descriptorType := .VK_DESCRIPTOR_TYPE_ACCELERATION_STRUCTURE_NV
    info := .acceleration_structure 1 as }

/-- Method `Sample::write_descriptor_sets`: five `vkUpdateDescriptorSets` calls, for the
deferred, per-frame, G-buffer, shadow-mask and reflection set, in this order. Every
pointer the method reads is dereferenced; a null one leaves no result. -/
def write_descriptor_sets (s : Sample) : Option Sample :=
  match s.m_shadow_mask_view, s.m_reflection_view, s.m_g_buffer_1_view, s.m_g_buffer_2_view,
    s.m_g_buffer_3_view, s.m_deferred_ds, s.m_ubo, s.m_per_frame_ds, s.m_g_buffer_ds,
    s.m_scene, s.m_shadow_mask_ds, s.m_reflection_ds, s.m_blue_noise_view with
  | some shadow_mask_view, some reflection_view, some g_buffer_1_view, some g_buffer_2_view,
    some g_buffer_3_view, some deferred_ds, some ubo, some per_frame_ds, some g_buffer_ds,
    some scene, some shadow_mask_ds, some reflection_ds, some blue_noise_view =>
    let b := s.m_vk_backend
    let b := b.vkUpdateDescriptorSets
      [ sampled_write b deferred_ds.handle 0 shadow_mask_view,
        sampled_write b deferred_ds.handle 1 reflection_view,
        sampled_write b deferred_ds.handle 2 g_buffer_1_view,
        sampled_write b deferred_ds.handle 3 g_buffer_2_view,
        sampled_write b deferred_ds.handle 4 g_buffer_3_view ]
    let b := b.vkUpdateDescriptorSets
      [ { dstSet := per_frame_ds.handle, dstBinding := 0, descriptorCount := 1
          descriptorType := .VK_DESCRIPTOR_TYPE_UNIFORM_BUFFER_DYNAMIC
          info := .buffer { buffer := ubo.handle, offset := 0, range := VK_WHOLE_SIZE } } ]
    let b := b.vkUpdateDescriptorSets
      [ sampled_write b g_buffer_ds.handle 0 g_buffer_1_view,
        sampled_write b g_buffer_ds.handle 1 g_buffer_2_view,
        sampled_write b g_buffer_ds.handle 2 g_buffer_3_view ]
    let b := b.vkUpdateDescriptorSets
      [ acceleration_structure_write shadow_mask_ds.handle 0 scene.acceleration_structure,
        storage_write shadow_mask_ds.handle 1 shadow_mask_view ]
    let b := b.vkUpdateDescriptorSets
      [ acceleration_structure_write reflection_ds.handle 0 scene.acceleration_structure,
        storage_write reflection_ds.handle 1 reflection_view,
        sampled_write b reflection_ds.handle 2 blue_noise_view ]
    some { s with m_vk_backend := b }
  | _, _, _, _, _, _, _, _, _, _, _, _, _ => none

/-- Call `dw::vk::ShaderModule::create_from_file`. -/
def ShaderModule.create_from_file (b : Backend) (path : String) : ShaderModule :=
  { handle := b.next_handle, path := path }

/-- Call `dw::vk::PipelineLayout::create` on a `Desc` with the given set layouts. -/
def PipelineLayout.create (b : Backend) (set_layouts : List DescriptorSetLayout) :
    PipelineLayout :=
  { handle := b.next_handle, set_layouts := set_layouts }

/-- Modelled from the spec: `ShaderBindingTable::create` and its two offset accessors,
which are not among the sources. The spec gives `miss_group_offset()` and
`hit_group_offset()` as byte offsets that are multiples of the device's
shader-group-handle size; the records are laid out ray generation, hit, miss. -/
def ShaderBindingTable.create (b : Backend) (desc : ShaderBindingTableDesc) :
    ShaderBindingTable :=
  { handle := b.next_handle
    desc := desc
    hit_group_offset := desc.ray_gen_groups.length * b.shaderGroupHandleSize
    miss_group_offset :=
      (desc.ray_gen_groups.length + desc.hit_groups.length) * b.shaderGroupHandleSize }

/-- Method `Sample::create_deferred_pipeline`; no result when a layout pointer is null or
the creation of the pipeline fails. -/
def create_deferred_pipeline (s : Sample) : Option Sample :=
  match s.m_deferred_layout, s.m_per_frame_ds_layout with
  | some deferred_layout, some per_frame_ds_layout =>
    let b := s.m_vk_backend
    let m_deferred_pipeline_layout := PipelineLayout.create b [deferred_layout, per_frame_ds_layout]
    let b := b.assigned .pipeline_layout (s.m_deferred_pipeline_layout.map (·.handle))
    match GraphicsPipeline.create b
      (.post_process "shaders/triangle.vert.spv" "shaders/deferred.frag.spv"
        m_deferred_pipeline_layout b.swapchain_render_pass) with
    | none => none
    | some m_deferred_pipeline =>
    let b := GraphicsPipeline.create_backend b (s.m_deferred_pipeline.map (·.handle))
    some { s with m_deferred_pipeline_layout := some m_deferred_pipeline_layout,
                  m_deferred_pipeline := some m_deferred_pipeline, m_vk_backend := b }
  | _, _ => none

/-- Method `Sample::create_shadow_mask_ray_tracing_pipeline`; no result when a layout
pointer is null or the creation of the pipeline fails. -/
def create_shadow_mask_ray_tracing_pipeline (s : Sample) : Option Sample :=
  match s.m_shadow_mask_ds_layout, s.m_per_frame_ds_layout, s.m_g_buffer_ds_layout with
  | some shadow_mask_ds_layout, some per_frame_ds_layout, some g_buffer_ds_layout =>
    let b := s.m_vk_backend
    let rgen := ShaderModule.create_from_file b "shaders/shadow.rgen.spv"
    let b := b.created .shader_module
    let rchit := ShaderModule.create_from_file b "shaders/shadow.rchit.spv"
    let b := b.created .shader_module
    let rmiss := ShaderModule.create_from_file b "shaders/shadow.rmiss.spv"
    let b := b.created .shader_module
    let sbt_desc : ShaderBindingTableDesc :=
      { ray_gen_groups := [⟨rgen, "main"⟩], hit_groups := [⟨rchit, "main"⟩],
        miss_groups := [⟨rmiss, "main"⟩] }
    let m_shadow_mask_sbt := ShaderBindingTable.create b sbt_desc
    let b := b.assigned .shader_binding_table (s.m_shadow_mask_sbt.map (·.handle))
    let m_shadow_mask_pipeline_layout :=
      PipelineLayout.create b [shadow_mask_ds_layout, per_frame_ds_layout, g_buffer_ds_layout]
    let b := b.assigned .pipeline_layout (s.m_shadow_mask_pipeline_layout.map (·.handle))
    match RayTracingPipeline.create b 1 m_shadow_mask_sbt m_shadow_mask_pipeline_layout with
    | none => none
    | some m_shadow_mask_pipeline =>
    let b := RayTracingPipeline.create_backend b (s.m_shadow_mask_pipeline.map (·.handle))
    some { s with m_shadow_mask_sbt := some m_shadow_mask_sbt,
                  m_shadow_mask_pipeline_layout := some m_shadow_mask_pipeline_layout,
                  m_shadow_mask_pipeline := some m_shadow_mask_pipeline, m_vk_backend := b }
  | _, _, _ => none

/-- Method `Sample::create_reflection_ray_tracing_pipeline`; no result when a layout or
the scene pointer is null or the creation of the pipeline fails. -/
def create_reflection_ray_tracing_pipeline (s : Sample) : Option Sample :=
  match s.m_reflection_ds_layout, s.m_per_frame_ds_layout, s.m_g_buffer_ds_layout,
    s.m_scene with
  | some reflection_ds_layout, some per_frame_ds_layout, some g_buffer_ds_layout, some scene =>
    let b := s.m_vk_backend
    let rgen := ShaderModule.create_from_file b "shaders/reflection.rgen.spv"
    let b := b.created .shader_module
    let rchit := ShaderModule.create_from_file b "shaders/reflection.rchit.spv"
    let b := b.created .shader_module
    let rmiss := ShaderModule.create_from_file b "shaders/reflection.rmiss.spv"
    let b := b.created .shader_module
    let sbt_desc : ShaderBindingTableDesc :=
      { ray_gen_groups := [⟨rgen, "main"⟩], hit_groups := [⟨rchit, "main"⟩],
        miss_groups := [⟨rmiss, "main"⟩] }
    let m_reflection_sbt := ShaderBindingTable.create b sbt_desc
    let b := b.assigned .shader_binding_table (s.m_reflection_sbt.map (·.handle))
    let m_reflection_pipeline_layout :=
      PipelineLayout.create b
        [ reflection_ds_layout, per_frame_ds_layout, g_buffer_ds_layout,
          scene.ray_tracing_geometry_descriptor_set_layout,
          scene.material_descriptor_set_layout,
          scene.material_descriptor_set_layout,
          scene.material_descriptor_set_layout,
          scene.material_descriptor_set_layout ]
    let b := b.assigned .pipeline_layout (s.m_reflection_pipeline_layout.map (·.handle))
    match RayTracingPipeline.create b 1 m_reflection_sbt m_reflection_pipeline_layout with
    | none => none
    | some m_reflection_pipeline =>
    let b := RayTracingPipeline.create_backend b (s.m_reflection_pipeline.map (·.handle))
    some { s with m_reflection_sbt := some m_reflection_sbt,
                  m_reflection_pipeline_layout := some m_reflection_pipeline_layout,
                  m_reflection_pipeline := some m_reflection_pipeline, m_vk_backend := b }
  | _, _, _, _ => none

/-- Method `Sample::create_gbuffer_pipeline`; no result when a pointer it reads is null or
the creation of the pipeline fails. -/
def create_gbuffer_pipeline (s : Sample) : Option Sample :=
  match s.m_mesh, s.m_per_frame_ds_layout, s.m_g_buffer_rp with
  | some mesh, some per_frame_ds_layout, some g_buffer_rp =>
    let b := s.m_vk_backend
    let vs := ShaderModule.create_from_file b "shaders/g_buffer.vert.spv"
    let b := b.created .shader_module
    let fs := ShaderModule.create_from_file b "shaders/g_buffer.frag.spv"
    let b := b.created .shader_module
    let m_g_buffer_pipeline_layout :=
      PipelineLayout.create b [per_frame_ds_layout, b.pbr_descriptor_set_layout]
    let b := b.assigned .pipeline_layout (s.m_g_buffer_pipeline_layout.map (·.handle))
    let pso_desc : GraphicsPipelineDesc :=
      { shader_stages :=
          [(VK_SHADER_STAGE_VERTEX_BIT, vs, "main"), (VK_SHADER_STAGE_FRAGMENT_BIT, fs, "main")]
        vertex_input_state := mesh.vertex_input_state_desc
        primitive_restart_enable := false
        viewport_extent := (s.m_width, s.m_height)
        scissor_extent := (s.m_width, s.m_height)
        depth_clamp := false
        rasterizer_discard_enable := false
        cull_mode := .VK_CULL_MODE_BACK_BIT
        front_face := .VK_FRONT_FACE_CLOCKWISE
        depth_bias := false
        sample_shading_enable := false
        depth_test_enable := true
        depth_write_enable := true
        depth_compare_op := .VK_COMPARE_OP_LESS
        depth_bounds_test_enable := false
        stencil_test_enable := false
        logic_op_enable := false
        blend_attachments := [false, false, false]
        pipeline_layout := m_g_buffer_pipeline_layout
        dynamic_states := [.VK_DYNAMIC_STATE_VIEWPORT, .VK_DYNAMIC_STATE_SCISSOR]
        render_pass := g_buffer_rp.handle }
    match GraphicsPipeline.create b (.desc pso_desc) with
    | none => none
    | some m_g_buffer_pipeline =>
    let b := GraphicsPipeline.create_backend b (s.m_g_buffer_pipeline.map (·.handle))
    some { s with m_g_buffer_pipeline_layout := some m_g_buffer_pipeline_layout,
                  m_g_buffer_pipeline := some m_g_buffer_pipeline, m_vk_backend := b }
  | _, _, _ => none

/-- Method `Sample::create_camera`. -/
def create_camera (s : Sample) : Sample :=
  let camera : Camera :=
    { aspect := (s.m_width, s.m_height), ticks := 0
      matrices := s.m_vk_backend.camera_matrices }
  { s with m_main_camera := some camera }

/-- The `DW_LOG_INFO(msg)` of `init`. -/
def Backend.log_info (b : Backend) (msg : String) : Backend :=
  { b with calls := b.calls ++ [Event.log_info msg] }

/-- Method `Sample::init`: the Boolean it returns and the object it leaves, or no result
when a step dereferences a null pointer or the creation of a pipeline fails. -/
def init (s : Sample) : Option (Bool × Sample) :=
  if !(create_shaders s).1 then some (false, (create_shaders s).2) else
  let s := (create_shaders s).2
  if !(create_uniform_buffer s).1 then some (false, (create_uniform_buffer s).2) else
  let s := (create_uniform_buffer s).2
  match load_mesh s with
  | none => none
  | some (false, s) =>
    some (false, { s with m_vk_backend := s.m_vk_backend.log_info "Failed to load mesh" })
  | some (true, s) =>
    let s := load_blue_noise s
    let s := create_output_images s
    let s := create_render_passes s
    match create_framebuffers s with
    | none => none
    | some s =>
    let s := create_descriptor_set_layouts s
    match create_descriptor_sets s with
    | none => none
    | some s =>
    match write_descriptor_sets s with
    | none => none
    | some s =>
    match create_deferred_pipeline s with
    | none => none
    | some s =>
    match create_gbuffer_pipeline s with
    | none => none
    | some s =>
    match create_shadow_mask_ray_tracing_pipeline s with
    | none => none
    | some s =>
    match create_reflection_ray_tracing_pipeline s with
    | none => none
    | some s => some (true, create_camera s)

/-- Method `Sample::window_resized(width, height)`. The camera pointer is dereferenced
first; the two arguments are not read. -/
def window_resized (_width _height : Nat) (s : Sample) : Option Sample :=
  match s.m_main_camera with
  | none => none
  | some camera =>
    let s := { s with m_main_camera := some (camera.update_projection (s.m_width, s.m_height)) }
    let s := { s with m_vk_backend := s.m_vk_backend.wait_idle }
    let s := create_output_images s
    match create_framebuffers s with
    | none => none
    | some s => write_descriptor_sets s

/-! ## Recording one frame -/

/-- Local `dynamic_offset` of the four passes: the `size_t` product
`m_ubo_size * current_frame_idx` stored in a `uint32_t`. -/
def dynamic_offset (s : Sample) : Nat :=
  u32 (usize (s.m_ubo_size * s.m_vk_backend.current_frame_idx))

/-- Method `Sample::update_camera`; the camera pointer is dereferenced. -/
def update_camera (s : Sample) : Option Sample :=
  match s.m_main_camera with
  | none => none
  | some current => some { s with m_main_camera := some current.update }

/-- Library call `memcpy(dst + offset, src, n)` on byte memories. -/
def memcpy (dst : Nat → Nat) (offset : Nat) (src : Nat → Nat) (n : Nat) : Nat → Nat :=
  fun k => if offset ≤ k ∧ k < offset + n then src (k - offset) else dst k

/-- Method `Sample::update_uniforms`: fills `m_transforms` from the camera and copies it
into the mapped uniform buffer at `m_ubo_size * current_frame_idx`. -/
def update_uniforms (s : Sample) (cmd_buf : CommandBuffer) : Option (Sample × CommandBuffer) :=
  match s.m_main_camera, s.m_ubo with
  | some camera, some ubo =>
    let cmd_buf := cmd_buf ++ [Cmd.begin_sample "update_uniforms"]
    let m_transforms := camera.transforms
    let offset := usize (s.m_ubo_size * s.m_vk_backend.current_frame_idx)
    let ubo := { ubo with mapped := memcpy ubo.mapped offset m_transforms sizeof_Transforms }
    some ({ s with m_transforms := m_transforms, m_ubo := some ubo },
          cmd_buf ++ [Cmd.end_sample "update_uniforms"])
  | _, _ => none

/-- The loop of `render_gbuffer` over the sub-meshes: the material set is bound when the
material has one, then the sub-mesh is drawn; `base_vertex` is passed for the `int32_t`
parameter `vertexOffset` of `vkCmdDrawIndexed`. -/
def render_gbuffer_loop (layout : Handle) (mesh : Mesh) :
    List SubMesh → CommandBuffer → Option CommandBuffer
  | [], cmd_buf => some cmd_buf
  | submesh :: rest, cmd_buf =>
    match mesh.material submesh.mat_idx with
    | none => none
    | some mat =>
      let cmd_buf :=
        match mat.pbr_descriptor_set with
        | some ds =>
          cmd_buf ++ [Cmd.vkCmdBindDescriptorSets .VK_PIPELINE_BIND_POINT_GRAPHICS layout 1 [ds] []]
        | none => cmd_buf
      render_gbuffer_loop layout mesh rest
        (cmd_buf ++ [Cmd.vkCmdDrawIndexed submesh.index_count 1 submesh.base_index
          (i32 submesh.base_vertex) 0])

/-- The commands `render_gbuffer` records before its loop, given the objects its
pointers point to. -/
def render_gbuffer_begin (m_width m_height dynamic_offset : Nat) (rp : RenderPass)
    (fbo : Framebuffer) (pipeline : GraphicsPipeline) (mesh : Mesh) (layout : PipelineLayout)
    (per_frame_ds : DescriptorSet) : List Cmd :=
  [ Cmd.begin_sample "render_gbuffer",
    Cmd.vkCmdBeginRenderPass rp.handle fbo.handle (m_width, m_height)
      [⟨(0, 0, 0, 1)⟩, ⟨(0, 0, 0, 1)⟩, ⟨(0, 0, 0, 1)⟩, ⟨(1, 1, 1, 1)⟩],
    Cmd.vkCmdSetViewport 0 0 m_width m_height 0 1,
    Cmd.vkCmdSetScissor (0, 0) (m_width, m_height),
    Cmd.vkCmdBindPipeline .VK_PIPELINE_BIND_POINT_GRAPHICS pipeline.handle,
    Cmd.vkCmdBindVertexBuffers 0 [mesh.vertex_buffer] [0],
    Cmd.vkCmdBindIndexBuffer mesh.index_buffer 0,
    Cmd.vkCmdBindDescriptorSets .VK_PIPELINE_BIND_POINT_GRAPHICS layout.handle 0
      [per_frame_ds.handle] [dynamic_offset] ]

/-- Method `Sample::render_gbuffer`. -/
def render_gbuffer (s : Sample) (cmd_buf : CommandBuffer) : Option CommandBuffer :=
  match s.m_g_buffer_rp, s.m_g_buffer_fbo, s.m_g_buffer_pipeline, s.m_mesh,
    s.m_g_buffer_pipeline_layout, s.m_per_frame_ds with
  | some rp, some fbo, some pipeline, some mesh, some layout, some per_frame_ds =>
    let cmd_buf := cmd_buf ++
      render_gbuffer_begin s.m_width s.m_height (dynamic_offset s) rp fbo pipeline mesh layout
        per_frame_ds
    match render_gbuffer_loop layout.handle mesh mesh.sub_meshes cmd_buf with
    | none => none
    | some cmd_buf => some (cmd_buf ++ [Cmd.vkCmdEndRenderPass, Cmd.end_sample "render_gbuffer"])
  | _, _, _, _, _, _ => none

/-- The commands `ray_trace_shadow_mask` records, given the objects its pointers point
to. -/
def ray_trace_shadow_mask_commands (m_width m_height dynamic_offset shaderGroupHandleSize : Nat)
    (image : Image)
    (pipeline : RayTracingPipeline) (layout : PipelineLayout)
    (shadow_mask_ds per_frame_ds g_buffer_ds : DescriptorSet) (sbt : ShaderBindingTable) :
    List Cmd :=
  [ Cmd.begin_sample "ray-tracing-shadows",
    Cmd.set_image_layout image.handle .VK_IMAGE_LAYOUT_UNDEFINED .VK_IMAGE_LAYOUT_GENERAL,
    Cmd.vkCmdBindPipeline .VK_PIPELINE_BIND_POINT_RAY_TRACING_NV pipeline.handle,
    Cmd.vkCmdBindDescriptorSets .VK_PIPELINE_BIND_POINT_RAY_TRACING_NV layout.handle 0
      [shadow_mask_ds.handle] [],
    Cmd.vkCmdBindDescriptorSets .VK_PIPELINE_BIND_POINT_RAY_TRACING_NV layout.handle 1
      [per_frame_ds.handle] [dynamic_offset],
    Cmd.vkCmdBindDescriptorSets .VK_PIPELINE_BIND_POINT_RAY_TRACING_NV layout.handle 2
      [g_buffer_ds.handle] [],
    Cmd.vkCmdTraceRaysNV
      pipeline.shader_binding_table_buffer 0
      pipeline.shader_binding_table_buffer sbt.miss_group_offset
        shaderGroupHandleSize
      pipeline.shader_binding_table_buffer sbt.hit_group_offset
        shaderGroupHandleSize
      none 0 0 m_width m_height 1,
    Cmd.set_image_layout image.handle .VK_IMAGE_LAYOUT_GENERAL
      .VK_IMAGE_LAYOUT_SHADER_READ_ONLY_OPTIMAL,
    Cmd.end_sample "ray-tracing-shadows" ]

/-- Method `Sample::ray_trace_shadow_mask`. -/
def ray_trace_shadow_mask (s : Sample) (cmd_buf : CommandBuffer) : Option CommandBuffer :=
  match s.m_shadow_mask_image, s.m_shadow_mask_pipeline, s.m_shadow_mask_pipeline_layout,
    s.m_shadow_mask_ds, s.m_per_frame_ds, s.m_g_buffer_ds, s.m_shadow_mask_sbt with
  | some image, some pipeline, some layout, some shadow_mask_ds, some per_frame_ds,
    some g_buffer_ds, some sbt =>
    some (cmd_buf ++ ray_trace_shadow_mask_commands s.m_width s.m_height (dynamic_offset s)
      s.m_vk_backend.shaderGroupHandleSize image pipeline layout shadow_mask_ds per_frame_ds
      g_buffer_ds sbt)
  | _, _, _, _, _, _, _ => none

/-- The commands `ray_trace_reflection` records, given the objects its pointers point
to. -/
def ray_trace_reflection_commands (m_width m_height dynamic_offset shaderGroupHandleSize : Nat)
    (image : Image)
    (pipeline : RayTracingPipeline) (layout : PipelineLayout)
    (reflection_ds per_frame_ds g_buffer_ds : DescriptorSet) (scene : Scene)
    (sbt : ShaderBindingTable) : List Cmd :=
  [ Cmd.begin_sample "ray-tracing-reflections",
    Cmd.set_image_layout image.handle .VK_IMAGE_LAYOUT_UNDEFINED .VK_IMAGE_LAYOUT_GENERAL,
    Cmd.vkCmdBindPipeline .VK_PIPELINE_BIND_POINT_RAY_TRACING_NV pipeline.handle,
    Cmd.vkCmdBindDescriptorSets .VK_PIPELINE_BIND_POINT_RAY_TRACING_NV layout.handle 0
      [reflection_ds.handle] [],
    Cmd.vkCmdBindDescriptorSets .VK_PIPELINE_BIND_POINT_RAY_TRACING_NV layout.handle 1
      [per_frame_ds.handle] [dynamic_offset],
    Cmd.vkCmdBindDescriptorSets .VK_PIPELINE_BIND_POINT_RAY_TRACING_NV layout.handle 2
      [g_buffer_ds.handle] [],
    Cmd.vkCmdBindDescriptorSets .VK_PIPELINE_BIND_POINT_RAY_TRACING_NV layout.handle 3
      [scene.ray_tracing_geometry_descriptor_set] [],
    Cmd.vkCmdBindDescriptorSets .VK_PIPELINE_BIND_POINT_RAY_TRACING_NV layout.handle 4
      [scene.albedo_descriptor_set] [],
    Cmd.vkCmdBindDescriptorSets .VK_PIPELINE_BIND_POINT_RAY_TRACING_NV layout.handle 5
      [scene.normal_descriptor_set] [],
    Cmd.vkCmdBindDescriptorSets .VK_PIPELINE_BIND_POINT_RAY_TRACING_NV layout.handle 6
      [scene.roughness_descriptor_set] [],
    Cmd.vkCmdBindDescriptorSets .VK_PIPELINE_BIND_POINT_RAY_TRACING_NV layout.handle 7
      [scene.metallic_descriptor_set] [],
    Cmd.vkCmdTraceRaysNV
      pipeline.shader_binding_table_buffer 0
      pipeline.shader_binding_table_buffer sbt.miss_group_offset
        shaderGroupHandleSize
      pipeline.shader_binding_table_buffer sbt.hit_group_offset
        shaderGroupHandleSize
      none 0 0 m_width m_height 1,
    Cmd.set_image_layout image.handle .VK_IMAGE_LAYOUT_GENERAL
      .VK_IMAGE_LAYOUT_SHADER_READ_ONLY_OPTIMAL,
    Cmd.end_sample "ray-tracing-reflections" ]

/-- Method `Sample::ray_trace_reflection`. -/
def ray_trace_reflection (s : Sample) (cmd_buf : CommandBuffer) : Option CommandBuffer :=
  match s.m_reflection_image, s.m_reflection_pipeline, s.m_reflection_pipeline_layout,
    s.m_reflection_ds, s.m_per_frame_ds, s.m_g_buffer_ds, s.m_scene, s.m_reflection_sbt with
  | some image, some pipeline, some layout, some reflection_ds, some per_frame_ds,
    some g_buffer_ds, some scene, some sbt =>
    some (cmd_buf ++ ray_trace_reflection_commands s.m_width s.m_height (dynamic_offset s)
      s.m_vk_backend.shaderGroupHandleSize image pipeline layout reflection_ds per_frame_ds
      g_buffer_ds scene sbt)
  | _, _, _, _, _, _, _, _ => none

/-- The commands `render` records, given the objects its pointers point to. -/
def render_commands (m_width m_height dynamic_offset : Nat)
    (swapchain_render_pass swapchain_framebuffer : Handle) (pipeline : GraphicsPipeline)
    (layout : PipelineLayout) (deferred_ds per_frame_ds : DescriptorSet) : List Cmd :=
  [ Cmd.begin_sample "copy",
    Cmd.vkCmdBeginRenderPass swapchain_render_pass swapchain_framebuffer (m_width, m_height)
      [⟨(0, 0, 0, 1)⟩, ⟨(1, 1, 1, 1)⟩],
    Cmd.vkCmdSetViewport 0 m_height m_width (-(m_height : Int)) 0 1,
    Cmd.vkCmdSetScissor (0, 0) (m_width, m_height),
    Cmd.vkCmdBindPipeline .VK_PIPELINE_BIND_POINT_GRAPHICS pipeline.handle,
    Cmd.vkCmdBindDescriptorSets .VK_PIPELINE_BIND_POINT_GRAPHICS layout.handle 0
      [deferred_ds.handle] [],
    Cmd.vkCmdBindDescriptorSets .VK_PIPELINE_BIND_POINT_GRAPHICS layout.handle 1
      [per_frame_ds.handle] [dynamic_offset],
    Cmd.vkCmdDraw 3 1 0 0,
    Cmd.render_gui,
    Cmd.vkCmdEndRenderPass,
    Cmd.end_sample "copy" ]

/-- Method `Sample::render`, the composite pass into the swapchain framebuffer. -/
def render (s : Sample) (cmd_buf : CommandBuffer) : Option CommandBuffer :=
  match s.m_deferred_pipeline, s.m_deferred_pipeline_layout, s.m_deferred_ds,
    s.m_per_frame_ds with
  | some pipeline, some layout, some deferred_ds, some per_frame_ds =>
    some (cmd_buf ++ render_commands s.m_width s.m_height (dynamic_offset s)
      s.m_vk_backend.swapchain_render_pass s.m_vk_backend.swapchain_framebuffer pipeline layout
      deferred_ds per_frame_ds)
  | _, _, _, _ => none

/-- Call `submit_and_present(cmd_bufs)` of the framework. -/
def Backend.submit_and_present (b : Backend) (cmd_buf : CommandBuffer) : Backend :=
  { b with calls := b.calls ++ [Event.submit_and_present cmd_buf] }

/-- Method `Sample::update(delta)`: records one frame into a freshly allocated command
buffer and submits it. The result is the object after the frame and the recorded
commands. -/
def update (s : Sample) : Option (Sample × CommandBuffer) :=
  let cmd_buf : CommandBuffer := []
  let cmd_buf := cmd_buf ++ [Cmd.begin_sample "update"]
  match update_camera s with
  | none => none
  | some s =>
  match update_uniforms s cmd_buf with
  | none => none
  | some (s, cmd_buf) =>
  match render_gbuffer s cmd_buf with
  | none => none
  | some cmd_buf =>
  match ray_trace_shadow_mask s cmd_buf with
  | none => none
  | some cmd_buf =>
  match ray_trace_reflection s cmd_buf with
  | none => none
  | some cmd_buf =>
  match render s cmd_buf with
  | none => none
  | some cmd_buf =>
    let cmd_buf := cmd_buf ++ [Cmd.end_sample "update"]
    some ({ s with m_vk_backend := s.m_vk_backend.submit_and_present cmd_buf }, cmd_buf)

/-! ## States in which a frame can be recorded -/

/-- Every sub-mesh names a material of the mesh. -/
def Mesh.well_formed (m : Mesh) : Bool :=
  m.sub_meshes.all fun sm => (m.material sm.mat_idx).isSome

/-- The pointers that `update` and `window_resized` dereference are set, the mesh is well
formed, and the shadow-mask and the reflection image are two objects. `init` leaves the
object in such a state. -/
def Sample.ready (s : Sample) : Bool :=
  s.m_main_camera.isSome && s.m_ubo.isSome && s.m_mesh.isSome && s.m_scene.isSome &&
  s.m_blue_noise_view.isSome &&
  s.m_shadow_mask_image.isSome && s.m_shadow_mask_view.isSome &&
  s.m_reflection_image.isSome && s.m_reflection_view.isSome &&
  s.m_g_buffer_1_view.isSome && s.m_g_buffer_2_view.isSome && s.m_g_buffer_3_view.isSome &&
  s.m_g_buffer_depth_view.isSome && s.m_g_buffer_rp.isSome && s.m_g_buffer_fbo.isSome &&
  s.m_deferred_ds.isSome && s.m_per_frame_ds.isSome && s.m_g_buffer_ds.isSome &&
  s.m_shadow_mask_ds.isSome && s.m_reflection_ds.isSome &&
  s.m_deferred_pipeline.isSome && s.m_deferred_pipeline_layout.isSome &&
  s.m_g_buffer_pipeline.isSome && s.m_g_buffer_pipeline_layout.isSome &&
  s.m_shadow_mask_pipeline.isSome && s.m_shadow_mask_pipeline_layout.isSome &&
  s.m_shadow_mask_sbt.isSome &&
  s.m_reflection_pipeline.isSome && s.m_reflection_pipeline_layout.isSome &&
  s.m_reflection_sbt.isSome &&
  (s.m_mesh.map Mesh.well_formed).getD false &&
  decide (s.m_shadow_mask_image.map (·.handle) ≠ s.m_reflection_image.map (·.handle))

/-! ## A concrete device and scene -/

/-- A mesh of two sub-meshes: the first material has a descriptor set, the second has
none. -/
def sponza : Mesh :=
  { handle := 0, vertex_buffer := 0, index_buffer := 0
    sub_meshes := [⟨36, 0, 0, 0⟩, ⟨12, 36, 24, 1⟩]
    materials := [⟨some 900⟩, ⟨none⟩]
    vertex_input_state_desc := 0
    ray_tracing_ready := false }

/-- A device with three frames in flight and a uniform alignment of 256 bytes, at the
second frame in flight. -/
def device : Backend :=
  { next_handle := 100
    current_frame_idx := 1
    kMaxFramesInFlight := 3
    min_ubo_alignment := 256
    swap_chain_depth_format := .VK_FORMAT_D32_SFLOAT
    shaderGroupHandleSize := 16
    swapchain_render_pass := 1
    swapchain_framebuffer := 2
    common_sampler := 3
    pbr_descriptor_set_layout := ⟨4, []⟩
    scene_geometry_bindings := []
    scene_material_bindings := []
    mesh_files := fun _ => some sponza
    pipeline_creation_fails := fun _ => false
    image_files := fun _ =>
      { handle := 0, width := 64, height := 64, depth := 1, mip_levels := 1, array_size := 1
        format := .VK_FORMAT_R8G8B8A8_UNORM, usage := VK_IMAGE_USAGE_SAMPLED_BIT }
    camera_matrices := fun _ _ _ => 0
    descriptors := fun _ _ => none
    calls := [] }

/-- The application object at a 1920 x 1080 window on `device`, before `init`. -/
def app : Sample := Sample.start 1920 1080 device

/-- The object `init` leaves on `app`; `app` itself if `init` gave none. -/
def app_ready : Sample := ((init app).map (·.2)).getD app

/-- The application after `init` with a camera in motion: after `t` updates byte `k` of
its `Transforms` block is `(t + k) % 256`. -/
def app_moving : Sample :=
  { app_ready with
    m_main_camera := some
      { aspect := (1920, 1080), ticks := 0, matrices := fun _ t k => (t + k) % 256 } }

/-! ## Reading a recorded frame -/

/-- The recorded commands other than profiling markers, each with the name of the
innermost `DW_SCOPED_SAMPLE` scope open when it was recorded (`""` outside every scope).
The first argument is the stack of the scopes open so far. -/
def in_scope : List String → List Cmd → List (String × Cmd)
  | _, [] => []
  | stack, Cmd.begin_sample name :: rest => in_scope (name :: stack) rest
  | stack, Cmd.end_sample _ :: rest => in_scope stack.tail rest
  | stack, c :: rest => (stack.headD "", c) :: in_scope stack rest

/-- Whether a command is one of the two ends of a `DW_SCOPED_SAMPLE` scope. -/
def Cmd.is_marker : Cmd → Bool
  | Cmd.begin_sample _ => true
  | Cmd.end_sample _ => true
  | _ => false

/-- The names of the scopes opened in a frame, in the order they were opened. -/
def scope_names (cmds : List Cmd) : List String :=
  cmds.filterMap fun c =>
    match c with
    | Cmd.begin_sample name => some name
    | _ => none

/-- The commands of a frame that were recorded inside the scope `name`. -/
def pass_commands (name : String) (cmds : List Cmd) : List Cmd :=
  ((in_scope [] cmds).filter fun p => p.1 == name).map (·.2)

/-- The commands the loop of `render_gbuffer` records for a list of sub-meshes whose
materials exist. -/
def draw_commands (layout : Handle) (mesh : Mesh) : List SubMesh → List Cmd
  | [] => []
  | submesh :: rest =>
    (match (mesh.material submesh.mat_idx).bind (·.pbr_descriptor_set) with
      | some ds =>
        [Cmd.vkCmdBindDescriptorSets .VK_PIPELINE_BIND_POINT_GRAPHICS layout 1 [ds] []]
      | none => []) ++
    Cmd.vkCmdDrawIndexed submesh.index_count 1 submesh.base_index
        (i32 submesh.base_vertex) 0 ::
      draw_commands layout mesh rest

/-- A layout transition of an image, or a trace dispatch. -/
inductive SyncStep
  | transition (image : Handle) (oldLayout newLayout : VkImageLayout)
  | trace
  deriving DecidableEq, Repr

/-- The layout transitions and trace dispatches among some commands, in order. -/
def sync_steps (cmds : List Cmd) : List SyncStep :=
  cmds.filterMap fun c =>
    match c with
    | Cmd.set_image_layout image o n => some (SyncStep.transition image o n)
    | Cmd.vkCmdTraceRaysNV .. => some SyncStep.trace
    | _ => none

/-- The layout transitions recorded on one image, in order. -/
def layout_transitions (image : Handle) (cmds : List Cmd) :
    List (VkImageLayout × VkImageLayout) :=
  cmds.filterMap fun c =>
    match c with
    | Cmd.set_image_layout i o n => if i = image then some (o, n) else none
    | _ => none

/-- A render or dispatch stage of a frame: a render pass instance over a framebuffer, or
a trace dispatch with its shader-binding-table buffer. -/
inductive Stage
  | render_pass (renderPass framebuffer : Handle)
  | trace_rays (sbt_buffer : Handle)
  deriving DecidableEq, Repr

/-- The stages of some commands, in order. -/
def stages (cmds : List Cmd) : List Stage :=
  cmds.filterMap fun c =>
    match c with
    | Cmd.vkCmdBeginRenderPass rp fb _ _ => some (Stage.render_pass rp fb)
    | Cmd.vkCmdTraceRaysNV raygen .. => some (Stage.trace_rays raygen)
    | _ => none

/-- Whether a command is a draw. -/
def Cmd.is_draw : Cmd → Bool
  | Cmd.vkCmdDraw .. => true
  | Cmd.vkCmdDrawIndexed .. => true
  | _ => false

/-- Whether a command binds a vertex or an index buffer. -/
def Cmd.binds_geometry : Cmd → Bool
  | Cmd.vkCmdBindVertexBuffers .. => true
  | Cmd.vkCmdBindIndexBuffer .. => true
  | _ => false

/-- The binds of a frame that carry dynamic offsets: the sets bound and the offsets. -/
def dynamic_binds (cmds : List Cmd) : List (List Handle × List Nat) :=
  cmds.filterMap fun c =>
    match c with
    | Cmd.vkCmdBindDescriptorSets _ _ _ sets (o :: os) => some (sets, o :: os)
    | _ => none

/-- What `create_uniform_buffer` establishes: `m_ubo_size` is the aligned size of
`Transforms` and the uniform buffer holds `kMaxFramesInFlight` blocks of that size. -/
def Sample.uniform_ring (s : Sample) : Bool :=
  decide (s.m_ubo_size = s.m_vk_backend.aligned_dynamic_ubo_size sizeof_Transforms) &&
  decide (s.m_ubo.map (·.size) =
    some (usize (s.m_ubo_size * s.m_vk_backend.kMaxFramesInFlight)))

/-- The objects the pointers of the sample point to while a frame is recorded. -/
structure FrameObjects where
  camera : Camera
  ubo : Buffer
  rp : RenderPass
  fbo : Framebuffer
  gpipe : GraphicsPipeline
  mesh : Mesh
  glayout : PipelineLayout
  pf : DescriptorSet
  simg : Image
  spipe : RayTracingPipeline
  slayout : PipelineLayout
  sds : DescriptorSet
  gds : DescriptorSet
  ssbt : ShaderBindingTable
  rimg : Image
  rpipe : RayTracingPipeline
  rlayout : PipelineLayout
  rds : DescriptorSet
  scene : Scene
  rsbt : ShaderBindingTable
  dpipe : GraphicsPipeline
  dlayout : PipelineLayout
  dds : DescriptorSet
  bnv : ImageView
  sview : ImageView
  rview : ImageView
  g1v : ImageView
  g2v : ImageView
  g3v : ImageView
  gdv : ImageView

/-- The pointers of the sample point to the objects `o`, the mesh is well formed and the
two ray-traced images are two objects. -/
structure Sample.points_to (s : Sample) (o : FrameObjects) : Prop where
  camera : s.m_main_camera = some o.camera
  ubo : s.m_ubo = some o.ubo
  rp : s.m_g_buffer_rp = some o.rp
  fbo : s.m_g_buffer_fbo = some o.fbo
  gpipe : s.m_g_buffer_pipeline = some o.gpipe
  mesh : s.m_mesh = some o.mesh
  glayout : s.m_g_buffer_pipeline_layout = some o.glayout
  pf : s.m_per_frame_ds = some o.pf
  simg : s.m_shadow_mask_image = some o.simg
  spipe : s.m_shadow_mask_pipeline = some o.spipe
  slayout : s.m_shadow_mask_pipeline_layout = some o.slayout
  sds : s.m_shadow_mask_ds = some o.sds
  gds : s.m_g_buffer_ds = some o.gds
  ssbt : s.m_shadow_mask_sbt = some o.ssbt
  rimg : s.m_reflection_image = some o.rimg
  rpipe : s.m_reflection_pipeline = some o.rpipe
  rlayout : s.m_reflection_pipeline_layout = some o.rlayout
  rds : s.m_reflection_ds = some o.rds
  scene : s.m_scene = some o.scene
  rsbt : s.m_reflection_sbt = some o.rsbt
  dpipe : s.m_deferred_pipeline = some o.dpipe
  dlayout : s.m_deferred_pipeline_layout = some o.dlayout
  dds : s.m_deferred_ds = some o.dds
  bnv : s.m_blue_noise_view = some o.bnv
  sview : s.m_shadow_mask_view = some o.sview
  rview : s.m_reflection_view = some o.rview
  g1v : s.m_g_buffer_1_view = some o.g1v
  g2v : s.m_g_buffer_2_view = some o.g2v
  g3v : s.m_g_buffer_3_view = some o.g3v
  gdv : s.m_g_buffer_depth_view = some o.gdv
  well_formed : o.mesh.well_formed = true
  distinct : o.simg.handle ≠ o.rimg.handle

/-- The body of the geometry pass: what `render_gbuffer` records between its two
markers. -/
def gbuffer_body (s : Sample) (o : FrameObjects) : List Cmd :=
  (render_gbuffer_begin s.m_width s.m_height (dynamic_offset s) o.rp o.fbo o.gpipe o.mesh
    o.glayout o.pf).tail ++ draw_commands o.glayout.handle o.mesh o.mesh.sub_meshes ++
    [Cmd.vkCmdEndRenderPass]

/-- The body of the shadow pass. -/
def shadow_body (s : Sample) (o : FrameObjects) : List Cmd :=
  (ray_trace_shadow_mask_commands s.m_width s.m_height (dynamic_offset s)
    s.m_vk_backend.shaderGroupHandleSize o.simg o.spipe o.slayout o.sds o.pf o.gds
    o.ssbt).tail.dropLast

/-- The body of the reflection pass. -/
def reflection_body (s : Sample) (o : FrameObjects) : List Cmd :=
  (ray_trace_reflection_commands s.m_width s.m_height (dynamic_offset s)
    s.m_vk_backend.shaderGroupHandleSize o.rimg o.rpipe o.rlayout o.rds o.pf o.gds o.scene
    o.rsbt).tail.dropLast

/-- The body of the composite pass. -/
def composite_body (s : Sample) (o : FrameObjects) : List Cmd :=
  (render_commands s.m_width s.m_height (dynamic_offset s) s.m_vk_backend.swapchain_render_pass
    s.m_vk_backend.swapchain_framebuffer o.dpipe o.dlayout o.dds o.pf).tail.dropLast

/-- The commands of one frame of `update`, given the objects the pointers of the sample
point to: the markers of `update` and `update_uniforms`, then the four passes. -/
def frame_commands (s : Sample) (o : FrameObjects) : List Cmd :=
  [Cmd.begin_sample "update", Cmd.begin_sample "update_uniforms",
    Cmd.end_sample "update_uniforms"] ++
  render_gbuffer_begin s.m_width s.m_height (dynamic_offset s) o.rp o.fbo o.gpipe o.mesh
    o.glayout o.pf ++
  draw_commands o.glayout.handle o.mesh o.mesh.sub_meshes ++
  [Cmd.vkCmdEndRenderPass, Cmd.end_sample "render_gbuffer"] ++
  ray_trace_shadow_mask_commands s.m_width s.m_height (dynamic_offset s)
    s.m_vk_backend.shaderGroupHandleSize o.simg o.spipe o.slayout o.sds o.pf o.gds o.ssbt ++
  ray_trace_reflection_commands s.m_width s.m_height (dynamic_offset s)
    s.m_vk_backend.shaderGroupHandleSize o.rimg o.rpipe o.rlayout o.rds o.pf o.gds o.scene
    o.rsbt ++
  render_commands s.m_width s.m_height (dynamic_offset s) s.m_vk_backend.swapchain_render_pass
    s.m_vk_backend.swapchain_framebuffer o.dpipe o.dlayout o.dds o.pf ++
  [Cmd.end_sample "update"]

/-- The sample after a frame of `update` that recorded `cmds`: the camera has moved, the
`Transforms` block was copied into the mapped uniform buffer, the frame was submitted. -/
def frame_state (s : Sample) (camera : Camera) (ubo : Buffer) (cmds : List Cmd) : Sample :=
  let mapped := memcpy ubo.mapped (usize (s.m_ubo_size * s.m_vk_backend.current_frame_idx))
    camera.update.transforms sizeof_Transforms
  let ubo : Buffer := { ubo with mapped := mapped }
  { s with
    m_main_camera := some camera.update
    m_transforms := camera.update.transforms
    m_ubo := some ubo
    m_vk_backend := s.m_vk_backend.submit_and_present cmds }

/-! ## Reading the calls of a resize and the contents of the descriptor sets -/

/-- The release events that the twelve `reset()` calls of `create_output_images` leave:
one for each pointer that was not null, in the order of the source. -/
def target_releases (s : Sample) : List Event :=
  [ s.m_shadow_mask_image.map fun i => Event.release .image i.handle,
    s.m_shadow_mask_view.map fun v => Event.release .image_view v.handle,
    s.m_reflection_image.map fun i => Event.release .image i.handle,
    s.m_reflection_view.map fun v => Event.release .image_view v.handle,
    s.m_g_buffer_1.map fun i => Event.release .image i.handle,
    s.m_g_buffer_2.map fun i => Event.release .image i.handle,
    s.m_g_buffer_3.map fun i => Event.release .image i.handle,
    s.m_g_buffer_depth.map fun i => Event.release .image i.handle,
    s.m_g_buffer_1_view.map fun v => Event.release .image_view v.handle,
    s.m_g_buffer_2_view.map fun v => Event.release .image_view v.handle,
    s.m_g_buffer_3_view.map fun v => Event.release .image_view v.handle,
    s.m_g_buffer_depth_view.map fun v => Event.release .image_view v.handle ].filterMap id

/-- The creation events of `create_output_images` when the object counter stands at `n`:
shadow-mask image and view, reflection image and view, the four G-buffer images, their
four views. -/
def target_creates (n : Handle) : List Event :=
  [ Event.create .image n, Event.create .image_view (n + 1),
    Event.create .image (n + 2), Event.create .image_view (n + 3),
    Event.create .image (n + 4), Event.create .image (n + 5),
    Event.create .image (n + 6), Event.create .image (n + 7),
    Event.create .image_view (n + 8), Event.create .image_view (n + 9),
    Event.create .image_view (n + 10), Event.create .image_view (n + 11) ]

/-- Whether a call writes descriptors. -/
def Event.is_descriptor_write : Event → Bool
  | Event.vkUpdateDescriptorSets _ => true
  | _ => false

/-- Whether a call releases an image or an image view. -/
def Event.is_target_release : Event → Bool
  | Event.release .image _ => true
  | Event.release .image_view _ => true
  | _ => false

/-- The handles of the images that a list of calls creates. -/
def created_images (calls : List Event) : List Handle :=
  calls.filterMap fun e =>
    match e with
    | Event.create .image h => some h
    | _ => none

/-- The calls the backend received since it was in the state `before`. -/
def new_calls (before after : Backend) : List Event :=
  after.calls.drop before.calls.length

/-- The six resolution-dependent images of the sample: shadow mask, reflection, G-buffer
1, 2, 3 and depth. -/
def frame_targets (s : Sample) : List (Option Image) :=
  [ s.m_shadow_mask_image, s.m_reflection_image, s.m_g_buffer_1, s.m_g_buffer_2,
    s.m_g_buffer_3, s.m_g_buffer_depth ]

/-- The views of the six resolution-dependent images, in the order of `frame_targets`. -/
def frame_target_views (s : Sample) : List (Option ImageView) :=
  [ s.m_shadow_mask_view, s.m_reflection_view, s.m_g_buffer_1_view, s.m_g_buffer_2_view,
    s.m_g_buffer_3_view, s.m_g_buffer_depth_view ]

/-- The image a descriptor refers to, if it is an image descriptor. -/
def DescriptorInfo.image_handle : DescriptorInfo → Option Handle
  | .image i => some i.imageView.image.handle
  | _ => none

/-- The images reachable through the descriptors of a set: for each binding its layout
declares, the image of the descriptor the binding holds. -/
def set_images (b : Backend) (ds : DescriptorSet) : List Handle :=
  ds.layout.bindings.filterMap fun bd =>
    (b.descriptors ds.handle bd.binding).bind fun d => d.info.image_handle

/-- The images that are the target of a layout-transition barrier of a frame. -/
def barrier_images (cmds : List Cmd) : List Handle :=
  cmds.filterMap fun c =>
    match c with
    | Cmd.set_image_layout image _ _ => some image
    | _ => none

/-- The images a recorded frame references: through the descriptors of the five sets,
as attachments of the G-buffer framebuffer, and as targets of its barriers. -/
def frame_images (s : Sample) (cmds : List Cmd) : List Handle :=
  (([s.m_deferred_ds, s.m_per_frame_ds, s.m_g_buffer_ds, s.m_shadow_mask_ds,
      s.m_reflection_ds].filterMap id).map (set_images s.m_vk_backend)).flatten ++
  (match s.m_g_buffer_fbo with
    | some fbo => fbo.views.map (·.image.handle)
    | none => []) ++
  barrier_images cmds

/-- The five descriptor sets were allocated from layouts that declare the bindings of
`create_descriptor_set_layouts`: 0 to 4 for the deferred set, 0 for the per-frame set,
0 to 2 for the G-buffer set, 0 and 1 for the shadow-mask set, 0 to 2 for the reflection
set. -/
def Sample.sets_as_created (s : Sample) : Bool :=
  s.m_deferred_ds.map (·.layout.bindings.map (·.binding)) == some [0, 1, 2, 3, 4] &&
  s.m_per_frame_ds.map (·.layout.bindings.map (·.binding)) == some [0] &&
  s.m_g_buffer_ds.map (·.layout.bindings.map (·.binding)) == some [0, 1, 2] &&
  s.m_shadow_mask_ds.map (·.layout.bindings.map (·.binding)) == some [0, 1] &&
  s.m_reflection_ds.map (·.layout.bindings.map (·.binding)) == some [0, 1, 2]

/-- What the framework does on a window-size change before it calls `window_resized`:
it stores the new size in `m_width` and `m_height`. -/
def Sample.set_window_size (s : Sample) (width height : Nat) : Sample :=
  { s with m_width := width, m_height := height }

/-- The scenario of a resize: `init` at 1920 x 1080 on `device`, the window resized to
1280 x 720, one frame recorded. The result is the object before the resize, after it,
after the frame, and the commands of the frame. -/
def resize_scenario : Option (Sample × Sample × Sample × List Cmd) :=
  match init app with
  | some (true, s0) =>
    match window_resized 1280 720 (s0.set_window_size 1280 720) with
    | some s1 =>
      match update s1 with
      | some (s2, cmds) => some (s0, s1, s2, cmds)
      | none => none
    | none => none
  | _ => none

/-- The fourteen descriptor writes of `write_descriptor_sets`, in the order they are
issued, given the objects the pointers of the sample point to. -/
def all_writes (s : Sample) (o : FrameObjects) : List VkWriteDescriptorSet :=
  [ sampled_write s.m_vk_backend o.dds.handle 0 o.sview,
    sampled_write s.m_vk_backend o.dds.handle 1 o.rview,
    sampled_write s.m_vk_backend o.dds.handle 2 o.g1v,
    sampled_write s.m_vk_backend o.dds.handle 3 o.g2v,
    sampled_write s.m_vk_backend o.dds.handle 4 o.g3v,
    { dstSet := o.pf.handle, dstBinding := 0, descriptorCount := 1
      descriptorType := .VK_DESCRIPTOR_TYPE_UNIFORM_BUFFER_DYNAMIC
      info := .buffer { buffer := o.ubo.handle, offset := 0, range := VK_WHOLE_SIZE } },
    sampled_write s.m_vk_backend o.gds.handle 0 o.g1v,
    sampled_write s.m_vk_backend o.gds.handle 1 o.g2v,
    sampled_write s.m_vk_backend o.gds.handle 2 o.g3v,
    acceleration_structure_write o.sds.handle 0 o.scene.acceleration_structure,
    storage_write o.sds.handle 1 o.sview,
    acceleration_structure_write o.rds.handle 0 o.scene.acceleration_structure,
    storage_write o.rds.handle 1 o.rview,
    sampled_write s.m_vk_backend o.rds.handle 2 o.bnv ]

/-- The last write of a list that targets a binding of a set, if there is one. -/
def last_write (ws : List VkWriteDescriptorSet) (set : Handle) (binding : Nat) :
    Option VkWriteDescriptorSet :=
  ws.reverse.find? fun w => decide (set = w.dstSet ∧ binding = w.dstBinding)

/-- The descriptor a write stores. -/
def VkWriteDescriptorSet.descriptor (w : VkWriteDescriptorSet) : Descriptor :=
  { descriptorType := w.descriptorType, descriptorCount := w.descriptorCount, info := w.info }

/-- The objects the pointers of the sample point to after `window_resized`, given the
objects `o` they pointed to before: the camera has the new projection, the six images,
their views and the framebuffer are the ones created at the object counter of `s`. -/
def resized_objects (s : Sample) (o : FrameObjects) : FrameObjects :=
  let n := s.m_vk_backend.next_handle
  let w := s.m_width
  let h := s.m_height
  let simg : Image := ⟨n, w, h, 1, 1, 1, .VK_FORMAT_R8_SNORM,
    VK_IMAGE_USAGE_STORAGE_BIT ||| VK_IMAGE_USAGE_SAMPLED_BIT⟩
  let rimg : Image := ⟨n + 2, w, h, 1, 1, 1, .VK_FORMAT_R16G16B16A16_SFLOAT,
    VK_IMAGE_USAGE_STORAGE_BIT ||| VK_IMAGE_USAGE_SAMPLED_BIT⟩
  let g1 : Image := ⟨n + 4, w, h, 1, 1, 1, .VK_FORMAT_R8G8B8A8_UNORM,
    VK_IMAGE_USAGE_STORAGE_BIT ||| VK_IMAGE_USAGE_SAMPLED_BIT |||
      VK_IMAGE_USAGE_COLOR_ATTACHMENT_BIT⟩
  let g2 : Image := ⟨n + 5, w, h, 1, 1, 1, .VK_FORMAT_R16G16B16A16_SFLOAT,
    VK_IMAGE_USAGE_STORAGE_BIT ||| VK_IMAGE_USAGE_SAMPLED_BIT |||
      VK_IMAGE_USAGE_COLOR_ATTACHMENT_BIT⟩
  let g3 : Image := ⟨n + 6, w, h, 1, 1, 1, .VK_FORMAT_R32G32B32A32_SFLOAT,
    VK_IMAGE_USAGE_STORAGE_BIT ||| VK_IMAGE_USAGE_SAMPLED_BIT |||
      VK_IMAGE_USAGE_COLOR_ATTACHMENT_BIT⟩
  let gd : Image := ⟨n + 7, w, h, 1, 1, 1, s.m_vk_backend.swap_chain_depth_format,
    VK_IMAGE_USAGE_SAMPLED_BIT ||| VK_IMAGE_USAGE_DEPTH_STENCIL_ATTACHMENT_BIT⟩
  let g1v : ImageView := ⟨n + 8, g1, .VK_IMAGE_ASPECT_COLOR_BIT⟩
  let g2v : ImageView := ⟨n + 9, g2, .VK_IMAGE_ASPECT_COLOR_BIT⟩
  let g3v : ImageView := ⟨n + 10, g3, .VK_IMAGE_ASPECT_COLOR_BIT⟩
  let gdv : ImageView := ⟨n + 11, gd, .VK_IMAGE_ASPECT_DEPTH_BIT⟩
  { o with
    camera := o.camera.update_projection (w, h)
    simg := simg
    rimg := rimg
    sview := ⟨n + 1, simg, .VK_IMAGE_ASPECT_COLOR_BIT⟩
    rview := ⟨n + 3, rimg, .VK_IMAGE_ASPECT_COLOR_BIT⟩
    g1v := g1v
    g2v := g2v
    g3v := g3v
    gdv := gdv
    fbo := ⟨n + 12, o.rp.handle, [g1v, g2v, g3v, gdv], w, h, 1⟩ }

/-- The five `vkUpdateDescriptorSets` calls of `write_descriptor_sets` on the fourteen
writes `ws`: five writes for the deferred set, one for the per-frame set, three for the
G-buffer set, two for the shadow-mask set, three for the reflection set. -/
def write_calls (ws : List VkWriteDescriptorSet) : List Event :=
  [ Event.vkUpdateDescriptorSets (ws.take 5),
    Event.vkUpdateDescriptorSets ((ws.drop 5).take 1),
    Event.vkUpdateDescriptorSets ((ws.drop 6).take 3),
    Event.vkUpdateDescriptorSets ((ws.drop 9).take 2),
    Event.vkUpdateDescriptorSets (ws.drop 11) ]

/-! ## Reading descriptor writes against layouts, and binds against pipeline layouts -/

/-- The writes of the `vkUpdateDescriptorSets` calls among some calls, in the order they
take effect. -/
def descriptor_writes (calls : List Event) : List VkWriteDescriptorSet :=
  (calls.filterMap fun e =>
    match e with
    | Event.vkUpdateDescriptorSets ws => some ws
    | _ => none).flatten

/-- What some writes say about the bindings of one set: binding index, descriptor type
and descriptor count of every write that targets the set, in order. -/
def written_bindings (ws : List VkWriteDescriptorSet) (set : Handle) :
    List (Nat × VkDescriptorType × Nat) :=
  (ws.filter fun w => w.dstSet == set).map fun w =>
    (w.dstBinding, w.descriptorType, w.descriptorCount)

/-- What a layout declares: binding index, descriptor type and descriptor count of every
`add_binding`, in order. -/
def declared_bindings (l : DescriptorSetLayout) : List (Nat × VkDescriptorType × Nat) :=
  l.bindings.map fun bd => (bd.binding, bd.descriptorType, bd.descriptorCount)

/-- The five descriptor sets of the sample, each with the layout pointer it belongs to:
composite, per-frame, G-buffer, shadow-mask, reflection. -/
def Sample.sets_and_layouts (s : Sample) :
    List (Option DescriptorSet × Option DescriptorSetLayout) :=
  [ (s.m_deferred_ds, s.m_deferred_layout),
    (s.m_per_frame_ds, s.m_per_frame_ds_layout),
    (s.m_g_buffer_ds, s.m_g_buffer_ds_layout),
    (s.m_shadow_mask_ds, s.m_shadow_mask_ds_layout),
    (s.m_reflection_ds, s.m_reflection_ds_layout) ]

/-- The pointers `write_descriptor_sets` reads besides the five sets are set: the five
sampled views, the blue-noise view, the uniform buffer and the scene. -/
def Sample.write_sources (s : Sample) : Bool :=
  s.m_shadow_mask_view.isSome && s.m_reflection_view.isSome && s.m_g_buffer_1_view.isSome &&
  s.m_g_buffer_2_view.isSome && s.m_g_buffer_3_view.isSome && s.m_blue_noise_view.isSome &&
  s.m_ubo.isSome && s.m_scene.isSome

/-- The descriptor-set binds among some commands, in order: bind point, pipeline layout,
first set (the slot), the sets bound and the dynamic offsets. -/
def descriptor_binds (cmds : List Cmd) :
    List (VkPipelineBindPoint × Handle × Nat × List Handle × List Nat) :=
  cmds.filterMap fun c =>
    match c with
    | Cmd.vkCmdBindDescriptorSets bp layout first sets offsets =>
      some (bp, layout, first, sets, offsets)
    | _ => none

/-- The descriptor types a layout declares, in binding order. -/
def DescriptorSetLayout.types (l : DescriptorSetLayout) : List VkDescriptorType :=
  l.bindings.map (·.descriptorType)

/-- One render pass instance of a command sequence: what `vkCmdBeginRenderPass` was given
and the commands recorded up to the matching `vkCmdEndRenderPass`. -/
structure PassInstance where
  renderPass : Handle
  framebuffer : Handle
  clearValues : List VkClearValue
  commands : List Cmd
  deriving DecidableEq, Repr

/-- The render pass instances of a command sequence, in order. The first argument is the
instance that is open; an instance that is never ended is dropped. -/
def render_pass_instances : Option PassInstance → List Cmd → List PassInstance
  | _, [] => []
  | some p, Cmd.vkCmdEndRenderPass :: rest => p :: render_pass_instances none rest
  | some p, c :: rest =>
    render_pass_instances (some { p with commands := p.commands ++ [c] }) rest
  | none, Cmd.vkCmdBeginRenderPass rp fb _ cv :: rest =>
    render_pass_instances (some ⟨rp, fb, cv, []⟩) rest
  | none, _ :: rest => render_pass_instances none rest

/-- The indexed draws among some commands, in order: index count, instance count, first
index, vertex offset. -/
def indexed_draws (cmds : List Cmd) : List (Nat × Nat × Nat × Int) :=
  cmds.filterMap fun c =>
    match c with
    | Cmd.vkCmdDrawIndexed indexCount instanceCount firstIndex vertexOffset _ =>
      some (indexCount, instanceCount, firstIndex, vertexOffset)
    | _ => none

/-- Whether a command ends a render pass. -/
def Cmd.ends_pass : Cmd → Bool
  | Cmd.vkCmdEndRenderPass => true
  | _ => false

/-- The depth a clear value holds when it is read through `depthStencil`: the union member
`depthStencil.depth` occupies the bytes of `color.float32[0]`. -/
def VkClearValue.depth (c : VkClearValue) : Int := c.float32.1

/-- Whether a command is a draw or a trace dispatch. -/
def Cmd.is_work : Cmd → Bool
  | Cmd.vkCmdDraw .. => true
  | Cmd.vkCmdDrawIndexed .. => true
  | Cmd.vkCmdTraceRaysNV .. => true
  | _ => false

/-- The objects that a list of calls creates, in order: kind and handle. -/
def creations (calls : List Event) : List (ObjectKind × Handle) :=
  calls.filterMap fun e =>
    match e with
    | Event.create k h => some (k, h)
    | _ => none

/-- The entry points of the groups of a shader binding table: ray generation, hit and
miss groups. -/
def ShaderBindingTableDesc.entry_points (d : ShaderBindingTableDesc) :
    List String × List String × List String :=
  (d.ray_gen_groups.map (·.entry_point), d.hit_groups.map (·.entry_point),
    d.miss_groups.map (·.entry_point))

/-! ## Devices on which a creation fails -/

/-- The application object at a 1920 x 1080 window on a device on which `Mesh::load`
gives no mesh. -/
def app_without_mesh : Sample :=
  Sample.start 1920 1080 { device with mesh_files := fun _ => none }

/-- The fourteen descriptor writes of `write_descriptor_sets`, in the order they are
issued, given the handles of the five sets and of the uniform buffer, the six views and
the acceleration structure they are filled from. -/
def set_writes (b : Backend) (deferred_ds per_frame_ds g_buffer_ds shadow_mask_ds
    reflection_ds : Handle) (shadow_mask_view reflection_view g_buffer_1_view g_buffer_2_view
    g_buffer_3_view blue_noise_view : ImageView) (ubo acceleration_structure : Handle) :
    List VkWriteDescriptorSet :=
  [ sampled_write b deferred_ds 0 shadow_mask_view,
    sampled_write b deferred_ds 1 reflection_view,
    sampled_write b deferred_ds 2 g_buffer_1_view,
    sampled_write b deferred_ds 3 g_buffer_2_view,
    sampled_write b deferred_ds 4 g_buffer_3_view,
    { dstSet := per_frame_ds, dstBinding := 0, descriptorCount := 1
      descriptorType := .VK_DESCRIPTOR_TYPE_UNIFORM_BUFFER_DYNAMIC
      info := .buffer { buffer := ubo, offset := 0, range := VK_WHOLE_SIZE } },
    sampled_write b g_buffer_ds 0 g_buffer_1_view,
    sampled_write b g_buffer_ds 1 g_buffer_2_view,
    sampled_write b g_buffer_ds 2 g_buffer_3_view,
    acceleration_structure_write shadow_mask_ds 0 acceleration_structure,
    storage_write shadow_mask_ds 1 shadow_mask_view,
    acceleration_structure_write reflection_ds 0 acceleration_structure,
    storage_write reflection_ds 1 reflection_view,
    sampled_write b reflection_ds 2 blue_noise_view ]

/-- The pointers the two creators of the ray-tracing pipelines dereference are set: the
shadow-mask, reflection, per-frame and G-buffer layouts and the scene. -/
def Sample.layouts_set (s : Sample) : Bool :=
  s.m_shadow_mask_ds_layout.isSome && s.m_reflection_ds_layout.isSome &&
  s.m_per_frame_ds_layout.isSome && s.m_g_buffer_ds_layout.isSome && s.m_scene.isSome

/-! ## Reading dispatches, brackets and bound sets -/

/-- Whether a command is a trace dispatch. -/
def Cmd.is_trace : Cmd → Bool
  | Cmd.vkCmdTraceRaysNV .. => true
  | _ => false

/-- Whether a command is an image layout barrier. -/
def Cmd.is_barrier : Cmd → Bool
  | Cmd.set_image_layout .. => true
  | _ => false

/-- The byte range of a buffer that a dynamic uniform-buffer descriptor makes visible to
shaders when it is bound with a dynamic offset: it starts at the descriptor's offset plus
the dynamic offset and extends over the descriptor's range, where `VK_WHOLE_SIZE` stands
for the size of the buffer less the descriptor's offset. The result is the first byte and
the byte after the last. -/
def VkDescriptorBufferInfo.visible (d : VkDescriptorBufferInfo) (buffer_size dynamic_offset :
    Nat) : Nat × Nat :=
  let range := if d.range = VK_WHOLE_SIZE then buffer_size - d.offset else d.range
  (d.offset + dynamic_offset, d.offset + dynamic_offset + range)

/-- The buffer descriptor a binding holds, if it holds one. -/
def Descriptor.buffer_info (d : Descriptor) : Option VkDescriptorBufferInfo :=
  match d.info with
  | .buffer b => some b
  | _ => none

/-- The set in effect at a slot of the graphics bind point at each indexed draw of a
command sequence, in order; the first argument is the set in effect so far (`none` while
no set was bound at the slot). -/
def sets_at_draws (slot : Nat) : Option Handle → List Cmd → List (Option Handle)
  | _, [] => []
  | cur, Cmd.vkCmdBindDescriptorSets .VK_PIPELINE_BIND_POINT_GRAPHICS _ first sets _ :: rest =>
    sets_at_draws slot
      (if first ≤ slot ∧ slot < first + sets.length then sets[slot - first]? else cur) rest
  | cur, Cmd.vkCmdDrawIndexed .. :: rest => cur :: sets_at_draws slot cur rest
  | cur, _ :: rest => sets_at_draws slot cur rest

/-- The descriptor set of the material of a sub-mesh, if the material has one. -/
def Mesh.material_set (mesh : Mesh) (sm : SubMesh) : Option Handle :=
  (mesh.material sm.mat_idx).bind (·.pbr_descriptor_set)

/-- Whether the render passes of a command sequence are well bracketed: no
`vkCmdBeginRenderPass` while an instance is open, no `vkCmdEndRenderPass` while none is
open, and no instance left open at the end. The first argument says whether an instance
is open. -/
def well_bracketed : Bool → List Cmd → Bool
  | inside, [] => !inside
  | inside, Cmd.vkCmdBeginRenderPass .. :: rest => !inside && well_bracketed true rest
  | inside, Cmd.vkCmdEndRenderPass :: rest => inside && well_bracketed false rest
  | inside, _ :: rest => well_bracketed inside rest

/-- The commands of a sequence that are recorded outside every render pass instance. -/
def outside_passes : Bool → List Cmd → List Cmd
  | _, [] => []
  | _, Cmd.vkCmdBeginRenderPass .. :: rest => outside_passes true rest
  | _, Cmd.vkCmdEndRenderPass :: rest => outside_passes false rest
  | inside, c :: rest =>
    if inside then outside_passes inside rest else c :: outside_passes inside rest

/-- Whether every draw among some commands is preceded, among them, by a pipeline bind, a
viewport set and a scissor set of the given extent. The three flags say which of the
three were recorded so far. -/
def draws_prepared (extent : Nat × Nat) : Bool → Bool → Bool → List Cmd → Bool
  | _, _, _, [] => true
  | _, v, sc, Cmd.vkCmdBindPipeline .. :: rest => draws_prepared extent true v sc rest
  | p, _, sc, Cmd.vkCmdSetViewport .. :: rest => draws_prepared extent p true sc rest
  | p, v, _, Cmd.vkCmdSetScissor _ e :: rest =>
    draws_prepared extent p v (decide (e = extent)) rest
  | p, v, sc, Cmd.vkCmdDraw .. :: rest => p && v && sc && draws_prepared extent p v sc rest
  | p, v, sc, Cmd.vkCmdDrawIndexed .. :: rest =>
    p && v && sc && draws_prepared extent p v sc rest
  | p, v, sc, _ :: rest => draws_prepared extent p v sc rest

/-- The render areas of the render pass instances a command sequence begins. -/
def render_areas (cmds : List Cmd) : List (Nat × Nat) :=
  cmds.filterMap fun c =>
    match c with
    | Cmd.vkCmdBeginRenderPass _ _ extent _ => some extent
    | _ => none

/-! ## Shutdown -/

/-- The pointer members of `Sample` that `shutdown` resets: the 37 members that hold a GPU
resource, the mesh and the scene. -/
inductive Member
  | m_per_frame_ds
  | m_per_frame_ds_layout
  | m_g_buffer_ds
  | m_g_buffer_ds_layout
  | m_ubo
  | m_blue_noise
  | m_blue_noise_view
  | m_shadow_mask_ds
  | m_shadow_mask_ds_layout
  | m_shadow_mask_pipeline
  | m_shadow_mask_pipeline_layout
  | m_shadow_mask_image
  | m_shadow_mask_view
  | m_shadow_mask_sbt
  | m_reflection_ds
  | m_reflection_ds_layout
  | m_reflection_pipeline
  | m_reflection_pipeline_layout
  | m_reflection_image
  | m_reflection_view
  | m_reflection_sbt
  | m_deferred_pipeline
  | m_deferred_pipeline_layout
  | m_deferred_ds
  | m_deferred_layout
  | m_g_buffer_1
  | m_g_buffer_2
  | m_g_buffer_3
  | m_g_buffer_depth
  | m_g_buffer_1_view
  | m_g_buffer_2_view
  | m_g_buffer_3_view
  | m_g_buffer_depth_view
  | m_g_buffer_fbo
  | m_g_buffer_rp
  | m_g_buffer_pipeline
  | m_g_buffer_pipeline_layout
  | m_mesh
  | m_scene
  deriving DecidableEq, Repr

/-- Every member, in the order of declaration. -/
def Member.all : List Member :=
  [ .m_per_frame_ds, .m_per_frame_ds_layout, .m_g_buffer_ds, .m_g_buffer_ds_layout, .m_ubo,
    .m_blue_noise, .m_blue_noise_view, .m_shadow_mask_ds, .m_shadow_mask_ds_layout,
    .m_shadow_mask_pipeline, .m_shadow_mask_pipeline_layout, .m_shadow_mask_image,
    .m_shadow_mask_view, .m_shadow_mask_sbt, .m_reflection_ds, .m_reflection_ds_layout,
    .m_reflection_pipeline, .m_reflection_pipeline_layout, .m_reflection_image,
    .m_reflection_view, .m_reflection_sbt, .m_deferred_pipeline, .m_deferred_pipeline_layout,
    .m_deferred_ds, .m_deferred_layout, .m_g_buffer_1, .m_g_buffer_2, .m_g_buffer_3,
    .m_g_buffer_depth, .m_g_buffer_1_view, .m_g_buffer_2_view, .m_g_buffer_3_view,
    .m_g_buffer_depth_view, .m_g_buffer_fbo, .m_g_buffer_rp, .m_g_buffer_pipeline,
    .m_g_buffer_pipeline_layout, .m_mesh, .m_scene ]

/-- The kind of object a member points to. -/
def Member.kind : Member → ObjectKind
  | .m_per_frame_ds => .descriptor_set
  | .m_per_frame_ds_layout => .descriptor_set_layout
  | .m_g_buffer_ds => .descriptor_set
  | .m_g_buffer_ds_layout => .descriptor_set_layout
  | .m_ubo => .buffer
  | .m_blue_noise => .image
  | .m_blue_noise_view => .image_view
  | .m_shadow_mask_ds => .descriptor_set
  | .m_shadow_mask_ds_layout => .descriptor_set_layout
  | .m_shadow_mask_pipeline => .ray_tracing_pipeline
  | .m_shadow_mask_pipeline_layout => .pipeline_layout
  | .m_shadow_mask_image => .image
  | .m_shadow_mask_view => .image_view
  | .m_shadow_mask_sbt => .shader_binding_table
  | .m_reflection_ds => .descriptor_set
  | .m_reflection_ds_layout => .descriptor_set_layout
  | .m_reflection_pipeline => .ray_tracing_pipeline
  | .m_reflection_pipeline_layout => .pipeline_layout
  | .m_reflection_image => .image
  | .m_reflection_view => .image_view
  | .m_reflection_sbt => .shader_binding_table
  | .m_deferred_pipeline => .graphics_pipeline
  | .m_deferred_pipeline_layout => .pipeline_layout
  | .m_deferred_ds => .descriptor_set
  | .m_deferred_layout => .descriptor_set_layout
  | .m_g_buffer_1 => .image
  | .m_g_buffer_2 => .image
  | .m_g_buffer_3 => .image
  | .m_g_buffer_depth => .image
  | .m_g_buffer_1_view => .image_view
  | .m_g_buffer_2_view => .image_view
  | .m_g_buffer_3_view => .image_view
  | .m_g_buffer_depth_view => .image_view
  | .m_g_buffer_fbo => .framebuffer
  | .m_g_buffer_rp => .render_pass
  | .m_g_buffer_pipeline => .graphics_pipeline
  | .m_g_buffer_pipeline_layout => .pipeline_layout
  | .m_mesh => .mesh
  | .m_scene => .scene

/-- The handle of the object a member points to, `none` when the member is null. -/
def Sample.held (s : Sample) : Member → Option Handle
  | .m_per_frame_ds => s.m_per_frame_ds.map (·.handle)
  | .m_per_frame_ds_layout => s.m_per_frame_ds_layout.map (·.handle)
  | .m_g_buffer_ds => s.m_g_buffer_ds.map (·.handle)
  | .m_g_buffer_ds_layout => s.m_g_buffer_ds_layout.map (·.handle)
  | .m_ubo => s.m_ubo.map (·.handle)
  | .m_blue_noise => s.m_blue_noise.map (·.handle)
  | .m_blue_noise_view => s.m_blue_noise_view.map (·.handle)
  | .m_shadow_mask_ds => s.m_shadow_mask_ds.map (·.handle)
  | .m_shadow_mask_ds_layout => s.m_shadow_mask_ds_layout.map (·.handle)
  | .m_shadow_mask_pipeline => s.m_shadow_mask_pipeline.map (·.handle)
  | .m_shadow_mask_pipeline_layout => s.m_shadow_mask_pipeline_layout.map (·.handle)
  | .m_shadow_mask_image => s.m_shadow_mask_image.map (·.handle)
  | .m_shadow_mask_view => s.m_shadow_mask_view.map (·.handle)
  | .m_shadow_mask_sbt => s.m_shadow_mask_sbt.map (·.handle)
  | .m_reflection_ds => s.m_reflection_ds.map (·.handle)
  | .m_reflection_ds_layout => s.m_reflection_ds_layout.map (·.handle)
  | .m_reflection_pipeline => s.m_reflection_pipeline.map (·.handle)
  | .m_reflection_pipeline_layout => s.m_reflection_pipeline_layout.map (·.handle)
  | .m_reflection_image => s.m_reflection_image.map (·.handle)
  | .m_reflection_view => s.m_reflection_view.map (·.handle)
  | .m_reflection_sbt => s.m_reflection_sbt.map (·.handle)
  | .m_deferred_pipeline => s.m_deferred_pipeline.map (·.handle)
  | .m_deferred_pipeline_layout => s.m_deferred_pipeline_layout.map (·.handle)
  | .m_deferred_ds => s.m_deferred_ds.map (·.handle)
  | .m_deferred_layout => s.m_deferred_layout.map (·.handle)
  | .m_g_buffer_1 => s.m_g_buffer_1.map (·.handle)
  | .m_g_buffer_2 => s.m_g_buffer_2.map (·.handle)
  | .m_g_buffer_3 => s.m_g_buffer_3.map (·.handle)
  | .m_g_buffer_depth => s.m_g_buffer_depth.map (·.handle)
  | .m_g_buffer_1_view => s.m_g_buffer_1_view.map (·.handle)
  | .m_g_buffer_2_view => s.m_g_buffer_2_view.map (·.handle)
  | .m_g_buffer_3_view => s.m_g_buffer_3_view.map (·.handle)
  | .m_g_buffer_depth_view => s.m_g_buffer_depth_view.map (·.handle)
  | .m_g_buffer_fbo => s.m_g_buffer_fbo.map (·.handle)
  | .m_g_buffer_rp => s.m_g_buffer_rp.map (·.handle)
  | .m_g_buffer_pipeline => s.m_g_buffer_pipeline.map (·.handle)
  | .m_g_buffer_pipeline_layout => s.m_g_buffer_pipeline_layout.map (·.handle)
  | .m_mesh => s.m_mesh.map (·.handle)
  | .m_scene => s.m_scene.map (·.handle)

/-- Statement `m.reset()` on a member `m`: the member becomes null and the reference it held, if
any, is released. -/
def Sample.reset (s : Sample) (m : Member) : Sample :=
  let b := s.m_vk_backend.reset m.kind (s.held m)
  match m with
  | .m_per_frame_ds => { s with m_per_frame_ds := none, m_vk_backend := b }
  | .m_per_frame_ds_layout => { s with m_per_frame_ds_layout := none, m_vk_backend := b }
  | .m_g_buffer_ds => { s with m_g_buffer_ds := none, m_vk_backend := b }
  | .m_g_buffer_ds_layout => { s with m_g_buffer_ds_layout := none, m_vk_backend := b }
  | .m_ubo => { s with m_ubo := none, m_vk_backend := b }
  | .m_blue_noise => { s with m_blue_noise := none, m_vk_backend := b }
  | .m_blue_noise_view => { s with m_blue_noise_view := none, m_vk_backend := b }
  | .m_shadow_mask_ds => { s with m_shadow_mask_ds := none, m_vk_backend := b }
  | .m_shadow_mask_ds_layout => { s with m_shadow_mask_ds_layout := none, m_vk_backend := b }
  | .m_shadow_mask_pipeline => { s with m_shadow_mask_pipeline := none, m_vk_backend := b }
  | .m_shadow_mask_pipeline_layout => { s with m_shadow_mask_pipeline_layout := none, m_vk_backend := b }
  | .m_shadow_mask_image => { s with m_shadow_mask_image := none, m_vk_backend := b }
  | .m_shadow_mask_view => { s with m_shadow_mask_view := none, m_vk_backend := b }
  | .m_shadow_mask_sbt => { s with m_shadow_mask_sbt := none, m_vk_backend := b }
  | .m_reflection_ds => { s with m_reflection_ds := none, m_vk_backend := b }
  | .m_reflection_ds_layout => { s with m_reflection_ds_layout := none, m_vk_backend := b }
  | .m_reflection_pipeline => { s with m_reflection_pipeline := none, m_vk_backend := b }
  | .m_reflection_pipeline_layout => { s with m_reflection_pipeline_layout := none, m_vk_backend := b }
  | .m_reflection_image => { s with m_reflection_image := none, m_vk_backend := b }
  | .m_reflection_view => { s with m_reflection_view := none, m_vk_backend := b }
  | .m_reflection_sbt => { s with m_reflection_sbt := none, m_vk_backend := b }
  | .m_deferred_pipeline => { s with m_deferred_pipeline := none, m_vk_backend := b }
  | .m_deferred_pipeline_layout => { s with m_deferred_pipeline_layout := none, m_vk_backend := b }
  | .m_deferred_ds => { s with m_deferred_ds := none, m_vk_backend := b }
  | .m_deferred_layout => { s with m_deferred_layout := none, m_vk_backend := b }
  | .m_g_buffer_1 => { s with m_g_buffer_1 := none, m_vk_backend := b }
  | .m_g_buffer_2 => { s with m_g_buffer_2 := none, m_vk_backend := b }
  | .m_g_buffer_3 => { s with m_g_buffer_3 := none, m_vk_backend := b }
  | .m_g_buffer_depth => { s with m_g_buffer_depth := none, m_vk_backend := b }
  | .m_g_buffer_1_view => { s with m_g_buffer_1_view := none, m_vk_backend := b }
  | .m_g_buffer_2_view => { s with m_g_buffer_2_view := none, m_vk_backend := b }
  | .m_g_buffer_3_view => { s with m_g_buffer_3_view := none, m_vk_backend := b }
  | .m_g_buffer_depth_view => { s with m_g_buffer_depth_view := none, m_vk_backend := b }
  | .m_g_buffer_fbo => { s with m_g_buffer_fbo := none, m_vk_backend := b }
  | .m_g_buffer_rp => { s with m_g_buffer_rp := none, m_vk_backend := b }
  | .m_g_buffer_pipeline => { s with m_g_buffer_pipeline := none, m_vk_backend := b }
  | .m_g_buffer_pipeline_layout => { s with m_g_buffer_pipeline_layout := none, m_vk_backend := b }
  | .m_mesh => { s with m_mesh := none, m_vk_backend := b }
  | .m_scene => { s with m_scene := none, m_vk_backend := b }

/-- The `reset()` statements of `Sample::shutdown`, in the order of the source (`m_blue_noise`
and `m_blue_noise_view` are reset twice). -/
def shutdown_resets : List Member :=
  [ .m_blue_noise, .m_blue_noise_view, .m_reflection_ds, .m_deferred_ds, .m_per_frame_ds,
    .m_g_buffer_ds, .m_shadow_mask_ds, .m_per_frame_ds_layout, .m_g_buffer_ds_layout,
    .m_reflection_ds_layout, .m_shadow_mask_ds_layout, .m_shadow_mask_pipeline_layout,
    .m_reflection_pipeline_layout, .m_g_buffer_pipeline_layout, .m_deferred_layout,
    .m_deferred_pipeline_layout, .m_ubo, .m_deferred_pipeline, .m_shadow_mask_pipeline,
    .m_g_buffer_pipeline, .m_reflection_pipeline, .m_g_buffer_fbo, .m_g_buffer_rp,
    .m_reflection_view, .m_shadow_mask_view, .m_g_buffer_1_view, .m_g_buffer_2_view,
    .m_g_buffer_3_view, .m_blue_noise_view, .m_g_buffer_depth_view, .m_shadow_mask_image,
    .m_reflection_image, .m_blue_noise, .m_g_buffer_1, .m_g_buffer_2, .m_g_buffer_3,
    .m_g_buffer_depth, .m_shadow_mask_sbt, .m_reflection_sbt, .m_scene, .m_mesh ]

/-- Method `Sample::shutdown`. -/
def shutdown (s : Sample) : Sample := shutdown_resets.foldl Sample.reset s

/-- The members whose objects the object of a member is created from, as the creation calls
of the source pass them: a view is created from its image, the framebuffer from the render
pass and its four views, a descriptor set from its layout, a pipeline layout from the
descriptor-set layouts of the sample it lists, a pipeline from its pipeline layout and, for
ray tracing, from its shader binding table. -/
def Member.depends_on : Member → List Member
  | .m_per_frame_ds =>
    [ .m_per_frame_ds_layout ]
  | .m_g_buffer_ds =>
    [ .m_g_buffer_ds_layout ]
  | .m_blue_noise_view =>
    [ .m_blue_noise ]
  | .m_shadow_mask_ds =>
    [ .m_shadow_mask_ds_layout ]
  | .m_shadow_mask_pipeline =>
    [ .m_shadow_mask_pipeline_layout, .m_shadow_mask_sbt ]
  | .m_shadow_mask_pipeline_layout =>
    [ .m_shadow_mask_ds_layout, .m_per_frame_ds_layout, .m_g_buffer_ds_layout ]
  | .m_shadow_mask_view =>
    [ .m_shadow_mask_image ]
  | .m_reflection_ds =>
    [ .m_reflection_ds_layout ]
  | .m_reflection_pipeline =>
    [ .m_reflection_pipeline_layout, .m_reflection_sbt ]
  | .m_reflection_pipeline_layout =>
    [ .m_reflection_ds_layout, .m_per_frame_ds_layout, .m_g_buffer_ds_layout ]
  | .m_reflection_view =>
    [ .m_reflection_image ]
  | .m_deferred_pipeline =>
    [ .m_deferred_pipeline_layout ]
  | .m_deferred_pipeline_layout =>
    [ .m_deferred_layout, .m_per_frame_ds_layout ]
  | .m_deferred_ds =>
    [ .m_deferred_layout ]
  | .m_g_buffer_1_view =>
    [ .m_g_buffer_1 ]
  | .m_g_buffer_2_view =>
    [ .m_g_buffer_2 ]
  | .m_g_buffer_3_view =>
    [ .m_g_buffer_3 ]
  | .m_g_buffer_depth_view =>
    [ .m_g_buffer_depth ]
  | .m_g_buffer_fbo =>
    [ .m_g_buffer_rp, .m_g_buffer_1_view, .m_g_buffer_2_view, .m_g_buffer_3_view,
      .m_g_buffer_depth_view ]
  | .m_g_buffer_pipeline =>
    [ .m_g_buffer_pipeline_layout ]
  | .m_g_buffer_pipeline_layout =>
    [ .m_per_frame_ds_layout ]
  | _ => []

/-- The dependencies between members: the pairs `(a, b)` in which the object of `a` is
created from the object of `b`. -/
def dependencies : List (Member × Member) :=
  (Member.all.map fun a => a.depends_on.map fun b => (a, b)).flatten

/-- The dependencies that `shutdown` does not respect: the pairs `(a, b)` in which `b`, which
`a` depends on, is reset before `a`. -/
def shutdown_violations : List (Member × Member) :=
  dependencies.filter fun p => decide (shutdown_resets.indexOf p.2 < shutdown_resets.indexOf p.1)

/-- The members `shutdown` resets, each once, in the order of its first reset. -/
def shutdown_order : List Member := shutdown_resets.eraseDups

/-! ## The life of the application after `init` -/

/-- What happens to the application between `init` and `shutdown`: the framework calls
`update` for a frame, after it set the index of the frame in flight, or it calls
`window_resized(width, height)`, after it stored a window size in `m_width` and
`m_height`. -/
inductive Step
  | frame (current_frame_idx : Nat)
  | resize (m_width m_height width height : Nat)
  deriving DecidableEq, Repr

/-- One step of the application; no result when the step dereferences a null pointer. -/
def Sample.step (s : Sample) : Step → Option Sample
  | .frame idx =>
    (update { s with m_vk_backend := { s.m_vk_backend with current_frame_idx := idx } }).map
      (·.1)
  | .resize m_width m_height width height =>
    window_resized width height (s.set_window_size m_width m_height)

/-- A sequence of steps. -/
def Sample.steps : Sample → List Step → Option Sample
  | s, [] => some s
  | s, st :: rest =>
    match s.step st with
    | none => none
    | some s' => s'.steps rest

/-- The application object after `init` returned true on a fresh object and the framework
took the steps; no result when `init` or a step has none, or `init` returned false. -/
def session (width height : Nat) (b : Backend) (steps : List Step) : Option Sample :=
  match init (Sample.start width height b) with
  | some (true, s) => s.steps steps
  | _ => none

/-! ## States of a session -/

/-- Whether a call submits the recorded frame. -/
def Event.is_submit : Event → Bool
  | Event.submit_and_present _ => true
  | _ => false

/-- The G-buffer attachments are consistent: the framebuffer has the size stored in
`m_width` and `m_height` and attaches the views of G-buffer 1, 2, 3 and depth; each view is
a view of its image; the four images have this size and the formats the render pass
declares for its four attachments. -/
def Sample.attachments_consistent (s : Sample) : Bool :=
  decide (s.m_g_buffer_fbo.map (fun f => (f.width, f.height, f.views.map some)) =
    some (s.m_width, s.m_height,
      [s.m_g_buffer_1_view, s.m_g_buffer_2_view, s.m_g_buffer_3_view,
        s.m_g_buffer_depth_view])) &&
  decide ([s.m_g_buffer_1_view, s.m_g_buffer_2_view, s.m_g_buffer_3_view,
      s.m_g_buffer_depth_view].map (fun v => v.map (·.image)) =
    [s.m_g_buffer_1, s.m_g_buffer_2, s.m_g_buffer_3, s.m_g_buffer_depth]) &&
  decide ([s.m_g_buffer_1, s.m_g_buffer_2, s.m_g_buffer_3, s.m_g_buffer_depth].map
      (fun i => i.map fun i => (i.width, i.height, i.format)) =
    [ some (s.m_width, s.m_height, .VK_FORMAT_R8G8B8A8_UNORM),
      some (s.m_width, s.m_height, .VK_FORMAT_R16G16B16A16_SFLOAT),
      some (s.m_width, s.m_height, .VK_FORMAT_R32G32B32A32_SFLOAT),
      some (s.m_width, s.m_height, s.m_vk_backend.swap_chain_depth_format) ]) &&
  decide (s.m_g_buffer_rp.map (fun rp => rp.attachments.map (·.format)) =
    some [ .VK_FORMAT_R8G8B8A8_UNORM, .VK_FORMAT_R16G16B16A16_SFLOAT,
      .VK_FORMAT_R32G32B32A32_SFLOAT, s.m_vk_backend.swap_chain_depth_format ])

/-! ## Tracking image layouts through a frame -/

/-- An access to an image through a descriptor at a draw or a trace dispatch: the scope
the command was recorded in, the image, the `imageLayout` the descriptor declares for it,
and the layout the image is in at this point, if it is known. -/
structure ImageAccess where
  scope : String
  image : Handle
  declared : VkImageLayout
  tracked : Option VkImageLayout
  deriving DecidableEq, Repr

/-- What is known at a point of a command sequence: the layout of each image, the render
pass and the framebuffer of the render pass instance that is open, the descriptor sets
bound (bind point, slot, set) in the order they were last bound, and the stack of the
`DW_SCOPED_SAMPLE` scopes that are open. -/
structure LayoutTracker where
  layouts : Handle → Option VkImageLayout
  open_pass : Option (Handle × Handle)
  bound : List (VkPipelineBindPoint × Nat × Handle)
  scopes : List String

/-- The layouts of the images when a render pass instance of `rp` over `fbo` has ended:
each attached image is in the `finalLayout` the render pass declares for its attachment. -/
def final_layouts (rp : RenderPass) (fbo : Framebuffer)
    (layouts : Handle → Option VkImageLayout) : Handle → Option VkImageLayout :=
  fun image =>
    match (fbo.views.zip rp.attachments).find? fun p => p.1.image.handle == image with
    | some p => some p.2.finalLayout
    | none => layouts image

/-- The sets bound after `vkCmdBindDescriptorSets(bindPoint, firstSet, sets)`: the slots
`firstSet`, `firstSet + 1`, ... of the bind point hold the new sets. -/
def bind_sets (bindPoint : VkPipelineBindPoint) (firstSet : Nat) (sets : List Handle)
    (bound : List (VkPipelineBindPoint × Nat × Handle)) :
    List (VkPipelineBindPoint × Nat × Handle) :=
  (bound.filter fun e =>
    !(e.1 == bindPoint && decide (firstSet ≤ e.2.1) && decide (e.2.1 < firstSet + sets.length))) ++
  sets.enum.map fun p => (bindPoint, firstSet + p.1, p.2)

/-- What a recorded command changes: a marker opens or closes a scope, a render pass
begins or ends, where the end of an instance of `rp` over `fbo` puts the attached images
into their final layouts, a bind replaces the sets of its slots, and the barrier of
`set_image_layout` puts its image into the new layout. -/
def LayoutTracker.step (rp : RenderPass) (fbo : Framebuffer) (t : LayoutTracker) :
    Cmd → LayoutTracker
  | Cmd.begin_sample name => { t with scopes := name :: t.scopes }
  | Cmd.end_sample _ => { t with scopes := t.scopes.tail }
  | Cmd.vkCmdBeginRenderPass renderPass framebuffer _ _ =>
    { t with open_pass := some (renderPass, framebuffer) }
  | Cmd.vkCmdEndRenderPass =>
    { t with
      open_pass := none
      layouts :=
        if t.open_pass = some (rp.handle, fbo.handle) then final_layouts rp fbo t.layouts
        else t.layouts }
  | Cmd.vkCmdBindDescriptorSets bindPoint _ firstSet sets _ =>
    { t with bound := bind_sets bindPoint firstSet sets t.bound }
  | Cmd.set_image_layout image _ newLayout =>
    { t with layouts := fun i => if i = image then some newLayout else t.layouts i }
  | _ => t

/-- The bind point whose descriptor sets a draw or a trace dispatch reads. -/
def Cmd.bind_point : Cmd → Option VkPipelineBindPoint
  | Cmd.vkCmdDraw .. => some .VK_PIPELINE_BIND_POINT_GRAPHICS
  | Cmd.vkCmdDrawIndexed .. => some .VK_PIPELINE_BIND_POINT_GRAPHICS
  | Cmd.vkCmdTraceRaysNV .. => some .VK_PIPELINE_BIND_POINT_RAY_TRACING_NV
  | _ => none

/-- The image descriptors some writes put into a set: image and declared `imageLayout`,
in the order of the writes. -/
def declared_images (writes : List VkWriteDescriptorSet) (set : Handle) :
    List (Handle × VkImageLayout) :=
  (writes.filter fun w => w.dstSet == set).filterMap fun w =>
    match w.info with
    | .image i => some (i.imageView.image.handle, i.imageLayout)
    | _ => none

/-- The image accesses of a command: a draw or a trace dispatch reads the image
descriptors of the sets bound at its bind point. -/
def LayoutTracker.accesses (writes : List VkWriteDescriptorSet) (t : LayoutTracker)
    (c : Cmd) : List ImageAccess :=
  match c.bind_point with
  | none => []
  | some bp =>
    ((t.bound.filter fun e => e.1 == bp).map fun e =>
      (declared_images writes e.2.2).map fun a =>
        ({ scope := t.scopes.headD "", image := a.1, declared := a.2,
           tracked := t.layouts a.1 } : ImageAccess)).flatten

/-- The image accesses of a command sequence, in order, each with the layout tracked for
its image at that point. -/
def tracked_accesses (writes : List VkWriteDescriptorSet) (rp : RenderPass)
    (fbo : Framebuffer) : LayoutTracker → List Cmd → List ImageAccess
  | _, [] => []
  | t, c :: rest =>
    t.accesses writes c ++ tracked_accesses writes rp fbo (t.step rp fbo c) rest

/-- The image accesses of one frame of `update` on the sample, when the images are in the
layouts `layouts` before the frame: the descriptors are those `write_descriptor_sets`
writes over the pointers of the sample, the render pass and the framebuffer are the
G-buffer ones. No result when a pointer is null. -/
def frame_accesses (s : Sample) (layouts : Handle → Option VkImageLayout) :
    Option (List ImageAccess) :=
  match update s, write_descriptor_sets s, s.m_g_buffer_rp, s.m_g_buffer_fbo with
  | some (_, cmds), some s', some rp, some fbo =>
    some (tracked_accesses (descriptor_writes (new_calls s.m_vk_backend s'.m_vk_backend)) rp fbo
      { layouts := layouts, open_pass := none, bound := [], scopes := [] } cmds)
  | _, _, _, _ => none

/-- The handles of the six frame-target images of the sample. -/
def Sample.target_handles (s : Sample) : List Handle :=
  (frame_targets s).filterMap fun i => i.map (·.handle)

/-- The handles of the five descriptor sets of the sample. -/
def Sample.own_sets (s : Sample) : List Handle :=
  s.sets_and_layouts.filterMap fun p => p.1.map (·.handle)

/-- The descriptor sets a frame binds that are not sets of the sample: the five sets of
the scene and the sets of the materials of the mesh. -/
def Sample.foreign_sets (s : Sample) : List Handle :=
  (s.m_scene.map fun scene =>
    [ scene.ray_tracing_geometry_descriptor_set, scene.albedo_descriptor_set,
      scene.normal_descriptor_set, scene.roughness_descriptor_set,
      scene.metallic_descriptor_set ]).getD [] ++
  (s.m_mesh.map fun mesh => mesh.materials.filterMap (·.pbr_descriptor_set)).getD []

/-- The objects of the sample are wired as `init` and `window_resized` leave them: the
G-buffer attachments are consistent; the render pass leaves the three colour attachments
in shader-read-only layout and the depth attachment in depth-stencil-attachment layout;
the views of the shadow mask and of the reflection image are views of these images; the
six frame targets and the noise texture are seven images; the five descriptor sets of
the sample are five sets, and no set of the scene or of a material is one of them. -/
def Sample.wired (s : Sample) : Bool :=
  s.attachments_consistent &&
  decide (s.m_g_buffer_rp.map (fun rp => rp.attachments.map (·.finalLayout)) =
    some [ .VK_IMAGE_LAYOUT_SHADER_READ_ONLY_OPTIMAL, .VK_IMAGE_LAYOUT_SHADER_READ_ONLY_OPTIMAL,
      .VK_IMAGE_LAYOUT_SHADER_READ_ONLY_OPTIMAL,
      .VK_IMAGE_LAYOUT_DEPTH_STENCIL_ATTACHMENT_OPTIMAL ]) &&
  decide (s.m_shadow_mask_view.map (·.image) = s.m_shadow_mask_image) &&
  decide (s.m_reflection_view.map (·.image) = s.m_reflection_image) &&
  decide ((s.target_handles ++ (s.m_blue_noise_view.map (·.image.handle)).toList).Nodup) &&
  decide s.own_sets.Nodup &&
  s.foreign_sets.all fun h => !s.own_sets.contains h
/-! ## Basic facts -/

/-- On a well-formed list of sub-meshes the loop of `render_gbuffer` returns, and it
appends `draw_commands` to the command buffer. -/
theorem render_gbuffer_loop_eq (layout : Handle) (mesh : Mesh) (subs : List SubMesh)
    (hwf : subs.all (fun sm => (mesh.material sm.mat_idx).isSome) = true)
    (cmd_buf : CommandBuffer) :
    render_gbuffer_loop layout mesh subs cmd_buf =
      some (cmd_buf ++ draw_commands layout mesh subs) := by
  induction subs generalizing cmd_buf with
  | nil => simp [render_gbuffer_loop, draw_commands]
  | cons sm rest ih =>
    simp only [List.all_cons, Bool.and_eq_true] at hwf
    obtain ⟨hsm, hrest⟩ := hwf
    obtain ⟨mat, hmat⟩ := Option.isSome_iff_exists.mp hsm
    simp only [render_gbuffer_loop, draw_commands, hmat, Option.some_bind]
    rw [ih hrest]
    cases mat.pbr_descriptor_set <;> simp

/-- A ready sample points to frame objects. -/
theorem points_to_of_ready (s : Sample) (h : s.ready = true) : ∃ o, s.points_to o := by
  simp only [Sample.ready, Bool.and_eq_true, Option.isSome_iff_exists, decide_eq_true_eq] at h
  obtain ⟨⟨⟨⟨⟨⟨⟨⟨⟨⟨⟨⟨⟨⟨⟨⟨⟨⟨⟨⟨⟨⟨⟨⟨⟨⟨⟨⟨⟨⟨⟨⟨camera, hcam⟩, ⟨ubo, hubo⟩⟩, ⟨mesh, hmesh⟩⟩, ⟨scene, hscene⟩⟩,
    ⟨bnv, hbnv⟩⟩, ⟨simg, hsimg⟩⟩, ⟨sview, hsview⟩⟩, ⟨rimg, hrimg⟩⟩, ⟨rview, hrview⟩⟩,
    ⟨g1v, hg1v⟩⟩, ⟨g2v, hg2v⟩⟩, ⟨g3v, hg3v⟩⟩, ⟨gdv, hgdv⟩⟩, ⟨rp, hrp⟩⟩, ⟨fbo, hfbo⟩⟩,
    ⟨dds, hdds⟩⟩, ⟨pf, hpf⟩⟩, ⟨gds, hgds⟩⟩, ⟨sds, hsds⟩⟩, ⟨rds, hrds⟩⟩, ⟨dpipe, hdpipe⟩⟩,
    ⟨dlayout, hdlayout⟩⟩, ⟨gpipe, hgpipe⟩⟩, ⟨glayout, hglayout⟩⟩, ⟨spipe, hspipe⟩⟩,
    ⟨slayout, hslayout⟩⟩, ⟨ssbt, hssbt⟩⟩, ⟨rpipe, hrpipe⟩⟩, ⟨rlayout, hrlayout⟩⟩,
    ⟨rsbt, hrsbt⟩⟩, hwf⟩, hne⟩ := h
  simp only [hmesh, Option.map_some', Option.getD_some] at hwf
  simp only [hsimg, hrimg, Option.map_some', ne_eq, Option.some.injEq] at hne
  exact ⟨⟨camera, ubo, rp, fbo, gpipe, mesh, glayout, pf, simg, spipe, slayout, sds, gds, ssbt,
    rimg, rpipe, rlayout, rds, scene, rsbt, dpipe, dlayout, dds, bnv, sview, rview, g1v, g2v,
    g3v, gdv⟩,
    ⟨hcam, hubo, hrp, hfbo, hgpipe, hmesh, hglayout, hpf, hsimg, hspipe, hslayout, hsds, hgds,
      hssbt, hrimg, hrpipe, hrlayout, hrds, hscene, hrsbt, hdpipe, hdlayout, hdds, hbnv, hsview,
      hrview, hg1v, hg2v, hg3v, hgdv, hwf, hne⟩⟩

/-- When the pointers of the sample point to `o`, `update` returns: it records
`frame_commands` and leaves `frame_state`. -/
theorem update_eq (s : Sample) (o : FrameObjects) (ho : s.points_to o) :
    update s = some (frame_state s o.camera o.ubo (frame_commands s o), frame_commands s o) := by
  have hloop := render_gbuffer_loop_eq o.glayout.handle o.mesh o.mesh.sub_meshes ho.well_formed
  simp only [update, update_camera, update_uniforms, render_gbuffer, ray_trace_shadow_mask,
    ray_trace_reflection, render, ho.camera, ho.ubo, ho.rp, ho.fbo, ho.gpipe, ho.mesh,
    ho.glayout, ho.pf, ho.simg, ho.spipe, ho.slayout, ho.sds, ho.gds, ho.ssbt, ho.rimg,
    ho.rpipe, ho.rlayout, ho.rds, ho.scene, ho.rsbt, ho.dpipe, ho.dlayout, ho.dds, hloop,
    frame_commands, frame_state]
  simp [dynamic_offset]

/-- In a ready state `update` returns the frame over the objects the sample points to. -/
theorem update_of_ready (s : Sample) (h : s.ready = true) :
    ∃ o, s.points_to o ∧
      update s = some (frame_state s o.camera o.ubo (frame_commands s o), frame_commands s o) := by
  obtain ⟨o, ho⟩ := points_to_of_ready s h
  exact ⟨o, ho, update_eq s o ho⟩

/-- Commands that are no markers stay in the scope that is open. -/
theorem in_scope_append (stack : List String) (l rest : List Cmd)
    (hl : ∀ c ∈ l, c.is_marker = false) :
    in_scope stack (l ++ rest) = l.map (fun c => (stack.headD "", c)) ++ in_scope stack rest := by
  induction l with
  | nil => simp
  | cons c l ih =>
    have hc := hl c (List.mem_cons_self _ _)
    have ih' := ih (fun c hc => hl c (List.mem_cons_of_mem _ hc))
    cases c <;> simp_all [in_scope, Cmd.is_marker]

/-- The loop of `render_gbuffer` records no profiling marker. -/
theorem draw_commands_not_marker (layout : Handle) (mesh : Mesh) (subs : List SubMesh) :
    ∀ c ∈ draw_commands layout mesh subs, c.is_marker = false := by
  induction subs with
  | nil => simp [draw_commands]
  | cons sm rest ih =>
    intro c hc
    simp only [draw_commands, List.mem_append, List.mem_cons] at hc
    rcases hc with hc | hc | hc
    · split at hc <;> simp_all [Cmd.is_marker]
    · simp [hc, Cmd.is_marker]
    · exact ih c hc

/-- A `filterMap` that drops binds of a set without dynamic offset and indexed draws
drops the whole loop of `render_gbuffer`. -/
theorem filterMap_draw_commands {α : Type} (f : Cmd → Option α) (layout : Handle)
    (mesh : Mesh) (subs : List SubMesh)
    (hbind : ∀ bp l slot sets, f (Cmd.vkCmdBindDescriptorSets bp l slot sets []) = none)
    (hdraw : ∀ a b c d e, f (Cmd.vkCmdDrawIndexed a b c d e) = none) :
    (draw_commands layout mesh subs).filterMap f = [] := by
  induction subs with
  | nil => simp [draw_commands]
  | cons sm rest ih =>
    simp only [draw_commands, List.filterMap_append, List.filterMap_cons, ih, hdraw]
    split <;> simp [hbind]

theorem in_scope_draw_commands (stack : List String) (layout : Handle) (mesh : Mesh)
    (subs : List SubMesh) (rest : List Cmd) :
    in_scope stack (draw_commands layout mesh subs ++ rest) =
      (draw_commands layout mesh subs).map (fun c => (stack.headD "", c)) ++
        in_scope stack rest :=
  in_scope_append _ _ _ (draw_commands_not_marker _ _ _)

theorem replicate_append_cons (n : Nat) (x : String) (l : List String) :
    List.replicate n x ++ x :: l = x :: (List.replicate n x ++ l) := by
  induction n with
  | zero => rfl
  | succ n ih => simp [List.replicate_succ, ih]

/-- Selecting a scope among commands that all lie in the scope `n`. -/
theorem filter_tagged (n name : String) (l : List Cmd) :
    ((l.map fun c => (n, c)).filter fun p => p.1 == name).map (·.2) =
      if n = name then l else [] := by
  induction l with
  | nil => simp
  | cons c l ih =>
    by_cases hn : n = name
    · simp_all [List.filter_cons]
    · simp_all [List.filter_cons]

/-- The commands of a frame with their scopes: the bodies of the four passes, one after
the other. -/
theorem in_scope_frame (s : Sample) (o : FrameObjects) :
    in_scope [] (frame_commands s o) =
      ((gbuffer_body s o).map fun c => ("render_gbuffer", c)) ++
      ((shadow_body s o).map fun c => ("ray-tracing-shadows", c)) ++
      ((reflection_body s o).map fun c => ("ray-tracing-reflections", c)) ++
      ((composite_body s o).map fun c => ("copy", c)) := by
  simp [frame_commands, gbuffer_body, shadow_body, reflection_body, composite_body,
    render_gbuffer_begin, ray_trace_shadow_mask_commands,
    ray_trace_reflection_commands, render_commands, in_scope, in_scope_draw_commands]

/-- The commands a frame holds in the scope `name`. -/
theorem pass_commands_frame (name : String) (s : Sample) (o : FrameObjects) :
    pass_commands name (frame_commands s o) =
      (if "render_gbuffer" = name then gbuffer_body s o else []) ++
      (if "ray-tracing-shadows" = name then shadow_body s o else []) ++
      (if "ray-tracing-reflections" = name then reflection_body s o else []) ++
      (if "copy" = name then composite_body s o else []) := by
  have e : pass_commands name (frame_commands s o) =
      ((in_scope [] (frame_commands s o)).filter fun p => p.1 == name).map (·.2) := rfl
  rw [e, in_scope_frame]
  simp only [List.filter_append, List.map_append, filter_tagged]

/-- The frame is the markers of `update` and `update_uniforms` around the four passes,
each pass being its body between its two markers. -/
theorem frame_commands_eq (s : Sample) (o : FrameObjects) :
    frame_commands s o =
      [Cmd.begin_sample "update", Cmd.begin_sample "update_uniforms",
        Cmd.end_sample "update_uniforms"] ++
      (Cmd.begin_sample "render_gbuffer" :: gbuffer_body s o ++
        [Cmd.end_sample "render_gbuffer"]) ++
      (Cmd.begin_sample "ray-tracing-shadows" :: shadow_body s o ++
        [Cmd.end_sample "ray-tracing-shadows"]) ++
      (Cmd.begin_sample "ray-tracing-reflections" :: reflection_body s o ++
        [Cmd.end_sample "ray-tracing-reflections"]) ++
      (Cmd.begin_sample "copy" :: composite_body s o ++ [Cmd.end_sample "copy"]) ++
      [Cmd.end_sample "update"] := by
  simp [frame_commands, gbuffer_body, shadow_body, reflection_body, composite_body,
    render_gbuffer_begin, ray_trace_shadow_mask_commands,
    ray_trace_reflection_commands, render_commands]

/-- A `filterMap` that drops the markers reads a frame as the four pass bodies in
sequence. -/
theorem filterMap_frame {α : Type} (f : Cmd → Option α) (s : Sample) (o : FrameObjects)
    (hb : ∀ n, f (Cmd.begin_sample n) = none) (he : ∀ n, f (Cmd.end_sample n) = none) :
    (frame_commands s o).filterMap f =
      (gbuffer_body s o).filterMap f ++ (shadow_body s o).filterMap f ++
      (reflection_body s o).filterMap f ++ (composite_body s o).filterMap f := by
  rw [frame_commands_eq]
  simp only [List.filterMap_append, List.filterMap_cons, List.filterMap_nil, hb, he,
    List.append_nil, List.nil_append, List.append_assoc]

/-- C1. In every ready state (whatever the camera, the mesh and the scene) `update`
returns a frame whose scopes are opened once each, in the order update, update_uniforms,
render_gbuffer, ray-tracing-shadows, ray-tracing-reflections, copy; and the commands of
the frame, each read with the pass that recorded it, are a non-empty run of geometry-pass
commands, then a non-empty run of shadow-pass commands, then a non-empty run of
reflection-pass commands, then a non-empty run of composite-pass commands: no pass is
skipped, none is repeated, none interleaves with another. -/
theorem update_pass_order (s : Sample) (h : s.ready = true) :
    ∃ s' cmds, update s = some (s', cmds) ∧
      scope_names cmds = ["update", "update_uniforms", "render_gbuffer", "ray-tracing-shadows",
        "ray-tracing-reflections", "copy"] ∧
      ∃ a b c d, 0 < a ∧ 0 < b ∧ 0 < c ∧ 0 < d ∧
        (in_scope [] cmds).map Prod.fst =
          List.replicate a "render_gbuffer" ++ List.replicate b "ray-tracing-shadows" ++
          List.replicate c "ray-tracing-reflections" ++ List.replicate d "copy" := by
  obtain ⟨o, -, hupd⟩ := update_of_ready s h
  refine ⟨_, _, hupd, ?_, (gbuffer_body s o).length, (shadow_body s o).length,
    (reflection_body s o).length, (composite_body s o).length, ?_, ?_, ?_, ?_, ?_⟩
  · have hd : scope_names (draw_commands o.glayout.handle o.mesh o.mesh.sub_meshes) = [] :=
      filterMap_draw_commands _ _ _ _ (fun _ _ _ _ => rfl) (fun _ _ _ _ _ => rfl)
    have happ : ∀ l r, scope_names (l ++ r) = scope_names l ++ scope_names r := by
      intro l r; simp [scope_names]
    simp only [frame_commands, happ, hd]
    rfl
  · simp [gbuffer_body]
  · simp [shadow_body, ray_trace_shadow_mask_commands]
  · simp [reflection_body, ray_trace_reflection_commands]
  · simp [composite_body, render_commands]
  · rw [in_scope_frame]
    simp [Function.comp_def]

/-- Witness for C1 on the concrete application after `init`. -/
theorem update_pass_order_witness :
    app_ready.ready = true ∧
    ∃ s' cmds, update app_ready = some (s', cmds) ∧
      scope_names cmds = ["update", "update_uniforms", "render_gbuffer", "ray-tracing-shadows",
        "ray-tracing-reflections", "copy"] ∧
      ∃ a b c d, 0 < a ∧ 0 < b ∧ 0 < c ∧ 0 < d ∧
        (in_scope [] cmds).map Prod.fst =
          List.replicate a "render_gbuffer" ++ List.replicate b "ray-tracing-shadows" ++
          List.replicate c "ray-tracing-reflections" ++ List.replicate d "copy" :=
  ⟨by decide, update_pass_order app_ready (by decide)⟩

/-- The layout transitions and dispatches of the four pass bodies. -/
theorem sync_steps_bodies (s : Sample) (o : FrameObjects) :
    sync_steps (gbuffer_body s o) = [] ∧
    sync_steps (shadow_body s o) =
      [.transition o.simg.handle .VK_IMAGE_LAYOUT_UNDEFINED .VK_IMAGE_LAYOUT_GENERAL, .trace,
       .transition o.simg.handle .VK_IMAGE_LAYOUT_GENERAL
         .VK_IMAGE_LAYOUT_SHADER_READ_ONLY_OPTIMAL] ∧
    sync_steps (reflection_body s o) =
      [.transition o.rimg.handle .VK_IMAGE_LAYOUT_UNDEFINED .VK_IMAGE_LAYOUT_GENERAL, .trace,
       .transition o.rimg.handle .VK_IMAGE_LAYOUT_GENERAL
         .VK_IMAGE_LAYOUT_SHADER_READ_ONLY_OPTIMAL] ∧
    sync_steps (composite_body s o) = [] := by
  have hd : sync_steps (draw_commands o.glayout.handle o.mesh o.mesh.sub_meshes) = [] :=
    filterMap_draw_commands _ _ _ _ (fun _ _ _ _ => rfl) (fun _ _ _ _ _ => rfl)
  have happ : ∀ l r, sync_steps (l ++ r) = sync_steps l ++ sync_steps r := by
    intro l r; simp [sync_steps]
  refine ⟨?_, ?_, ?_, ?_⟩
  · simp only [gbuffer_body, happ, hd]
    simp [sync_steps, render_gbuffer_begin]
  · simp [sync_steps, shadow_body, ray_trace_shadow_mask_commands]
  · simp [sync_steps, reflection_body, ray_trace_reflection_commands]
  · simp [sync_steps, composite_body, render_commands]

/-- The layout transitions of one image are its transitions among the sync steps. -/
theorem layout_transitions_eq (image : Handle) (cmds : List Cmd) :
    layout_transitions image cmds =
      (sync_steps cmds).filterMap fun st =>
        match st with
        | .transition i o n => if i = image then some (o, n) else none
        | .trace => none := by
  induction cmds with
  | nil => rfl
  | cons c cmds ih =>
    simp only [layout_transitions, sync_steps] at ih
    cases c <;> simp [layout_transitions, sync_steps, List.filterMap_cons, ih]

/-- C2. In every ready state `update` returns a frame in which the shadow-mask image
has exactly two layout transitions, undefined to general and general to shader-read-only,
and so has the reflection image; inside `ray_trace_shadow_mask` the barriers and the
dispatch come as transition of the shadow-mask image to general, trace, transition of it
to shader-read-only, and inside `ray_trace_reflection` the same on the reflection image;
`render_gbuffer`, `render`, `update_uniforms` and `update` itself record no layout
transition (and no dispatch). -/
theorem frame_layout_transitions (s : Sample) (h : s.ready = true) :
    ∃ s' cmds simg rimg, update s = some (s', cmds) ∧
      s.m_shadow_mask_image = some simg ∧ s.m_reflection_image = some rimg ∧
      layout_transitions simg.handle cmds =
        [(.VK_IMAGE_LAYOUT_UNDEFINED, .VK_IMAGE_LAYOUT_GENERAL),
         (.VK_IMAGE_LAYOUT_GENERAL, .VK_IMAGE_LAYOUT_SHADER_READ_ONLY_OPTIMAL)] ∧
      layout_transitions rimg.handle cmds =
        [(.VK_IMAGE_LAYOUT_UNDEFINED, .VK_IMAGE_LAYOUT_GENERAL),
         (.VK_IMAGE_LAYOUT_GENERAL, .VK_IMAGE_LAYOUT_SHADER_READ_ONLY_OPTIMAL)] ∧
      sync_steps (pass_commands "ray-tracing-shadows" cmds) =
        [.transition simg.handle .VK_IMAGE_LAYOUT_UNDEFINED .VK_IMAGE_LAYOUT_GENERAL, .trace,
         .transition simg.handle .VK_IMAGE_LAYOUT_GENERAL
           .VK_IMAGE_LAYOUT_SHADER_READ_ONLY_OPTIMAL] ∧
      sync_steps (pass_commands "ray-tracing-reflections" cmds) =
        [.transition rimg.handle .VK_IMAGE_LAYOUT_UNDEFINED .VK_IMAGE_LAYOUT_GENERAL, .trace,
         .transition rimg.handle .VK_IMAGE_LAYOUT_GENERAL
           .VK_IMAGE_LAYOUT_SHADER_READ_ONLY_OPTIMAL] ∧
      sync_steps (pass_commands "render_gbuffer" cmds) = [] ∧
      sync_steps (pass_commands "copy" cmds) = [] ∧
      sync_steps (pass_commands "update_uniforms" cmds) = [] ∧
      sync_steps (pass_commands "update" cmds) = [] := by
  obtain ⟨o, ho, hupd⟩ := update_of_ready s h
  obtain ⟨hg, hs, hr, hc⟩ := sync_steps_bodies s o
  have hne := ho.distinct
  have hne' : ¬ o.rimg.handle = o.simg.handle := fun e => hne e.symm
  have hall : sync_steps (frame_commands s o) =
      sync_steps (gbuffer_body s o) ++ sync_steps (shadow_body s o) ++
      sync_steps (reflection_body s o) ++ sync_steps (composite_body s o) :=
    filterMap_frame _ s o (fun _ => rfl) (fun _ => rfl)
  rw [hg, hc, List.nil_append, List.append_nil] at hall
  refine ⟨_, _, o.simg, o.rimg, hupd, ho.simg, ho.rimg, ?_, ?_, ?_, ?_, ?_, ?_, ?_, ?_⟩
  · rw [layout_transitions_eq, hall, hs, hr]
    simp [hne']
  · rw [layout_transitions_eq, hall, hs, hr]
    simp [hne]
  all_goals
    rw [pass_commands_frame]
    simp only [String.reduceEq, ↓reduceIte, List.append_nil, List.nil_append, hg, hs, hr, hc]
  · rfl
  · rfl

/-- Witness for C2 on the concrete application after `init`. -/
theorem frame_layout_transitions_witness :
    app_ready.ready = true ∧
    ∃ s' cmds simg rimg, update app_ready = some (s', cmds) ∧
      app_ready.m_shadow_mask_image = some simg ∧ app_ready.m_reflection_image = some rimg ∧
      layout_transitions simg.handle cmds =
        [(.VK_IMAGE_LAYOUT_UNDEFINED, .VK_IMAGE_LAYOUT_GENERAL),
         (.VK_IMAGE_LAYOUT_GENERAL, .VK_IMAGE_LAYOUT_SHADER_READ_ONLY_OPTIMAL)] ∧
      layout_transitions rimg.handle cmds =
        [(.VK_IMAGE_LAYOUT_UNDEFINED, .VK_IMAGE_LAYOUT_GENERAL),
         (.VK_IMAGE_LAYOUT_GENERAL, .VK_IMAGE_LAYOUT_SHADER_READ_ONLY_OPTIMAL)] :=
  ⟨by decide,
    let ⟨s', cmds, simg, rimg, hu, hs, hr, h1, h2, _⟩ :=
      frame_layout_transitions app_ready (by decide)
    ⟨s', cmds, simg, rimg, hu, hs, hr, h1, h2⟩⟩

/-- The stages of the four pass bodies. -/
theorem stages_bodies (s : Sample) (o : FrameObjects) :
    stages (gbuffer_body s o) = [.render_pass o.rp.handle o.fbo.handle] ∧
    stages (shadow_body s o) = [.trace_rays o.spipe.shader_binding_table_buffer] ∧
    stages (reflection_body s o) = [.trace_rays o.rpipe.shader_binding_table_buffer] ∧
    stages (composite_body s o) =
      [.render_pass s.m_vk_backend.swapchain_render_pass
        s.m_vk_backend.swapchain_framebuffer] := by
  have hd : stages (draw_commands o.glayout.handle o.mesh o.mesh.sub_meshes) = [] :=
    filterMap_draw_commands _ _ _ _ (fun _ _ _ _ => rfl) (fun _ _ _ _ _ => rfl)
  have happ : ∀ l r, stages (l ++ r) = stages l ++ stages r := by
    intro l r; simp [stages]
  refine ⟨?_, ?_, ?_, ?_⟩
  · simp only [gbuffer_body, happ, hd]
    simp [stages, render_gbuffer_begin]
  · simp [stages, shadow_body, ray_trace_shadow_mask_commands]
  · simp [stages, reflection_body, ray_trace_reflection_commands]
  · simp [stages, composite_body, render_commands]

/-- C3. In every ready state `update` returns a frame with exactly four render or
dispatch stages: the render pass over the G-buffer framebuffer (recorded by
`render_gbuffer`), the trace dispatch of the shadow pipeline (by `ray_trace_shadow_mask`),
the trace dispatch of the reflection pipeline (by `ray_trace_reflection`) and the render
pass over the swapchain framebuffer (by `render`), in this order; the draws that `render`
records itself are exactly one `vkCmdDraw` of 3 vertices and 1 instance, and it binds no
vertex or index buffer. What the framework's `render_gui` records is not counted. -/
theorem frame_stages (s : Sample) (h : s.ready = true) :
    ∃ s' cmds rp fbo spipe rpipe, update s = some (s', cmds) ∧
      s.m_g_buffer_rp = some rp ∧ s.m_g_buffer_fbo = some fbo ∧
      s.m_shadow_mask_pipeline = some spipe ∧ s.m_reflection_pipeline = some rpipe ∧
      stages cmds =
        [.render_pass rp.handle fbo.handle,
         .trace_rays spipe.shader_binding_table_buffer,
         .trace_rays rpipe.shader_binding_table_buffer,
         .render_pass s.m_vk_backend.swapchain_render_pass
           s.m_vk_backend.swapchain_framebuffer] ∧
      stages (pass_commands "render_gbuffer" cmds) = [.render_pass rp.handle fbo.handle] ∧
      stages (pass_commands "ray-tracing-shadows" cmds) =
        [.trace_rays spipe.shader_binding_table_buffer] ∧
      stages (pass_commands "ray-tracing-reflections" cmds) =
        [.trace_rays rpipe.shader_binding_table_buffer] ∧
      stages (pass_commands "copy" cmds) =
        [.render_pass s.m_vk_backend.swapchain_render_pass
           s.m_vk_backend.swapchain_framebuffer] ∧
      (pass_commands "copy" cmds).filter Cmd.is_draw = [Cmd.vkCmdDraw 3 1 0 0] ∧
      (pass_commands "copy" cmds).all (fun c => !c.binds_geometry) = true := by
  obtain ⟨o, ho, hupd⟩ := update_of_ready s h
  obtain ⟨hg, hs, hr, hc⟩ := stages_bodies s o
  have hall : stages (frame_commands s o) =
      stages (gbuffer_body s o) ++ stages (shadow_body s o) ++
      stages (reflection_body s o) ++ stages (composite_body s o) :=
    filterMap_frame _ s o (fun _ => rfl) (fun _ => rfl)
  refine ⟨_, _, o.rp, o.fbo, o.spipe, o.rpipe, hupd, ho.rp, ho.fbo, ho.spipe, ho.rpipe, ?_, ?_,
    ?_, ?_, ?_, ?_, ?_⟩
  · rw [hall, hg, hs, hr, hc]; rfl
  all_goals
    rw [pass_commands_frame]
    simp only [String.reduceEq, ↓reduceIte, List.append_nil, List.nil_append, hg, hs, hr, hc]
  · simp [composite_body, render_commands, Cmd.is_draw]
  · simp [composite_body, render_commands, Cmd.binds_geometry]

/-- Witness for C3: the application at 1920 x 1080 with a scene of one mesh instance. -/
theorem frame_stages_witness :
    app_ready.ready = true ∧ app_ready.m_width = 1920 ∧ app_ready.m_height = 1080 ∧
    app_ready.m_scene.map (·.instances.length) = some 1 ∧
    ∃ s' cmds, update app_ready = some (s', cmds) ∧
      (stages cmds).length = 4 ∧
      (pass_commands "copy" cmds).filter Cmd.is_draw = [Cmd.vkCmdDraw 3 1 0 0] :=
  ⟨by decide, by decide, by decide, by decide,
    let ⟨s', cmds, _, _, _, _, hu, _, _, _, _, h1, _, _, _, _, h2, _⟩ :=
      frame_stages app_ready (by decide)
    ⟨s', cmds, hu, by rw [h1]; rfl, h2⟩⟩

/-- Rounding up to a positive alignment does not shrink. -/
theorem le_align_up (n a : Nat) (ha : 0 < a) : n ≤ (n + a - 1) / a * a := by
  have h1 := Nat.div_add_mod (n + a - 1) a
  have h2 := Nat.mod_lt (n + a - 1) ha
  have h3 : (n + a - 1) / a * a = a * ((n + a - 1) / a) := Nat.mul_comm _ _
  omega

/-- Method `create_uniform_buffer` sets up the uniform ring. -/
theorem create_uniform_buffer_ring (s : Sample) :
    (create_uniform_buffer s).2.uniform_ring = true := by
  simp [create_uniform_buffer, Sample.uniform_ring, Backend.assigned, Backend.created,
    Backend.reset, Backend.aligned_dynamic_ubo_size]
  cases s.m_ubo <;> simp [Backend.reset]

/-- The binds with a dynamic offset in the four pass bodies: the per-frame set, once
each. -/
theorem dynamic_binds_bodies (s : Sample) (o : FrameObjects) :
    dynamic_binds (gbuffer_body s o) = [([o.pf.handle], [dynamic_offset s])] ∧
    dynamic_binds (shadow_body s o) = [([o.pf.handle], [dynamic_offset s])] ∧
    dynamic_binds (reflection_body s o) = [([o.pf.handle], [dynamic_offset s])] ∧
    dynamic_binds (composite_body s o) = [([o.pf.handle], [dynamic_offset s])] := by
  have hd : dynamic_binds (draw_commands o.glayout.handle o.mesh o.mesh.sub_meshes) = [] :=
    filterMap_draw_commands _ _ _ _ (fun _ _ _ _ => rfl) (fun _ _ _ _ _ => rfl)
  have happ : ∀ l r, dynamic_binds (l ++ r) = dynamic_binds l ++ dynamic_binds r := by
    intro l r; simp [dynamic_binds]
  refine ⟨?_, ?_, ?_, ?_⟩
  · simp only [gbuffer_body, happ, hd]
    simp [dynamic_binds, render_gbuffer_begin]
  · simp [dynamic_binds, shadow_body, ray_trace_shadow_mask_commands]
  · simp [dynamic_binds, reflection_body, ray_trace_reflection_commands]
  · simp [dynamic_binds, composite_body, render_commands]

/-- C4. Let the uniform ring be as `create_uniform_buffer` leaves it, the device
alignment be positive and the ring fit into 32 bits (no `uint32_t` truncation of the
offset), and let `i = current_frame_idx < kMaxFramesInFlight`. Then `update` returns a
frame in which each of the four passes binds exactly one set with a dynamic offset, the
per-frame set, with offset `i * m_ubo_size`; `update_uniforms` copies the `Transforms`
block, which is the block of the camera after its `update()`, to byte offset
`i * m_ubo_size` of the mapped buffer; `m_ubo_size` is the aligned
size of `Transforms`; the byte range of slot `i` is disjoint from the one of every other
slot `j`; and every slot lies inside the buffer of `m_ubo_size * kMaxFramesInFlight`
bytes. -/
theorem uniform_ring_offsets (s : Sample) (h : s.ready = true)
    (hring : s.uniform_ring = true)
    (halign : 0 < s.m_vk_backend.min_ubo_alignment)
    (hfit : s.m_ubo_size * s.m_vk_backend.kMaxFramesInFlight < 2 ^ 32)
    (hi : s.m_vk_backend.current_frame_idx < s.m_vk_backend.kMaxFramesInFlight) :
    ∃ s' cmds pf ubo ubo', update s = some (s', cmds) ∧
      s.m_per_frame_ds = some pf ∧ s.m_ubo = some ubo ∧ s'.m_ubo = some ubo' ∧
      s.m_ubo_size = s.m_vk_backend.aligned_dynamic_ubo_size sizeof_Transforms ∧
      ubo.size = s.m_ubo_size * s.m_vk_backend.kMaxFramesInFlight ∧
      (∀ p ∈ ["render_gbuffer", "ray-tracing-shadows", "ray-tracing-reflections", "copy"],
        dynamic_binds (pass_commands p cmds) =
          [([pf.handle], [s.m_vk_backend.current_frame_idx * s.m_ubo_size])]) ∧
      ubo'.mapped = memcpy ubo.mapped (s.m_vk_backend.current_frame_idx * s.m_ubo_size)
        s'.m_transforms sizeof_Transforms ∧
      (∃ camera, s.m_main_camera = some camera ∧
        s'.m_transforms = camera.update.transforms) ∧
      (∀ j, j < s.m_vk_backend.kMaxFramesInFlight → j ≠ s.m_vk_backend.current_frame_idx →
        s.m_vk_backend.current_frame_idx * s.m_ubo_size + sizeof_Transforms ≤ j * s.m_ubo_size ∨
        j * s.m_ubo_size + sizeof_Transforms ≤
          s.m_vk_backend.current_frame_idx * s.m_ubo_size) ∧
      (∀ j, j < s.m_vk_backend.kMaxFramesInFlight →
        j * s.m_ubo_size + sizeof_Transforms ≤ ubo.size) := by
  obtain ⟨o, ho, hupd⟩ := update_of_ready s h
  obtain ⟨hg, hs, hr, hc⟩ := dynamic_binds_bodies s o
  simp only [Sample.uniform_ring, Bool.and_eq_true, decide_eq_true_eq, ho.ubo,
    Option.map_some', Option.some.injEq] at hring
  obtain ⟨hsize, hbuf⟩ := hring
  have hU : sizeof_Transforms ≤ s.m_ubo_size := by
    rw [hsize]; exact le_align_up _ _ halign
  have hstep : ∀ j k : Nat, j < k → j * s.m_ubo_size + sizeof_Transforms ≤ k * s.m_ubo_size := by
    intro j k hjk
    have h1 : (j + 1) * s.m_ubo_size ≤ k * s.m_ubo_size := Nat.mul_le_mul_right _ hjk
    have h2 : (j + 1) * s.m_ubo_size = j * s.m_ubo_size + s.m_ubo_size := Nat.succ_mul _ _
    omega
  have hprod : s.m_ubo_size * s.m_vk_backend.current_frame_idx < 2 ^ 32 :=
    lt_of_le_of_lt (Nat.mul_le_mul_left _ (le_of_lt hi)) hfit
  have h64 : s.m_ubo_size * s.m_vk_backend.current_frame_idx < 2 ^ 64 :=
    lt_trans hprod (by norm_num)
  have hoff' : usize (s.m_ubo_size * s.m_vk_backend.current_frame_idx) =
      s.m_vk_backend.current_frame_idx * s.m_ubo_size := by
    simp only [usize, Nat.mod_eq_of_lt h64]
    exact Nat.mul_comm _ _
  have hoff : dynamic_offset s = s.m_vk_backend.current_frame_idx * s.m_ubo_size := by
    simp only [dynamic_offset, u32, usize, Nat.mod_eq_of_lt h64, Nat.mod_eq_of_lt hprod]
    exact Nat.mul_comm _ _
  have hbuf' : o.ubo.size = s.m_ubo_size * s.m_vk_backend.kMaxFramesInFlight := by
    have h64 : s.m_ubo_size * s.m_vk_backend.kMaxFramesInFlight < 2 ^ 64 :=
      lt_trans hfit (by norm_num)
    rw [hbuf, usize, Nat.mod_eq_of_lt h64]
  refine ⟨_, _, o.pf, o.ubo, _, hupd, ho.pf, ho.ubo, rfl, hsize, hbuf', ?_, ?_,
    ⟨o.camera, ho.camera, rfl⟩, ?_, ?_⟩
  · intro p hp
    rw [pass_commands_frame]
    simp only [List.mem_cons, List.mem_singleton, List.not_mem_nil, or_false] at hp
    rcases hp with rfl | rfl | rfl | rfl <;>
    simp only [String.reduceEq, ↓reduceIte, List.append_nil, List.nil_append, hg, hs, hr, hc,
      hoff]
  · simp [frame_state, hoff']
  · intro j hj hne
    rcases Nat.lt_or_gt_of_ne hne with hlt | hgt
    · exact Or.inr (hstep _ _ hlt)
    · exact Or.inl (hstep _ _ hgt)
  · intro j hj
    rw [hbuf', Nat.mul_comm s.m_ubo_size]
    exact hstep _ _ hj

/-- Witness for C4 on the concrete application after `init`: alignment 256, three frames
in flight, frame index 1. -/
theorem uniform_ring_offsets_witness :
    app_ready.ready = true ∧ app_ready.uniform_ring = true ∧
    0 < app_ready.m_vk_backend.min_ubo_alignment ∧
    app_ready.m_ubo_size * app_ready.m_vk_backend.kMaxFramesInFlight < 2 ^ 32 ∧
    app_ready.m_vk_backend.current_frame_idx < app_ready.m_vk_backend.kMaxFramesInFlight ∧
    ∃ s' cmds pf, update app_ready = some (s', cmds) ∧ app_ready.m_per_frame_ds = some pf ∧
      dynamic_binds (pass_commands "copy" cmds) = [([pf.handle], [1 * 512])] :=
  ⟨by decide, by decide, by decide, by decide, by decide,
    let ⟨s', cmds, pf, _, _, hu, hpf, _, _, _, _, hb, _⟩ :=
      uniform_ring_offsets app_ready (by decide) (by decide) (by decide) (by decide) (by decide)
    ⟨s', cmds, pf, hu, hpf, hb "copy" (by simp)⟩⟩

/-- A `reset()` leaves the object counter. -/
@[simp] theorem Backend.reset_next_handle (b : Backend) (k : ObjectKind) (o : Option Handle) :
    (b.reset k o).next_handle = b.next_handle := by cases o <;> rfl

/-- A `reset()` leaves the descriptor contents. -/
@[simp] theorem Backend.reset_descriptors (b : Backend) (k : ObjectKind) (o : Option Handle) :
    (b.reset k o).descriptors = b.descriptors := by cases o <;> rfl

/-- A `reset()` leaves the depth format. -/
@[simp] theorem Backend.reset_depth_format (b : Backend) (k : ObjectKind) (o : Option Handle) :
    (b.reset k o).swap_chain_depth_format = b.swap_chain_depth_format := by cases o <;> rfl

/-- A `reset()` leaves the common sampler. -/
@[simp] theorem Backend.reset_common_sampler (b : Backend) (k : ObjectKind) (o : Option Handle) :
    (b.reset k o).common_sampler = b.common_sampler := by cases o <;> rfl

/-- The call a `reset()` leaves: a release if the pointer was not null. -/
theorem Backend.reset_calls (b : Backend) (k : ObjectKind) (o : Option Handle) :
    (b.reset k o).calls = b.calls ++ (o.map (Event.release k)).toList := by
  cases o <;> simp [Backend.reset]

/-- Collecting the values of a list of options, one step. -/
theorem filterMap_id_cons {α : Type} (a : Option α) (l : List (Option α)) :
    (a :: l).filterMap id = a.toList ++ l.filterMap id := by cases a <;> rfl

/-- The calls of `create_output_images`. -/
theorem create_output_images_calls (s : Sample) :
    (create_output_images s).m_vk_backend.calls =
      s.m_vk_backend.calls ++ target_releases s ++ target_creates s.m_vk_backend.next_handle := by
  simp only [create_output_images, Backend.created, Backend.reset_calls,
    Backend.reset_next_handle, target_releases, target_creates, filterMap_id_cons,
    List.filterMap_nil, Option.map_map, Function.comp_def, List.append_assoc, List.append_nil,
    List.cons_append, List.nil_append, List.singleton_append]

/-- C9. Every run of `create_output_images` first releases each frame-target image
and view the sample held (twelve `reset()` calls) and only then creates the six images
and their six views; the six images have the size `m_width` x `m_height` and the fixed
format and usage of the table: shadow mask R8_SNORM and reflection R16G16B16A16_SFLOAT
with sampled + storage, G-buffer 1 R8G8B8A8_UNORM, G-buffer 2 R16G16B16A16_SFLOAT and
G-buffer 3 R32G32B32A32_SFLOAT with sampled + storage + colour attachment, depth in the
backend's depth format with sampled + depth attachment; the i-th view is a view of the
i-th image, each image has exactly one of the six views, and the views are six objects. -/
theorem create_output_images_targets (s : Sample) :
    (create_output_images s).m_vk_backend.calls =
      s.m_vk_backend.calls ++ target_releases s ++
        target_creates s.m_vk_backend.next_handle ∧
    (frame_targets (create_output_images s)).map
        (Option.map fun i => (i.width, i.height, i.format, i.usage)) =
      [ some (s.m_width, s.m_height, .VK_FORMAT_R8_SNORM, { sampled := true, storage := true }),
        some (s.m_width, s.m_height, .VK_FORMAT_R16G16B16A16_SFLOAT,
          { sampled := true, storage := true }),
        some (s.m_width, s.m_height, .VK_FORMAT_R8G8B8A8_UNORM,
          { sampled := true, storage := true, color_attachment := true }),
        some (s.m_width, s.m_height, .VK_FORMAT_R16G16B16A16_SFLOAT,
          { sampled := true, storage := true, color_attachment := true }),
        some (s.m_width, s.m_height, .VK_FORMAT_R32G32B32A32_SFLOAT,
          { sampled := true, storage := true, color_attachment := true }),
        some (s.m_width, s.m_height, s.m_vk_backend.swap_chain_depth_format,
          { sampled := true, depth_stencil_attachment := true }) ] ∧
    (frame_target_views (create_output_images s)).map (Option.map (·.image)) =
      frame_targets (create_output_images s) ∧
    (∀ t ∈ frame_targets (create_output_images s), ∃ image, t = some image ∧
      ((frame_target_views (create_output_images s)).filter
        fun v => v.map (·.image.handle) == some image.handle).length = 1) ∧
    ((frame_target_views (create_output_images s)).map (Option.map (·.handle))).Nodup := by
  refine ⟨create_output_images_calls s, ?_, ?_, ?_, ?_⟩
  · simp only [frame_targets, create_output_images, Image.create, Backend.created,
      Backend.reset_depth_format, List.map_cons, List.map_nil, Option.map_some']
    rfl
  · simp [frame_targets, frame_target_views, create_output_images, Image.create,
      ImageView.create, Backend.created]
  · intro t ht
    simp only [frame_targets, create_output_images, List.mem_cons, List.mem_singleton,
      List.not_mem_nil, or_false] at ht
    rcases ht with rfl | rfl | rfl | rfl | rfl | rfl <;>
    · refine ⟨_, rfl, ?_⟩
      simp [frame_target_views, create_output_images, Image.create, ImageView.create,
        Backend.created, List.filter_cons, Nat.add_assoc]
  · simp [frame_target_views, create_output_images, Image.create,
      ImageView.create, Backend.created, Nat.add_assoc]

/-- The images created by two lists of calls. -/
theorem created_images_append (l r : List Event) :
    created_images (l ++ r) = created_images l ++ created_images r := by
  simp [created_images]

/-- A release creates no image. -/
theorem created_images_release {α : Type} (o : Option α) (k : ObjectKind) (g : α → Handle) :
    created_images (o.map fun i => Event.release k (g i)).toList = [] := by
  cases o <;> rfl

/-- The releases of `create_output_images` create no image. -/
theorem created_images_target_releases (s : Sample) :
    created_images (target_releases s) = [] := by
  simp only [target_releases, filterMap_id_cons, List.filterMap_nil, created_images_append,
    created_images_release, List.append_nil]

/-- The calls `create_output_images` adds. -/
theorem new_calls_create_output_images (s : Sample) :
    new_calls s.m_vk_backend (create_output_images s).m_vk_backend =
      target_releases s ++ target_creates s.m_vk_backend.next_handle := by
  rw [new_calls, create_output_images_calls, List.append_assoc, List.drop_left]

/-- C8, counterexample. Rebuilding the frame targets at 1280 x 720 creates six images,
not five. -/
theorem rebuild_five_images_counterexample :
    (created_images (new_calls (app.set_window_size 1280 720).m_vk_backend
      (create_output_images (app.set_window_size 1280 720)).m_vk_backend)).length = 6 ∧
    ¬ (created_images (new_calls (app.set_window_size 1280 720).m_vk_backend
      (create_output_images (app.set_window_size 1280 720)).m_vk_backend)).length = 5 := by
  decide

/-- C8, amended. For every viewport size `(w, h)` with `w, h > 0`, `create_output_images`
run with `m_width = w` and `m_height = h` creates six images; they are the six frame
targets, each of width `w` and height `h` (hence of positive extent); and the formats of
the shadow-mask and of the reflection image are those of every other rebuild. -/
theorem rebuild_targets_size (s : Sample) (w h : Nat) (hw : 0 < w) (hh : 0 < h) :
    (created_images (new_calls (s.set_window_size w h).m_vk_backend
      (create_output_images (s.set_window_size w h)).m_vk_backend)).length = 6 ∧
    (frame_targets (create_output_images (s.set_window_size w h))).map
        (Option.map fun i => (i.handle, i.width, i.height)) =
      (created_images (new_calls (s.set_window_size w h).m_vk_backend
        (create_output_images (s.set_window_size w h)).m_vk_backend)).map
        (fun n => some (n, w, h)) ∧
    (∀ t ∈ frame_targets (create_output_images (s.set_window_size w h)),
      ∃ i, t = some i ∧ 0 < i.width ∧ 0 < i.height) ∧
    (∀ s0 : Sample,
      (create_output_images (s.set_window_size w h)).m_shadow_mask_image.map (·.format) =
        (create_output_images s0).m_shadow_mask_image.map (·.format) ∧
      (create_output_images (s.set_window_size w h)).m_reflection_image.map (·.format) =
        (create_output_images s0).m_reflection_image.map (·.format)) := by
  rw [new_calls_create_output_images, created_images_append, created_images_target_releases]
  refine ⟨rfl, ?_, ?_, fun s0 => ⟨rfl, rfl⟩⟩
  · simp [frame_targets, create_output_images, Image.create, Backend.created,
      Sample.set_window_size, created_images, target_creates, Nat.add_assoc]
  · intro t ht
    simp only [frame_targets, create_output_images, List.mem_cons, List.mem_singleton,
      List.not_mem_nil, or_false] at ht
    rcases ht with rfl | rfl | rfl | rfl | rfl | rfl <;>
    exact ⟨_, rfl, hw, hh⟩

/-- Witness for C8 (amended) at 1280 x 720. -/
theorem rebuild_targets_size_witness :
    (0 < 1280) ∧ (0 < 720) ∧
    (created_images (new_calls (app_ready.set_window_size 1280 720).m_vk_backend
      (create_output_images (app_ready.set_window_size 1280 720)).m_vk_backend)).length = 6 :=
  ⟨by decide, by decide, (rebuild_targets_size app_ready 1280 720 (by decide) (by decide)).1⟩

/-- When its pointers are set, `write_descriptor_sets` returns; it applies the fourteen
writes of `all_writes` to the descriptor contents and changes nothing but the backend. -/
theorem write_descriptor_sets_eq (s : Sample) (o : FrameObjects) (ho : s.points_to o) :
    ∃ s', write_descriptor_sets s = some s' ∧
      s'.m_vk_backend.descriptors = (all_writes s o).foldl apply_write s.m_vk_backend.descriptors ∧
      s' = { s with m_vk_backend := s'.m_vk_backend } ∧
      s'.m_vk_backend.common_sampler = s.m_vk_backend.common_sampler := by
  simp [write_descriptor_sets, ho.sview, ho.rview, ho.g1v, ho.g2v, ho.g3v, ho.dds, ho.ubo,
    ho.pf, ho.gds, ho.scene, ho.sds, ho.rds, ho.bnv, Backend.vkUpdateDescriptorSets, all_writes,
    sampled_write]

/-- After a list of writes a binding holds the descriptor of the last write that
targets it, or what it held before if none does. -/
theorem foldl_apply_write (ws : List VkWriteDescriptorSet)
    (d : Handle → Nat → Option Descriptor) (set : Handle) (binding : Nat) :
    ws.foldl apply_write d set binding =
      match last_write ws set binding with
      | some w => some w.descriptor
      | none => d set binding := by
  induction ws using List.reverseRecOn with
  | nil => rfl
  | append_singleton l a ih =>
    simp only [List.foldl_append, List.foldl_cons, List.foldl_nil, last_write,
      List.reverse_append, List.reverse_cons, List.reverse_nil, List.nil_append,
      List.singleton_append, List.find?_cons]
    simp only [last_write] at ih
    by_cases h : set = a.dstSet ∧ binding = a.dstBinding
    · simp [apply_write, h, VkWriteDescriptorSet.descriptor]
    · simp only [apply_write, h, if_false, decide_False, ih]

/-- Applying the same writes a second time changes nothing. -/
theorem apply_write_idem (ws : List VkWriteDescriptorSet)
    (d : Handle → Nat → Option Descriptor) :
    ws.foldl apply_write (ws.foldl apply_write d) = ws.foldl apply_write d := by
  funext set binding
  rw [foldl_apply_write ws (ws.foldl apply_write d), foldl_apply_write ws d]
  cases h : last_write ws set binding with
  | none => simp only [foldl_apply_write ws d set binding, h]
  | some w => rfl

/-- C10. In every ready state two calls of `write_descriptor_sets` in succession both
return, and after the second call every binding of every descriptor set holds what it
held after the first call. -/
theorem write_descriptor_sets_idempotent (s : Sample) (h : s.ready = true) :
    ∃ s1 s2, write_descriptor_sets s = some s1 ∧ write_descriptor_sets s1 = some s2 ∧
      s2.m_vk_backend.descriptors = s1.m_vk_backend.descriptors := by
  obtain ⟨o, ho⟩ := points_to_of_ready s h
  obtain ⟨s1, h1, hd1, hs1, hc1⟩ := write_descriptor_sets_eq s o ho
  have ho1 : s1.points_to o := by
    rw [hs1]
    exact ⟨ho.camera, ho.ubo, ho.rp, ho.fbo, ho.gpipe, ho.mesh, ho.glayout, ho.pf, ho.simg,
      ho.spipe, ho.slayout, ho.sds, ho.gds, ho.ssbt, ho.rimg, ho.rpipe, ho.rlayout, ho.rds,
      ho.scene, ho.rsbt, ho.dpipe, ho.dlayout, ho.dds, ho.bnv, ho.sview, ho.rview, ho.g1v,
      ho.g2v, ho.g3v, ho.gdv, ho.well_formed, ho.distinct⟩
  obtain ⟨s2, h2, hd2, -, -⟩ := write_descriptor_sets_eq s1 o ho1
  have hw : all_writes s1 o = all_writes s o := by
    simp [all_writes, sampled_write, hc1]
  refine ⟨s1, s2, h1, h2, ?_⟩
  rw [hd2, hw, hd1, apply_write_idem]

/-- Witness for C10 on the concrete application after `init`. -/
theorem write_descriptor_sets_idempotent_witness :
    app_ready.ready = true ∧
    ∃ s1 s2, write_descriptor_sets app_ready = some s1 ∧ write_descriptor_sets s1 = some s2 ∧
      s2.m_vk_backend.descriptors = s1.m_vk_backend.descriptors :=
  ⟨by decide, write_descriptor_sets_idempotent app_ready (by decide)⟩

/-- When its pointers are set, `window_resized` returns; afterwards the pointers point
to `resized_objects`, the descriptor contents are the old ones with the fourteen writes
over the new views applied, and thirteen objects were created. -/
theorem window_resized_eq (w h : Nat) (s : Sample) (o : FrameObjects) (ho : s.points_to o) :
    ∃ s', window_resized w h s = some s' ∧ s'.points_to (resized_objects s o) ∧
      s'.m_vk_backend.descriptors =
        (all_writes s (resized_objects s o)).foldl apply_write s.m_vk_backend.descriptors ∧
      s'.m_vk_backend.next_handle = s.m_vk_backend.next_handle + 13 := by
  simp [window_resized, ho.camera, create_output_images, create_framebuffers,
    write_descriptor_sets, ho.rp, ho.dds, ho.ubo, ho.pf, ho.gds, ho.scene, ho.sds, ho.rds, ho.bnv,
    Backend.vkUpdateDescriptorSets, Backend.wait_idle, Backend.created, Image.create,
    ImageView.create, Framebuffer.create, Nat.add_assoc]
  refine ⟨?_, ?_⟩
  · constructor <;>
      simp [resized_objects, ho.rp, ho.gpipe, ho.mesh, ho.glayout, ho.pf, ho.spipe, ho.slayout,
        ho.sds, ho.gds, ho.ssbt, ho.rpipe, ho.rlayout, ho.rds, ho.scene, ho.rsbt, ho.dpipe,
        ho.dlayout, ho.dds, ho.bnv, ho.ubo, ho.well_formed]
  · simp [all_writes, resized_objects, sampled_write]

/-- A predicate that holds of every release holds of what a `reset()` leaves. -/
theorem all_release {α : Type} (p : Event → Bool) (o : Option α) (k : ObjectKind)
    (g : α → Handle) (hp : ∀ h, p (Event.release k h) = true) :
    ((o.map fun i => Event.release k (g i)).toList).all p = true := by
  cases o <;> simp [hp]

/-- The releases of `create_output_images` write no descriptor. -/
theorem target_releases_no_write (s : Sample) :
    (target_releases s).all (fun e => !e.is_descriptor_write) = true := by
  simp only [target_releases, filterMap_id_cons, List.filterMap_nil, List.all_append,
    List.append_nil, Bool.and_eq_true]
  refine ⟨?_, ?_, ?_, ?_, ?_, ?_, ?_, ?_, ?_, ?_, ?_, ?_⟩ <;>
    exact all_release _ _ _ _ (fun _ => rfl)

/-- The releases of `create_output_images` release images and views. -/
theorem target_releases_release (s : Sample) :
    (target_releases s).all Event.is_target_release = true := by
  simp only [target_releases, filterMap_id_cons, List.filterMap_nil, List.all_append,
    List.append_nil, Bool.and_eq_true]
  refine ⟨?_, ?_, ?_, ?_, ?_, ?_, ?_, ?_, ?_, ?_, ?_, ?_⟩ <;>
    exact all_release _ _ _ _ (fun _ => rfl)

/-- The calls `window_resized` adds, and the images it leaves in the sample. -/
theorem window_resized_calls (w h : Nat) (s : Sample) (o : FrameObjects) (ho : s.points_to o) :
    ∃ s', window_resized w h s = some s' ∧
      s'.m_vk_backend.calls = s.m_vk_backend.calls ++
        ([Event.wait_idle] ++ target_releases s ++ target_creates s.m_vk_backend.next_handle ++
        [Event.release .framebuffer o.fbo.handle,
          Event.create .framebuffer (s.m_vk_backend.next_handle + 12)] ++
        write_calls (all_writes s (resized_objects s o))) ∧
      (frame_targets s').map (Option.map (·.handle)) =
        (created_images (target_creates s.m_vk_backend.next_handle)).map some := by
  simp [window_resized, ho.camera, create_output_images, create_framebuffers,
    write_descriptor_sets, ho.rp, ho.dds, ho.ubo, ho.pf, ho.gds, ho.scene, ho.sds, ho.rds, ho.bnv,
    ho.fbo, Backend.vkUpdateDescriptorSets, Backend.wait_idle, Backend.created, Image.create,
    ImageView.create, Framebuffer.create, Nat.add_assoc, Backend.reset_calls, target_releases,
    target_creates, filterMap_id_cons, write_calls, all_writes, resized_objects,
    Option.map_map, Function.comp_def, sampled_write, frame_targets, created_images]

/-- C5. In every ready state `window_resized` returns, and the calls it makes are, in
this order: the idle wait; the calls of `create_output_images`, which are the releases of
the old images and views followed by the creation of the six images and six views; the
calls of `create_framebuffers`, the release of the old framebuffer and the creation of
the new one; and the five `vkUpdateDescriptorSets` calls of `write_descriptor_sets`,
over the objects the sample points to afterwards. So every release of an image or view
comes after the idle wait, and no call before the last creation writes a descriptor.
The six images and the framebuffer the sample holds afterwards are the created ones. -/
theorem window_resized_order (w h : Nat) (s : Sample) (hr : s.ready = true) :
    ∃ s' fbo o', window_resized w h s = some s' ∧ s.m_g_buffer_fbo = some fbo ∧
      s'.points_to o' ∧
      new_calls s.m_vk_backend s'.m_vk_backend =
        [Event.wait_idle] ++ target_releases s ++
        target_creates s.m_vk_backend.next_handle ++
        [Event.release .framebuffer fbo.handle,
          Event.create .framebuffer (s.m_vk_backend.next_handle + 12)] ++
        write_calls (all_writes s o') ∧
      (target_releases s).all Event.is_target_release = true ∧
      (([Event.wait_idle] ++ target_releases s ++
        target_creates s.m_vk_backend.next_handle ++
        [Event.release .framebuffer fbo.handle,
          Event.create .framebuffer (s.m_vk_backend.next_handle + 12)]).all
        fun e => !e.is_descriptor_write) = true ∧
      (write_calls (all_writes s o')).all Event.is_descriptor_write = true ∧
      (write_calls (all_writes s o')).length = 5 ∧
      (frame_targets s').map (Option.map (·.handle)) =
        (created_images (target_creates s.m_vk_backend.next_handle)).map some ∧
      s'.m_g_buffer_fbo.map (·.handle) = some (s.m_vk_backend.next_handle + 12) := by
  obtain ⟨o, ho⟩ := points_to_of_ready s hr
  obtain ⟨s', hs', hcalls, htargets⟩ := window_resized_calls w h s o ho
  obtain ⟨s'', hs'', hpt, -, -⟩ := window_resized_eq w h s o ho
  have hsame : s'' = s' := Option.some.inj (hs''.symm.trans hs')
  rw [hsame] at hpt
  have hrel := target_releases_no_write s
  refine ⟨s', o.fbo, resized_objects s o, hs', ho.fbo, hpt, ?_, target_releases_release s, ?_,
    ?_, ?_, ?_, ?_⟩
  · rw [new_calls, hcalls, List.drop_left]
  · simp only [List.all_append, hrel, Bool.and_eq_true]
    exact ⟨⟨⟨rfl, trivial⟩, rfl⟩, rfl⟩
  · rfl
  · rfl
  · exact htargets
  · rw [hpt.fbo]; rfl

/-- C6. In every ready state `window_resized` returns and leaves the four pipelines, the
four pipeline layouts, both shader binding tables, the five descriptor-set layouts, the
five descriptor sets, the G-buffer render pass, the uniform buffer, the noise texture and
its view, the mesh and the scene as they were; the six images, their six views and the
framebuffer are the thirteen objects created during the call. -/
theorem window_resized_keeps (w h : Nat) (s : Sample) (hr : s.ready = true) :
    ∃ s', window_resized w h s = some s' ∧
      -- the four pipelines
      s'.m_deferred_pipeline = s.m_deferred_pipeline ∧
      s'.m_g_buffer_pipeline = s.m_g_buffer_pipeline ∧
      s'.m_shadow_mask_pipeline = s.m_shadow_mask_pipeline ∧
      s'.m_reflection_pipeline = s.m_reflection_pipeline ∧
      -- the four pipeline layouts
      s'.m_deferred_pipeline_layout = s.m_deferred_pipeline_layout ∧
      s'.m_g_buffer_pipeline_layout = s.m_g_buffer_pipeline_layout ∧
      s'.m_shadow_mask_pipeline_layout = s.m_shadow_mask_pipeline_layout ∧
      s'.m_reflection_pipeline_layout = s.m_reflection_pipeline_layout ∧
      -- both shader binding tables
      s'.m_shadow_mask_sbt = s.m_shadow_mask_sbt ∧
      s'.m_reflection_sbt = s.m_reflection_sbt ∧
      -- the five descriptor-set layouts
      s'.m_deferred_layout = s.m_deferred_layout ∧
      s'.m_per_frame_ds_layout = s.m_per_frame_ds_layout ∧
      s'.m_g_buffer_ds_layout = s.m_g_buffer_ds_layout ∧
      s'.m_shadow_mask_ds_layout = s.m_shadow_mask_ds_layout ∧
      s'.m_reflection_ds_layout = s.m_reflection_ds_layout ∧
      -- the five descriptor sets
      s'.m_deferred_ds = s.m_deferred_ds ∧
      s'.m_per_frame_ds = s.m_per_frame_ds ∧
      s'.m_g_buffer_ds = s.m_g_buffer_ds ∧
      s'.m_shadow_mask_ds = s.m_shadow_mask_ds ∧
      s'.m_reflection_ds = s.m_reflection_ds ∧
      -- render pass, uniform buffer, noise texture, mesh and scene
      s'.m_g_buffer_rp = s.m_g_buffer_rp ∧
      s'.m_ubo = s.m_ubo ∧ s'.m_ubo_size = s.m_ubo_size ∧
      s'.m_blue_noise = s.m_blue_noise ∧ s'.m_blue_noise_view = s.m_blue_noise_view ∧
      s'.m_mesh = s.m_mesh ∧ s'.m_scene = s.m_scene ∧
      -- the six images, the six views and the framebuffer are the ones the call created
      (frame_targets s').map (Option.map (·.handle)) =
        [ some s.m_vk_backend.next_handle, some (s.m_vk_backend.next_handle + 2),
          some (s.m_vk_backend.next_handle + 4), some (s.m_vk_backend.next_handle + 5),
          some (s.m_vk_backend.next_handle + 6), some (s.m_vk_backend.next_handle + 7) ] ∧
      (frame_target_views s').map (Option.map (·.handle)) =
        [ some (s.m_vk_backend.next_handle + 1), some (s.m_vk_backend.next_handle + 3),
          some (s.m_vk_backend.next_handle + 8), some (s.m_vk_backend.next_handle + 9),
          some (s.m_vk_backend.next_handle + 10), some (s.m_vk_backend.next_handle + 11) ] ∧
      s'.m_g_buffer_fbo.map (·.handle) = some (s.m_vk_backend.next_handle + 12) ∧
      s'.m_vk_backend.next_handle = s.m_vk_backend.next_handle + 13 := by
  obtain ⟨o, ho⟩ := points_to_of_ready s hr
  simp [window_resized, ho.camera, create_output_images, create_framebuffers,
    write_descriptor_sets, ho.rp, ho.dds, ho.ubo, ho.pf, ho.gds, ho.scene, ho.sds, ho.rds, ho.bnv,
    Backend.vkUpdateDescriptorSets, Backend.wait_idle, Backend.created, Image.create,
    ImageView.create, Framebuffer.create, Nat.add_assoc, frame_targets, frame_target_views]

/-- Witness for C5 on the concrete application after `init`. -/
theorem window_resized_order_witness :
    (app_ready.set_window_size 1280 720).ready = true ∧
    ∃ s', window_resized 1280 720 (app_ready.set_window_size 1280 720) = some s' ∧
      (new_calls (app_ready.set_window_size 1280 720).m_vk_backend s'.m_vk_backend).head? =
        some Event.wait_idle :=
  ⟨by decide,
    let ⟨s', _, _, hs', _, _, hc, _⟩ :=
      window_resized_order 1280 720 (app_ready.set_window_size 1280 720) (by decide)
    ⟨s', hs', by rw [hc]; rfl⟩⟩

/-- Witness for C6 on the concrete application after `init`. -/
theorem window_resized_keeps_witness :
    (app_ready.set_window_size 1280 720).ready = true ∧
    ∃ s', window_resized 1280 720 (app_ready.set_window_size 1280 720) = some s' ∧
      s'.m_deferred_pipeline = app_ready.m_deferred_pipeline ∧
      s'.m_g_buffer_fbo.map (·.handle) = some (app_ready.m_vk_backend.next_handle + 12) :=
  ⟨by decide,
    let ⟨s', hs', h1, _, _, _, _, _, _, _, _, _, _, _, _, _, _, _, _, _, _, _, _, _, _, _, _, _,
      _, _, _, hf, _⟩ :=
      window_resized_keeps 1280 720 (app_ready.set_window_size 1280 720) (by decide)
    ⟨s', hs', h1, hf⟩⟩

/-- The last write to a binding is one of the writes. -/
theorem last_write_mem (ws : List VkWriteDescriptorSet) (set : Handle) (binding : Nat)
    (w : VkWriteDescriptorSet) (h : last_write ws set binding = some w) : w ∈ ws := by
  have := List.mem_of_find?_eq_some h
  simpa using this

/-- A binding that some write targets has a last write. -/
theorem last_write_isSome (ws : List VkWriteDescriptorSet) (set : Handle) (binding : Nat)
    (h : ∃ w ∈ ws, set = w.dstSet ∧ binding = w.dstBinding) :
    ∃ w, last_write ws set binding = some w := by
  obtain ⟨w, hw, h1, h2⟩ := h
  have : (last_write ws set binding).isSome = true := by
    rw [last_write, List.find?_isSome]
    exact ⟨w, by simpa using hw, by simp [h1, h2]⟩
  exact Option.isSome_iff_exists.mp this

/-- A covered binding holds the descriptor of one of the writes. -/
theorem covered_binding (ws : List VkWriteDescriptorSet)
    (d : Handle → Nat → Option Descriptor) (set : Handle) (binding : Nat)
    (h : ∃ w ∈ ws, set = w.dstSet ∧ binding = w.dstBinding) :
    ∃ w ∈ ws, ws.foldl apply_write d set binding = some w.descriptor := by
  obtain ⟨w, hw⟩ := last_write_isSome ws set binding h
  exact ⟨w, last_write_mem ws set binding w hw, by rw [foldl_apply_write, hw]⟩

/-- The images of a set depend on its layout through the binding numbers only. -/
theorem set_images_eq (b : Backend) (ds : DescriptorSet) :
    set_images b ds =
      (ds.layout.bindings.map (·.binding)).filterMap fun k =>
        (b.descriptors ds.handle k).bind fun d => d.info.image_handle := by
  simp [set_images, List.filterMap_map, Function.comp_def]

/-- Every image written by `all_writes` over the resized objects is new or the noise. -/
theorem all_writes_resized_images (s : Sample) (o : FrameObjects) :
    ∀ w ∈ all_writes s (resized_objects s o), ∀ img, w.info.image_handle = some img →
      s.m_vk_backend.next_handle ≤ img ∨ img = o.bnv.image.handle := by
  intro w hw img himg
  simp only [all_writes, List.mem_cons, List.mem_singleton, List.not_mem_nil, or_false] at hw
  rcases hw with rfl | rfl | rfl | rfl | rfl | rfl | rfl | rfl | rfl | rfl | rfl | rfl | rfl | rfl <;>
    simp [sampled_write, storage_write, acceleration_structure_write,
      DescriptorInfo.image_handle, resized_objects] at himg <;>
    first
    | exact Or.inl (le_of_eq himg)
    | exact Or.inl (Nat.le.intro himg)
    | exact Or.inr himg.symm

/-- C7, amended. In every ready state whose five descriptor sets declare the bindings of
`create_descriptor_set_layouts`, `window_resized` returns and the frame that `update`
records next references, through the descriptors of the five sets, through the
attachments of the G-buffer framebuffer and as barrier targets, only images created by
the resize (their handles are not below the object counter at the time of the call),
with one exception: the blue-noise texture, which is resolution independent, was created
by `load_blue_noise` and is referenced through binding 2 of the reflection set. -/
theorem resize_frame_images (w h : Nat) (s : Sample) (hr : s.ready = true)
    (hsets : s.sets_as_created = true) :
    ∃ s1 s2 cmds noise, window_resized w h s = some s1 ∧ update s1 = some (s2, cmds) ∧
      s.m_blue_noise_view = some noise ∧
      (∀ img ∈ frame_images s2 cmds,
        s.m_vk_backend.next_handle ≤ img ∨ img = noise.image.handle) ∧
      noise.image.handle ∈ frame_images s2 cmds := by
  obtain ⟨o, ho⟩ := points_to_of_ready s hr
  obtain ⟨s1, hs1, hpt, hdesc, -⟩ := window_resized_eq w h s o ho
  have hupd := update_eq s1 _ hpt
  simp only [Sample.sets_as_created, Bool.and_eq_true, beq_iff_eq, ho.dds, ho.pf, ho.gds,
    ho.sds, ho.rds, Option.map_some', Option.some.injEq] at hsets
  obtain ⟨⟨⟨⟨hb1, hb2⟩, hb3⟩, hb4⟩, hb5⟩ := hsets
  have hP := all_writes_resized_images s o
  -- the descriptor of a covered binding refers to a new image or to the noise
  have key : ∀ set k img,
      (∃ w ∈ all_writes s (resized_objects s o), set = w.dstSet ∧ k = w.dstBinding) →
      ((s1.m_vk_backend.descriptors set k).bind fun d => d.info.image_handle) = some img →
      s.m_vk_backend.next_handle ≤ img ∨ img = o.bnv.image.handle := by
    intro set k img hcov himg
    obtain ⟨w, hw, hval⟩ := covered_binding _ s.m_vk_backend.descriptors set k hcov
    rw [hdesc, hval] at himg
    exact hP w hw img himg
  -- the images of a set whose declared bindings are all written
  have hset : ∀ (ds : DescriptorSet) (ks : List Nat),
      ds.layout.bindings.map (·.binding) = ks →
      (∀ k ∈ ks, ∃ w ∈ all_writes s (resized_objects s o),
        ds.handle = w.dstSet ∧ k = w.dstBinding) →
      ∀ img ∈ set_images s1.m_vk_backend ds,
        s.m_vk_backend.next_handle ≤ img ∨ img = o.bnv.image.handle := by
    intro ds ks hks hcov img himg
    rw [set_images_eq, hks, List.mem_filterMap] at himg
    obtain ⟨k, hk, hval⟩ := himg
    exact key ds.handle k img (hcov k hk) hval
  have c1 : ∀ img ∈ set_images s1.m_vk_backend o.dds,
      s.m_vk_backend.next_handle ≤ img ∨ img = o.bnv.image.handle := by
    refine hset o.dds _ hb1 ?_
    intro k hk
    simp only [List.mem_cons, List.mem_singleton, List.not_mem_nil, or_false] at hk
    rcases hk with rfl | rfl | rfl | rfl | rfl
    · exact ⟨_, by simp only [all_writes, List.mem_cons]; exact Or.inl rfl, rfl, rfl⟩
    · exact ⟨_, by simp only [all_writes, List.mem_cons]; exact Or.inr (Or.inl rfl), rfl, rfl⟩
    · exact ⟨_, by simp only [all_writes, List.mem_cons]; exact Or.inr (Or.inr (Or.inl rfl)), rfl, rfl⟩
    · exact ⟨_, by simp only [all_writes, List.mem_cons]; exact Or.inr (Or.inr (Or.inr (Or.inl rfl))), rfl, rfl⟩
    · exact ⟨_, by simp only [all_writes, List.mem_cons]; exact Or.inr (Or.inr (Or.inr (Or.inr (Or.inl rfl)))), rfl, rfl⟩
  have c2 : ∀ img ∈ set_images s1.m_vk_backend o.pf,
      s.m_vk_backend.next_handle ≤ img ∨ img = o.bnv.image.handle := by
    refine hset o.pf _ hb2 ?_
    intro k hk
    simp only [List.mem_singleton] at hk
    subst hk
    exact ⟨_, by simp only [all_writes, List.mem_cons]; exact Or.inr (Or.inr (Or.inr (Or.inr (Or.inr (Or.inl rfl))))), rfl, rfl⟩
  have c3 : ∀ img ∈ set_images s1.m_vk_backend o.gds,
      s.m_vk_backend.next_handle ≤ img ∨ img = o.bnv.image.handle := by
    refine hset o.gds _ hb3 ?_
    intro k hk
    simp only [List.mem_cons, List.mem_singleton, List.not_mem_nil, or_false] at hk
    rcases hk with rfl | rfl | rfl
    · exact ⟨_, by simp only [all_writes, List.mem_cons]; exact Or.inr (Or.inr (Or.inr (Or.inr (Or.inr (Or.inr (Or.inl rfl)))))), rfl, rfl⟩
    · exact ⟨_, by simp only [all_writes, List.mem_cons]; exact Or.inr (Or.inr (Or.inr (Or.inr (Or.inr (Or.inr (Or.inr (Or.inl rfl))))))), rfl, rfl⟩
    · exact ⟨_, by simp only [all_writes, List.mem_cons]; exact Or.inr (Or.inr (Or.inr (Or.inr (Or.inr (Or.inr (Or.inr (Or.inr (Or.inl rfl)))))))), rfl, rfl⟩
  have c4 : ∀ img ∈ set_images s1.m_vk_backend o.sds,
      s.m_vk_backend.next_handle ≤ img ∨ img = o.bnv.image.handle := by
    refine hset o.sds _ hb4 ?_
    intro k hk
    simp only [List.mem_cons, List.mem_singleton, List.not_mem_nil, or_false] at hk
    rcases hk with rfl | rfl
    · exact ⟨_, by simp only [all_writes, List.mem_cons]; exact Or.inr (Or.inr (Or.inr (Or.inr (Or.inr (Or.inr (Or.inr (Or.inr (Or.inr (Or.inl rfl))))))))), rfl, rfl⟩
    · exact ⟨_, by simp only [all_writes, List.mem_cons]; exact Or.inr (Or.inr (Or.inr (Or.inr (Or.inr (Or.inr (Or.inr (Or.inr (Or.inr (Or.inr (Or.inl rfl)))))))))), rfl, rfl⟩
  have c5 : ∀ img ∈ set_images s1.m_vk_backend o.rds,
      s.m_vk_backend.next_handle ≤ img ∨ img = o.bnv.image.handle := by
    refine hset o.rds _ hb5 ?_
    intro k hk
    simp only [List.mem_cons, List.mem_singleton, List.not_mem_nil, or_false] at hk
    rcases hk with rfl | rfl | rfl
    · exact ⟨_, by simp only [all_writes, List.mem_cons]; exact Or.inr (Or.inr (Or.inr (Or.inr (Or.inr (Or.inr (Or.inr (Or.inr (Or.inr (Or.inr (Or.inr (Or.inl rfl))))))))))), rfl, rfl⟩
    · exact ⟨_, by simp only [all_writes, List.mem_cons]; exact Or.inr (Or.inr (Or.inr (Or.inr (Or.inr (Or.inr (Or.inr (Or.inr (Or.inr (Or.inr (Or.inr (Or.inr (Or.inl rfl)))))))))))), rfl, rfl⟩
    · exact ⟨_, by simp only [all_writes, List.mem_cons]; exact Or.inr (Or.inr (Or.inr (Or.inr (Or.inr (Or.inr (Or.inr (Or.inr (Or.inr (Or.inr (Or.inr (Or.inr (Or.inr (Or.inl rfl))))))))))))), rfl, rfl⟩
  -- the barriers of the frame
  have hbar : barrier_images (frame_commands s1 (resized_objects s o)) =
      [s.m_vk_backend.next_handle, s.m_vk_backend.next_handle,
        s.m_vk_backend.next_handle + 2, s.m_vk_backend.next_handle + 2] := by
    have hd : barrier_images (draw_commands (resized_objects s o).glayout.handle
        (resized_objects s o).mesh (resized_objects s o).mesh.sub_meshes) = [] :=
      filterMap_draw_commands _ _ _ _ (fun _ _ _ _ => rfl) (fun _ _ _ _ _ => rfl)
    have hall : barrier_images (frame_commands s1 (resized_objects s o)) =
        barrier_images (gbuffer_body s1 (resized_objects s o)) ++
        barrier_images (shadow_body s1 (resized_objects s o)) ++
        barrier_images (reflection_body s1 (resized_objects s o)) ++
        barrier_images (composite_body s1 (resized_objects s o)) :=
      filterMap_frame _ _ _ (fun _ => rfl) (fun _ => rfl)
    have happ : ∀ l r, barrier_images (l ++ r) = barrier_images l ++ barrier_images r := by
      intro l r; simp [barrier_images]
    rw [hall]
    simp only [gbuffer_body, happ, hd]
    simp [barrier_images, render_gbuffer_begin, shadow_body, reflection_body, composite_body,
      ray_trace_shadow_mask_commands, ray_trace_reflection_commands, render_commands,
      resized_objects]
  have hfi : frame_images (frame_state s1 (resized_objects s o).camera (resized_objects s o).ubo
      (frame_commands s1 (resized_objects s o))) (frame_commands s1 (resized_objects s o)) =
      set_images s1.m_vk_backend o.dds ++ (set_images s1.m_vk_backend o.pf ++
      (set_images s1.m_vk_backend o.gds ++ (set_images s1.m_vk_backend o.sds ++
      set_images s1.m_vk_backend o.rds))) ++
      [s.m_vk_backend.next_handle + 4, s.m_vk_backend.next_handle + 5,
        s.m_vk_backend.next_handle + 6, s.m_vk_backend.next_handle + 7] ++
      [s.m_vk_backend.next_handle, s.m_vk_backend.next_handle,
        s.m_vk_backend.next_handle + 2, s.m_vk_backend.next_handle + 2] := by
    rw [frame_images, hbar]
    simp [frame_state, hpt.dds, hpt.pf, hpt.gds, hpt.sds, hpt.rds, hpt.fbo, resized_objects,
      set_images, Backend.submit_and_present]
  refine ⟨s1, _, _, o.bnv, hs1, hupd, ho.bnv, ?_, ?_⟩
  · intro img himg
    rw [hfi] at himg
    simp only [List.mem_append, List.mem_cons, List.mem_singleton, List.not_mem_nil,
      or_false] at himg
    rcases himg with ((h1 | h2 | h3 | h4 | h5) | h6) | h7
    · exact c1 img h1
    · exact c2 img h2
    · exact c3 img h3
    · exact c4 img h4
    · exact c5 img h5
    · rcases h6 with rfl | rfl | rfl | rfl <;> exact Or.inl (Nat.le_add_right _ _)
    · rcases h7 with rfl | rfl | rfl | rfl <;>
        first | exact Or.inl (le_refl _) | exact Or.inl (Nat.le_add_right _ _)
  · rw [hfi]
    have hmem : o.bnv.image.handle ∈ set_images s1.m_vk_backend o.rds := by
      rw [set_images_eq, hb5, List.mem_filterMap]
      refine ⟨2, by simp, ?_⟩
      rw [hdesc, foldl_apply_write]
      simp [last_write, all_writes, sampled_write, VkWriteDescriptorSet.descriptor,
        DescriptorInfo.image_handle, resized_objects]
    simp only [List.mem_append]
    exact Or.inl (Or.inl (Or.inr (Or.inr (Or.inr (Or.inr hmem)))))

/-- C7, counterexample. After `init` at 1920 x 1080 and a resize to 1280 x 720 the next
frame references an image created before the resize: the blue-noise image, created by
`load_blue_noise` during `init`, is among the images of the frame. -/
theorem resize_references_old_image :
    ∃ s0 s1 s2 cmds, resize_scenario = some (s0, s1, s2, cmds) ∧
      ¬ (∀ img ∈ frame_images s2 cmds, s0.m_vk_backend.next_handle ≤ img) ∧
      ∃ img ∈ frame_images s2 cmds, img < s0.m_vk_backend.next_handle ∧
        s0.m_blue_noise.map (·.handle) = some img ∧
        Event.create .image img ∈ s0.m_vk_backend.calls := by
  have h : (resize_scenario.map fun p =>
      decide (∃ img ∈ frame_images p.2.2.1 p.2.2.2, img < p.1.m_vk_backend.next_handle ∧
        p.1.m_blue_noise.map (·.handle) = some img ∧
        Event.create .image img ∈ p.1.m_vk_backend.calls)) = some true := by
    decide!
  cases hsc : resize_scenario with
  | none => simp [hsc] at h
  | some p =>
    obtain ⟨s0, s1, s2, cmds⟩ := p
    simp only [hsc, Option.map_some', Option.some.injEq, decide_eq_true_eq] at h
    obtain ⟨img, hmem, hlt, hnoise, hcreated⟩ := h
    refine ⟨s0, s1, s2, cmds, rfl, ?_, img, hmem, hlt, hnoise, hcreated⟩
    intro hall
    exact absurd (hall img hmem) (Nat.not_le.mpr hlt)

/-- Witness for C7 (amended): the resize of the concrete application to 1280 x 720. -/
theorem resize_frame_images_witness :
    (app_ready.set_window_size 1280 720).ready = true ∧
    (app_ready.set_window_size 1280 720).sets_as_created = true ∧
    ∃ s1 s2 cmds noise,
      window_resized 1280 720 (app_ready.set_window_size 1280 720) = some s1 ∧
      update s1 = some (s2, cmds) ∧
      (app_ready.set_window_size 1280 720).m_blue_noise_view = some noise ∧
      (∀ img ∈ frame_images s2 cmds,
        (app_ready.set_window_size 1280 720).m_vk_backend.next_handle ≤ img ∨
          img = noise.image.handle) ∧
      noise.image.handle ∈ frame_images s2 cmds :=
  ⟨by decide, by decide,
    resize_frame_images 1280 720 (app_ready.set_window_size 1280 720) (by decide) (by decide)⟩

/-! ## Descriptor sets against their layouts -/

/-- When the thirteen pointers it reads are set, `write_descriptor_sets` returns; it
changes nothing but the backend, to which it adds the five calls over `set_writes`. -/
theorem write_descriptor_sets_some (s : Sample) (sv rv g1 g2 g3 bn : ImageView) (ubo : Buffer)
    (scene : Scene) (dds pf gds sds rds : DescriptorSet)
    (hsv : s.m_shadow_mask_view = some sv) (hrv : s.m_reflection_view = some rv)
    (hg1 : s.m_g_buffer_1_view = some g1) (hg2 : s.m_g_buffer_2_view = some g2)
    (hg3 : s.m_g_buffer_3_view = some g3) (hbn : s.m_blue_noise_view = some bn)
    (hubo : s.m_ubo = some ubo) (hscene : s.m_scene = some scene)
    (hdds : s.m_deferred_ds = some dds) (hpf : s.m_per_frame_ds = some pf)
    (hgds : s.m_g_buffer_ds = some gds) (hsds : s.m_shadow_mask_ds = some sds)
    (hrds : s.m_reflection_ds = some rds) :
    ∃ s', write_descriptor_sets s = some s' ∧
      s' = { s with m_vk_backend := s'.m_vk_backend } ∧
      s'.m_vk_backend.descriptors =
        (set_writes s.m_vk_backend dds.handle pf.handle gds.handle sds.handle rds.handle
          sv rv g1 g2 g3 bn ubo.handle scene.acceleration_structure).foldl apply_write
          s.m_vk_backend.descriptors ∧
      descriptor_writes (new_calls s.m_vk_backend s'.m_vk_backend) =
        set_writes s.m_vk_backend dds.handle pf.handle gds.handle sds.handle rds.handle
          sv rv g1 g2 g3 bn ubo.handle scene.acceleration_structure := by
  simp [write_descriptor_sets, hsv, hrv, hg1, hg2, hg3, hbn, hubo, hscene, hdds, hpf, hgds,
    hsds, hrds, Backend.vkUpdateDescriptorSets, set_writes, sampled_write, new_calls,
    descriptor_writes]
/-- An assignment of a created object advances the object counter by one. -/
theorem Backend.assigned_next_handle (b : Backend) (k : ObjectKind) (o : Option Handle) :
    (b.assigned k o).next_handle = b.next_handle + 1 := by
  simp [Backend.assigned, Backend.created]

/-- The bindings of the five layouts `create_descriptor_set_layouts` leaves. -/
theorem create_descriptor_set_layouts_eq (s : Sample) :
    ∃ dl pl gl sl rl,
      (create_descriptor_set_layouts s).m_deferred_layout = some dl ∧
      (create_descriptor_set_layouts s).m_per_frame_ds_layout = some pl ∧
      (create_descriptor_set_layouts s).m_g_buffer_ds_layout = some gl ∧
      (create_descriptor_set_layouts s).m_shadow_mask_ds_layout = some sl ∧
      (create_descriptor_set_layouts s).m_reflection_ds_layout = some rl ∧
      declared_bindings dl =
        [ (0, .VK_DESCRIPTOR_TYPE_COMBINED_IMAGE_SAMPLER, 1),
          (1, .VK_DESCRIPTOR_TYPE_COMBINED_IMAGE_SAMPLER, 1),
          (2, .VK_DESCRIPTOR_TYPE_COMBINED_IMAGE_SAMPLER, 1),
          (3, .VK_DESCRIPTOR_TYPE_COMBINED_IMAGE_SAMPLER, 1),
          (4, .VK_DESCRIPTOR_TYPE_COMBINED_IMAGE_SAMPLER, 1) ] ∧
      declared_bindings pl = [ (0, .VK_DESCRIPTOR_TYPE_UNIFORM_BUFFER_DYNAMIC, 1) ] ∧
      declared_bindings gl =
        [ (0, .VK_DESCRIPTOR_TYPE_COMBINED_IMAGE_SAMPLER, 1),
          (1, .VK_DESCRIPTOR_TYPE_COMBINED_IMAGE_SAMPLER, 1),
          (2, .VK_DESCRIPTOR_TYPE_COMBINED_IMAGE_SAMPLER, 1) ] ∧
      declared_bindings sl =
        [ (0, .VK_DESCRIPTOR_TYPE_ACCELERATION_STRUCTURE_NV, 1),
          (1, .VK_DESCRIPTOR_TYPE_STORAGE_IMAGE, 1) ] ∧
      declared_bindings rl =
        [ (0, .VK_DESCRIPTOR_TYPE_ACCELERATION_STRUCTURE_NV, 1),
          (1, .VK_DESCRIPTOR_TYPE_STORAGE_IMAGE, 1),
          (2, .VK_DESCRIPTOR_TYPE_COMBINED_IMAGE_SAMPLER, 1) ] ∧
      (create_descriptor_set_layouts s).write_sources = s.write_sources :=
  ⟨_, _, _, _, _, rfl, rfl, rfl, rfl, rfl, rfl, rfl, rfl, rfl, rfl, rfl⟩

/-- When the five layout pointers are set, `create_descriptor_sets` returns: the five
sets are allocated from the five layouts and get five consecutive handles. -/
theorem create_descriptor_sets_eq (s : Sample) (dl pl gl sl rl : DescriptorSetLayout)
    (hd : s.m_deferred_layout = some dl) (hp : s.m_per_frame_ds_layout = some pl)
    (hg : s.m_g_buffer_ds_layout = some gl) (hs : s.m_shadow_mask_ds_layout = some sl)
    (hr : s.m_reflection_ds_layout = some rl) :
    ∃ s', create_descriptor_sets s = some s' ∧
      s'.sets_and_layouts =
        [ (some ⟨s.m_vk_backend.next_handle, dl⟩, some dl),
          (some ⟨s.m_vk_backend.next_handle + 1, pl⟩, some pl),
          (some ⟨s.m_vk_backend.next_handle + 2, gl⟩, some gl),
          (some ⟨s.m_vk_backend.next_handle + 3, sl⟩, some sl),
          (some ⟨s.m_vk_backend.next_handle + 4, rl⟩, some rl) ] ∧
      s'.write_sources = s.write_sources := by
  simp only [create_descriptor_sets, hd, hp, hg, hs, hr]
  refine ⟨_, rfl, ?_, rfl⟩
  simp only [Sample.sets_and_layouts, Backend.allocate_descriptor_set,
    Backend.assigned_next_handle, hd, hp, hg, hs, hr, Nat.add_assoc]

/-- A declared binding is one of the triples of `declared_bindings`. -/
theorem mem_declared_bindings (l : DescriptorSetLayout) (bd : Binding) (h : bd ∈ l.bindings) :
    (bd.binding, bd.descriptorType, bd.descriptorCount) ∈ declared_bindings l :=
  List.mem_map_of_mem (fun bd => (bd.binding, bd.descriptorType, bd.descriptorCount)) h

/-- C11. Let the layouts be declared by `create_descriptor_set_layouts` and the sets be
allocated by `create_descriptor_sets`, as in `init`, with the views, the uniform buffer
and the scene that `write_descriptor_sets` reads in place. Then both calls return, and
for each of the five descriptor sets (composite, per-frame, G-buffer, shadow-mask,
reflection) the writes of `write_descriptor_sets` that target the set, read as (binding
index, descriptor type, descriptor count), are exactly what the layout of the set
declares, binding for binding; after the call every binding declared by the layout holds
a descriptor of the declared type and count: no set is partially written. -/
theorem written_bindings_declared (s : Sample) (h : s.write_sources = true) :
    ∃ s2 s3, create_descriptor_sets (create_descriptor_set_layouts s) = some s2 ∧
      write_descriptor_sets s2 = some s3 ∧
      s3.sets_and_layouts = s2.sets_and_layouts ∧
      s2.sets_and_layouts.map (·.2) =
        (create_descriptor_set_layouts s).sets_and_layouts.map (·.2) ∧
      ∀ p ∈ s3.sets_and_layouts, ∃ ds, p = (some ds, some ds.layout) ∧
        written_bindings (descriptor_writes (new_calls s2.m_vk_backend s3.m_vk_backend))
          ds.handle = declared_bindings ds.layout ∧
        ∀ bd ∈ ds.layout.bindings, ∃ d,
          s3.m_vk_backend.descriptors ds.handle bd.binding = some d ∧
          d.descriptorType = bd.descriptorType ∧ d.descriptorCount = bd.descriptorCount := by
  obtain ⟨dl, pl, gl, sl, rl, hd, hp, hg, hs, hr, hdb, hpb, hgb, hsb, hrb, hsrc⟩ :=
    create_descriptor_set_layouts_eq s
  obtain ⟨s2, hs2, hsets, hsrc2⟩ := create_descriptor_sets_eq _ dl pl gl sl rl hd hp hg hs hr
  rw [hsrc, h] at hsrc2
  simp only [Sample.write_sources, Bool.and_eq_true, Option.isSome_iff_exists] at hsrc2
  obtain ⟨⟨⟨⟨⟨⟨⟨⟨sv, hsv⟩, ⟨rv, hrv⟩⟩, ⟨g1, hg1⟩⟩, ⟨g2, hg2⟩⟩, ⟨g3, hg3⟩⟩, ⟨bn, hbn⟩⟩,
    ⟨ubo, hubo⟩⟩, ⟨scene, hscene⟩⟩ := hsrc2
  generalize (create_descriptor_set_layouts s).m_vk_backend.next_handle = n at hsets
  have hl : (create_descriptor_set_layouts s).sets_and_layouts.map (·.2) =
      [some dl, some pl, some gl, some sl, some rl] := by
    simp only [Sample.sets_and_layouts, List.map_cons, List.map_nil, hd, hp, hg, hs, hr]
  rw [hl]
  have hsets' := hsets
  simp only [Sample.sets_and_layouts, List.cons.injEq, Prod.mk.injEq, and_true] at hsets'
  obtain ⟨⟨hdds, -⟩, ⟨hpf, -⟩, ⟨hgds, -⟩, ⟨hsds, -⟩, ⟨hrds, -⟩⟩ := hsets'
  obtain ⟨s3, hs3, hframe, hdesc, hwrites⟩ := write_descriptor_sets_some s2 sv rv g1 g2 g3 bn
    ubo scene _ _ _ _ _ hsv hrv hg1 hg2 hg3 hbn hubo hscene hdds hpf hgds hsds hrds
  have hkeep : s3.sets_and_layouts = s2.sets_and_layouts := by rw [hframe]; rfl
  refine ⟨s2, s3, hs2, hs3, hkeep, ?_, ?_⟩
  · rw [hsets]; rfl
  · rw [hkeep, hsets, hwrites, hdesc]
    intro p hp
    simp only [List.mem_cons, List.mem_singleton, List.not_mem_nil, or_false] at hp
    rcases hp with rfl | rfl | rfl | rfl | rfl
    · refine ⟨_, rfl, ?_, ?_⟩
      · simp [written_bindings, set_writes, sampled_write, storage_write,
          acceleration_structure_write, List.filter_cons, hdb]
      · intro bd hbd
        have hk := mem_declared_bindings _ bd hbd
        simp only [hdb, List.mem_cons, List.mem_singleton, List.not_mem_nil, or_false,
          Prod.mk.injEq] at hk
        rcases hk with ⟨h0, h1, h2⟩ | ⟨h0, h1, h2⟩ | ⟨h0, h1, h2⟩ | ⟨h0, h1, h2⟩ | ⟨h0, h1, h2⟩ <;>
        simp [h0, h1, h2, set_writes, sampled_write, storage_write,
          acceleration_structure_write, apply_write]
    · refine ⟨_, rfl, ?_, ?_⟩
      · simp [written_bindings, set_writes, sampled_write, storage_write,
          acceleration_structure_write, List.filter_cons, hpb]
      · intro bd hbd
        have hk := mem_declared_bindings _ bd hbd
        simp only [hpb, List.mem_cons, List.mem_singleton, List.not_mem_nil, or_false,
          Prod.mk.injEq] at hk
        obtain ⟨h0, h1, h2⟩ := hk
        simp [h0, h1, h2, set_writes, sampled_write, storage_write,
          acceleration_structure_write, apply_write]
    · refine ⟨_, rfl, ?_, ?_⟩
      · simp [written_bindings, set_writes, sampled_write, storage_write,
          acceleration_structure_write, List.filter_cons, hgb]
      · intro bd hbd
        have hk := mem_declared_bindings _ bd hbd
        simp only [hgb, List.mem_cons, List.mem_singleton, List.not_mem_nil, or_false,
          Prod.mk.injEq] at hk
        rcases hk with ⟨h0, h1, h2⟩ | ⟨h0, h1, h2⟩ | ⟨h0, h1, h2⟩ <;>
        simp [h0, h1, h2, set_writes, sampled_write, storage_write,
          acceleration_structure_write, apply_write]
    · refine ⟨_, rfl, ?_, ?_⟩
      · simp [written_bindings, set_writes, sampled_write, storage_write,
          acceleration_structure_write, List.filter_cons, hsb]
      · intro bd hbd
        have hk := mem_declared_bindings _ bd hbd
        simp only [hsb, List.mem_cons, List.mem_singleton, List.not_mem_nil, or_false,
          Prod.mk.injEq] at hk
        rcases hk with ⟨h0, h1, h2⟩ | ⟨h0, h1, h2⟩ <;>
        simp [h0, h1, h2, set_writes, sampled_write, storage_write,
          acceleration_structure_write, apply_write]
    · refine ⟨_, rfl, ?_, ?_⟩
      · simp [written_bindings, set_writes, sampled_write, storage_write,
          acceleration_structure_write, List.filter_cons, hrb]
      · intro bd hbd
        have hk := mem_declared_bindings _ bd hbd
        simp only [hrb, List.mem_cons, List.mem_singleton, List.not_mem_nil, or_false,
          Prod.mk.injEq] at hk
        rcases hk with ⟨h0, h1, h2⟩ | ⟨h0, h1, h2⟩ | ⟨h0, h1, h2⟩ <;>
        simp [h0, h1, h2, set_writes, sampled_write, storage_write,
          acceleration_structure_write, apply_write]

/-- Witness for C11: the views, the uniform buffer and the scene of the concrete
application after `init`. -/
theorem written_bindings_declared_witness :
    app_ready.write_sources = true ∧
    ∃ s2 s3, create_descriptor_sets (create_descriptor_set_layouts app_ready) = some s2 ∧
      write_descriptor_sets s2 = some s3 ∧
      ∀ p ∈ s3.sets_and_layouts, ∃ ds, p = (some ds, some ds.layout) ∧
        written_bindings (descriptor_writes (new_calls s2.m_vk_backend s3.m_vk_backend))
          ds.handle = declared_bindings ds.layout :=
  ⟨by decide,
    let ⟨s2, s3, h2, h3, _, _, hall⟩ := written_bindings_declared app_ready (by decide)
    ⟨s2, s3, h2, h3, fun p hp => let ⟨ds, hds, hw, _⟩ := hall p hp; ⟨ds, hds, hw⟩⟩⟩

/-! ## Pipeline layouts and the sets the passes bind -/

/-- C12. On every device on which the mesh loads and no pipeline creation fails, `init`
returns true and leaves a shadow pipeline of recursion depth 1 whose pipeline layout
lists exactly three descriptor-set layouts: slot 0 the shadow-pass layout (an
acceleration structure and a storage image), slot 1 the per-frame layout (one dynamic
uniform buffer), slot 2 the G-buffer layout (three combined image samplers); and
`ray_trace_shadow_mask` binds exactly three sets, at the slots 0, 1 and 2: the
shadow-mask set, the per-frame set with exactly one dynamic offset, and the G-buffer set,
each allocated from the layout that the pipeline layout lists at its slot. -/
theorem shadow_pipeline_slots (w h : Nat) (b : Backend) (m : Mesh)
    (hm : b.mesh_files "mesh/sponza.obj" = some m)
    (hp : ∀ p, b.pipeline_creation_fails p = false) :
    ∃ s', init (Sample.start w h b) = some (true, s') ∧
    ∃ layout, s'.m_shadow_mask_pipeline_layout = some layout ∧
    ∃ pipeline, s'.m_shadow_mask_pipeline = some pipeline ∧
    ∃ sds, s'.m_shadow_mask_ds = some sds ∧
    ∃ pf, s'.m_per_frame_ds = some pf ∧
    ∃ gds, s'.m_g_buffer_ds = some gds ∧
    ∃ cmds, ray_trace_shadow_mask s' [] = some cmds ∧
      pipeline.pipeline_layout = layout ∧ pipeline.recursion_depth = 1 ∧
      layout.set_layouts = [sds.layout, pf.layout, gds.layout] ∧
      s'.m_shadow_mask_ds_layout = some sds.layout ∧
      s'.m_per_frame_ds_layout = some pf.layout ∧
      s'.m_g_buffer_ds_layout = some gds.layout ∧
      layout.set_layouts.map DescriptorSetLayout.types =
        [ [.VK_DESCRIPTOR_TYPE_ACCELERATION_STRUCTURE_NV, .VK_DESCRIPTOR_TYPE_STORAGE_IMAGE],
          [.VK_DESCRIPTOR_TYPE_UNIFORM_BUFFER_DYNAMIC],
          [.VK_DESCRIPTOR_TYPE_COMBINED_IMAGE_SAMPLER, .VK_DESCRIPTOR_TYPE_COMBINED_IMAGE_SAMPLER,
            .VK_DESCRIPTOR_TYPE_COMBINED_IMAGE_SAMPLER] ] ∧
      descriptor_binds cmds =
        [ (.VK_PIPELINE_BIND_POINT_RAY_TRACING_NV, layout.handle, 0, [sds.handle], []),
          (.VK_PIPELINE_BIND_POINT_RAY_TRACING_NV, layout.handle, 1, [pf.handle],
            [dynamic_offset s']),
          (.VK_PIPELINE_BIND_POINT_RAY_TRACING_NV, layout.handle, 2, [gds.handle], []) ] := by
  simp [hp, init, Sample.start, create_shaders, create_uniform_buffer, load_mesh, Mesh.load,
    Mesh.load_backend, hm, Backend.assigned, Backend.created, Backend.reset, Scene.create,
    Scene.create_backend, load_blue_noise, create_output_images, create_render_passes,
    create_framebuffers, create_descriptor_set_layouts, create_descriptor_sets,
    write_descriptor_sets, create_deferred_pipeline, create_gbuffer_pipeline,
    create_shadow_mask_ray_tracing_pipeline, create_reflection_ray_tracing_pipeline,
    create_camera, Backend.vkUpdateDescriptorSets, PipelineLayout.create,
    Backend.allocate_descriptor_set, GraphicsPipeline.create, RayTracingPipeline.create,
    GraphicsPipeline.create_backend, RayTracingPipeline.create_backend,
    ray_trace_shadow_mask, ray_trace_shadow_mask_commands, descriptor_binds,
    DescriptorSetLayout.types, dynamic_offset]

/-- Witness for C12: the concrete device and mesh. -/
theorem shadow_pipeline_slots_witness :
    device.mesh_files "mesh/sponza.obj" = some sponza ∧
    (∀ p, device.pipeline_creation_fails p = false) ∧
    ∃ s' layout sds pf gds, init (Sample.start 1920 1080 device) = some (true, s') ∧
      s'.m_shadow_mask_pipeline_layout = some layout ∧ s'.m_shadow_mask_ds = some sds ∧
      s'.m_per_frame_ds = some pf ∧ s'.m_g_buffer_ds = some gds ∧
      layout.set_layouts = [sds.layout, pf.layout, gds.layout] :=
  ⟨rfl, fun _ => rfl,
    let ⟨s', hi, layout, hl, _, _, sds, hs, pf, hpf, gds, hg, _, _, _, _, hset, _⟩ :=
      shadow_pipeline_slots 1920 1080 device sponza rfl (fun _ => rfl)
    ⟨s', layout, sds, pf, gds, hi, hl, hs, hpf, hg, hset⟩⟩

/-- C13. On every device on which the mesh loads and no pipeline creation fails, `init`
returns true and leaves a reflection pipeline whose pipeline layout lists exactly eight
descriptor-set layouts, slots 0 to 7: the reflection-pass layout (acceleration structure,
storage image, combined image sampler for the noise texture), the per-frame layout, the
G-buffer layout, then five layouts supplied by the scene (its geometry layout and four
times its material layout); and `ray_trace_reflection` binds exactly eight descriptor
sets, one at each slot 0 to 7 in this order: the reflection set, the per-frame set with
the dynamic offset of the frame, the G-buffer set, then the geometry, albedo, normal,
roughness and metallic sets of the scene. -/
theorem reflection_pipeline_slots (w h : Nat) (b : Backend) (m : Mesh)
    (hm : b.mesh_files "mesh/sponza.obj" = some m)
    (hp : ∀ p, b.pipeline_creation_fails p = false) :
    ∃ s', init (Sample.start w h b) = some (true, s') ∧
    ∃ layout, s'.m_reflection_pipeline_layout = some layout ∧
    ∃ pipeline, s'.m_reflection_pipeline = some pipeline ∧
    ∃ rds, s'.m_reflection_ds = some rds ∧
    ∃ pf, s'.m_per_frame_ds = some pf ∧
    ∃ gds, s'.m_g_buffer_ds = some gds ∧
    ∃ scene, s'.m_scene = some scene ∧
    ∃ cmds, ray_trace_reflection s' [] = some cmds ∧
      pipeline.pipeline_layout = layout ∧ pipeline.recursion_depth = 1 ∧
      layout.set_layouts =
        [ rds.layout, pf.layout, gds.layout, scene.ray_tracing_geometry_descriptor_set_layout,
          scene.material_descriptor_set_layout, scene.material_descriptor_set_layout,
          scene.material_descriptor_set_layout, scene.material_descriptor_set_layout ] ∧
      s'.m_reflection_ds_layout = some rds.layout ∧
      s'.m_per_frame_ds_layout = some pf.layout ∧
      s'.m_g_buffer_ds_layout = some gds.layout ∧
      rds.layout.types =
        [.VK_DESCRIPTOR_TYPE_ACCELERATION_STRUCTURE_NV, .VK_DESCRIPTOR_TYPE_STORAGE_IMAGE,
          .VK_DESCRIPTOR_TYPE_COMBINED_IMAGE_SAMPLER] ∧
      descriptor_binds cmds =
        [ (.VK_PIPELINE_BIND_POINT_RAY_TRACING_NV, layout.handle, 0, [rds.handle], []),
          (.VK_PIPELINE_BIND_POINT_RAY_TRACING_NV, layout.handle, 1, [pf.handle],
            [dynamic_offset s']),
          (.VK_PIPELINE_BIND_POINT_RAY_TRACING_NV, layout.handle, 2, [gds.handle], []),
          (.VK_PIPELINE_BIND_POINT_RAY_TRACING_NV, layout.handle, 3,
            [scene.ray_tracing_geometry_descriptor_set], []),
          (.VK_PIPELINE_BIND_POINT_RAY_TRACING_NV, layout.handle, 4,
            [scene.albedo_descriptor_set], []),
          (.VK_PIPELINE_BIND_POINT_RAY_TRACING_NV, layout.handle, 5,
            [scene.normal_descriptor_set], []),
          (.VK_PIPELINE_BIND_POINT_RAY_TRACING_NV, layout.handle, 6,
            [scene.roughness_descriptor_set], []),
          (.VK_PIPELINE_BIND_POINT_RAY_TRACING_NV, layout.handle, 7,
            [scene.metallic_descriptor_set], []) ] := by
  simp [hp, init, Sample.start, create_shaders, create_uniform_buffer, load_mesh, Mesh.load,
    Mesh.load_backend, hm, Backend.assigned, Backend.created, Backend.reset, Scene.create,
    Scene.create_backend, load_blue_noise, create_output_images, create_render_passes,
    create_framebuffers, create_descriptor_set_layouts, create_descriptor_sets,
    write_descriptor_sets, create_deferred_pipeline, create_gbuffer_pipeline,
    create_shadow_mask_ray_tracing_pipeline, create_reflection_ray_tracing_pipeline,
    create_camera, Backend.vkUpdateDescriptorSets, PipelineLayout.create,
    Backend.allocate_descriptor_set, GraphicsPipeline.create, RayTracingPipeline.create,
    GraphicsPipeline.create_backend, RayTracingPipeline.create_backend,
    ray_trace_reflection, ray_trace_reflection_commands, descriptor_binds,
    DescriptorSetLayout.types, dynamic_offset]

/-- Witness for C13: the concrete device and mesh. -/
theorem reflection_pipeline_slots_witness :
    device.mesh_files "mesh/sponza.obj" = some sponza ∧
    (∀ p, device.pipeline_creation_fails p = false) ∧
    ∃ s' layout, init (Sample.start 1920 1080 device) = some (true, s') ∧
      s'.m_reflection_pipeline_layout = some layout ∧ layout.set_layouts.length = 8 :=
  ⟨rfl, fun _ => rfl,
    let ⟨s', hi, layout, hl, _, _, _, _, _, _, _, _, _, _, _, _, _, _, hset, _⟩ :=
      reflection_pipeline_slots 1920 1080 device sponza rfl (fun _ => rfl)
    ⟨s', layout, hi, hl, by rw [hset]; rfl⟩⟩

/-- C14. On every device on which the mesh loads and no pipeline creation fails, `init`
returns true and leaves a composite (deferred) pipeline layout of exactly two
descriptor-set layouts, slot 0 the layout of the composite set and slot 1 the per-frame
layout; the bindings 0 to 4 of the composite set hold combined image samplers over the
shadow-mask view, the reflection view and the views of G-buffer 1, 2 and 3, in this
order; and `render` records one render pass instance, over the swapchain render pass and
the swapchain framebuffer, inside which it binds the composite set at slot 0 and the
per-frame set with the dynamic offset of the frame at slot 1, and it binds no set outside
of it. -/
theorem composite_pipeline_slots (w h : Nat) (b : Backend) (m : Mesh)
    (hm : b.mesh_files "mesh/sponza.obj" = some m)
    (hp : ∀ p, b.pipeline_creation_fails p = false) :
    ∃ s', init (Sample.start w h b) = some (true, s') ∧
    ∃ layout, s'.m_deferred_pipeline_layout = some layout ∧
    ∃ dds, s'.m_deferred_ds = some dds ∧
    ∃ pf, s'.m_per_frame_ds = some pf ∧
    ∃ sv, s'.m_shadow_mask_view = some sv ∧
    ∃ rv, s'.m_reflection_view = some rv ∧
    ∃ g1, s'.m_g_buffer_1_view = some g1 ∧
    ∃ g2, s'.m_g_buffer_2_view = some g2 ∧
    ∃ g3, s'.m_g_buffer_3_view = some g3 ∧
    ∃ cmds, render s' [] = some cmds ∧
      layout.set_layouts = [dds.layout, pf.layout] ∧
      s'.m_deferred_layout = some dds.layout ∧
      s'.m_per_frame_ds_layout = some pf.layout ∧
      [0, 1, 2, 3, 4].map (s'.m_vk_backend.descriptors dds.handle) =
        [sv, rv, g1, g2, g3].map (fun v => some
          { descriptorType := .VK_DESCRIPTOR_TYPE_COMBINED_IMAGE_SAMPLER, descriptorCount := 1
            info := .image { sampler := some s'.m_vk_backend.common_sampler, imageView := v
                             imageLayout := .VK_IMAGE_LAYOUT_SHADER_READ_ONLY_OPTIMAL } }) ∧
      (render_pass_instances none cmds).map
          (fun p => (p.renderPass, p.framebuffer, descriptor_binds p.commands)) =
        [ (s'.m_vk_backend.swapchain_render_pass, s'.m_vk_backend.swapchain_framebuffer,
            [ (.VK_PIPELINE_BIND_POINT_GRAPHICS, layout.handle, 0, [dds.handle], []),
              (.VK_PIPELINE_BIND_POINT_GRAPHICS, layout.handle, 1, [pf.handle],
                [dynamic_offset s']) ]) ] ∧
      (descriptor_binds cmds).length = 2 := by
  simp [hp, init, Sample.start, create_shaders, create_uniform_buffer, load_mesh, Mesh.load,
    Mesh.load_backend, hm, Backend.assigned, Backend.created, Backend.reset, Scene.create,
    Scene.create_backend, load_blue_noise, create_output_images, create_render_passes,
    create_framebuffers, create_descriptor_set_layouts, create_descriptor_sets,
    write_descriptor_sets, create_deferred_pipeline, create_gbuffer_pipeline,
    create_shadow_mask_ray_tracing_pipeline, create_reflection_ray_tracing_pipeline,
    create_camera, Backend.vkUpdateDescriptorSets, PipelineLayout.create,
    Backend.allocate_descriptor_set, GraphicsPipeline.create, RayTracingPipeline.create,
    GraphicsPipeline.create_backend, RayTracingPipeline.create_backend,
    render, render_commands, descriptor_binds, render_pass_instances, dynamic_offset,
    apply_write, sampled_write, storage_write, acceleration_structure_write, Image.create,
    ImageView.create, Nat.add_assoc]

/-- Witness for C14: the concrete device and mesh. -/
theorem composite_pipeline_slots_witness :
    device.mesh_files "mesh/sponza.obj" = some sponza ∧
    (∀ p, device.pipeline_creation_fails p = false) ∧
    ∃ s' layout, init (Sample.start 1920 1080 device) = some (true, s') ∧
      s'.m_deferred_pipeline_layout = some layout ∧ layout.set_layouts.length = 2 :=
  ⟨rfl, fun _ => rfl,
    let ⟨s', hi, layout, hl, _, _, _, _, _, _, _, _, _, _, _, _, _, _, _, _, hset, _⟩ :=
      composite_pipeline_slots 1920 1080 device sponza rfl (fun _ => rfl)
    ⟨s', layout, hi, hl, by rw [hset]; rfl⟩⟩

/-! ## The geometry pass -/

/-- Commands that do not end a render pass are collected into the open instance. -/
theorem render_pass_instances_append (p : PassInstance) (l rest : List Cmd)
    (hl : ∀ c ∈ l, c.ends_pass = false) :
    render_pass_instances (some p) (l ++ rest) =
      render_pass_instances (some { p with commands := p.commands ++ l }) rest := by
  induction l generalizing p with
  | nil => simp
  | cons c l ih =>
    have hc := hl c (List.mem_cons_self _ _)
    have ih' := fun q => ih q (fun c hc => hl c (List.mem_cons_of_mem _ hc))
    cases c <;> simp_all [render_pass_instances, Cmd.ends_pass]

/-- The loop of `render_gbuffer` records, sub-mesh by sub-mesh, the bind of the material
set at slot 1 if the material has one, then the indexed draw. -/
theorem draw_commands_flatten (layout : Handle) (mesh : Mesh) (subs : List SubMesh) :
    draw_commands layout mesh subs =
      (subs.map fun sm =>
        (((mesh.material sm.mat_idx).bind (·.pbr_descriptor_set)).toList.map fun ds =>
          Cmd.vkCmdBindDescriptorSets .VK_PIPELINE_BIND_POINT_GRAPHICS layout 1 [ds] []) ++
        [Cmd.vkCmdDrawIndexed sm.index_count 1 sm.base_index (i32 sm.base_vertex)
          0]).flatten := by
  induction subs with
  | nil => rfl
  | cons sm rest ih =>
    simp only [draw_commands, List.map_cons, List.flatten_cons, ih]
    cases (mesh.material sm.mat_idx).bind (·.pbr_descriptor_set) <;> simp

/-- The loop of `render_gbuffer` ends no render pass. -/
theorem draw_commands_no_end (layout : Handle) (mesh : Mesh) (subs : List SubMesh) :
    ∀ c ∈ draw_commands layout mesh subs, c.ends_pass = false := by
  induction subs with
  | nil => simp [draw_commands]
  | cons sm rest ih =>
    intro c hc
    simp only [draw_commands, List.mem_append, List.mem_cons] at hc
    rcases hc with hc | hc | hc
    · split at hc <;> simp_all [Cmd.ends_pass]
    · simp [hc, Cmd.ends_pass]
    · exact ih c hc

/-- A value below `2 ^ 31` is unchanged by the conversion to `int32_t`. -/
theorem i32_of_lt (n : Nat) (h : n < 2 ^ 31) : i32 n = n := by
  have h32 : n % 2 ^ 32 = n := Nat.mod_eq_of_lt (lt_trans h (by norm_num))
  simp only [i32, h32, h, if_true]

/-- The indexed draws of the loop of `render_gbuffer`: one for each sub-mesh, in order. -/
theorem indexed_draws_draw_commands (layout : Handle) (mesh : Mesh) (subs : List SubMesh) :
    indexed_draws (draw_commands layout mesh subs) =
      subs.map fun sm => (sm.index_count, 1, sm.base_index, i32 sm.base_vertex) := by
  induction subs with
  | nil => rfl
  | cons sm rest ih =>
    have happ : ∀ l r, indexed_draws (l ++ r) = indexed_draws l ++ indexed_draws r := by
      intro l r; simp [indexed_draws]
    rw [draw_commands, happ, List.map_cons]
    have hcons : indexed_draws (Cmd.vkCmdDrawIndexed sm.index_count 1 sm.base_index
        (i32 sm.base_vertex) 0 :: draw_commands layout mesh rest) =
        (sm.index_count, 1, sm.base_index, i32 sm.base_vertex) ::
          indexed_draws (draw_commands layout mesh rest) := rfl
    rw [hcons, ih]
    split <;> rfl

/-- The loop of `render_gbuffer` binds no set at slot 0. -/
theorem slot_zero_draw_commands (layout : Handle) (mesh : Mesh) (subs : List SubMesh) :
    ((descriptor_binds (draw_commands layout mesh subs)).filter fun b => b.2.2.1 == 0) = [] := by
  induction subs with
  | nil => rfl
  | cons sm rest ih =>
    have happ : ∀ l r, descriptor_binds (l ++ r) = descriptor_binds l ++ descriptor_binds r := by
      intro l r; simp [descriptor_binds]
    rw [draw_commands, happ, List.filter_append]
    have hcons : descriptor_binds (Cmd.vkCmdDrawIndexed sm.index_count 1 sm.base_index
        (i32 sm.base_vertex) 0 :: draw_commands layout mesh rest) =
        descriptor_binds (draw_commands layout mesh rest) := rfl
    rw [hcons, ih]
    split <;> rfl

/-- When the pointers of the sample point to `o`, `render_gbuffer` returns: it appends
its setup, the loop over the sub-meshes and the end of the render pass. -/
theorem render_gbuffer_eq (s : Sample) (o : FrameObjects) (ho : s.points_to o)
    (cmd_buf : CommandBuffer) :
    render_gbuffer s cmd_buf =
      some (cmd_buf ++ render_gbuffer_begin s.m_width s.m_height (dynamic_offset s) o.rp o.fbo
        o.gpipe o.mesh o.glayout o.pf ++
        draw_commands o.glayout.handle o.mesh o.mesh.sub_meshes ++
        [Cmd.vkCmdEndRenderPass, Cmd.end_sample "render_gbuffer"]) := by
  have hloop := render_gbuffer_loop_eq o.glayout.handle o.mesh o.mesh.sub_meshes ho.well_formed
  simp only [render_gbuffer, ho.rp, ho.fbo, ho.gpipe, ho.mesh, ho.glayout, ho.pf, hloop]

/-- C15. In every ready state, for every mesh (of `n` sub-meshes whose materials exist),
`render_gbuffer` returns and records one render pass instance, over the G-buffer render
pass and framebuffer, whose commands are a setup without draws, in which the per-frame
set is bound at slot 0, followed for each sub-mesh in order by the bind of the set of its
material at slot 1 if and only if the material has a descriptor set and then by one
indexed draw with the `index_count` and `base_index` of the sub-mesh, instance count 1,
and as vertex offset its `base_vertex` converted to the `int32_t` of the parameter, which
is the `base_vertex` itself whenever every `base_vertex` of the mesh is below `2 ^ 31`;
the indexed draws of the pass are these `n` draws, in sub-mesh order, and the bind of the
per-frame set is the only bind at slot 0. -/
theorem gbuffer_draws (s : Sample) (h : s.ready = true) :
    ∃ cmds mesh layout pf rp fbo setup,
      render_gbuffer s [] = some cmds ∧ s.m_mesh = some mesh ∧
      s.m_g_buffer_pipeline_layout = some layout ∧ s.m_per_frame_ds = some pf ∧
      s.m_g_buffer_rp = some rp ∧ s.m_g_buffer_fbo = some fbo ∧
      (render_pass_instances none cmds).map
          (fun p => (p.renderPass, p.framebuffer, p.commands)) =
        [ (rp.handle, fbo.handle, setup ++ (mesh.sub_meshes.map fun sm =>
            (((mesh.material sm.mat_idx).bind (·.pbr_descriptor_set)).toList.map fun ds =>
              Cmd.vkCmdBindDescriptorSets .VK_PIPELINE_BIND_POINT_GRAPHICS layout.handle 1
                [ds] []) ++
            [Cmd.vkCmdDrawIndexed sm.index_count 1 sm.base_index (i32 sm.base_vertex)
              0]).flatten) ] ∧
      indexed_draws setup = [] ∧
      descriptor_binds setup =
        [(.VK_PIPELINE_BIND_POINT_GRAPHICS, layout.handle, 0, [pf.handle],
          [dynamic_offset s])] ∧
      indexed_draws cmds =
        mesh.sub_meshes.map
          (fun sm => (sm.index_count, 1, sm.base_index, i32 sm.base_vertex)) ∧
      ((∀ sm ∈ mesh.sub_meshes, sm.base_vertex < 2 ^ 31) →
        indexed_draws cmds =
          mesh.sub_meshes.map
            (fun sm => (sm.index_count, 1, sm.base_index, (sm.base_vertex : Int)))) ∧
      (indexed_draws cmds).length = mesh.sub_meshes.length ∧
      ((descriptor_binds cmds).filter fun b => b.2.2.1 == 0) =
        [(.VK_PIPELINE_BIND_POINT_GRAPHICS, layout.handle, 0, [pf.handle],
          [dynamic_offset s])] := by
  obtain ⟨o, ho⟩ := points_to_of_ready s h
  have hcmds := render_gbuffer_eq s o ho []
  have hdraws : indexed_draws ([] ++ render_gbuffer_begin s.m_width s.m_height
      (dynamic_offset s) o.rp o.fbo o.gpipe o.mesh o.glayout o.pf ++
      draw_commands o.glayout.handle o.mesh o.mesh.sub_meshes ++
      [Cmd.vkCmdEndRenderPass, Cmd.end_sample "render_gbuffer"]) =
      o.mesh.sub_meshes.map
        (fun sm => (sm.index_count, 1, sm.base_index, i32 sm.base_vertex)) := by
    have happ : ∀ l r, indexed_draws (l ++ r) = indexed_draws l ++ indexed_draws r := by
      intro l r; simp [indexed_draws]
    rw [happ, happ, indexed_draws_draw_commands]
    simp [indexed_draws, render_gbuffer_begin]
  refine ⟨_, o.mesh, o.glayout, o.pf, o.rp, o.fbo,
    (render_gbuffer_begin s.m_width s.m_height (dynamic_offset s) o.rp o.fbo o.gpipe o.mesh
      o.glayout o.pf).drop 2,
    hcmds, ho.mesh, ho.glayout, ho.pf, ho.rp, ho.fbo, ?_, ?_, ?_, hdraws, ?_, ?_, ?_⟩
  · rw [← draw_commands_flatten]
    have hform : [] ++ render_gbuffer_begin s.m_width s.m_height (dynamic_offset s) o.rp o.fbo
        o.gpipe o.mesh o.glayout o.pf ++
        draw_commands o.glayout.handle o.mesh o.mesh.sub_meshes ++
        [Cmd.vkCmdEndRenderPass, Cmd.end_sample "render_gbuffer"] =
        Cmd.begin_sample "render_gbuffer" ::
        Cmd.vkCmdBeginRenderPass o.rp.handle o.fbo.handle (s.m_width, s.m_height)
          [⟨(0, 0, 0, 1)⟩, ⟨(0, 0, 0, 1)⟩, ⟨(0, 0, 0, 1)⟩, ⟨(1, 1, 1, 1)⟩] ::
        ((render_gbuffer_begin s.m_width s.m_height (dynamic_offset s) o.rp o.fbo o.gpipe
          o.mesh o.glayout o.pf).drop 2 ++
          (draw_commands o.glayout.handle o.mesh o.mesh.sub_meshes ++
            [Cmd.vkCmdEndRenderPass, Cmd.end_sample "render_gbuffer"])) := by
      simp [render_gbuffer_begin]
    rw [hform]
    have hopen : ∀ rest, render_pass_instances none
        (Cmd.begin_sample "render_gbuffer" ::
          Cmd.vkCmdBeginRenderPass o.rp.handle o.fbo.handle (s.m_width, s.m_height)
            [⟨(0, 0, 0, 1)⟩, ⟨(0, 0, 0, 1)⟩, ⟨(0, 0, 0, 1)⟩, ⟨(1, 1, 1, 1)⟩] :: rest) =
        render_pass_instances (some ⟨o.rp.handle, o.fbo.handle,
          [⟨(0, 0, 0, 1)⟩, ⟨(0, 0, 0, 1)⟩, ⟨(0, 0, 0, 1)⟩, ⟨(1, 1, 1, 1)⟩], []⟩) rest :=
      fun _ => rfl
    rw [hopen, render_pass_instances_append _ _ _ (by simp [render_gbuffer_begin, Cmd.ends_pass]),
      render_pass_instances_append _ _ _ (draw_commands_no_end _ _ _)]
    simp [render_pass_instances]
  · simp [indexed_draws, render_gbuffer_begin]
  · simp [descriptor_binds, render_gbuffer_begin]
  · intro hlt
    rw [hdraws]
    apply List.map_congr_left
    intro sm hsm
    rw [i32_of_lt _ (hlt sm hsm)]
  · rw [hdraws, List.length_map]
  · have happ : ∀ l r, descriptor_binds (l ++ r) = descriptor_binds l ++ descriptor_binds r := by
      intro l r; simp [descriptor_binds]
    rw [happ, happ, List.filter_append, List.filter_append, slot_zero_draw_commands]
    simp [descriptor_binds, render_gbuffer_begin]

/-- Witness for C15 on the concrete application after `init`: a mesh of two sub-meshes,
the first with a material set, the second without. A `base_vertex` of `2 ^ 31 + 5` would
reach the draw as the vertex offset `5 - 2 ^ 31`. -/
theorem gbuffer_draws_witness :
    app_ready.ready = true ∧
    (∃ cmds, render_gbuffer app_ready [] = some cmds ∧
      indexed_draws cmds = [(36, 1, 0, 0), (12, 1, 36, 24)]) ∧
    i32 2147483653 = -2147483643 :=
  ⟨by decide,
    let ⟨cmds, mesh, _, _, _, _, _, hc, hmesh, _, _, _, _, _, _, _, hd, _⟩ :=
      gbuffer_draws app_ready (by decide)
    ⟨cmds, hc, by
      have hm : app_ready.m_mesh.map (·.sub_meshes) = some sponza.sub_meshes := by decide
      rw [hmesh] at hm
      simp only [Option.map_some', Option.some.injEq] at hm
      rw [hd, hm]
      rfl⟩, by decide⟩

/-- C16. On every device on which the mesh loads (with materials for all its sub-meshes)
and no pipeline creation fails, `init` returns true, and then `render_gbuffer` returns and
begins one render pass instance, over the G-buffer render pass and the G-buffer
framebuffer, with exactly four clear values, one per attachment of the render pass: the
three colour attachments are cleared to (0, 0, 0, 1) and the depth attachment to the
depth 1 (the value its clear value holds when read as a depth). The render pass declares
four attachments; the three colour attachments have the formats of G-buffer 1, 2 and 3,
load-op clear and final layout shader-read-only; the framebuffer attaches the views of
G-buffer 1, 2, 3 and of the depth image in this order. -/
theorem gbuffer_clear_values (w h : Nat) (b : Backend) (m : Mesh)
    (hm : b.mesh_files "mesh/sponza.obj" = some m)
    (hp : ∀ p, b.pipeline_creation_fails p = false)
    (hwf : m.well_formed = true) :
    ∃ s', init (Sample.start w h b) = some (true, s') ∧
    ∃ rp, s'.m_g_buffer_rp = some rp ∧
    ∃ fbo, s'.m_g_buffer_fbo = some fbo ∧
    ∃ cmds, render_gbuffer s' [] = some cmds ∧
      (render_pass_instances none cmds).map
          (fun p => (p.renderPass, p.framebuffer, p.clearValues)) =
        [ (rp.handle, fbo.handle,
            [⟨(0, 0, 0, 1)⟩, ⟨(0, 0, 0, 1)⟩, ⟨(0, 0, 0, 1)⟩, ⟨(1, 1, 1, 1)⟩]) ] ∧
      (render_pass_instances none cmds).map
          (fun p => (p.clearValues.length, p.clearValues[3]?.map VkClearValue.depth)) =
        [(rp.attachments.length, some 1)] ∧
      rp.attachments.map (fun a => (a.format, a.loadOp, a.finalLayout)) =
        [ (.VK_FORMAT_R8G8B8A8_UNORM, .VK_ATTACHMENT_LOAD_OP_CLEAR,
            .VK_IMAGE_LAYOUT_SHADER_READ_ONLY_OPTIMAL),
          (.VK_FORMAT_R16G16B16A16_SFLOAT, .VK_ATTACHMENT_LOAD_OP_CLEAR,
            .VK_IMAGE_LAYOUT_SHADER_READ_ONLY_OPTIMAL),
          (.VK_FORMAT_R32G32B32A32_SFLOAT, .VK_ATTACHMENT_LOAD_OP_CLEAR,
            .VK_IMAGE_LAYOUT_SHADER_READ_ONLY_OPTIMAL),
          (b.swap_chain_depth_format, .VK_ATTACHMENT_LOAD_OP_CLEAR,
            .VK_IMAGE_LAYOUT_DEPTH_STENCIL_ATTACHMENT_OPTIMAL) ] ∧
      fbo.render_pass = rp.handle ∧
      fbo.views.map (fun v => some v.image) =
        [s'.m_g_buffer_1, s'.m_g_buffer_2, s'.m_g_buffer_3, s'.m_g_buffer_depth] ∧
      fbo.views.map (fun v => v.image.format) = rp.attachments.map (·.format) := by
  simp only [Mesh.well_formed, Mesh.material] at hwf
  have hinit : ∃ s', init (Sample.start w h b) = some (true, s') ∧ s'.ready = true ∧
      ∃ rp, s'.m_g_buffer_rp = some rp ∧
      ∃ fbo, s'.m_g_buffer_fbo = some fbo ∧
        rp.attachments.map (fun a => (a.format, a.loadOp, a.finalLayout)) =
          [ (.VK_FORMAT_R8G8B8A8_UNORM, .VK_ATTACHMENT_LOAD_OP_CLEAR,
              .VK_IMAGE_LAYOUT_SHADER_READ_ONLY_OPTIMAL),
            (.VK_FORMAT_R16G16B16A16_SFLOAT, .VK_ATTACHMENT_LOAD_OP_CLEAR,
              .VK_IMAGE_LAYOUT_SHADER_READ_ONLY_OPTIMAL),
            (.VK_FORMAT_R32G32B32A32_SFLOAT, .VK_ATTACHMENT_LOAD_OP_CLEAR,
              .VK_IMAGE_LAYOUT_SHADER_READ_ONLY_OPTIMAL),
            (b.swap_chain_depth_format, .VK_ATTACHMENT_LOAD_OP_CLEAR,
              .VK_IMAGE_LAYOUT_DEPTH_STENCIL_ATTACHMENT_OPTIMAL) ] ∧
        fbo.render_pass = rp.handle ∧
        fbo.views.map (fun v => some v.image) =
          [s'.m_g_buffer_1, s'.m_g_buffer_2, s'.m_g_buffer_3, s'.m_g_buffer_depth] ∧
        fbo.views.map (fun v => v.image.format) = rp.attachments.map (·.format) := by
    simp [hp, init, Sample.start, create_shaders, create_uniform_buffer, load_mesh, Mesh.load,
      Mesh.load_backend, hm, Backend.assigned, Backend.created, Backend.reset, Scene.create,
      Scene.create_backend, load_blue_noise, create_output_images, create_render_passes,
      create_framebuffers, create_descriptor_set_layouts, create_descriptor_sets,
      write_descriptor_sets, create_deferred_pipeline, create_gbuffer_pipeline,
      create_shadow_mask_ray_tracing_pipeline, create_reflection_ray_tracing_pipeline,
      create_camera, Backend.vkUpdateDescriptorSets, PipelineLayout.create,
      Backend.allocate_descriptor_set, GraphicsPipeline.create, RayTracingPipeline.create,
      GraphicsPipeline.create_backend, RayTracingPipeline.create_backend, Sample.ready,
      Mesh.well_formed, Mesh.material, hwf, Image.create, ImageView.create,
      Framebuffer.create, gbuffer_color_attachment]
  obtain ⟨s', hs', hready, rp, hrp, fbo, hfbo, hatt, hfr, hviews, hfmt⟩ := hinit
  obtain ⟨o, ho⟩ := points_to_of_ready s' hready
  have hrp' : o.rp = rp := Option.some.inj (ho.rp.symm.trans hrp)
  have hfbo' : o.fbo = fbo := Option.some.inj (ho.fbo.symm.trans hfbo)
  have hlen : rp.attachments.length = 4 := by
    have := congrArg List.length hatt
    simpa using this
  have hopen : ∀ rest, render_pass_instances none
      (Cmd.begin_sample "render_gbuffer" ::
        Cmd.vkCmdBeginRenderPass o.rp.handle o.fbo.handle (s'.m_width, s'.m_height)
          [⟨(0, 0, 0, 1)⟩, ⟨(0, 0, 0, 1)⟩, ⟨(0, 0, 0, 1)⟩, ⟨(1, 1, 1, 1)⟩] :: rest) =
      render_pass_instances (some ⟨o.rp.handle, o.fbo.handle,
        [⟨(0, 0, 0, 1)⟩, ⟨(0, 0, 0, 1)⟩, ⟨(0, 0, 0, 1)⟩, ⟨(1, 1, 1, 1)⟩], []⟩) rest :=
    fun _ => rfl
  have hform : [] ++ render_gbuffer_begin s'.m_width s'.m_height (dynamic_offset s') o.rp o.fbo
      o.gpipe o.mesh o.glayout o.pf ++
      draw_commands o.glayout.handle o.mesh o.mesh.sub_meshes ++
      [Cmd.vkCmdEndRenderPass, Cmd.end_sample "render_gbuffer"] =
      Cmd.begin_sample "render_gbuffer" ::
      Cmd.vkCmdBeginRenderPass o.rp.handle o.fbo.handle (s'.m_width, s'.m_height)
        [⟨(0, 0, 0, 1)⟩, ⟨(0, 0, 0, 1)⟩, ⟨(0, 0, 0, 1)⟩, ⟨(1, 1, 1, 1)⟩] ::
      ((render_gbuffer_begin s'.m_width s'.m_height (dynamic_offset s') o.rp o.fbo o.gpipe
        o.mesh o.glayout o.pf).drop 2 ++
        (draw_commands o.glayout.handle o.mesh o.mesh.sub_meshes ++
          [Cmd.vkCmdEndRenderPass, Cmd.end_sample "render_gbuffer"])) := by
    simp [render_gbuffer_begin]
  have hinst : render_pass_instances none ([] ++ render_gbuffer_begin s'.m_width s'.m_height
      (dynamic_offset s') o.rp o.fbo o.gpipe o.mesh o.glayout o.pf ++
      draw_commands o.glayout.handle o.mesh o.mesh.sub_meshes ++
      [Cmd.vkCmdEndRenderPass, Cmd.end_sample "render_gbuffer"]) =
      [⟨rp.handle, fbo.handle, [⟨(0, 0, 0, 1)⟩, ⟨(0, 0, 0, 1)⟩, ⟨(0, 0, 0, 1)⟩, ⟨(1, 1, 1, 1)⟩],
        (render_gbuffer_begin s'.m_width s'.m_height (dynamic_offset s') o.rp o.fbo o.gpipe
          o.mesh o.glayout o.pf).drop 2 ++
          draw_commands o.glayout.handle o.mesh o.mesh.sub_meshes⟩] := by
    rw [hform, hopen,
      render_pass_instances_append _ _ _ (by simp [render_gbuffer_begin, Cmd.ends_pass]),
      render_pass_instances_append _ _ _ (draw_commands_no_end _ _ _)]
    simp [render_pass_instances, hrp', hfbo']
  refine ⟨s', hs', rp, hrp, fbo, hfbo, _, render_gbuffer_eq s' o ho [], ?_, ?_, hatt, hfr,
    hviews, hfmt⟩
  · rw [hinst]; rfl
  · rw [hinst, hlen]; rfl

/-- Witness for C16: the concrete device and mesh. -/
theorem gbuffer_clear_values_witness :
    device.mesh_files "mesh/sponza.obj" = some sponza ∧
    (∀ p, device.pipeline_creation_fails p = false) ∧ sponza.well_formed = true ∧
    ∃ s' cmds, init (Sample.start 1920 1080 device) = some (true, s') ∧
      render_gbuffer s' [] = some cmds ∧
      (render_pass_instances none cmds).map (fun p => p.clearValues) =
        [[⟨(0, 0, 0, 1)⟩, ⟨(0, 0, 0, 1)⟩, ⟨(0, 0, 0, 1)⟩, ⟨(1, 1, 1, 1)⟩]] :=
  ⟨rfl, fun _ => rfl, rfl,
    let ⟨s', hi, _, _, _, _, cmds, hc, hcv, _⟩ :=
      gbuffer_clear_values 1920 1080 device sponza rfl (fun _ => rfl) rfl
    ⟨s', cmds, hi, hc, by
      have := congrArg (List.map fun t : Handle × Handle × List VkClearValue => t.2.2) hcv
      simpa using this⟩⟩

/-! ## Failures during `init` -/

/-- C17. On a device on which `Mesh::load` gives no mesh, `load_mesh` dereferences the
null mesh pointer (`m_mesh->initialize_for_ray_tracing`) before it compares it with null:
neither `load_mesh` nor `init` returns a Boolean, the failure is not logged, and `init`
does not return false. -/
theorem load_mesh_null_dereference :
    Mesh.load app_without_mesh.m_vk_backend "mesh/sponza.obj" = none ∧
    load_mesh (create_uniform_buffer (create_shaders app_without_mesh).2).2 = none ∧
    init app_without_mesh = none ∧
    ¬ ∃ s', init app_without_mesh = some (false, s') := by
  have hinit : init app_without_mesh = none := rfl
  refine ⟨rfl, rfl, hinit, ?_⟩
  rintro ⟨s', hs'⟩
  rw [hinit] at hs'
  exact absurd hs' (by simp)

/-- A `reset()` creates nothing. -/
theorem creations_release {α : Type} (o : Option α) (k : ObjectKind) (f : α → Handle) :
    creations (o.map (Event.release k ∘ f)).toList = [] := by cases o <;> rfl

/-- An empty list of calls creates nothing. -/
theorem creations_nil : creations [] = [] := rfl

/-- A creation call creates its object. -/
theorem creations_cons (k : ObjectKind) (h : Handle) (l : List Event) :
    creations (Event.create k h :: l) = (k, h) :: creations l := rfl

/-- The objects created by two lists of calls. -/
theorem creations_append (l r : List Event) :
    creations (l ++ r) = creations l ++ creations r := by
  simp [creations]

/-- A `reset()` leaves the answer of the device to pipeline creations. -/
theorem Backend.reset_pipeline_creation_fails (b : Backend) (k : ObjectKind)
    (o : Option Handle) :
    (b.reset k o).pipeline_creation_fails = b.pipeline_creation_fails := by cases o <;> rfl

/-- When the layouts it dereferences are set, `create_shadow_mask_ray_tracing_pipeline`
reaches the call of `RayTracingPipeline::create` and is that call followed by the
assignment of its result: the backend, the table and the layout of the call, the objects
created before it, and, on a device that creates ray-tracing pipelines, the state it
returns. -/
theorem shadow_table_before_pipeline (s : Sample) (h : s.layouts_set = true) :
    ∃ b sbt layout,
      create_shadow_mask_ray_tracing_pipeline s =
        (RayTracingPipeline.create b 1 sbt layout).map (fun p =>
          { s with m_shadow_mask_sbt := some sbt,
                   m_shadow_mask_pipeline_layout := some layout,
                   m_shadow_mask_pipeline := some p,
                   m_vk_backend := RayTracingPipeline.create_backend b
                     (s.m_shadow_mask_pipeline.map (·.handle)) }) ∧
      sbt.desc.entry_points = (["main"], ["main"], ["main"]) ∧
      sbt.handle = s.m_vk_backend.next_handle + 3 ∧
      creations (new_calls s.m_vk_backend b) =
        [ (.shader_module, s.m_vk_backend.next_handle),
          (.shader_module, s.m_vk_backend.next_handle + 1),
          (.shader_module, s.m_vk_backend.next_handle + 2),
          (.shader_binding_table, s.m_vk_backend.next_handle + 3),
          (.pipeline_layout, s.m_vk_backend.next_handle + 4) ] ∧
      b.pipeline_creation_fails = s.m_vk_backend.pipeline_creation_fails ∧
      (s.m_vk_backend.pipeline_creation_fails .VK_PIPELINE_BIND_POINT_RAY_TRACING_NV = false →
        ∃ s' p, create_shadow_mask_ray_tracing_pipeline s = some s' ∧
          s'.m_shadow_mask_sbt = some sbt ∧
          s'.m_shadow_mask_pipeline = some p ∧
          p.shader_binding_table = sbt ∧ p.handle = s.m_vk_backend.next_handle + 5 ∧
          creations (new_calls s.m_vk_backend s'.m_vk_backend) =
            [ (.shader_module, s.m_vk_backend.next_handle),
              (.shader_module, s.m_vk_backend.next_handle + 1),
              (.shader_module, s.m_vk_backend.next_handle + 2),
              (.shader_binding_table, s.m_vk_backend.next_handle + 3),
              (.pipeline_layout, s.m_vk_backend.next_handle + 4),
              (.ray_tracing_pipeline, s.m_vk_backend.next_handle + 5),
              (.buffer, s.m_vk_backend.next_handle + 6) ]) := by
  simp only [Sample.layouts_set, Bool.and_eq_true, Option.isSome_iff_exists] at h
  obtain ⟨⟨⟨⟨⟨sl, hsl⟩, ⟨rl, hrl⟩⟩, ⟨pl, hpl⟩⟩, ⟨gl, hgl⟩⟩, ⟨scene, hscene⟩⟩ := h
  refine ⟨((((s.m_vk_backend.created .shader_module).created .shader_module).created
        .shader_module).assigned .shader_binding_table
          (s.m_shadow_mask_sbt.map (·.handle))).assigned .pipeline_layout
          (s.m_shadow_mask_pipeline_layout.map (·.handle)),
    ShaderBindingTable.create
      (((s.m_vk_backend.created .shader_module).created .shader_module).created
        .shader_module)
      { ray_gen_groups :=
          [⟨ShaderModule.create_from_file s.m_vk_backend "shaders/shadow.rgen.spv", "main"⟩],
        hit_groups :=
          [⟨ShaderModule.create_from_file (s.m_vk_backend.created .shader_module)
            "shaders/shadow.rchit.spv", "main"⟩],
        miss_groups :=
          [⟨ShaderModule.create_from_file
            ((s.m_vk_backend.created .shader_module).created .shader_module)
            "shaders/shadow.rmiss.spv", "main"⟩] },
    PipelineLayout.create
      ((((s.m_vk_backend.created .shader_module).created .shader_module).created
        .shader_module).assigned .shader_binding_table (s.m_shadow_mask_sbt.map (·.handle)))
      [sl, pl, gl], ?_, rfl, ?_, ?_, ?_, ?_⟩
  · simp only [create_shadow_mask_ray_tracing_pipeline, hsl, hpl, hgl]
    cases RayTracingPipeline.create _ 1 _ _ <;> rfl
  · simp [ShaderBindingTable.create, Backend.created]
  · simp [Backend.assigned, Backend.created, Backend.reset_calls, new_calls,
      creations_append, creations_release, creations_cons, creations_nil]
  · simp [Backend.assigned, Backend.created, Backend.reset_pipeline_creation_fails]
  · intro hf
    simp [create_shadow_mask_ray_tracing_pipeline, hsl, hpl, hgl, hf,
      ShaderBindingTable.create, RayTracingPipeline.create,
      RayTracingPipeline.create_backend, Backend.assigned, Backend.created, Backend.reset_calls,
      Backend.reset_next_handle, Backend.reset_pipeline_creation_fails, new_calls,
      creations_append, creations_release, PipelineLayout.create, Nat.add_assoc] <;>
    simp [creations_cons, creations_append, creations_release, creations_nil]

/-- When the layouts and the scene it dereferences are set,
`create_reflection_ray_tracing_pipeline` reaches the call of `RayTracingPipeline::create`
and is that call followed by the assignment of its result: the backend, the table and the
layout of the call, the objects created before it, and, on a device that creates
ray-tracing pipelines, the state it returns. -/
theorem reflection_table_before_pipeline (s : Sample) (h : s.layouts_set = true) :
    ∃ b sbt layout,
      create_reflection_ray_tracing_pipeline s =
        (RayTracingPipeline.create b 1 sbt layout).map (fun p =>
          { s with m_reflection_sbt := some sbt,
                   m_reflection_pipeline_layout := some layout,
                   m_reflection_pipeline := some p,
                   m_vk_backend := RayTracingPipeline.create_backend b
                     (s.m_reflection_pipeline.map (·.handle)) }) ∧
      sbt.desc.entry_points = (["main"], ["main"], ["main"]) ∧
      sbt.handle = s.m_vk_backend.next_handle + 3 ∧
      creations (new_calls s.m_vk_backend b) =
        [ (.shader_module, s.m_vk_backend.next_handle),
          (.shader_module, s.m_vk_backend.next_handle + 1),
          (.shader_module, s.m_vk_backend.next_handle + 2),
          (.shader_binding_table, s.m_vk_backend.next_handle + 3),
          (.pipeline_layout, s.m_vk_backend.next_handle + 4) ] ∧
      b.pipeline_creation_fails = s.m_vk_backend.pipeline_creation_fails ∧
      (s.m_vk_backend.pipeline_creation_fails .VK_PIPELINE_BIND_POINT_RAY_TRACING_NV = false →
        ∃ s' p, create_reflection_ray_tracing_pipeline s = some s' ∧
          s'.m_reflection_sbt = some sbt ∧
          s'.m_reflection_pipeline = some p ∧
          p.shader_binding_table = sbt ∧ p.handle = s.m_vk_backend.next_handle + 5 ∧
          creations (new_calls s.m_vk_backend s'.m_vk_backend) =
            [ (.shader_module, s.m_vk_backend.next_handle),
              (.shader_module, s.m_vk_backend.next_handle + 1),
              (.shader_module, s.m_vk_backend.next_handle + 2),
              (.shader_binding_table, s.m_vk_backend.next_handle + 3),
              (.pipeline_layout, s.m_vk_backend.next_handle + 4),
              (.ray_tracing_pipeline, s.m_vk_backend.next_handle + 5),
              (.buffer, s.m_vk_backend.next_handle + 6) ]) := by
  simp only [Sample.layouts_set, Bool.and_eq_true, Option.isSome_iff_exists] at h
  obtain ⟨⟨⟨⟨⟨sl, hsl⟩, ⟨rl, hrl⟩⟩, ⟨pl, hpl⟩⟩, ⟨gl, hgl⟩⟩, ⟨scene, hscene⟩⟩ := h
  refine ⟨((((s.m_vk_backend.created .shader_module).created .shader_module).created
        .shader_module).assigned .shader_binding_table
          (s.m_reflection_sbt.map (·.handle))).assigned .pipeline_layout
          (s.m_reflection_pipeline_layout.map (·.handle)),
    ShaderBindingTable.create
      (((s.m_vk_backend.created .shader_module).created .shader_module).created
        .shader_module)
      { ray_gen_groups :=
          [⟨ShaderModule.create_from_file s.m_vk_backend "shaders/reflection.rgen.spv", "main"⟩],
        hit_groups :=
          [⟨ShaderModule.create_from_file (s.m_vk_backend.created .shader_module)
            "shaders/reflection.rchit.spv", "main"⟩],
        miss_groups :=
          [⟨ShaderModule.create_from_file
            ((s.m_vk_backend.created .shader_module).created .shader_module)
            "shaders/reflection.rmiss.spv", "main"⟩] },
    PipelineLayout.create
      ((((s.m_vk_backend.created .shader_module).created .shader_module).created
        .shader_module).assigned .shader_binding_table (s.m_reflection_sbt.map (·.handle)))
      [ rl, pl, gl, scene.ray_tracing_geometry_descriptor_set_layout,
        scene.material_descriptor_set_layout, scene.material_descriptor_set_layout,
        scene.material_descriptor_set_layout, scene.material_descriptor_set_layout ], ?_, rfl, ?_, ?_, ?_, ?_⟩
  · simp only [create_reflection_ray_tracing_pipeline, hrl, hpl, hgl, hscene]
    cases RayTracingPipeline.create _ 1 _ _ <;> rfl
  · simp [ShaderBindingTable.create, Backend.created]
  · simp [Backend.assigned, Backend.created, Backend.reset_calls, new_calls,
      creations_append, creations_release, creations_cons, creations_nil]
  · simp [Backend.assigned, Backend.created, Backend.reset_pipeline_creation_fails]
  · intro hf
    simp [create_reflection_ray_tracing_pipeline, hrl, hpl, hgl, hscene, hf,
      ShaderBindingTable.create, RayTracingPipeline.create,
      RayTracingPipeline.create_backend, Backend.assigned, Backend.created, Backend.reset_calls,
      Backend.reset_next_handle, Backend.reset_pipeline_creation_fails, new_calls,
      creations_append, creations_release, PipelineLayout.create, Nat.add_assoc] <;>
    simp [creations_cons, creations_append, creations_release, creations_nil]

/-- C19. For each of the two ray-tracing pipelines (shadow mask and reflection), whenever
the layouts and the scene its creator dereferences are set, the creator reaches the call
of `RayTracingPipeline::create`, on every device: up to that call it has created three
shader modules, then the shader binding table, then the pipeline layout, and nothing else;
the table handed to the call is this created table and has exactly one ray-generation
group, one hit group and one miss group, each with the entry point "main"; the creator is
this call followed by the assignment of the table, the layout and the pipeline. On a
device that creates ray-tracing pipelines the creator returns, the pipeline and the buffer
of its table are created after the table and the layout, and the pipeline it leaves holds
this table. -/
theorem table_before_pipeline (s : Sample) (h : s.layouts_set = true) :
    (∃ b sbt layout,
      create_shadow_mask_ray_tracing_pipeline s =
        (RayTracingPipeline.create b 1 sbt layout).map (fun p =>
          { s with m_shadow_mask_sbt := some sbt,
                   m_shadow_mask_pipeline_layout := some layout,
                   m_shadow_mask_pipeline := some p,
                   m_vk_backend := RayTracingPipeline.create_backend b
                     (s.m_shadow_mask_pipeline.map (·.handle)) }) ∧
      sbt.desc.entry_points = (["main"], ["main"], ["main"]) ∧
      sbt.handle = s.m_vk_backend.next_handle + 3 ∧
      creations (new_calls s.m_vk_backend b) =
        [ (.shader_module, s.m_vk_backend.next_handle),
          (.shader_module, s.m_vk_backend.next_handle + 1),
          (.shader_module, s.m_vk_backend.next_handle + 2),
          (.shader_binding_table, s.m_vk_backend.next_handle + 3),
          (.pipeline_layout, s.m_vk_backend.next_handle + 4) ] ∧
      b.pipeline_creation_fails = s.m_vk_backend.pipeline_creation_fails ∧
      (s.m_vk_backend.pipeline_creation_fails .VK_PIPELINE_BIND_POINT_RAY_TRACING_NV = false →
        ∃ s' p, create_shadow_mask_ray_tracing_pipeline s = some s' ∧
          s'.m_shadow_mask_sbt = some sbt ∧
          s'.m_shadow_mask_pipeline = some p ∧
          p.shader_binding_table = sbt ∧ p.handle = s.m_vk_backend.next_handle + 5 ∧
          creations (new_calls s.m_vk_backend s'.m_vk_backend) =
            [ (.shader_module, s.m_vk_backend.next_handle),
              (.shader_module, s.m_vk_backend.next_handle + 1),
              (.shader_module, s.m_vk_backend.next_handle + 2),
              (.shader_binding_table, s.m_vk_backend.next_handle + 3),
              (.pipeline_layout, s.m_vk_backend.next_handle + 4),
              (.ray_tracing_pipeline, s.m_vk_backend.next_handle + 5),
              (.buffer, s.m_vk_backend.next_handle + 6) ])) ∧
    (∃ b sbt layout,
      create_reflection_ray_tracing_pipeline s =
        (RayTracingPipeline.create b 1 sbt layout).map (fun p =>
          { s with m_reflection_sbt := some sbt,
                   m_reflection_pipeline_layout := some layout,
                   m_reflection_pipeline := some p,
                   m_vk_backend := RayTracingPipeline.create_backend b
                     (s.m_reflection_pipeline.map (·.handle)) }) ∧
      sbt.desc.entry_points = (["main"], ["main"], ["main"]) ∧
      sbt.handle = s.m_vk_backend.next_handle + 3 ∧
      creations (new_calls s.m_vk_backend b) =
        [ (.shader_module, s.m_vk_backend.next_handle),
          (.shader_module, s.m_vk_backend.next_handle + 1),
          (.shader_module, s.m_vk_backend.next_handle + 2),
          (.shader_binding_table, s.m_vk_backend.next_handle + 3),
          (.pipeline_layout, s.m_vk_backend.next_handle + 4) ] ∧
      b.pipeline_creation_fails = s.m_vk_backend.pipeline_creation_fails ∧
      (s.m_vk_backend.pipeline_creation_fails .VK_PIPELINE_BIND_POINT_RAY_TRACING_NV = false →
        ∃ s' p, create_reflection_ray_tracing_pipeline s = some s' ∧
          s'.m_reflection_sbt = some sbt ∧
          s'.m_reflection_pipeline = some p ∧
          p.shader_binding_table = sbt ∧ p.handle = s.m_vk_backend.next_handle + 5 ∧
          creations (new_calls s.m_vk_backend s'.m_vk_backend) =
            [ (.shader_module, s.m_vk_backend.next_handle),
              (.shader_module, s.m_vk_backend.next_handle + 1),
              (.shader_module, s.m_vk_backend.next_handle + 2),
              (.shader_binding_table, s.m_vk_backend.next_handle + 3),
              (.pipeline_layout, s.m_vk_backend.next_handle + 4),
              (.ray_tracing_pipeline, s.m_vk_backend.next_handle + 5),
              (.buffer, s.m_vk_backend.next_handle + 6) ])) :=
  ⟨shadow_table_before_pipeline s h, reflection_table_before_pipeline s h⟩

/-- Witness for C19 on the concrete application after `init`: both creators return and
leave a table. -/
theorem table_before_pipeline_witness :
    app_ready.layouts_set = true ∧
    (∃ s' sbt, create_shadow_mask_ray_tracing_pipeline app_ready = some s' ∧
      s'.m_shadow_mask_sbt = some sbt ∧
      sbt.desc.entry_points = (["main"], ["main"], ["main"])) ∧
    (∃ s' sbt, create_reflection_ray_tracing_pipeline app_ready = some s' ∧
      s'.m_reflection_sbt = some sbt ∧
      sbt.desc.entry_points = (["main"], ["main"], ["main"])) :=
  ⟨by decide,
    let ⟨⟨_, sbt, _, _, he, _, _, _, hr⟩, _⟩ := table_before_pipeline app_ready (by decide)
    let ⟨s', _, hs', hsbt, _⟩ := hr (by decide)
    ⟨s', sbt, hs', hsbt, he⟩,
    let ⟨_, _, sbt, _, _, he, _, _, _, hr⟩ := table_before_pipeline app_ready (by decide)
    let ⟨s', _, hs', hsbt, _⟩ := hr (by decide)
    ⟨s', sbt, hs', hsbt, he⟩⟩

/-! ## The uniform ring in a frame -/

/-- C20. In every ready state in which the `Transforms` block fits into a ring slot and
the byte offset `m_ubo_size * current_frame_idx` does not wrap around in `size_t`,
`update` returns a frame in which the scope of `update_uniforms` is opened exactly once
and closed before any draw or trace dispatch is recorded (every draw and dispatch of the
frame comes after it); the frame writes the uniform buffer: after it the bytes
`m_ubo_size * current_frame_idx` up to `m_ubo_size * current_frame_idx +
sizeof(Transforms)` of the mapped uniform buffer hold the `Transforms` block of the
camera the sample held before the frame, after its `update()`, which is also what
`m_transforms` holds; every other byte of the buffer is as before the frame, and in
particular every byte of the ring slot of any other frame index is unchanged. -/
theorem update_uniforms_once (s : Sample) (h : s.ready = true)
    (hsize : sizeof_Transforms ≤ s.m_ubo_size)
    (hfit : s.m_ubo_size * s.m_vk_backend.current_frame_idx < 2 ^ 64) :
    ∃ s' cmds camera ubo ubo' pre post, update s = some (s', cmds) ∧
      s.m_main_camera = some camera ∧
      s.m_ubo = some ubo ∧ s'.m_ubo = some ubo' ∧
      (scope_names cmds).count "update_uniforms" = 1 ∧
      cmds = pre ++ Cmd.begin_sample "update_uniforms" ::
        Cmd.end_sample "update_uniforms" :: post ∧
      (∀ c ∈ pre, c.is_work = false) ∧ (∃ c ∈ post, c.is_work = true) ∧
      ubo'.mapped = memcpy ubo.mapped (s.m_ubo_size * s.m_vk_backend.current_frame_idx)
        camera.update.transforms sizeof_Transforms ∧
      s'.m_transforms = camera.update.transforms ∧
      (∀ k, s.m_ubo_size * s.m_vk_backend.current_frame_idx ≤ k →
        k < s.m_ubo_size * s.m_vk_backend.current_frame_idx + sizeof_Transforms →
        ubo'.mapped k =
          camera.update.transforms (k - s.m_ubo_size * s.m_vk_backend.current_frame_idx)) ∧
      (∀ k, ¬ (s.m_ubo_size * s.m_vk_backend.current_frame_idx ≤ k ∧
          k < s.m_ubo_size * s.m_vk_backend.current_frame_idx + sizeof_Transforms) →
        ubo'.mapped k = ubo.mapped k) ∧
      (∀ j, j ≠ s.m_vk_backend.current_frame_idx →
        ∀ k, s.m_ubo_size * j ≤ k → k < s.m_ubo_size * j + s.m_ubo_size →
          ubo'.mapped k = ubo.mapped k) := by
  obtain ⟨o, ho, hupd⟩ := update_of_ready s h
  have hoff : usize (s.m_ubo_size * s.m_vk_backend.current_frame_idx) =
      s.m_ubo_size * s.m_vk_backend.current_frame_idx := by
    simp only [usize, Nat.mod_eq_of_lt hfit]
  have hout : ∀ k, ¬ (s.m_ubo_size * s.m_vk_backend.current_frame_idx ≤ k ∧
      k < s.m_ubo_size * s.m_vk_backend.current_frame_idx + sizeof_Transforms) →
      memcpy o.ubo.mapped (s.m_ubo_size * s.m_vk_backend.current_frame_idx)
        o.camera.update.transforms sizeof_Transforms k = o.ubo.mapped k := by
    intro k hk
    simp only [memcpy, hk, if_false]
  refine ⟨_, _, o.camera, o.ubo, _, [Cmd.begin_sample "update"], _, hupd, ho.camera, ho.ubo,
    rfl, ?_, rfl, ?_, ?_, ?_, rfl, ?_, ?_, ?_⟩
  · have hd : scope_names (draw_commands o.glayout.handle o.mesh o.mesh.sub_meshes) = [] :=
      filterMap_draw_commands _ _ _ _ (fun _ _ _ _ => rfl) (fun _ _ _ _ _ => rfl)
    have happ : ∀ l r, scope_names (l ++ r) = scope_names l ++ scope_names r := by
      intro l r; simp [scope_names]
    have hnames : scope_names (frame_commands s o) =
        ["update", "update_uniforms", "render_gbuffer", "ray-tracing-shadows",
          "ray-tracing-reflections", "copy"] := by
      simp only [frame_commands, happ, hd]
      rfl
    rw [hnames]
    decide
  · intro c hc
    simp only [List.mem_singleton] at hc
    rw [hc]; rfl
  · refine ⟨Cmd.vkCmdDraw 3 1 0 0, ?_, rfl⟩
    simp [render_commands]
  · simp only [frame_state, hoff]
  · intro k h1 h2
    simp only [frame_state, hoff, memcpy, h1, h2, and_self, if_true]
  · intro k hk
    simp only [frame_state, hoff]
    exact hout k hk
  · intro j hj k h1 h2
    simp only [frame_state, hoff]
    apply hout
    rintro ⟨h3, h4⟩
    rcases Nat.lt_or_gt_of_ne hj with hlt | hgt
    · have h5 : s.m_ubo_size * (j + 1) ≤ s.m_ubo_size * s.m_vk_backend.current_frame_idx :=
        Nat.mul_le_mul_left _ hlt
      rw [Nat.mul_succ] at h5
      omega
    · have h5 : s.m_ubo_size * (s.m_vk_backend.current_frame_idx + 1) ≤ s.m_ubo_size * j :=
        Nat.mul_le_mul_left _ hgt
      rw [Nat.mul_succ] at h5
      omega

/-- Witness for C20 on the concrete application after `init` with a camera in motion:
slots of 512 bytes, frame index 1. The frame writes the slot of frame 1, whose first two
bytes become 1 and 2, and leaves the bytes of the slots of frame 0 and frame 2 at 0. -/
theorem update_uniforms_once_witness :
    app_moving.ready = true ∧ sizeof_Transforms ≤ app_moving.m_ubo_size ∧
    app_moving.m_ubo_size * app_moving.m_vk_backend.current_frame_idx < 2 ^ 64 ∧
    ∃ s' cmds ubo ubo', update app_moving = some (s', cmds) ∧
      app_moving.m_ubo = some ubo ∧ s'.m_ubo = some ubo' ∧
      (scope_names cmds).count "update_uniforms" = 1 ∧
      [ubo.mapped 511, ubo.mapped 512, ubo.mapped 513, ubo.mapped 1024] = [0, 0, 0, 0] ∧
      [ubo'.mapped 511, ubo'.mapped 512, ubo'.mapped 513, ubo'.mapped 1024] = [0, 1, 2, 0] :=
  ⟨by decide, by decide, by decide,
    let ⟨s', cmds, camera, ubo, ubo', _, _, hu, hcam, hubo, hubo', hc, _, _, _, hm, _⟩ :=
      update_uniforms_once app_moving (by decide) (by decide) (by decide)
    have hcam' : camera =
        { aspect := (1920, 1080), ticks := 0, matrices := fun _ t k => (t + k) % 256 } :=
      (Option.some.inj hcam).symm
    have hold : app_moving.m_ubo.map
        (fun u => [u.mapped 511, u.mapped 512, u.mapped 513, u.mapped 1024]) =
        some [0, 0, 0, 0] := by decide
    ⟨s', cmds, ubo, ubo', hu, hubo, hubo', hc, by
      rw [hubo] at hold
      simpa using hold, by
      rw [hubo] at hold
      simp only [Option.map_some', Option.some.injEq, List.cons.injEq, and_true] at hold
      obtain ⟨h1, h2, h3, h4⟩ := hold
      have hoff : app_moving.m_ubo_size * app_moving.m_vk_backend.current_frame_idx = 512 := by
        decide
      rw [hm, hcam', hoff]
      simp [memcpy, Camera.update, Camera.transforms, sizeof_Transforms, h1, h4]⟩⟩

/-! ## The trace dispatches -/

/-- Selecting commands by a test that rejects the markers, binds without dynamic offset
and indexed draws drops the loop of `render_gbuffer`. -/
theorem filter_draw_commands (p : Cmd → Bool) (layout : Handle) (mesh : Mesh)
    (subs : List SubMesh)
    (hbind : ∀ bp l slot sets, p (Cmd.vkCmdBindDescriptorSets bp l slot sets []) = false)
    (hdraw : ∀ a b c d e, p (Cmd.vkCmdDrawIndexed a b c d e) = false) :
    (draw_commands layout mesh subs).filter p = [] := by
  induction subs with
  | nil => simp [draw_commands]
  | cons sm rest ih =>
    simp only [draw_commands, List.filter_append, List.filter_cons, ih, hdraw]
    split <;> simp [hbind]

/-- C21. In every ready state `update` returns a frame with exactly two trace dispatches,
one in the shadow pass and one in the reflection pass. Each is sized to the full viewport
(width `m_width`, height `m_height`, depth 1) and takes the shader-binding-table buffer
of the pipeline of its own pass with ray-generation offset 0, the miss offset
`miss_group_offset()` and the hit offset `hit_group_offset()` of the table of its own
pass, miss and hit stride equal to the shader-group-handle size of the device, and no
callable table. What `ray_trace_shadow_mask` records does not change when the reflection
pipeline and table are replaced by any others, and what `ray_trace_reflection` records
does not change when the shadow pipeline and table are replaced. -/
theorem trace_dispatches (s : Sample) (h : s.ready = true) :
    ∃ s' cmds spipe ssbt rpipe rsbt, update s = some (s', cmds) ∧
      s.m_shadow_mask_pipeline = some spipe ∧ s.m_shadow_mask_sbt = some ssbt ∧
      s.m_reflection_pipeline = some rpipe ∧ s.m_reflection_sbt = some rsbt ∧
      (pass_commands "ray-tracing-shadows" cmds).filter Cmd.is_trace =
        [ Cmd.vkCmdTraceRaysNV spipe.shader_binding_table_buffer 0
            spipe.shader_binding_table_buffer ssbt.miss_group_offset
              s.m_vk_backend.shaderGroupHandleSize
            spipe.shader_binding_table_buffer ssbt.hit_group_offset
              s.m_vk_backend.shaderGroupHandleSize
            none 0 0 s.m_width s.m_height 1 ] ∧
      (pass_commands "ray-tracing-reflections" cmds).filter Cmd.is_trace =
        [ Cmd.vkCmdTraceRaysNV rpipe.shader_binding_table_buffer 0
            rpipe.shader_binding_table_buffer rsbt.miss_group_offset
              s.m_vk_backend.shaderGroupHandleSize
            rpipe.shader_binding_table_buffer rsbt.hit_group_offset
              s.m_vk_backend.shaderGroupHandleSize
            none 0 0 s.m_width s.m_height 1 ] ∧
      (cmds.filter Cmd.is_trace).length = 2 ∧
      (∀ p t, ray_trace_shadow_mask
          { s with m_reflection_pipeline := p, m_reflection_sbt := t } [] =
        ray_trace_shadow_mask s []) ∧
      (∀ p t, ray_trace_reflection
          { s with m_shadow_mask_pipeline := p, m_shadow_mask_sbt := t } [] =
        ray_trace_reflection s []) := by
  obtain ⟨o, ho, hupd⟩ := update_of_ready s h
  refine ⟨_, _, o.spipe, o.ssbt, o.rpipe, o.rsbt, hupd, ho.spipe, ho.ssbt, ho.rpipe, ho.rsbt,
    ?_, ?_, ?_, fun _ _ => rfl, fun _ _ => rfl⟩
  · rw [pass_commands_frame]
    simp [shadow_body, ray_trace_shadow_mask_commands, Cmd.is_trace]
  · rw [pass_commands_frame]
    simp [reflection_body, ray_trace_reflection_commands, Cmd.is_trace]
  · have hd : (draw_commands o.glayout.handle o.mesh o.mesh.sub_meshes).filter Cmd.is_trace = [] :=
      filter_draw_commands _ _ _ _ (fun _ _ _ _ => rfl) (fun _ _ _ _ _ => rfl)
    simp only [frame_commands, List.filter_append, hd]
    simp [render_gbuffer_begin, ray_trace_shadow_mask_commands, ray_trace_reflection_commands,
      render_commands, Cmd.is_trace]

/-- Witness for C21 on the concrete application after `init`. -/
theorem trace_dispatches_witness :
    app_ready.ready = true ∧
    ∃ s' cmds, update app_ready = some (s', cmds) ∧ (cmds.filter Cmd.is_trace).length = 2 :=
  ⟨by decide,
    let ⟨s', cmds, _, _, _, _, hu, _, _, _, _, _, _, hl, _⟩ :=
      trace_dispatches app_ready (by decide)
    ⟨s', cmds, hu, hl⟩⟩

/-! ## Sessions: `init`, then frames and resizes -/

/-- A sample whose pointers point to frame objects is ready. -/
theorem ready_of_points_to (s : Sample) (o : FrameObjects) (ho : s.points_to o) :
    s.ready = true := by
  simp [Sample.ready, ho.camera, ho.ubo, ho.rp, ho.fbo, ho.gpipe, ho.mesh, ho.glayout, ho.pf,
    ho.simg, ho.spipe, ho.slayout, ho.sds, ho.gds, ho.ssbt, ho.rimg, ho.rpipe, ho.rlayout,
    ho.rds, ho.scene, ho.rsbt, ho.dpipe, ho.dlayout, ho.dds, ho.bnv, ho.sview, ho.rview,
    ho.g1v, ho.g2v, ho.g3v, ho.gdv, ho.well_formed, ho.distinct]

/-- A frame leaves a ready sample ready, and its G-buffer attachments and descriptor
writes as they are. -/
theorem update_ready (t : Sample) (h : t.ready = true) :
    ∃ s', (update t).map (·.1) = some s' ∧ s'.ready = true ∧
      s'.attachments_consistent = t.attachments_consistent ∧
      s'.m_vk_backend.calls.filter Event.is_descriptor_write =
        t.m_vk_backend.calls.filter Event.is_descriptor_write ∧
      s'.m_vk_backend.swap_chain_depth_format = t.m_vk_backend.swap_chain_depth_format := by
  obtain ⟨o, ho, hu⟩ := update_of_ready t h
  refine ⟨frame_state t o.camera o.ubo (frame_commands t o), by rw [hu]; rfl, ?_, ?_, ?_, rfl⟩
  · simp only [Sample.ready, frame_state, Bool.and_eq_true, Option.isSome_some] at h ⊢
    simp_all
  · simp [Sample.attachments_consistent, frame_state, Backend.submit_and_present]
  · simp [frame_state, Backend.submit_and_present, Event.is_descriptor_write]

/-- A frame step returns on a ready sample. -/
theorem frame_step_ready (s : Sample) (idx : Nat) (h : s.ready = true) :
    ∃ s', s.step (.frame idx) = some s' ∧ s'.ready = true ∧
      s'.attachments_consistent = s.attachments_consistent ∧
      s'.m_vk_backend.calls.filter Event.is_descriptor_write =
        s.m_vk_backend.calls.filter Event.is_descriptor_write ∧
      s'.m_vk_backend.swap_chain_depth_format = s.m_vk_backend.swap_chain_depth_format := by
  obtain ⟨s', h1, h2, h3, h4, h5⟩ := update_ready
    { s with m_vk_backend := { s.m_vk_backend with current_frame_idx := idx } } h
  exact ⟨s', h1, h2, h3.trans rfl, h4.trans rfl, h5.trans rfl⟩

/-- A resize step returns on a ready sample, and leaves consistent G-buffer attachments
when the render pass declares the formats of `create_output_images`. -/
theorem resize_step_ready (s : Sample) (mw mh w h : Nat) (hr : s.ready = true) :
    ∃ s', s.step (.resize mw mh w h) = some s' ∧ s'.ready = true ∧
      (s.m_g_buffer_rp.map (fun rp => rp.attachments.map (·.format)) =
        some [ .VK_FORMAT_R8G8B8A8_UNORM, .VK_FORMAT_R16G16B16A16_SFLOAT,
          .VK_FORMAT_R32G32B32A32_SFLOAT, s.m_vk_backend.swap_chain_depth_format ] →
        s'.attachments_consistent = true) ∧
      s'.m_g_buffer_rp = s.m_g_buffer_rp ∧
      s'.m_vk_backend.swap_chain_depth_format = s.m_vk_backend.swap_chain_depth_format := by
  have hr' : (s.set_window_size mw mh).ready = true := hr
  obtain ⟨o, ho⟩ := points_to_of_ready _ hr'
  obtain ⟨s', hs', hp, -, -⟩ := window_resized_eq w h _ o ho
  have hs := hs'
  simp [window_resized, ho.camera, create_output_images, create_framebuffers,
    write_descriptor_sets, ho.rp, ho.dds, ho.ubo, ho.pf, ho.gds, ho.scene, ho.sds, ho.rds,
    ho.bnv, Backend.vkUpdateDescriptorSets, Backend.wait_idle, Backend.created, Image.create,
    ImageView.create, Framebuffer.create] at hs
  have hrp : s.m_g_buffer_rp = some o.rp := ho.rp
  refine ⟨s', hs', ready_of_points_to _ _ hp, ?_, ?_, ?_⟩
  · intro hf
    subst hs
    simp [hrp] at hf
    simp [Sample.attachments_consistent, hrp, hf, Sample.set_window_size, Backend.reset]
  · rw [hp.rp, hrp]
    rfl
  · subst hs
    simp [Sample.set_window_size, Backend.reset]

/-- On a device on which the mesh loads with materials for all its sub-meshes and no
pipeline creation fails, `init` returns true and leaves a ready sample with consistent
G-buffer attachments; it has issued the five descriptor-write calls and submitted no
frame. -/
theorem init_ready (w h : Nat) (b : Backend) (m : Mesh)
    (hm : b.mesh_files "mesh/sponza.obj" = some m)
    (hp : ∀ p, b.pipeline_creation_fails p = false)
    (hwf : m.well_formed = true) :
    ∃ s', init (Sample.start w h b) = some (true, s') ∧ s'.ready = true ∧
      s'.attachments_consistent = true ∧
      s'.m_vk_backend.swap_chain_depth_format = b.swap_chain_depth_format ∧
      (s'.m_width, s'.m_height) = (w, h) := by
  simp only [Mesh.well_formed, Mesh.material] at hwf
  simp [hp, init, Sample.start, create_shaders, create_uniform_buffer, load_mesh, Mesh.load,
    Mesh.load_backend, hm, Backend.assigned, Backend.created, Backend.reset, Scene.create,
    Scene.create_backend, load_blue_noise, create_output_images, create_render_passes,
    create_framebuffers, create_descriptor_set_layouts, create_descriptor_sets,
    write_descriptor_sets, create_deferred_pipeline, create_gbuffer_pipeline,
    create_shadow_mask_ray_tracing_pipeline, create_reflection_ray_tracing_pipeline,
    create_camera, Backend.vkUpdateDescriptorSets, PipelineLayout.create,
    Backend.allocate_descriptor_set, GraphicsPipeline.create, RayTracingPipeline.create,
    GraphicsPipeline.create_backend, RayTracingPipeline.create_backend, Sample.ready,
    Mesh.well_formed, Mesh.material, hwf, Image.create, ImageView.create,
    Framebuffer.create, gbuffer_color_attachment, Sample.attachments_consistent]

/-- Every sequence of steps returns on a ready sample with consistent G-buffer
attachments, and leaves such a sample. -/
theorem steps_ready (steps : List Step) : ∀ (s : Sample), s.ready = true →
    s.attachments_consistent = true →
    ∃ s', s.steps steps = some s' ∧ s'.ready = true ∧ s'.attachments_consistent = true ∧
      s'.m_vk_backend.swap_chain_depth_format = s.m_vk_backend.swap_chain_depth_format := by
  induction steps with
  | nil => exact fun s hr hc => ⟨s, rfl, hr, hc, rfl⟩
  | cons st rest ih =>
    intro s hr hc
    have hf : s.m_g_buffer_rp.map (fun rp => rp.attachments.map (·.format)) =
        some [ .VK_FORMAT_R8G8B8A8_UNORM, .VK_FORMAT_R16G16B16A16_SFLOAT,
          .VK_FORMAT_R32G32B32A32_SFLOAT, s.m_vk_backend.swap_chain_depth_format ] := by
      simp only [Sample.attachments_consistent, Bool.and_eq_true, decide_eq_true_eq] at hc
      exact hc.2
    cases st with
    | frame idx =>
      obtain ⟨s1, h1, h2, h3, h4, h5⟩ := frame_step_ready s idx hr
      obtain ⟨s', g1, g2, g3, g4⟩ := ih s1 h2 (h3.trans hc)
      exact ⟨s', by simp only [Sample.steps, h1, g1], g2, g3, g4.trans h5⟩
    | resize mw mh w h =>
      obtain ⟨s1, h1, h2, h3, h4, h5⟩ := resize_step_ready s mw mh w h hr
      obtain ⟨s', g1, g2, g3, g4⟩ := ih s1 h2 (h3 hf)
      exact ⟨s', by simp only [Sample.steps, h1, g1], g2, g3, g4.trans h5⟩

/-- The calls since `b` of a backend whose calls extend those of `b`. -/
theorem new_calls_append (b : Backend) (l : List Event) (c : Backend)
    (h : c.calls = b.calls ++ l) : new_calls b c = l := by
  rw [new_calls, h, List.drop_left]

set_option maxHeartbeats 1000000 in
/-- The calls of `init`: five descriptor-write calls and no submitted frame. -/
theorem init_calls (w h : Nat) (b : Backend) (m : Mesh)
    (hm : b.mesh_files "mesh/sponza.obj" = some m)
    (hp : ∀ p, b.pipeline_creation_fails p = false) :
    ∃ s', init (Sample.start w h b) = some (true, s') ∧
      ∃ l, s'.m_vk_backend.calls = b.calls ++ l ∧
      (l.filter Event.is_descriptor_write).length = 5 ∧
      l.filter Event.is_submit = [] := by
  simp [hp, init, Sample.start, create_shaders, create_uniform_buffer, load_mesh, Mesh.load,
    Mesh.load_backend, hm, Backend.assigned, Backend.created, Backend.reset, Scene.create,
    Scene.create_backend, load_blue_noise, create_output_images, create_render_passes,
    create_framebuffers, create_descriptor_set_layouts, create_descriptor_sets,
    write_descriptor_sets, create_deferred_pipeline, create_gbuffer_pipeline,
    create_shadow_mask_ray_tracing_pipeline, create_reflection_ray_tracing_pipeline,
    create_camera, Backend.vkUpdateDescriptorSets, PipelineLayout.create,
    Backend.allocate_descriptor_set, GraphicsPipeline.create, RayTracingPipeline.create,
    GraphicsPipeline.create_backend, RayTracingPipeline.create_backend,
    Event.is_descriptor_write, Event.is_submit]

/-- The pointers `write_descriptor_sets` dereferences: it returns exactly when they are
set. -/
theorem write_descriptor_sets_isSome (t : Sample) :
    (write_descriptor_sets t).isSome =
      (t.m_shadow_mask_view.isSome && t.m_reflection_view.isSome &&
        t.m_g_buffer_1_view.isSome && t.m_g_buffer_2_view.isSome &&
        t.m_g_buffer_3_view.isSome && t.m_deferred_ds.isSome && t.m_ubo.isSome &&
        t.m_per_frame_ds.isSome && t.m_g_buffer_ds.isSome && t.m_scene.isSome &&
        t.m_shadow_mask_ds.isSome && t.m_reflection_ds.isSome &&
        t.m_blue_noise_view.isSome) := by
  simp only [write_descriptor_sets]
  split
  · simp [*]
  · rename_i hne
    rw [Option.isSome_none, eq_comm, Bool.eq_false_iff]
    intro hall
    simp only [Bool.and_eq_true, Option.isSome_iff_exists] at hall
    obtain ⟨⟨⟨⟨⟨⟨⟨⟨⟨⟨⟨⟨⟨a, ha⟩, ⟨b, hb⟩⟩, ⟨c, hc⟩⟩, ⟨d, hd⟩⟩, ⟨e, he⟩⟩, ⟨f, hf⟩⟩, ⟨g, hg⟩⟩,
      ⟨i, hi⟩⟩, ⟨j, hj⟩⟩, ⟨k, hk⟩⟩, ⟨l, hl⟩⟩, ⟨m, hm⟩⟩, ⟨n, hn⟩⟩ := hall
    exact hne a b c d e f g i j k l m n ha hb hc hd he hf hg hi hj hk hl hm hn

/-- The pointers `create_framebuffers` dereferences. -/
theorem create_framebuffers_isSome (t : Sample) :
    (create_framebuffers t).isSome =
      (t.m_g_buffer_rp.isSome && t.m_g_buffer_1_view.isSome && t.m_g_buffer_2_view.isSome &&
        t.m_g_buffer_3_view.isSome && t.m_g_buffer_depth_view.isSome) := by
  simp only [create_framebuffers]
  split
  · simp [*]
  · rename_i hne
    rw [Option.isSome_none, eq_comm, Bool.eq_false_iff]
    intro hall
    simp only [Bool.and_eq_true, Option.isSome_iff_exists] at hall
    obtain ⟨⟨⟨⟨⟨a, ha⟩, ⟨b, hb⟩⟩, ⟨c, hc⟩⟩, ⟨d, hd⟩⟩, ⟨e, he⟩⟩ := hall
    exact hne a b c d e ha hb hc hd he

/-- The pointers the four pipeline creations dereference: each returns exactly when they
are set and the device creates the pipeline. -/
theorem create_pipelines_isSome (t : Sample) :
    (create_deferred_pipeline t).isSome =
      (t.m_deferred_layout.isSome && t.m_per_frame_ds_layout.isSome &&
        !t.m_vk_backend.pipeline_creation_fails .VK_PIPELINE_BIND_POINT_GRAPHICS) ∧
    (create_gbuffer_pipeline t).isSome =
      (t.m_mesh.isSome && t.m_per_frame_ds_layout.isSome && t.m_g_buffer_rp.isSome &&
        !t.m_vk_backend.pipeline_creation_fails .VK_PIPELINE_BIND_POINT_GRAPHICS) ∧
    (create_shadow_mask_ray_tracing_pipeline t).isSome =
      (t.m_shadow_mask_ds_layout.isSome && t.m_per_frame_ds_layout.isSome &&
        t.m_g_buffer_ds_layout.isSome &&
        !t.m_vk_backend.pipeline_creation_fails .VK_PIPELINE_BIND_POINT_RAY_TRACING_NV) ∧
    (create_reflection_ray_tracing_pipeline t).isSome =
      (t.m_reflection_ds_layout.isSome && t.m_per_frame_ds_layout.isSome &&
        t.m_g_buffer_ds_layout.isSome && t.m_scene.isSome &&
        !t.m_vk_backend.pipeline_creation_fails .VK_PIPELINE_BIND_POINT_RAY_TRACING_NV) := by
  refine ⟨?_, ?_, ?_, ?_⟩
  · simp only [create_deferred_pipeline]
    split
    · cases hf : t.m_vk_backend.pipeline_creation_fails .VK_PIPELINE_BIND_POINT_GRAPHICS <;>
        simp [*, GraphicsPipeline.create, Backend.assigned, Backend.created,
          Backend.reset_pipeline_creation_fails]
    · rename_i hne
      rw [Option.isSome_none, eq_comm, Bool.eq_false_iff]
      intro hall
      simp only [Bool.and_eq_true, Option.isSome_iff_exists] at hall
      obtain ⟨⟨⟨a, ha⟩, ⟨b, hb⟩⟩, -⟩ := hall
      exact hne a b ha hb
  · simp only [create_gbuffer_pipeline]
    split
    · cases hf : t.m_vk_backend.pipeline_creation_fails .VK_PIPELINE_BIND_POINT_GRAPHICS <;>
        simp [*, GraphicsPipeline.create, Backend.assigned, Backend.created,
          Backend.reset_pipeline_creation_fails]
    · rename_i hne
      rw [Option.isSome_none, eq_comm, Bool.eq_false_iff]
      intro hall
      simp only [Bool.and_eq_true, Option.isSome_iff_exists] at hall
      obtain ⟨⟨⟨⟨a, ha⟩, ⟨b, hb⟩⟩, ⟨c, hc⟩⟩, -⟩ := hall
      exact hne a b c ha hb hc
  · simp only [create_shadow_mask_ray_tracing_pipeline]
    split
    · cases hf : t.m_vk_backend.pipeline_creation_fails
          .VK_PIPELINE_BIND_POINT_RAY_TRACING_NV <;>
        simp [*, RayTracingPipeline.create, Backend.assigned, Backend.created,
          Backend.reset_pipeline_creation_fails]
    · rename_i hne
      rw [Option.isSome_none, eq_comm, Bool.eq_false_iff]
      intro hall
      simp only [Bool.and_eq_true, Option.isSome_iff_exists] at hall
      obtain ⟨⟨⟨⟨a, ha⟩, ⟨b, hb⟩⟩, ⟨c, hc⟩⟩, -⟩ := hall
      exact hne a b c ha hb hc
  · simp only [create_reflection_ray_tracing_pipeline]
    split
    · cases hf : t.m_vk_backend.pipeline_creation_fails
          .VK_PIPELINE_BIND_POINT_RAY_TRACING_NV <;>
        simp [*, RayTracingPipeline.create, Backend.assigned, Backend.created,
          Backend.reset_pipeline_creation_fails]
    · rename_i hne
      rw [Option.isSome_none, eq_comm, Bool.eq_false_iff]
      intro hall
      simp only [Bool.and_eq_true, Option.isSome_iff_exists] at hall
      obtain ⟨⟨⟨⟨⟨a, ha⟩, ⟨b, hb⟩⟩, ⟨c, hc⟩⟩, ⟨d, hd⟩⟩, -⟩ := hall
      exact hne a b c d ha hb hc hd

/-- The steps of `init` in the order of the source: when `init` returns true, each step
was applied to what the steps before it left, and returned. -/
theorem init_steps (s s' : Sample) (h : init s = some (true, s')) :
    ∃ tm, load_mesh (create_uniform_buffer (create_shaders s).2).2 = some (true, tm) ∧
    ∃ tf, create_framebuffers (create_render_passes (create_output_images
        (load_blue_noise tm))) = some tf ∧
    ∃ td, create_descriptor_sets (create_descriptor_set_layouts tf) = some td ∧
    ∃ tw, write_descriptor_sets td = some tw ∧
    ∃ t1, create_deferred_pipeline tw = some t1 ∧
    ∃ t2, create_gbuffer_pipeline t1 = some t2 ∧
    ∃ t3, create_shadow_mask_ray_tracing_pipeline t2 = some t3 ∧
    ∃ t4, create_reflection_ray_tracing_pipeline t3 = some t4 ∧ s' = create_camera t4 := by
  unfold init at h
  try dsimp only at h
  split at h
  · simp at h
  try dsimp only at h
  split at h
  · simp at h
  try dsimp only at h
  split at h
  · simp at h
  · simp at h
  rename_i tm hmesh
  refine ⟨tm, hmesh, ?_⟩
  try dsimp only at h
  split at h
  · simp at h
  rename_i tf hfb
  refine ⟨tf, hfb, ?_⟩
  try dsimp only at h
  split at h
  · simp at h
  rename_i td hds
  refine ⟨td, hds, ?_⟩
  try dsimp only at h
  split at h
  · simp at h
  rename_i tw hw
  refine ⟨tw, hw, ?_⟩
  try dsimp only at h
  split at h
  · simp at h
  rename_i t1 h1
  refine ⟨t1, h1, ?_⟩
  try dsimp only at h
  split at h
  · simp at h
  rename_i t2 h2
  refine ⟨t2, h2, ?_⟩
  try dsimp only at h
  split at h
  · simp at h
  rename_i t3 h3
  refine ⟨t3, h3, ?_⟩
  try dsimp only at h
  split at h
  · simp at h
  rename_i t4 h4
  refine ⟨t4, h4, ?_⟩
  simpa using h.symm

/-- The steps of `window_resized` in the order of the source: when it returns, the camera
was set, and `create_framebuffers` and `write_descriptor_sets` were applied to what the
steps before them left, and returned. -/
theorem window_resized_steps (w h : Nat) (t s' : Sample)
    (hr : window_resized w h t = some s') :
    ∃ camera, t.m_main_camera = some camera ∧
    ∃ tf, create_framebuffers (create_output_images
        { t with m_main_camera := some (camera.update_projection (t.m_width, t.m_height))
                 m_vk_backend := t.m_vk_backend.wait_idle }) = some tf ∧
      write_descriptor_sets tf = some s' := by
  unfold window_resized at hr
  split at hr
  · simp at hr
  rename_i camera hc
  refine ⟨camera, hc, ?_⟩
  dsimp only at hr
  split at hr
  · simp at hr
  rename_i tf hf
  exact ⟨tf, hf, hr⟩

/-! ## Image layouts at the accesses of a frame -/

/-- A command that is no draw and no trace dispatch accesses no image. -/
theorem LayoutTracker.accesses_of_no_work (ws : List VkWriteDescriptorSet) (t : LayoutTracker)
    (c : Cmd) (h : c.bind_point = none) : t.accesses ws c = [] := by
  simp [LayoutTracker.accesses, h]

/-- The loop of `render_gbuffer` accesses no image through the descriptors of the sample,
when the per-frame set and the sets of the materials hold no image descriptor of the
sample; it leaves the per-frame set in slot 0 and at most a material set in slot 1. -/
theorem tracked_accesses_draw_commands (ws : List VkWriteDescriptorSet) (rp : RenderPass)
    (fbo : Framebuffer) (layout : Handle) (mesh : Mesh) (pf : Handle)
    (hpf : declared_images ws pf = [])
    (hmat : ∀ m ∈ mesh.materials, ∀ h, m.pbr_descriptor_set = some h →
      declared_images ws h = [])
    (subs : List SubMesh) (rest : List Cmd) :
    ∀ (t : LayoutTracker) (x : Option Handle),
      t.bound = (.VK_PIPELINE_BIND_POINT_GRAPHICS, 0, pf) ::
        (x.map fun h => (VkPipelineBindPoint.VK_PIPELINE_BIND_POINT_GRAPHICS, 1, h)).toList →
      (∀ h, x = some h → declared_images ws h = []) →
      ∃ x' : Option Handle,
        tracked_accesses ws rp fbo t (draw_commands layout mesh subs ++ rest) =
          tracked_accesses ws rp fbo
            { t with bound := (.VK_PIPELINE_BIND_POINT_GRAPHICS, 0, pf) ::
                (x'.map fun h =>
                  (VkPipelineBindPoint.VK_PIPELINE_BIND_POINT_GRAPHICS, 1, h)).toList } rest := by
  induction subs with
  | nil =>
    intro t x hb _
    refine ⟨x, ?_⟩
    rw [← hb]
    rfl
  | cons sm subs ih =>
    intro t x hb hx
    cases hds : (mesh.material sm.mat_idx).bind (·.pbr_descriptor_set) with
    | none =>
      have hacc : t.accesses ws (Cmd.vkCmdDrawIndexed sm.index_count 1 sm.base_index
          (i32 sm.base_vertex) 0) = [] := by
        cases x with
        | none => simp [LayoutTracker.accesses, Cmd.bind_point, hb, hpf]
        | some h => simp [LayoutTracker.accesses, Cmd.bind_point, hb, hpf, hx h rfl]
      obtain ⟨x', hx'⟩ := ih t x hb hx
      refine ⟨x', ?_⟩
      simp only [draw_commands, hds, List.nil_append, List.cons_append, tracked_accesses, hacc]
      exact hx'
    | some ds =>
      have hdi : declared_images ws ds = [] := by
        obtain ⟨mat, hmat1, hmat2⟩ := Option.bind_eq_some.mp hds
        simp only [Mesh.material] at hmat1
        exact hmat mat (List.getElem?_mem hmat1) ds hmat2
      have hb1 : (t.step rp fbo (Cmd.vkCmdBindDescriptorSets .VK_PIPELINE_BIND_POINT_GRAPHICS
          layout 1 [ds] [])).bound = (.VK_PIPELINE_BIND_POINT_GRAPHICS, 0, pf) ::
          ((some ds).map fun h =>
            (VkPipelineBindPoint.VK_PIPELINE_BIND_POINT_GRAPHICS, 1, h)).toList := by
        cases x <;> simp [LayoutTracker.step, bind_sets, hb]
      have hacc : (t.step rp fbo (Cmd.vkCmdBindDescriptorSets .VK_PIPELINE_BIND_POINT_GRAPHICS
          layout 1 [ds] [])).accesses ws (Cmd.vkCmdDrawIndexed sm.index_count 1 sm.base_index
          (i32 sm.base_vertex) 0) = [] := by
        simp [LayoutTracker.accesses, Cmd.bind_point, hb1, hpf, hdi]
      obtain ⟨x', hx'⟩ := ih _ (some ds) hb1 (fun h hh => by
        cases hh
        exact hdi)
      refine ⟨x', ?_⟩
      have hbind : t.accesses ws (Cmd.vkCmdBindDescriptorSets .VK_PIPELINE_BIND_POINT_GRAPHICS
          layout 1 [ds] []) = [] := LayoutTracker.accesses_of_no_work ws t _ rfl
      simp only [draw_commands, hds, List.cons_append, List.nil_append, tracked_accesses, hacc,
        hbind]
      exact hx'

/-- The image descriptors that the writes of `write_descriptor_sets` put into each of the
five sets, when these are five sets; they put none into any other set. -/
theorem declared_images_set_writes (b : Backend) (dds pf gds sds rds : Handle)
    (sv rv g1 g2 g3 bn : ImageView) (ubo as : Handle)
    (hnd : [dds, pf, gds, sds, rds].Nodup) :
    declared_images (set_writes b dds pf gds sds rds sv rv g1 g2 g3 bn ubo as) dds =
      [ (sv.image.handle, .VK_IMAGE_LAYOUT_SHADER_READ_ONLY_OPTIMAL),
        (rv.image.handle, .VK_IMAGE_LAYOUT_SHADER_READ_ONLY_OPTIMAL),
        (g1.image.handle, .VK_IMAGE_LAYOUT_SHADER_READ_ONLY_OPTIMAL),
        (g2.image.handle, .VK_IMAGE_LAYOUT_SHADER_READ_ONLY_OPTIMAL),
        (g3.image.handle, .VK_IMAGE_LAYOUT_SHADER_READ_ONLY_OPTIMAL) ] ∧
    declared_images (set_writes b dds pf gds sds rds sv rv g1 g2 g3 bn ubo as) pf = [] ∧
    declared_images (set_writes b dds pf gds sds rds sv rv g1 g2 g3 bn ubo as) gds =
      [ (g1.image.handle, .VK_IMAGE_LAYOUT_SHADER_READ_ONLY_OPTIMAL),
        (g2.image.handle, .VK_IMAGE_LAYOUT_SHADER_READ_ONLY_OPTIMAL),
        (g3.image.handle, .VK_IMAGE_LAYOUT_SHADER_READ_ONLY_OPTIMAL) ] ∧
    declared_images (set_writes b dds pf gds sds rds sv rv g1 g2 g3 bn ubo as) sds =
      [ (sv.image.handle, .VK_IMAGE_LAYOUT_GENERAL) ] ∧
    declared_images (set_writes b dds pf gds sds rds sv rv g1 g2 g3 bn ubo as) rds =
      [ (rv.image.handle, .VK_IMAGE_LAYOUT_GENERAL),
        (bn.image.handle, .VK_IMAGE_LAYOUT_SHADER_READ_ONLY_OPTIMAL) ] ∧
    ∀ h, h ∉ [dds, pf, gds, sds, rds] →
      declared_images (set_writes b dds pf gds sds rds sv rv g1 g2 g3 bn ubo as) h = [] := by
  simp only [List.nodup_cons, List.mem_cons, List.mem_singleton, List.not_mem_nil, or_false,
    not_or, List.nodup_nil, and_true, not_false_eq_true] at hnd
  obtain ⟨⟨h12, h13, h14, h15⟩, ⟨h23, h24, h25⟩, ⟨h34, h35⟩, h45⟩ := hnd
  have h21 := Ne.symm h12
  have h31 := Ne.symm h13
  have h41 := Ne.symm h14
  have h51 := Ne.symm h15
  have h32 := Ne.symm h23
  have h42 := Ne.symm h24
  have h52 := Ne.symm h25
  have h43 := Ne.symm h34
  have h53 := Ne.symm h35
  have h54 := Ne.symm h45
  refine ⟨?_, ?_, ?_, ?_, ?_, ?_⟩
  · simp [declared_images, set_writes, sampled_write, storage_write,
      acceleration_structure_write, List.filter_cons, *]
  · simp [declared_images, set_writes, sampled_write, storage_write,
      acceleration_structure_write, List.filter_cons, *]
  · simp [declared_images, set_writes, sampled_write, storage_write,
      acceleration_structure_write, List.filter_cons, *]
  · simp [declared_images, set_writes, sampled_write, storage_write,
      acceleration_structure_write, List.filter_cons, *]
  · simp [declared_images, set_writes, sampled_write, storage_write,
      acceleration_structure_write, List.filter_cons, *]
  · intro h hh
    simp only [List.mem_cons, List.mem_singleton, List.not_mem_nil, or_false, not_or] at hh
    obtain ⟨e1, e2, e3, e4, e5⟩ := hh
    have e1' := Ne.symm e1
    have e2' := Ne.symm e2
    have e3' := Ne.symm e3
    have e4' := Ne.symm e4
    have e5' := Ne.symm e5
    simp [declared_images, set_writes, sampled_write, storage_write,
      acceleration_structure_write, List.filter_cons, *]

/-- The image accesses of the three passes after the geometry pass, from the point where
`render_gbuffer` ends its render pass: the frame targets are in the declared layouts. -/
theorem tracked_accesses_passes (ws : List VkWriteDescriptorSet) (s : Sample)
    (o : FrameObjects) (layouts : Handle → Option VkImageLayout) (x : Option Handle)
    (a1 a2 a3 a4 : VkAttachmentDescription)
    (hatt : o.rp.attachments = [a1, a2, a3, a4])
    (hf1 : a1.finalLayout = .VK_IMAGE_LAYOUT_SHADER_READ_ONLY_OPTIMAL)
    (hf2 : a2.finalLayout = .VK_IMAGE_LAYOUT_SHADER_READ_ONLY_OPTIMAL)
    (hf3 : a3.finalLayout = .VK_IMAGE_LAYOUT_SHADER_READ_ONLY_OPTIMAL)
    (hviews : o.fbo.views = [o.g1v, o.g2v, o.g3v, o.gdv])
    (hnd : [o.simg.handle, o.rimg.handle, o.g1v.image.handle, o.g2v.image.handle,
      o.g3v.image.handle, o.gdv.image.handle, o.bnv.image.handle].Nodup)
    (hdds : declared_images ws o.dds.handle =
      [ (o.simg.handle, .VK_IMAGE_LAYOUT_SHADER_READ_ONLY_OPTIMAL),
        (o.rimg.handle, .VK_IMAGE_LAYOUT_SHADER_READ_ONLY_OPTIMAL),
        (o.g1v.image.handle, .VK_IMAGE_LAYOUT_SHADER_READ_ONLY_OPTIMAL),
        (o.g2v.image.handle, .VK_IMAGE_LAYOUT_SHADER_READ_ONLY_OPTIMAL),
        (o.g3v.image.handle, .VK_IMAGE_LAYOUT_SHADER_READ_ONLY_OPTIMAL) ])
    (hpf : declared_images ws o.pf.handle = [])
    (hgds : declared_images ws o.gds.handle =
      [ (o.g1v.image.handle, .VK_IMAGE_LAYOUT_SHADER_READ_ONLY_OPTIMAL),
        (o.g2v.image.handle, .VK_IMAGE_LAYOUT_SHADER_READ_ONLY_OPTIMAL),
        (o.g3v.image.handle, .VK_IMAGE_LAYOUT_SHADER_READ_ONLY_OPTIMAL) ])
    (hsds : declared_images ws o.sds.handle = [ (o.simg.handle, .VK_IMAGE_LAYOUT_GENERAL) ])
    (hrds : declared_images ws o.rds.handle =
      [ (o.rimg.handle, .VK_IMAGE_LAYOUT_GENERAL),
        (o.bnv.image.handle, .VK_IMAGE_LAYOUT_SHADER_READ_ONLY_OPTIMAL) ])
    (hs1 : declared_images ws o.scene.ray_tracing_geometry_descriptor_set = [])
    (hs2 : declared_images ws o.scene.albedo_descriptor_set = [])
    (hs3 : declared_images ws o.scene.normal_descriptor_set = [])
    (hs4 : declared_images ws o.scene.roughness_descriptor_set = [])
    (hs5 : declared_images ws o.scene.metallic_descriptor_set = []) :
    (tracked_accesses ws o.rp o.fbo
      { layouts := layouts, open_pass := some (o.rp.handle, o.fbo.handle),
        bound := (.VK_PIPELINE_BIND_POINT_GRAPHICS, 0, o.pf.handle) ::
          (x.map fun h => (VkPipelineBindPoint.VK_PIPELINE_BIND_POINT_GRAPHICS, 1, h)).toList,
        scopes := ["render_gbuffer", "update"] }
      ([Cmd.vkCmdEndRenderPass, Cmd.end_sample "render_gbuffer"] ++
        ray_trace_shadow_mask_commands s.m_width s.m_height (dynamic_offset s)
          s.m_vk_backend.shaderGroupHandleSize o.simg o.spipe o.slayout o.sds o.pf o.gds
          o.ssbt ++
        ray_trace_reflection_commands s.m_width s.m_height (dynamic_offset s)
          s.m_vk_backend.shaderGroupHandleSize o.rimg o.rpipe o.rlayout o.rds o.pf o.gds
          o.scene o.rsbt ++
        render_commands s.m_width s.m_height (dynamic_offset s)
          s.m_vk_backend.swapchain_render_pass s.m_vk_backend.swapchain_framebuffer o.dpipe
          o.dlayout o.dds o.pf ++
        [Cmd.end_sample "update"])).filter
        (fun a => [o.simg.handle, o.rimg.handle, o.g1v.image.handle, o.g2v.image.handle,
          o.g3v.image.handle, o.gdv.image.handle].contains a.image) =
      [ ⟨"ray-tracing-shadows", o.simg.handle, .VK_IMAGE_LAYOUT_GENERAL,
          some .VK_IMAGE_LAYOUT_GENERAL⟩,
        ⟨"ray-tracing-shadows", o.g1v.image.handle, .VK_IMAGE_LAYOUT_SHADER_READ_ONLY_OPTIMAL,
          some .VK_IMAGE_LAYOUT_SHADER_READ_ONLY_OPTIMAL⟩,
        ⟨"ray-tracing-shadows", o.g2v.image.handle, .VK_IMAGE_LAYOUT_SHADER_READ_ONLY_OPTIMAL,
          some .VK_IMAGE_LAYOUT_SHADER_READ_ONLY_OPTIMAL⟩,
        ⟨"ray-tracing-shadows", o.g3v.image.handle, .VK_IMAGE_LAYOUT_SHADER_READ_ONLY_OPTIMAL,
          some .VK_IMAGE_LAYOUT_SHADER_READ_ONLY_OPTIMAL⟩,
        ⟨"ray-tracing-reflections", o.rimg.handle, .VK_IMAGE_LAYOUT_GENERAL,
          some .VK_IMAGE_LAYOUT_GENERAL⟩,
        ⟨"ray-tracing-reflections", o.g1v.image.handle,
          .VK_IMAGE_LAYOUT_SHADER_READ_ONLY_OPTIMAL,
          some .VK_IMAGE_LAYOUT_SHADER_READ_ONLY_OPTIMAL⟩,
        ⟨"ray-tracing-reflections", o.g2v.image.handle,
          .VK_IMAGE_LAYOUT_SHADER_READ_ONLY_OPTIMAL,
          some .VK_IMAGE_LAYOUT_SHADER_READ_ONLY_OPTIMAL⟩,
        ⟨"ray-tracing-reflections", o.g3v.image.handle,
          .VK_IMAGE_LAYOUT_SHADER_READ_ONLY_OPTIMAL,
          some .VK_IMAGE_LAYOUT_SHADER_READ_ONLY_OPTIMAL⟩,
        ⟨"copy", o.simg.handle, .VK_IMAGE_LAYOUT_SHADER_READ_ONLY_OPTIMAL,
          some .VK_IMAGE_LAYOUT_SHADER_READ_ONLY_OPTIMAL⟩,
        ⟨"copy", o.rimg.handle, .VK_IMAGE_LAYOUT_SHADER_READ_ONLY_OPTIMAL,
          some .VK_IMAGE_LAYOUT_SHADER_READ_ONLY_OPTIMAL⟩,
        ⟨"copy", o.g1v.image.handle, .VK_IMAGE_LAYOUT_SHADER_READ_ONLY_OPTIMAL,
          some .VK_IMAGE_LAYOUT_SHADER_READ_ONLY_OPTIMAL⟩,
        ⟨"copy", o.g2v.image.handle, .VK_IMAGE_LAYOUT_SHADER_READ_ONLY_OPTIMAL,
          some .VK_IMAGE_LAYOUT_SHADER_READ_ONLY_OPTIMAL⟩,
        ⟨"copy", o.g3v.image.handle, .VK_IMAGE_LAYOUT_SHADER_READ_ONLY_OPTIMAL,
          some .VK_IMAGE_LAYOUT_SHADER_READ_ONLY_OPTIMAL⟩ ] := by
  simp only [List.nodup_cons, List.mem_cons, List.mem_singleton, List.not_mem_nil, or_false,
    not_or, List.nodup_nil, and_true, not_false_eq_true] at hnd
  obtain ⟨⟨h12, h13, h14, h15, h16, h17⟩, ⟨h23, h24, h25, h26, h27⟩, ⟨h34, h35, h36, h37⟩,
    ⟨h45, h46, h47⟩, ⟨h56, h57⟩, h67⟩ := hnd
  have h21 := Ne.symm h12
  have h31 := Ne.symm h13
  have h41 := Ne.symm h14
  have h51 := Ne.symm h15
  have h61 := Ne.symm h16
  have h71 := Ne.symm h17
  have h32 := Ne.symm h23
  have h42 := Ne.symm h24
  have h52 := Ne.symm h25
  have h62 := Ne.symm h26
  have h72 := Ne.symm h27
  have h43 := Ne.symm h34
  have h53 := Ne.symm h35
  have h63 := Ne.symm h36
  have h73 := Ne.symm h37
  have h54 := Ne.symm h45
  have h64 := Ne.symm h46
  have h74 := Ne.symm h47
  have h65 := Ne.symm h56
  have h75 := Ne.symm h57
  have h76 := Ne.symm h67
  cases x <;>
  simp [tracked_accesses, LayoutTracker.step, LayoutTracker.accesses, Cmd.bind_point, bind_sets,
    ray_trace_shadow_mask_commands, ray_trace_reflection_commands, render_commands,
    final_layouts, hatt, hviews, hf1, hf2, hf3, hdds, hpf, hgds, hsds, hrds, hs1, hs2, hs3,
    hs4, hs5, List.filter_cons, *]

/-- In a ready state whose objects are wired as `init` leaves them, whatever layouts the
images are in before the frame: at every access of a frame target the tracked layout is
the declared one. -/
theorem frame_accesses_wired (s : Sample) (h : s.ready = true) (hw : s.wired = true)
    (layouts : Handle → Option VkImageLayout) :
    ∃ acc simg rimg g1 g2 g3, frame_accesses s layouts = some acc ∧
      s.m_shadow_mask_image = some simg ∧ s.m_reflection_image = some rimg ∧
      s.m_g_buffer_1 = some g1 ∧ s.m_g_buffer_2 = some g2 ∧ s.m_g_buffer_3 = some g3 ∧
      acc.filter (fun a => s.target_handles.contains a.image) =
        [ ⟨"ray-tracing-shadows", simg.handle, .VK_IMAGE_LAYOUT_GENERAL,
            some .VK_IMAGE_LAYOUT_GENERAL⟩,
          ⟨"ray-tracing-shadows", g1.handle, .VK_IMAGE_LAYOUT_SHADER_READ_ONLY_OPTIMAL,
            some .VK_IMAGE_LAYOUT_SHADER_READ_ONLY_OPTIMAL⟩,
          ⟨"ray-tracing-shadows", g2.handle, .VK_IMAGE_LAYOUT_SHADER_READ_ONLY_OPTIMAL,
            some .VK_IMAGE_LAYOUT_SHADER_READ_ONLY_OPTIMAL⟩,
          ⟨"ray-tracing-shadows", g3.handle, .VK_IMAGE_LAYOUT_SHADER_READ_ONLY_OPTIMAL,
            some .VK_IMAGE_LAYOUT_SHADER_READ_ONLY_OPTIMAL⟩,
          ⟨"ray-tracing-reflections", rimg.handle, .VK_IMAGE_LAYOUT_GENERAL,
            some .VK_IMAGE_LAYOUT_GENERAL⟩,
          ⟨"ray-tracing-reflections", g1.handle, .VK_IMAGE_LAYOUT_SHADER_READ_ONLY_OPTIMAL,
            some .VK_IMAGE_LAYOUT_SHADER_READ_ONLY_OPTIMAL⟩,
          ⟨"ray-tracing-reflections", g2.handle, .VK_IMAGE_LAYOUT_SHADER_READ_ONLY_OPTIMAL,
            some .VK_IMAGE_LAYOUT_SHADER_READ_ONLY_OPTIMAL⟩,
          ⟨"ray-tracing-reflections", g3.handle, .VK_IMAGE_LAYOUT_SHADER_READ_ONLY_OPTIMAL,
            some .VK_IMAGE_LAYOUT_SHADER_READ_ONLY_OPTIMAL⟩,
          ⟨"copy", simg.handle, .VK_IMAGE_LAYOUT_SHADER_READ_ONLY_OPTIMAL,
            some .VK_IMAGE_LAYOUT_SHADER_READ_ONLY_OPTIMAL⟩,
          ⟨"copy", rimg.handle, .VK_IMAGE_LAYOUT_SHADER_READ_ONLY_OPTIMAL,
            some .VK_IMAGE_LAYOUT_SHADER_READ_ONLY_OPTIMAL⟩,
          ⟨"copy", g1.handle, .VK_IMAGE_LAYOUT_SHADER_READ_ONLY_OPTIMAL,
            some .VK_IMAGE_LAYOUT_SHADER_READ_ONLY_OPTIMAL⟩,
          ⟨"copy", g2.handle, .VK_IMAGE_LAYOUT_SHADER_READ_ONLY_OPTIMAL,
            some .VK_IMAGE_LAYOUT_SHADER_READ_ONLY_OPTIMAL⟩,
          ⟨"copy", g3.handle, .VK_IMAGE_LAYOUT_SHADER_READ_ONLY_OPTIMAL,
            some .VK_IMAGE_LAYOUT_SHADER_READ_ONLY_OPTIMAL⟩ ] := by
  obtain ⟨o, ho⟩ := points_to_of_ready s h
  have hu := update_eq s o ho
  obtain ⟨s2, hs2, -, -, hws⟩ := write_descriptor_sets_some s o.sview o.rview o.g1v o.g2v o.g3v
    o.bnv o.ubo o.scene o.dds o.pf o.gds o.sds o.rds ho.sview ho.rview ho.g1v ho.g2v ho.g3v
    ho.bnv ho.ubo ho.scene ho.dds ho.pf ho.gds ho.sds ho.rds
  simp only [Sample.wired, Bool.and_eq_true, decide_eq_true_eq] at hw
  obtain ⟨⟨⟨⟨⟨⟨hac, hfin⟩, hsv⟩, hrv⟩, hnd⟩, hown⟩, hforeign⟩ := hw
  simp only [Sample.attachments_consistent, Bool.and_eq_true, decide_eq_true_eq, ho.fbo, ho.rp,
    ho.g1v, ho.g2v, ho.g3v, ho.gdv, Option.map_some', Option.some.injEq, Prod.mk.injEq,
    List.map_cons, List.map_nil] at hac
  obtain ⟨⟨⟨⟨-, -, hv⟩, hi⟩, -⟩, -⟩ := hac
  have hviews : o.fbo.views = [o.g1v, o.g2v, o.g3v, o.gdv] :=
    List.map_injective_iff.mpr (Option.some_injective _) (hv.trans (by simp))
  simp only [List.cons.injEq, and_true] at hi
  obtain ⟨hg1, hg2, hg3, hgd⟩ := hi
  simp only [ho.sview, ho.simg, Option.map_some', Option.some.injEq] at hsv
  simp only [ho.rview, ho.rimg, Option.map_some', Option.some.injEq] at hrv
  have htargets : s.target_handles = [o.simg.handle, o.rimg.handle, o.g1v.image.handle,
      o.g2v.image.handle, o.g3v.image.handle, o.gdv.image.handle] := by
    simp [Sample.target_handles, frame_targets, ho.simg, ho.rimg, ← hg1, ← hg2, ← hg3, ← hgd]
  have hown' : s.own_sets = [o.dds.handle, o.pf.handle, o.gds.handle, o.sds.handle,
      o.rds.handle] := by
    simp [Sample.own_sets, Sample.sets_and_layouts, ho.dds, ho.pf, ho.gds, ho.sds, ho.rds]
  have hforeign' : s.foreign_sets = [ o.scene.ray_tracing_geometry_descriptor_set,
      o.scene.albedo_descriptor_set, o.scene.normal_descriptor_set,
      o.scene.roughness_descriptor_set, o.scene.metallic_descriptor_set ] ++
      o.mesh.materials.filterMap (·.pbr_descriptor_set) := by
    simp [Sample.foreign_sets, ho.scene, ho.mesh]
  rw [htargets, ho.bnv] at hnd
  simp only [Option.map_some', Option.toList_some, List.cons_append, List.nil_append] at hnd
  rw [hown'] at hown
  rw [hforeign', hown'] at hforeign
  simp only [ho.rp, Option.map_some', Option.some.injEq, List.map_eq_cons_iff,
    List.map_eq_nil_iff] at hfin
  obtain ⟨a1, l1, hatt1, hf1, a2, l2, hatt2, hf2, a3, l3, hatt3, hf3, a4, l4, hatt4, -, hl4⟩ :=
    hfin
  have hatt : o.rp.attachments = [a1, a2, a3, a4] := by
    rw [hatt1, hatt2, hatt3, hatt4, hl4]
  obtain ⟨d1, d2, d3, d4, d5, d6⟩ := declared_images_set_writes s.m_vk_backend o.dds.handle
    o.pf.handle o.gds.handle o.sds.handle o.rds.handle o.sview o.rview o.g1v o.g2v o.g3v o.bnv
    o.ubo.handle o.scene.acceleration_structure hown
  rw [hsv, hrv] at d1
  rw [hsv] at d4
  rw [hrv] at d5
  have hfor : ∀ x ∈ [ o.scene.ray_tracing_geometry_descriptor_set,
      o.scene.albedo_descriptor_set, o.scene.normal_descriptor_set,
      o.scene.roughness_descriptor_set, o.scene.metallic_descriptor_set ] ++
      o.mesh.materials.filterMap (·.pbr_descriptor_set),
      declared_images (set_writes s.m_vk_backend o.dds.handle o.pf.handle o.gds.handle
        o.sds.handle o.rds.handle o.sview o.rview o.g1v o.g2v o.g3v o.bnv o.ubo.handle
        o.scene.acceleration_structure) x = [] := by
    intro x hx
    apply d6
    have := List.all_eq_true.mp hforeign x hx
    simpa using this
  have hsplit : frame_commands s o =
      [ Cmd.begin_sample "update", Cmd.begin_sample "update_uniforms",
        Cmd.end_sample "update_uniforms", Cmd.begin_sample "render_gbuffer",
        Cmd.vkCmdBeginRenderPass o.rp.handle o.fbo.handle (s.m_width, s.m_height)
          [⟨(0, 0, 0, 1)⟩, ⟨(0, 0, 0, 1)⟩, ⟨(0, 0, 0, 1)⟩, ⟨(1, 1, 1, 1)⟩],
        Cmd.vkCmdSetViewport 0 0 s.m_width s.m_height 0 1,
        Cmd.vkCmdSetScissor (0, 0) (s.m_width, s.m_height),
        Cmd.vkCmdBindPipeline .VK_PIPELINE_BIND_POINT_GRAPHICS o.gpipe.handle,
        Cmd.vkCmdBindVertexBuffers 0 [o.mesh.vertex_buffer] [0],
        Cmd.vkCmdBindIndexBuffer o.mesh.index_buffer 0,
        Cmd.vkCmdBindDescriptorSets .VK_PIPELINE_BIND_POINT_GRAPHICS o.glayout.handle 0
          [o.pf.handle] [dynamic_offset s] ] ++
      (draw_commands o.glayout.handle o.mesh o.mesh.sub_meshes ++
        ([Cmd.vkCmdEndRenderPass, Cmd.end_sample "render_gbuffer"] ++
          ray_trace_shadow_mask_commands s.m_width s.m_height (dynamic_offset s)
            s.m_vk_backend.shaderGroupHandleSize o.simg o.spipe o.slayout o.sds o.pf o.gds
            o.ssbt ++
          ray_trace_reflection_commands s.m_width s.m_height (dynamic_offset s)
            s.m_vk_backend.shaderGroupHandleSize o.rimg o.rpipe o.rlayout o.rds o.pf o.gds
            o.scene o.rsbt ++
          render_commands s.m_width s.m_height (dynamic_offset s)
            s.m_vk_backend.swapchain_render_pass s.m_vk_backend.swapchain_framebuffer o.dpipe
            o.dlayout o.dds o.pf ++
          [Cmd.end_sample "update"])) := by
    simp [frame_commands, render_gbuffer_begin]
  have hpre : ∀ (ws : List VkWriteDescriptorSet) (rest : List Cmd),
      tracked_accesses ws o.rp o.fbo
        { layouts := layouts, open_pass := none, bound := [], scopes := [] }
        ([ Cmd.begin_sample "update", Cmd.begin_sample "update_uniforms",
          Cmd.end_sample "update_uniforms", Cmd.begin_sample "render_gbuffer",
          Cmd.vkCmdBeginRenderPass o.rp.handle o.fbo.handle (s.m_width, s.m_height)
            [⟨(0, 0, 0, 1)⟩, ⟨(0, 0, 0, 1)⟩, ⟨(0, 0, 0, 1)⟩, ⟨(1, 1, 1, 1)⟩],
          Cmd.vkCmdSetViewport 0 0 s.m_width s.m_height 0 1,
          Cmd.vkCmdSetScissor (0, 0) (s.m_width, s.m_height),
          Cmd.vkCmdBindPipeline .VK_PIPELINE_BIND_POINT_GRAPHICS o.gpipe.handle,
          Cmd.vkCmdBindVertexBuffers 0 [o.mesh.vertex_buffer] [0],
          Cmd.vkCmdBindIndexBuffer o.mesh.index_buffer 0,
          Cmd.vkCmdBindDescriptorSets .VK_PIPELINE_BIND_POINT_GRAPHICS o.glayout.handle 0
            [o.pf.handle] [dynamic_offset s] ] ++ rest) =
      tracked_accesses ws o.rp o.fbo
        { layouts := layouts, open_pass := some (o.rp.handle, o.fbo.handle),
          bound := [(.VK_PIPELINE_BIND_POINT_GRAPHICS, 0, o.pf.handle)],
          scopes := ["render_gbuffer", "update"] } rest := fun _ _ => rfl
  obtain ⟨x', hx'⟩ := tracked_accesses_draw_commands
    (set_writes s.m_vk_backend o.dds.handle o.pf.handle o.gds.handle o.sds.handle o.rds.handle
      o.sview o.rview o.g1v o.g2v o.g3v o.bnv o.ubo.handle o.scene.acceleration_structure)
    o.rp o.fbo o.glayout.handle o.mesh o.pf.handle d2
    (fun m hm x hx => hfor x (List.mem_append_right _
      (List.mem_filterMap.mpr ⟨m, hm, hx⟩)))
    o.mesh.sub_meshes
    ([Cmd.vkCmdEndRenderPass, Cmd.end_sample "render_gbuffer"] ++
      ray_trace_shadow_mask_commands s.m_width s.m_height (dynamic_offset s)
        s.m_vk_backend.shaderGroupHandleSize o.simg o.spipe o.slayout o.sds o.pf o.gds
        o.ssbt ++
      ray_trace_reflection_commands s.m_width s.m_height (dynamic_offset s)
        s.m_vk_backend.shaderGroupHandleSize o.rimg o.rpipe o.rlayout o.rds o.pf o.gds
        o.scene o.rsbt ++
      render_commands s.m_width s.m_height (dynamic_offset s)
        s.m_vk_backend.swapchain_render_pass s.m_vk_backend.swapchain_framebuffer o.dpipe
        o.dlayout o.dds o.pf ++
      [Cmd.end_sample "update"])
    { layouts := layouts, open_pass := some (o.rp.handle, o.fbo.handle),
      bound := [(.VK_PIPELINE_BIND_POINT_GRAPHICS, 0, o.pf.handle)],
      scopes := ["render_gbuffer", "update"] } none rfl (fun _ hh => by cases hh)
  have hpass := tracked_accesses_passes
    (set_writes s.m_vk_backend o.dds.handle o.pf.handle o.gds.handle o.sds.handle o.rds.handle
      o.sview o.rview o.g1v o.g2v o.g3v o.bnv o.ubo.handle o.scene.acceleration_structure)
    s o layouts x' a1 a2 a3 a4 hatt hf1 hf2 hf3 hviews hnd d1 d2 d3 d4 d5
    (hfor _ (by simp)) (hfor _ (by simp)) (hfor _ (by simp)) (hfor _ (by simp))
    (hfor _ (by simp))
  refine ⟨tracked_accesses
    (set_writes s.m_vk_backend o.dds.handle o.pf.handle o.gds.handle o.sds.handle o.rds.handle
      o.sview o.rview o.g1v o.g2v o.g3v o.bnv o.ubo.handle o.scene.acceleration_structure)
    o.rp o.fbo { layouts := layouts, open_pass := none, bound := [], scopes := [] }
    (frame_commands s o), o.simg, o.rimg, o.g1v.image, o.g2v.image, o.g3v.image, ?_, ho.simg,
    ho.rimg, hg1.symm, hg2.symm, hg3.symm, ?_⟩
  · simp only [frame_accesses, hu, hs2, ho.rp, ho.fbo, hws]
  · rw [htargets, hsplit, hpre, hx']
    exact hpass

/-- Six handles taken from the object counter and a handle below the counter are seven
handles. -/
theorem fresh_targets_nodup (n k : Nat) (hk : k < n) :
    [n, n + 2, n + 4, n + 5, n + 6, n + 7, k].Nodup := by
  simp only [List.nodup_cons, List.mem_cons, List.mem_singleton, List.not_mem_nil,
    or_false, not_or, List.nodup_nil, and_true, not_false_eq_true]
  omega

/-- A frame leaves the wiring of a sample, its noise texture and the object counter as
they are. -/
theorem update_wired (t : Sample) (h : t.ready = true) :
    ∃ s', (update t).map (·.1) = some s' ∧ s'.wired = t.wired ∧
      s'.m_blue_noise_view = t.m_blue_noise_view ∧
      s'.m_vk_backend.next_handle = t.m_vk_backend.next_handle := by
  obtain ⟨o, ho, hu⟩ := update_of_ready t h
  refine ⟨frame_state t o.camera o.ubo (frame_commands t o), by rw [hu]; rfl, ?_, rfl, rfl⟩
  simp [Sample.wired, Sample.attachments_consistent, frame_state, Backend.submit_and_present,
    Sample.target_handles, frame_targets, Sample.own_sets, Sample.sets_and_layouts,
    Sample.foreign_sets]

/-- A frame step leaves the wiring of a ready sample as it is. -/
theorem frame_step_wired (s : Sample) (idx : Nat) (h : s.ready = true) :
    ∃ s', s.step (.frame idx) = some s' ∧ s'.wired = s.wired ∧
      s'.m_blue_noise_view = s.m_blue_noise_view ∧
      s'.m_vk_backend.next_handle = s.m_vk_backend.next_handle := by
  obtain ⟨s', h1, h2, h3, h4⟩ := update_wired
    { s with m_vk_backend := { s.m_vk_backend with current_frame_idx := idx } } h
  exact ⟨s', h1, h2.trans rfl, h3.trans rfl, h4.trans rfl⟩

/-- A resize leaves a ready, wired sample wired, when the noise texture was created before
the objects the resize creates. -/
theorem resize_step_wired (s : Sample) (mw mh w h : Nat) (hr : s.ready = true)
    (hw : s.wired = true) (bn : ImageView) (hbn : s.m_blue_noise_view = some bn)
    (hlt : bn.image.handle < s.m_vk_backend.next_handle) :
    ∃ s', s.step (.resize mw mh w h) = some s' ∧ s'.wired = true ∧
      s'.m_blue_noise_view = some bn ∧
      bn.image.handle < s'.m_vk_backend.next_handle := by
  have hr' : (s.set_window_size mw mh).ready = true := hr
  obtain ⟨o, ho⟩ := points_to_of_ready _ hr'
  obtain ⟨s', hs', hp, -, hn⟩ := window_resized_eq w h _ o ho
  have hrp : s.m_g_buffer_rp = some o.rp := ho.rp
  have hbn' : (s.set_window_size mw mh).m_blue_noise_view = some o.bnv := ho.bnv
  have hbe : o.bnv = bn := Option.some.inj (hbn'.symm.trans hbn)
  refine ⟨s', hs', ?_, by rw [hp.bnv]; exact congrArg some hbe, ?_⟩
  · simp only [Sample.wired, Bool.and_eq_true, decide_eq_true_eq] at hw
    obtain ⟨⟨⟨⟨⟨⟨hac, hfin⟩, hsv⟩, hrv⟩, hnd⟩, hown⟩, hforeign⟩ := hw
    have hf : s.m_g_buffer_rp.map (fun rp => rp.attachments.map (·.format)) =
        some [ .VK_FORMAT_R8G8B8A8_UNORM, .VK_FORMAT_R16G16B16A16_SFLOAT,
          .VK_FORMAT_R32G32B32A32_SFLOAT, s.m_vk_backend.swap_chain_depth_format ] := by
      simp only [Sample.attachments_consistent, Bool.and_eq_true, decide_eq_true_eq] at hac
      exact hac.2
    obtain ⟨s1, h1, -, h3, -, -⟩ := resize_step_ready s mw mh w h hr
    have he : s1 = s' := Option.some.inj (h1.symm.trans hs')
    subst he
    have hac' := h3 hf
    have hdds : s.m_deferred_ds = some o.dds := ho.dds
    have hpf : s.m_per_frame_ds = some o.pf := ho.pf
    have hgds : s.m_g_buffer_ds = some o.gds := ho.gds
    have hsds : s.m_shadow_mask_ds = some o.sds := ho.sds
    have hrds : s.m_reflection_ds = some o.rds := ho.rds
    have hscene : s.m_scene = some o.scene := ho.scene
    have hmesh : s.m_mesh = some o.mesh := ho.mesh
    have hown1 : s1.own_sets = s.own_sets := by
      simp [Sample.own_sets, Sample.sets_and_layouts, hp.dds, hp.pf, hp.gds, hp.sds, hp.rds,
        hdds, hpf, hgds, hsds, hrds, resized_objects]
    have hfor1 : s1.foreign_sets = s.foreign_sets := by
      simp [Sample.foreign_sets, hp.scene, hp.mesh, hscene, hmesh, resized_objects]
    have himg := hac'
    simp only [Sample.attachments_consistent, Bool.and_eq_true, decide_eq_true_eq, hp.g1v,
      hp.g2v, hp.g3v, hp.gdv, Option.map_some', List.map_cons, List.map_nil] at himg
    obtain ⟨⟨⟨-, hi⟩, -⟩, -⟩ := himg
    simp only [List.cons.injEq, and_true] at hi
    obtain ⟨hg1, hg2, hg3, hgd⟩ := hi
    simp only [Sample.wired, Bool.and_eq_true, decide_eq_true_eq]
    refine ⟨⟨⟨⟨⟨⟨hac', ?_⟩, ?_⟩, ?_⟩, ?_⟩, ?_⟩, ?_⟩
    · rw [hp.rp]
      rw [hrp] at hfin
      exact hfin
    · rw [hp.sview, hp.simg]
      rfl
    · rw [hp.rview, hp.rimg]
      rfl
    · have hlt' : bn.image.handle < (s.set_window_size mw mh).m_vk_backend.next_handle := hlt
      rw [← hbe] at hlt'
      simp only [Sample.target_handles, frame_targets, hp.simg, hp.rimg, ← hg1, ← hg2, ← hg3,
        ← hgd, hp.bnv, Option.map_some', List.filterMap_cons, List.filterMap_nil,
        Option.toList_some, List.cons_append, List.nil_append, resized_objects]
      exact fresh_targets_nodup _ _ hlt'
    · rw [hown1]
      exact hown
    · rw [hfor1, hown1]
      exact hforeign
  · rw [hn]
    exact Nat.lt_of_lt_of_le hlt (Nat.le_add_right _ _)

/-- A handle that is none of the sixty handles from the object counter on is none of the
handles 35 to 39 objects later. -/
theorem below_counter_fresh (n x : Nat) (h : x < n ∨ n + 60 ≤ x) :
    ¬n + 35 = x ∧ ¬n + 36 = x ∧ ¬n + 37 = x ∧ ¬n + 38 = x ∧ ¬n + 39 = x := by
  omega

set_option maxHeartbeats 1000000 in
/-- On a device on which the mesh loads and no pipeline creation fails, when the sets of
the materials of the mesh are none of the sixty objects `init` creates, `init` leaves the
sample wired. -/
theorem init_wired (w h : Nat) (b : Backend) (m : Mesh)
    (hm : b.mesh_files "mesh/sponza.obj" = some m)
    (hp : ∀ p, b.pipeline_creation_fails p = false)
    (hmat : ∀ x ∈ m.materials.filterMap (·.pbr_descriptor_set),
      x < b.next_handle ∨ b.next_handle + 60 ≤ x) :
    ∃ s', init (Sample.start w h b) = some (true, s') ∧ s'.wired = true ∧
      ∃ bn, s'.m_blue_noise_view = some bn ∧
        bn.image.handle < s'.m_vk_backend.next_handle := by
  simp [hp, init, Sample.start, create_shaders, create_uniform_buffer, load_mesh, Mesh.load,
    Mesh.load_backend, hm, Backend.assigned, Backend.created, Backend.reset, Scene.create,
    Scene.create_backend, load_blue_noise, create_output_images, create_render_passes,
    create_framebuffers, create_descriptor_set_layouts, create_descriptor_sets,
    write_descriptor_sets, create_deferred_pipeline, create_gbuffer_pipeline,
    create_shadow_mask_ray_tracing_pipeline, create_reflection_ray_tracing_pipeline,
    create_camera, Backend.vkUpdateDescriptorSets, PipelineLayout.create,
    Backend.allocate_descriptor_set, GraphicsPipeline.create, RayTracingPipeline.create,
    GraphicsPipeline.create_backend, RayTracingPipeline.create_backend,
    Image.create, ImageView.create, Image.create_from_file,
    Framebuffer.create, gbuffer_color_attachment, Sample.attachments_consistent, Sample.wired,
    Sample.target_handles, frame_targets, Sample.own_sets, Sample.sets_and_layouts,
    Sample.foreign_sets, Nat.add_assoc]
  intro x mat hmem hset
  have hlt := hmat x (List.mem_filterMap.mpr ⟨mat, hmem, hset⟩)
  exact below_counter_fresh _ _ hlt

/-- Every sequence of steps returns on a ready, wired sample whose noise texture was
created before the object counter, and leaves such a sample. -/
theorem steps_wired (steps : List Step) : ∀ (s : Sample), s.ready = true →
    s.wired = true →
    (∃ bn, s.m_blue_noise_view = some bn ∧ bn.image.handle < s.m_vk_backend.next_handle) →
    ∃ s', s.steps steps = some s' ∧ s'.ready = true ∧ s'.wired = true := by
  induction steps with
  | nil => exact fun s hr hw _ => ⟨s, rfl, hr, hw⟩
  | cons st rest ih =>
    intro s hr hw hbn
    obtain ⟨bn, hbn, hlt⟩ := hbn
    cases st with
    | frame idx =>
      obtain ⟨s1, h1, h2, -⟩ := frame_step_ready s idx hr
      obtain ⟨s2, g1, g2, g3, g4⟩ := frame_step_wired s idx hr
      have he : s2 = s1 := Option.some.inj (g1.symm.trans h1)
      subst he
      obtain ⟨s', k1, k2, k3⟩ := ih s2 h2 (g2.trans hw)
        ⟨bn, g3.trans hbn, by rw [g4]; exact hlt⟩
      exact ⟨s', by simp only [Sample.steps, h1, k1], k2, k3⟩
    | resize mw mh w h =>
      obtain ⟨s1, h1, h2, -⟩ := resize_step_ready s mw mh w h hr
      obtain ⟨s2, g1, g2, g3, g4⟩ := resize_step_wired s mw mh w h hr hw bn hbn hlt
      have he : s2 = s1 := Option.some.inj (g1.symm.trans h1)
      subst he
      obtain ⟨s', k1, k2, k3⟩ := ih s2 h2 g2 ⟨bn, g3, g4⟩
      exact ⟨s', by simp only [Sample.steps, h1, k1], k2, k3⟩

/-- C22. On every device on which the mesh loads (with materials for all its sub-meshes,
whose descriptor sets are none of the sixty objects `init` creates) and no pipeline
creation fails, after `init` and every sequence of frames and resizes, and whatever
layouts the images are in before the frame: track the layout of each image through the commands of a frame of
`update` (the end of the G-buffer render pass puts its attachments into the final layouts
the render pass declares, each recorded barrier puts its image into its new layout), and
read at each draw and trace dispatch the image descriptors of the bound sets as
`write_descriptor_sets` writes them. Then the accesses to the six frame targets are
exactly: in the shadow pass the shadow mask in general layout and G-buffer 1, 2, 3 in
shader-read-only layout; in the reflection pass the reflection image in general layout
and G-buffer 1, 2, 3 in shader-read-only layout; in the composite pass the shadow mask,
the reflection image and G-buffer 1, 2, 3 in shader-read-only layout; and at each of them
the tracked layout of the image is the `imageLayout` its descriptor declares. -/
theorem layouts_match_descriptors (w h : Nat) (b : Backend) (m : Mesh) (steps : List Step)
    (layouts : Handle → Option VkImageLayout)
    (hm : b.mesh_files "mesh/sponza.obj" = some m)
    (hp : ∀ p, b.pipeline_creation_fails p = false)
    (hwf : m.well_formed = true)
    (hmat : ∀ x ∈ m.materials.filterMap (·.pbr_descriptor_set),
      x < b.next_handle ∨ b.next_handle + 60 ≤ x) :
    ∃ s' acc simg rimg g1 g2 g3, session w h b steps = some s' ∧
      frame_accesses s' layouts = some acc ∧
      s'.m_shadow_mask_image = some simg ∧ s'.m_reflection_image = some rimg ∧
      s'.m_g_buffer_1 = some g1 ∧ s'.m_g_buffer_2 = some g2 ∧ s'.m_g_buffer_3 = some g3 ∧
      acc.filter (fun a => s'.target_handles.contains a.image) =
        [ ⟨"ray-tracing-shadows", simg.handle, .VK_IMAGE_LAYOUT_GENERAL,
            some .VK_IMAGE_LAYOUT_GENERAL⟩,
          ⟨"ray-tracing-shadows", g1.handle, .VK_IMAGE_LAYOUT_SHADER_READ_ONLY_OPTIMAL,
            some .VK_IMAGE_LAYOUT_SHADER_READ_ONLY_OPTIMAL⟩,
          ⟨"ray-tracing-shadows", g2.handle, .VK_IMAGE_LAYOUT_SHADER_READ_ONLY_OPTIMAL,
            some .VK_IMAGE_LAYOUT_SHADER_READ_ONLY_OPTIMAL⟩,
          ⟨"ray-tracing-shadows", g3.handle, .VK_IMAGE_LAYOUT_SHADER_READ_ONLY_OPTIMAL,
            some .VK_IMAGE_LAYOUT_SHADER_READ_ONLY_OPTIMAL⟩,
          ⟨"ray-tracing-reflections", rimg.handle, .VK_IMAGE_LAYOUT_GENERAL,
            some .VK_IMAGE_LAYOUT_GENERAL⟩,
          ⟨"ray-tracing-reflections", g1.handle, .VK_IMAGE_LAYOUT_SHADER_READ_ONLY_OPTIMAL,
            some .VK_IMAGE_LAYOUT_SHADER_READ_ONLY_OPTIMAL⟩,
          ⟨"ray-tracing-reflections", g2.handle, .VK_IMAGE_LAYOUT_SHADER_READ_ONLY_OPTIMAL,
            some .VK_IMAGE_LAYOUT_SHADER_READ_ONLY_OPTIMAL⟩,
          ⟨"ray-tracing-reflections", g3.handle, .VK_IMAGE_LAYOUT_SHADER_READ_ONLY_OPTIMAL,
            some .VK_IMAGE_LAYOUT_SHADER_READ_ONLY_OPTIMAL⟩,
          ⟨"copy", simg.handle, .VK_IMAGE_LAYOUT_SHADER_READ_ONLY_OPTIMAL,
            some .VK_IMAGE_LAYOUT_SHADER_READ_ONLY_OPTIMAL⟩,
          ⟨"copy", rimg.handle, .VK_IMAGE_LAYOUT_SHADER_READ_ONLY_OPTIMAL,
            some .VK_IMAGE_LAYOUT_SHADER_READ_ONLY_OPTIMAL⟩,
          ⟨"copy", g1.handle, .VK_IMAGE_LAYOUT_SHADER_READ_ONLY_OPTIMAL,
            some .VK_IMAGE_LAYOUT_SHADER_READ_ONLY_OPTIMAL⟩,
          ⟨"copy", g2.handle, .VK_IMAGE_LAYOUT_SHADER_READ_ONLY_OPTIMAL,
            some .VK_IMAGE_LAYOUT_SHADER_READ_ONLY_OPTIMAL⟩,
          ⟨"copy", g3.handle, .VK_IMAGE_LAYOUT_SHADER_READ_ONLY_OPTIMAL,
            some .VK_IMAGE_LAYOUT_SHADER_READ_ONLY_OPTIMAL⟩ ] ∧
      ∀ a ∈ acc, a.image ∈ s'.target_handles → a.tracked = some a.declared := by
  obtain ⟨s0, h0, hw0, hbn0⟩ := init_wired w h b m hm hp hmat
  obtain ⟨s0', h0', hr0, -⟩ := init_ready w h b m hm hp hwf
  have he : s0' = s0 := by
    have := h0'.symm.trans h0
    simpa using this
  subst he
  obtain ⟨s', h1, hr, hw'⟩ := steps_wired steps s0' hr0 hw0 hbn0
  obtain ⟨acc, simg, rimg, g1, g2, g3, ha, e1, e2, e3, e4, e5, hacc⟩ :=
    frame_accesses_wired s' hr hw' layouts
  refine ⟨s', acc, simg, rimg, g1, g2, g3, by simp only [session, h0, h1], ha, e1, e2, e3, e4,
    e5, hacc, ?_⟩
  intro a ha1 ha2
  have hmem : a ∈ acc.filter (fun a => s'.target_handles.contains a.image) :=
    List.mem_filter.mpr ⟨ha1, by simpa using ha2⟩
  rw [hacc] at hmem
  simp only [List.mem_cons, List.mem_singleton, List.not_mem_nil, or_false] at hmem
  rcases hmem with h | h | h | h | h | h | h | h | h | h | h | h | h <;> rw [h]

/-- Witness for C22: on the concrete device and mesh, in the frame after `init` at
1920 x 1080, a frame and a resize to 1280 x 720, from unknown layouts, every access to a
frame target finds the declared layout. -/
theorem layouts_match_descriptors_witness :
    device.mesh_files "mesh/sponza.obj" = some sponza ∧
    (∀ p, device.pipeline_creation_fails p = false) ∧ sponza.well_formed = true ∧
    (∀ x ∈ sponza.materials.filterMap (·.pbr_descriptor_set),
      x < device.next_handle ∨ device.next_handle + 60 ≤ x) ∧
    ∃ s' acc, session 1920 1080 device [.frame 1, .resize 1280 720 1280 720] = some s' ∧
      frame_accesses s' (fun _ => none) = some acc ∧
      (acc.filter (fun a => s'.target_handles.contains a.image)).length = 13 ∧
      ∀ a ∈ acc, a.image ∈ s'.target_handles → a.tracked = some a.declared :=
  ⟨rfl, fun _ => rfl, rfl, by decide,
    let ⟨s', acc, _, _, _, _, _, hs, ha, _, _, _, _, _, hf, hall⟩ :=
      layouts_match_descriptors 1920 1080 device sponza [.frame 1, .resize 1280 720 1280 720]
        (fun _ => none) rfl (fun _ => rfl) rfl (by decide)
    ⟨s', acc, hs, ha, by rw [hf]; rfl, hall⟩⟩

/-- Every session returns: `init` returns true and every step returns, on a ready sample
with consistent G-buffer attachments. -/
theorem session_ready (w h : Nat) (b : Backend) (m : Mesh) (steps : List Step)
    (hm : b.mesh_files "mesh/sponza.obj" = some m)
    (hp : ∀ p, b.pipeline_creation_fails p = false)
    (hwf : m.well_formed = true) :
    ∃ s0 s', init (Sample.start w h b) = some (true, s0) ∧ s0.steps steps = some s' ∧
      session w h b steps = some s' ∧ s'.ready = true ∧ s'.attachments_consistent = true ∧
      s'.m_vk_backend.swap_chain_depth_format = b.swap_chain_depth_format := by
  obtain ⟨s0, h0, hr, hc, hd, -⟩ := init_ready w h b m hm hp hwf
  obtain ⟨s', h1, h2, h3, h4⟩ := steps_ready steps s0 hr hc
  exact ⟨s0, s', h0, h1, by simp only [session, h0, h1], h2, h3, h4.trans hd⟩

/-- C23. On every device on which every creation succeeds (the mesh loads, with materials
for all its sub-meshes, and no pipeline creation fails), for every window size and every
sequence of frames and resizes the framework asks for: `init` returns true, and every
`update` and every `window_resized` of the sequence returns, so no step of `init`,
`window_resized` or `update` dereferences a null pointer. In `init` each creation step is
applied to what the steps before it left and returns: `create_framebuffers` after the
render pass and the output images, `write_descriptor_sets` after the framebuffer, the
layouts and the descriptor sets, then the four pipeline creations; when `init` returns,
the five descriptor-write calls of `write_descriptor_sets` have been issued and no frame
has been submitted. What each step dereferences: `write_descriptor_sets` returns exactly
when the views of the shadow mask, the reflection image and G-buffer 1, 2, 3, the five
descriptor sets, the uniform buffer, the scene and the view of the noise texture are set;
`create_framebuffers` exactly when the render pass and the four G-buffer views are set;
the pipeline creations exactly when the descriptor-set layouts they list, and for the
G-buffer pipeline the mesh and the render pass, for the reflection pipeline the scene,
are set and the device creates the pipeline. Whenever `window_resized` returns, the camera was set and `create_framebuffers`
and `write_descriptor_sets` returned on what the steps before them left. -/
theorem creation_order_respected (w h : Nat) (b : Backend) (m : Mesh) (steps : List Step)
    (hm : b.mesh_files "mesh/sponza.obj" = some m)
    (hp : ∀ p, b.pipeline_creation_fails p = false)
    (hwf : m.well_formed = true) :
    (∃ s0 tm tf td tw t1 t2 t3 t4,
      load_mesh (create_uniform_buffer (create_shaders (Sample.start w h b)).2).2 =
        some (true, tm) ∧
      create_framebuffers (create_render_passes (create_output_images
        (load_blue_noise tm))) = some tf ∧
      create_descriptor_sets (create_descriptor_set_layouts tf) = some td ∧
      write_descriptor_sets td = some tw ∧
      create_deferred_pipeline tw = some t1 ∧
      create_gbuffer_pipeline t1 = some t2 ∧
      create_shadow_mask_ray_tracing_pipeline t2 = some t3 ∧
      create_reflection_ray_tracing_pipeline t3 = some t4 ∧
      s0 = create_camera t4 ∧
      init (Sample.start w h b) = some (true, s0) ∧
      ((new_calls b s0.m_vk_backend).filter Event.is_descriptor_write).length = 5 ∧
      (new_calls b s0.m_vk_backend).filter Event.is_submit = [] ∧
      ∃ s', s0.steps steps = some s' ∧ session w h b steps = some s' ∧ s'.ready = true) ∧
    (∀ t, (write_descriptor_sets t).isSome =
      (t.m_shadow_mask_view.isSome && t.m_reflection_view.isSome &&
        t.m_g_buffer_1_view.isSome && t.m_g_buffer_2_view.isSome &&
        t.m_g_buffer_3_view.isSome && t.m_deferred_ds.isSome && t.m_ubo.isSome &&
        t.m_per_frame_ds.isSome && t.m_g_buffer_ds.isSome && t.m_scene.isSome &&
        t.m_shadow_mask_ds.isSome && t.m_reflection_ds.isSome &&
        t.m_blue_noise_view.isSome)) ∧
    (∀ t, (create_framebuffers t).isSome =
      (t.m_g_buffer_rp.isSome && t.m_g_buffer_1_view.isSome && t.m_g_buffer_2_view.isSome &&
        t.m_g_buffer_3_view.isSome && t.m_g_buffer_depth_view.isSome)) ∧
    (∀ t, (create_deferred_pipeline t).isSome =
        (t.m_deferred_layout.isSome && t.m_per_frame_ds_layout.isSome &&
          !t.m_vk_backend.pipeline_creation_fails .VK_PIPELINE_BIND_POINT_GRAPHICS) ∧
      (create_gbuffer_pipeline t).isSome =
        (t.m_mesh.isSome && t.m_per_frame_ds_layout.isSome && t.m_g_buffer_rp.isSome &&
          !t.m_vk_backend.pipeline_creation_fails .VK_PIPELINE_BIND_POINT_GRAPHICS) ∧
      (create_shadow_mask_ray_tracing_pipeline t).isSome =
        (t.m_shadow_mask_ds_layout.isSome && t.m_per_frame_ds_layout.isSome &&
          t.m_g_buffer_ds_layout.isSome &&
          !t.m_vk_backend.pipeline_creation_fails .VK_PIPELINE_BIND_POINT_RAY_TRACING_NV) ∧
      (create_reflection_ray_tracing_pipeline t).isSome =
        (t.m_reflection_ds_layout.isSome && t.m_per_frame_ds_layout.isSome &&
          t.m_g_buffer_ds_layout.isSome && t.m_scene.isSome &&
          !t.m_vk_backend.pipeline_creation_fails
            .VK_PIPELINE_BIND_POINT_RAY_TRACING_NV)) ∧
    (∀ ww hh t s', window_resized ww hh t = some s' →
      ∃ camera, t.m_main_camera = some camera ∧
      ∃ tf, create_framebuffers (create_output_images
          { t with m_main_camera := some (camera.update_projection (t.m_width, t.m_height))
                   m_vk_backend := t.m_vk_backend.wait_idle }) = some tf ∧
        write_descriptor_sets tf = some s') := by
  obtain ⟨s0, s', h0, h1, h2, h3, -, -⟩ := session_ready w h b m steps hm hp hwf
  obtain ⟨s0', h0', l, hl, hw, hs⟩ := init_calls w h b m hm hp
  have he : s0' = s0 := by
    have := h0'.symm.trans h0
    simpa using this
  subst he
  rw [← new_calls_append b l _ hl] at hw hs
  obtain ⟨tm, g1, tf, g2, td, g3, tw, g4, t1, g5, t2, g6, t3, g7, t4, g8, g9⟩ :=
    init_steps _ _ h0
  exact ⟨⟨s0', tm, tf, td, tw, t1, t2, t3, t4, g1, g2, g3, g4, g5, g6, g7, g8, g9, h0, hw, hs,
    s', h1, h2, h3⟩, write_descriptor_sets_isSome, create_framebuffers_isSome,
    create_pipelines_isSome, window_resized_steps⟩

/-- Witness for C23: on the concrete device and mesh, `init` at 1920 x 1080, a frame, a
resize to 1280 x 720 and two more frames all return. -/
theorem creation_order_respected_witness :
    device.mesh_files "mesh/sponza.obj" = some sponza ∧
    (∀ p, device.pipeline_creation_fails p = false) ∧ sponza.well_formed = true ∧
    ∃ s', session 1920 1080 device
        [.frame 1, .resize 1280 720 1280 720, .frame 2, .frame 0] = some s' ∧
      s'.ready = true :=
  ⟨rfl, fun _ => rfl, rfl,
    let ⟨⟨_, _, _, _, _, _, _, _, _, _, _, _, _, _, _, _, _, _, _, _, _, s', _, hs, hr⟩, _⟩ :=
      creation_order_respected 1920 1080 device sponza
        [.frame 1, .resize 1280 720 1280 720, .frame 2, .frame 0] rfl (fun _ => rfl) rfl
    ⟨s', hs, hr⟩⟩

/-! ## Shutdown -/

/-- The calls of `shutdown`: for each member, at its first reset, the release of the
object it holds. -/
theorem shutdown_calls (s : Sample) :
    (shutdown s).m_vk_backend.calls = s.m_vk_backend.calls ++
      (shutdown_order.map fun m => (s.held m).map (Event.release m.kind)).filterMap id := by
  have ho : shutdown_order =
      [ .m_blue_noise, .m_blue_noise_view, .m_reflection_ds, .m_deferred_ds, .m_per_frame_ds,
        .m_g_buffer_ds, .m_shadow_mask_ds, .m_per_frame_ds_layout, .m_g_buffer_ds_layout,
        .m_reflection_ds_layout, .m_shadow_mask_ds_layout, .m_shadow_mask_pipeline_layout,
        .m_reflection_pipeline_layout, .m_g_buffer_pipeline_layout, .m_deferred_layout,
        .m_deferred_pipeline_layout, .m_ubo, .m_deferred_pipeline, .m_shadow_mask_pipeline,
        .m_g_buffer_pipeline, .m_reflection_pipeline, .m_g_buffer_fbo, .m_g_buffer_rp,
        .m_reflection_view, .m_shadow_mask_view, .m_g_buffer_1_view, .m_g_buffer_2_view,
        .m_g_buffer_3_view, .m_g_buffer_depth_view, .m_shadow_mask_image, .m_reflection_image,
        .m_g_buffer_1, .m_g_buffer_2, .m_g_buffer_3, .m_g_buffer_depth, .m_shadow_mask_sbt,
        .m_reflection_sbt, .m_scene, .m_mesh ] := by decide
  rw [ho]
  simp only [shutdown, shutdown_resets, List.foldl, Sample.reset, Sample.held, Member.kind,
    Backend.reset_calls, Option.map_none', Option.toList_none, List.append_nil,
    List.map_cons, List.map_nil, filterMap_id_cons, List.filterMap_nil, List.append_assoc]

/-- C24, counterexample. The order of `shutdown` is not a reverse-dependency order: the
view of the blue-noise texture is created from the blue-noise image, and `m_blue_noise` is
the first member `shutdown` resets, before `m_blue_noise_view`; on the concrete
application after `init` the image pointer is null after the first statement of `shutdown`
while the view of this image is still held. In the same way the layout of the shadow
pipeline is reset before the pipeline, and the per-frame descriptor-set layout before the
G-buffer pipeline layout built from it. Fourteen of the 32 dependencies between
members are reset in this order. -/
theorem shutdown_resets_image_before_view :
    (Member.m_blue_noise_view, Member.m_blue_noise) ∈ dependencies ∧
    shutdown_resets.indexOf Member.m_blue_noise <
      shutdown_resets.indexOf Member.m_blue_noise_view ∧
    app_ready.m_blue_noise.isSome = true ∧
    app_ready.m_blue_noise_view.map (·.image) = app_ready.m_blue_noise ∧
    ((shutdown_resets.take 1).foldl Sample.reset app_ready).held .m_blue_noise = none ∧
    ((shutdown_resets.take 1).foldl Sample.reset app_ready).held .m_blue_noise_view =
      app_ready.held .m_blue_noise_view ∧
    (app_ready.held .m_blue_noise_view).isSome = true ∧
    (Member.m_shadow_mask_pipeline, Member.m_shadow_mask_pipeline_layout) ∈ dependencies ∧
    shutdown_resets.indexOf Member.m_shadow_mask_pipeline_layout <
      shutdown_resets.indexOf Member.m_shadow_mask_pipeline ∧
    (Member.m_g_buffer_pipeline_layout, Member.m_per_frame_ds_layout) ∈ dependencies ∧
    shutdown_resets.indexOf Member.m_per_frame_ds_layout <
      shutdown_resets.indexOf Member.m_g_buffer_pipeline_layout ∧
    dependencies.length = 32 ∧ shutdown_violations.length = 14 := by
  refine ⟨by decide, by decide, by decide, by decide, by decide, by decide, by decide,
    by decide, by decide, by decide, by decide, by decide, by decide⟩

/-- C24, amended. On every object `shutdown` leaves every member that holds a GPU
resource, the mesh and the scene null, and it releases the objects the members held in
the order of their first `reset()` in the source. In this order a member is reset before
the members its object was created from for eighteen of the 32 dependencies: each
descriptor set before its descriptor-set layout, the view of each frame target before its
image, the framebuffer before the render pass and its four views, each ray-tracing
pipeline before its shader binding table. The other fourteen are reset the other way
round: the blue-noise image before its view, each pipeline layout before the pipeline
created from it, and each descriptor-set layout before the pipeline layouts that list
it. -/
theorem shutdown_releases_all (s : Sample) :
    (∀ m, (shutdown s).held m = none) ∧
    new_calls s.m_vk_backend (shutdown s).m_vk_backend =
      (shutdown_order.map fun m => (s.held m).map (Event.release m.kind)).filterMap id ∧
    shutdown_order.Nodup ∧ (∀ m, m ∈ shutdown_order) ∧
    (dependencies.filter fun p =>
        decide (shutdown_resets.indexOf p.1 < shutdown_resets.indexOf p.2)) =
      [ (.m_per_frame_ds, .m_per_frame_ds_layout), (.m_g_buffer_ds, .m_g_buffer_ds_layout),
        (.m_shadow_mask_ds, .m_shadow_mask_ds_layout),
        (.m_shadow_mask_pipeline, .m_shadow_mask_sbt),
        (.m_shadow_mask_view, .m_shadow_mask_image),
        (.m_reflection_ds, .m_reflection_ds_layout),
        (.m_reflection_pipeline, .m_reflection_sbt),
        (.m_reflection_view, .m_reflection_image),
        (.m_deferred_ds, .m_deferred_layout),
        (.m_g_buffer_1_view, .m_g_buffer_1), (.m_g_buffer_2_view, .m_g_buffer_2),
        (.m_g_buffer_3_view, .m_g_buffer_3), (.m_g_buffer_depth_view, .m_g_buffer_depth),
        (.m_g_buffer_fbo, .m_g_buffer_rp), (.m_g_buffer_fbo, .m_g_buffer_1_view),
        (.m_g_buffer_fbo, .m_g_buffer_2_view), (.m_g_buffer_fbo, .m_g_buffer_3_view),
        (.m_g_buffer_fbo, .m_g_buffer_depth_view) ] ∧
    shutdown_violations =
      [ (.m_blue_noise_view, .m_blue_noise),
        (.m_shadow_mask_pipeline, .m_shadow_mask_pipeline_layout),
        (.m_shadow_mask_pipeline_layout, .m_shadow_mask_ds_layout),
        (.m_shadow_mask_pipeline_layout, .m_per_frame_ds_layout),
        (.m_shadow_mask_pipeline_layout, .m_g_buffer_ds_layout),
        (.m_reflection_pipeline, .m_reflection_pipeline_layout),
        (.m_reflection_pipeline_layout, .m_reflection_ds_layout),
        (.m_reflection_pipeline_layout, .m_per_frame_ds_layout),
        (.m_reflection_pipeline_layout, .m_g_buffer_ds_layout),
        (.m_deferred_pipeline, .m_deferred_pipeline_layout),
        (.m_deferred_pipeline_layout, .m_deferred_layout),
        (.m_deferred_pipeline_layout, .m_per_frame_ds_layout),
        (.m_g_buffer_pipeline, .m_g_buffer_pipeline_layout),
        (.m_g_buffer_pipeline_layout, .m_per_frame_ds_layout) ] := by
  refine ⟨?_, ?_, by decide, ?_, by decide, by decide⟩
  · intro m
    cases m <;> rfl
  · rw [new_calls, shutdown_calls, List.drop_left]
  · intro m
    cases m <;> decide

/-! ## The range of the per-frame descriptor -/

/-- C25. On the concrete application after `init` (slots of 512 bytes, three frames in
flight, a uniform buffer of 1536 bytes) the per-frame descriptor is written with offset 0
and range `VK_WHOLE_SIZE`; at the frame index 1 every pass binds the per-frame set with
the dynamic offset 512, so the bytes the descriptor makes visible to the shaders are the
bytes 512 up to 2048: the range ends 512 bytes past the end of the uniform buffer. -/
theorem per_frame_descriptor_overruns :
    app_ready.m_vk_backend.current_frame_idx = 1 ∧ app_ready.m_ubo_size = 512 ∧
    app_ready.m_vk_backend.kMaxFramesInFlight = 3 ∧
    app_ready.m_ubo.map (·.size) = some 1536 ∧
    ((app_ready.m_per_frame_ds.bind fun pf =>
        app_ready.m_vk_backend.descriptors pf.handle 0).bind Descriptor.buffer_info) =
      app_ready.m_ubo.map (fun ubo => ⟨ubo.handle, 0, VK_WHOLE_SIZE⟩) ∧
    (update app_ready).map (fun r => (dynamic_binds r.2).map (·.2)) =
      some [[512], [512], [512], [512]] ∧
    (app_ready.m_ubo.map fun ubo =>
        (VkDescriptorBufferInfo.mk ubo.handle 0 VK_WHOLE_SIZE).visible ubo.size 512) =
      some (512, 2048) ∧
    ¬ (2048 ≤ 1536) := by
  refine ⟨by decide, by decide, by decide, by decide, by decide, by decide, by decide,
    by decide⟩

/-! ## Render passes in a frame -/

/-- The loop of `render_gbuffer` neither begins nor ends a render pass. -/
theorem well_bracketed_draw_commands (inside : Bool) (layout : Handle) (mesh : Mesh)
    (subs : List SubMesh) (rest : List Cmd) :
    well_bracketed inside (draw_commands layout mesh subs ++ rest) =
      well_bracketed inside rest := by
  induction subs with
  | nil => rfl
  | cons sm r ih =>
    simp only [draw_commands]
    split <;> simp [well_bracketed, ih]

/-- Inside a render pass instance the loop of `render_gbuffer` records nothing outside. -/
theorem outside_passes_draw_commands (layout : Handle) (mesh : Mesh) (subs : List SubMesh)
    (rest : List Cmd) :
    outside_passes true (draw_commands layout mesh subs ++ rest) = outside_passes true rest := by
  induction subs with
  | nil => rfl
  | cons sm r ih =>
    simp only [draw_commands]
    split <;> simp [outside_passes, ih]

/-- After a pipeline bind, a viewport set and a scissor set the draws of the loop of
`render_gbuffer` are prepared. -/
theorem draws_prepared_draw_commands (extent : Nat × Nat) (layout : Handle) (mesh : Mesh)
    (subs : List SubMesh) (rest : List Cmd) :
    draws_prepared extent true true true (draw_commands layout mesh subs ++ rest) =
      draws_prepared extent true true true rest := by
  induction subs with
  | nil => rfl
  | cons sm r ih =>
    simp only [draw_commands]
    split <;> simp [draws_prepared, ih]

/-- The draws of the loop of `render_gbuffer`: one for each sub-mesh. -/
theorem filter_is_draw_draw_commands (layout : Handle) (mesh : Mesh) (subs : List SubMesh) :
    ((draw_commands layout mesh subs).filter Cmd.is_draw).length = subs.length := by
  induction subs with
  | nil => rfl
  | cons sm r ih =>
    simp only [draw_commands]
    split <;> simp [Cmd.is_draw, ih]

/-- The frame is what `update` and `render_gbuffer` record before the loop over the
sub-meshes, the loop, and what the frame records after it. -/
theorem frame_commands_split (s : Sample) (o : FrameObjects) :
    frame_commands s o =
      ([Cmd.begin_sample "update", Cmd.begin_sample "update_uniforms",
        Cmd.end_sample "update_uniforms"] ++
        render_gbuffer_begin s.m_width s.m_height (dynamic_offset s) o.rp o.fbo o.gpipe o.mesh
          o.glayout o.pf) ++
      (draw_commands o.glayout.handle o.mesh o.mesh.sub_meshes ++
        ([Cmd.vkCmdEndRenderPass, Cmd.end_sample "render_gbuffer"] ++
        ray_trace_shadow_mask_commands s.m_width s.m_height (dynamic_offset s)
          s.m_vk_backend.shaderGroupHandleSize o.simg o.spipe o.slayout o.sds o.pf o.gds o.ssbt ++
        ray_trace_reflection_commands s.m_width s.m_height (dynamic_offset s)
          s.m_vk_backend.shaderGroupHandleSize o.rimg o.rpipe o.rlayout o.rds o.pf o.gds o.scene
          o.rsbt ++
        render_commands s.m_width s.m_height (dynamic_offset s)
          s.m_vk_backend.swapchain_render_pass s.m_vk_backend.swapchain_framebuffer o.dpipe
          o.dlayout o.dds o.pf ++
        [Cmd.end_sample "update"])) := by
  simp only [frame_commands, List.append_assoc]

/-- C26. In every ready state `update` returns a frame in which the render passes are
well bracketed and never nested (no begin while an instance is open, no end while none is
open, none left open); there are two render pass instances, the first with one draw for
each sub-mesh and the second with one draw; in each instance every draw is preceded,
within the instance, by a pipeline bind, a viewport set and a scissor set of the extent
`(m_width, m_height)`, and the instance holds no trace dispatch and no image layout
barrier; outside the instances no draw is recorded, and the two trace dispatches and the
four barriers of the frame are all recorded there. -/
theorem render_passes_bracketed (s : Sample) (h : s.ready = true) :
    ∃ s' cmds mesh, update s = some (s', cmds) ∧ s.m_mesh = some mesh ∧
      well_bracketed false cmds = true ∧
      (render_pass_instances none cmds).map
          (fun p => (p.commands.filter Cmd.is_draw).length) = [mesh.sub_meshes.length, 1] ∧
      (∀ p ∈ render_pass_instances none cmds,
        draws_prepared (s.m_width, s.m_height) false false false p.commands = true ∧
        p.commands.filter (fun c => c.is_trace || c.is_barrier) = []) ∧
      (outside_passes false cmds).filter Cmd.is_draw = [] ∧
      ((outside_passes false cmds).filter Cmd.is_trace).length = 2 ∧
      ((outside_passes false cmds).filter Cmd.is_barrier).length = 4 ∧
      (cmds.filter Cmd.is_trace).length = 2 ∧ (cmds.filter Cmd.is_barrier).length = 4 := by
  obtain ⟨o, ho, hupd⟩ := update_of_ready s h
  have hinst : render_pass_instances none (frame_commands s o) =
      [ ⟨o.rp.handle, o.fbo.handle,
          [⟨(0, 0, 0, 1)⟩, ⟨(0, 0, 0, 1)⟩, ⟨(0, 0, 0, 1)⟩, ⟨(1, 1, 1, 1)⟩],
          (render_gbuffer_begin s.m_width s.m_height (dynamic_offset s) o.rp o.fbo o.gpipe
            o.mesh o.glayout o.pf).drop 2 ++
            draw_commands o.glayout.handle o.mesh o.mesh.sub_meshes⟩,
        ⟨s.m_vk_backend.swapchain_render_pass, s.m_vk_backend.swapchain_framebuffer,
          [⟨(0, 0, 0, 1)⟩, ⟨(1, 1, 1, 1)⟩],
          ((render_commands s.m_width s.m_height (dynamic_offset s)
            s.m_vk_backend.swapchain_render_pass s.m_vk_backend.swapchain_framebuffer o.dpipe
            o.dlayout o.dds o.pf).drop 2).take 7⟩ ] := by
    have hopen : ∀ rest, render_pass_instances none
        (([Cmd.begin_sample "update", Cmd.begin_sample "update_uniforms",
          Cmd.end_sample "update_uniforms"] ++
          render_gbuffer_begin s.m_width s.m_height (dynamic_offset s) o.rp o.fbo o.gpipe
            o.mesh o.glayout o.pf) ++ rest) =
        render_pass_instances (some ⟨o.rp.handle, o.fbo.handle,
          [⟨(0, 0, 0, 1)⟩, ⟨(0, 0, 0, 1)⟩, ⟨(0, 0, 0, 1)⟩, ⟨(1, 1, 1, 1)⟩],
          (render_gbuffer_begin s.m_width s.m_height (dynamic_offset s) o.rp o.fbo o.gpipe
            o.mesh o.glayout o.pf).drop 2⟩) rest := fun _ => rfl
    rw [frame_commands_split, hopen,
      render_pass_instances_append _ _ _ (draw_commands_no_end _ _ _)]
    rfl
  have hd : (draw_commands o.glayout.handle o.mesh o.mesh.sub_meshes).filter
      (fun c => c.is_trace || c.is_barrier) = [] :=
    filter_draw_commands _ _ _ _ (fun _ _ _ _ => rfl) (fun _ _ _ _ _ => rfl)
  have hdt : (draw_commands o.glayout.handle o.mesh o.mesh.sub_meshes).filter Cmd.is_trace = [] :=
    filter_draw_commands _ _ _ _ (fun _ _ _ _ => rfl) (fun _ _ _ _ _ => rfl)
  have hdb : (draw_commands o.glayout.handle o.mesh o.mesh.sub_meshes).filter Cmd.is_barrier
      = [] :=
    filter_draw_commands _ _ _ _ (fun _ _ _ _ => rfl) (fun _ _ _ _ _ => rfl)
  have hout : outside_passes false (frame_commands s o) =
      [Cmd.begin_sample "update", Cmd.begin_sample "update_uniforms",
        Cmd.end_sample "update_uniforms", Cmd.begin_sample "render_gbuffer",
        Cmd.end_sample "render_gbuffer"] ++
      ray_trace_shadow_mask_commands s.m_width s.m_height (dynamic_offset s)
        s.m_vk_backend.shaderGroupHandleSize o.simg o.spipe o.slayout o.sds o.pf o.gds o.ssbt ++
      ray_trace_reflection_commands s.m_width s.m_height (dynamic_offset s)
        s.m_vk_backend.shaderGroupHandleSize o.rimg o.rpipe o.rlayout o.rds o.pf o.gds o.scene
        o.rsbt ++
      [Cmd.begin_sample "copy", Cmd.end_sample "copy", Cmd.end_sample "update"] := by
    have hopen : ∀ rest, outside_passes false
        (([Cmd.begin_sample "update", Cmd.begin_sample "update_uniforms",
          Cmd.end_sample "update_uniforms"] ++
          render_gbuffer_begin s.m_width s.m_height (dynamic_offset s) o.rp o.fbo o.gpipe
            o.mesh o.glayout o.pf) ++ rest) =
        [Cmd.begin_sample "update", Cmd.begin_sample "update_uniforms",
          Cmd.end_sample "update_uniforms", Cmd.begin_sample "render_gbuffer"] ++
          outside_passes true rest := fun _ => rfl
    rw [frame_commands_split, hopen, outside_passes_draw_commands]
    rfl
  refine ⟨_, _, o.mesh, hupd, ho.mesh, ?_, ?_, ?_, ?_, ?_, ?_, ?_, ?_⟩
  · have hopen : ∀ rest, well_bracketed false
        (([Cmd.begin_sample "update", Cmd.begin_sample "update_uniforms",
          Cmd.end_sample "update_uniforms"] ++
          render_gbuffer_begin s.m_width s.m_height (dynamic_offset s) o.rp o.fbo o.gpipe
            o.mesh o.glayout o.pf) ++ rest) = well_bracketed true rest := fun _ => rfl
    rw [frame_commands_split, hopen, well_bracketed_draw_commands]
    rfl
  · rw [hinst]
    simp only [List.map_cons, List.map_nil, List.filter_append,
      filter_is_draw_draw_commands, List.length_append]
    simp [render_gbuffer_begin, render_commands, Cmd.is_draw]
  · intro p hp
    rw [hinst] at hp
    simp only [List.mem_cons, List.mem_singleton, List.not_mem_nil, or_false] at hp
    rcases hp with rfl | rfl
    · refine ⟨?_, ?_⟩
      · have hsetup : ∀ rest, draws_prepared (s.m_width, s.m_height) false false false
            ((render_gbuffer_begin s.m_width s.m_height (dynamic_offset s) o.rp o.fbo o.gpipe
              o.mesh o.glayout o.pf).drop 2 ++ rest) =
            draws_prepared (s.m_width, s.m_height) true true true rest := by
          intro rest
          simp [render_gbuffer_begin, draws_prepared]
        have h0 := hsetup (draw_commands o.glayout.handle o.mesh o.mesh.sub_meshes ++ [])
        rw [draws_prepared_draw_commands, List.append_nil] at h0
        rw [h0]; rfl
      · simp only [List.filter_append, hd, List.append_nil]
        rfl
    · refine ⟨?_, rfl⟩
      simp [render_commands, draws_prepared]
  · rw [hout]
    simp [ray_trace_shadow_mask_commands, ray_trace_reflection_commands, Cmd.is_draw]
  · rw [hout]
    simp [ray_trace_shadow_mask_commands, ray_trace_reflection_commands, Cmd.is_trace]
  · rw [hout]
    simp [ray_trace_shadow_mask_commands, ray_trace_reflection_commands, Cmd.is_barrier]
  · simp only [frame_commands, List.filter_append, hdt]
    simp [render_gbuffer_begin, ray_trace_shadow_mask_commands, ray_trace_reflection_commands,
      render_commands, Cmd.is_trace]
  · simp only [frame_commands, List.filter_append, hdb]
    simp [render_gbuffer_begin, ray_trace_shadow_mask_commands, ray_trace_reflection_commands,
      render_commands, Cmd.is_barrier]

/-- Witness for C26 on the concrete application after `init`. -/
theorem render_passes_bracketed_witness :
    app_ready.ready = true ∧
    ∃ s' cmds, update app_ready = some (s', cmds) ∧ well_bracketed false cmds = true ∧
      (render_pass_instances none cmds).length = 2 :=
  ⟨by decide,
    let ⟨s', cmds, _, hu, _, hw, hi, _⟩ := render_passes_bracketed app_ready (by decide)
    ⟨s', cmds, hu, hw, by
      have := congrArg List.length hi
      simpa using this⟩⟩

/-! ## The arguments of `window_resized` -/

/-- C27. `window_resized(width, height)` does not read its arguments: on every object any
two argument pairs give the same result. In every ready state it returns, and the six
rebuilt images and the rebuilt framebuffer have the size `m_width` x `m_height` of the
object, each view being a view of its image; so the rebuilt targets have the size
`(width, height)` only if `m_width = width` and `m_height = height` held on entry. -/
theorem window_resized_ignores_arguments (width height : Nat) (s : Sample)
    (h : s.ready = true) :
    (∀ w1 h1 w2 h2 (t : Sample), window_resized w1 h1 t = window_resized w2 h2 t) ∧
    ∃ s' fbo, window_resized width height s = some s' ∧ s'.m_g_buffer_fbo = some fbo ∧
      (frame_targets s').map (Option.map fun i => (i.width, i.height)) =
        List.replicate 6 (some (s.m_width, s.m_height)) ∧
      (frame_target_views s').map (Option.map (·.image)) = frame_targets s' ∧
      (fbo.width, fbo.height) = (s.m_width, s.m_height) ∧
      ((∀ t ∈ frame_targets s', t.map (fun i => (i.width, i.height)) = some (width, height)) →
        s.m_width = width ∧ s.m_height = height) := by
  refine ⟨fun _ _ _ _ _ => rfl, ?_⟩
  obtain ⟨o, ho⟩ := points_to_of_ready s h
  have key : ∃ s' fbo, window_resized width height s = some s' ∧
      s'.m_g_buffer_fbo = some fbo ∧
      (frame_targets s').map (Option.map fun i => (i.width, i.height)) =
        List.replicate 6 (some (s.m_width, s.m_height)) ∧
      (frame_target_views s').map (Option.map (·.image)) = frame_targets s' ∧
      (fbo.width, fbo.height) = (s.m_width, s.m_height) := by
    simp [window_resized, ho.camera, create_output_images, create_framebuffers,
      write_descriptor_sets, ho.rp, ho.dds, ho.ubo, ho.pf, ho.gds, ho.scene, ho.sds, ho.rds,
      ho.bnv, ho.fbo, Backend.vkUpdateDescriptorSets, Backend.wait_idle, Backend.created,
      Image.create, ImageView.create, Framebuffer.create, frame_targets, frame_target_views,
      List.replicate]
  obtain ⟨s', fbo, h1, h2, h3, h4, h5⟩ := key
  refine ⟨s', fbo, h1, h2, h3, h4, h5, ?_⟩
  intro hall
  have hfirst := hall s'.m_shadow_mask_image (by simp [frame_targets])
  simp only [frame_targets, List.map_cons, List.replicate, List.cons.injEq] at h3
  rw [h3.1] at hfirst
  simp only [Option.some.injEq, Prod.mk.injEq] at hfirst
  exact hfirst

/-- Witness for C27 on the concrete application after `init`, its size set to
1280 x 720. -/
theorem window_resized_ignores_arguments_witness :
    (app_ready.set_window_size 1280 720).ready = true ∧
    ∃ s' fbo, window_resized 1 1 (app_ready.set_window_size 1280 720) = some s' ∧
      s'.m_g_buffer_fbo = some fbo ∧ (fbo.width, fbo.height) = (1280, 720) :=
  ⟨by decide,
    let ⟨_, s', fbo, hs', hfbo, _, _, hdim, _⟩ :=
      window_resized_ignores_arguments 1 1 (app_ready.set_window_size 1280 720) (by decide)
    ⟨s', fbo, hs', hfbo, hdim⟩⟩

/-! ## The material set in effect at a draw -/

/-- The sets in effect at slot 1 at the draws of the loop of `render_gbuffer`: at the draw
of a sub-mesh the set of the last sub-mesh so far whose material has one, else the set in
effect before the loop. -/
theorem sets_at_draws_draw_commands (layout : Handle) (mesh : Mesh) (subs : List SubMesh)
    (cur : Option Handle) (rest : List Cmd) :
    sets_at_draws 1 cur (draw_commands layout mesh subs ++ rest) =
      (List.range subs.length).map
        (fun i => ((subs.take (i + 1)).reverse.findSome? mesh.material_set).or cur) ++
      sets_at_draws 1 ((subs.reverse.findSome? mesh.material_set).or cur) rest := by
  induction subs generalizing cur with
  | nil => simp [draw_commands]
  | cons sm r ih =>
    have hstep : sets_at_draws 1 cur (draw_commands layout mesh (sm :: r) ++ rest) =
        (mesh.material_set sm).or cur ::
          sets_at_draws 1 ((mesh.material_set sm).or cur)
            (draw_commands layout mesh r ++ rest) := by
      simp only [draw_commands, Mesh.material_set]
      cases (mesh.material sm.mat_idx).bind (·.pbr_descriptor_set) <;>
        simp [sets_at_draws]
    rw [hstep, ih, List.length_cons, List.range_succ_eq_map, List.map_cons, List.map_map]
    simp only [List.take_succ_cons, List.reverse_cons, List.findSome?_append,
      List.findSome?_cons, List.findSome?_nil, List.take_zero, List.reverse_nil,
      List.nil_append, Option.or_assoc, Function.comp_def, Nat.succ_eq_add_one,
      List.cons_append, Nat.zero_add]
    cases mesh.material_set sm <;> rfl

/-- C28. In every ready state `render_gbuffer` returns and draws every sub-mesh; the
material set in effect at slot 1 of the graphics bind point at the draw of the `i`-th
sub-mesh is the set of the last sub-mesh `j <= i` whose material has a descriptor set,
and no set is in effect at slot 1 when no sub-mesh up to `i` has one: a sub-mesh whose
material has no descriptor set is drawn with the set of the nearest earlier sub-mesh that
has one. -/
theorem material_set_in_effect (s : Sample) (h : s.ready = true) :
    ∃ cmds mesh, render_gbuffer s [] = some cmds ∧ s.m_mesh = some mesh ∧
      (indexed_draws cmds).length = mesh.sub_meshes.length ∧
      sets_at_draws 1 none cmds =
        (List.range mesh.sub_meshes.length).map
          (fun i => (mesh.sub_meshes.take (i + 1)).reverse.findSome? mesh.material_set) := by
  obtain ⟨o, ho⟩ := points_to_of_ready s h
  refine ⟨_, o.mesh, render_gbuffer_eq s o ho [], ho.mesh, ?_, ?_⟩
  · have happ : ∀ l r, indexed_draws (l ++ r) = indexed_draws l ++ indexed_draws r := by
      intro l r; simp [indexed_draws]
    rw [happ, happ, indexed_draws_draw_commands]
    simp [indexed_draws, render_gbuffer_begin]
  · have hpre : ∀ rest, sets_at_draws 1 none ([] ++ render_gbuffer_begin s.m_width s.m_height
        (dynamic_offset s) o.rp o.fbo o.gpipe o.mesh o.glayout o.pf ++ rest) =
        sets_at_draws 1 none rest := by
      intro rest
      simp [render_gbuffer_begin, sets_at_draws]
    rw [List.append_assoc, hpre, sets_at_draws_draw_commands]
    simp [sets_at_draws, Option.or_none]

/-- Witness for C28 on the concrete application after `init`: the first sub-mesh has the
material set 900, the second has none and is drawn with the set 900. -/
theorem material_set_in_effect_witness :
    app_ready.ready = true ∧
    ∃ cmds, render_gbuffer app_ready [] = some cmds ∧
      sets_at_draws 1 none cmds = [some 900, some 900] :=
  ⟨by decide,
    let ⟨cmds, mesh, hc, hmesh, _, hs⟩ := material_set_in_effect app_ready (by decide)
    ⟨cmds, hc, by
      have hm : app_ready.m_mesh.map
          (fun m => (List.range m.sub_meshes.length).map
            (fun i => (m.sub_meshes.take (i + 1)).reverse.findSome? m.material_set)) =
          some [some 900, some 900] := by decide
      rw [hmesh] at hm
      simp only [Option.map_some', Option.some.injEq] at hm
      rw [hs, hm]⟩⟩

/-! ## The G-buffer attachments -/

/-- The loop of `render_gbuffer` begins no render pass. -/
theorem render_areas_draw_commands (layout : Handle) (mesh : Mesh) (subs : List SubMesh) :
    render_areas (draw_commands layout mesh subs) = [] := by
  induction subs with
  | nil => rfl
  | cons sm rest ih =>
    simp only [render_areas] at ih ⊢
    simp only [draw_commands, List.filterMap_append, List.filterMap_cons, ih]
    split <;> simp

/-- C29. On every device on which the mesh loads (with materials for all its sub-meshes)
and no pipeline creation fails, after `init` and after every sequence of frames and
resizes that follows it (so after `init` and after every `window_resized`), the G-buffer
attachments are consistent: the G-buffer framebuffer has width `m_width` and height
`m_height`, which are the width and height of each of its four attached images; its
attachments are, in order, the views of G-buffer 1, G-buffer 2, G-buffer 3 and depth,
each a view of its image; the formats the render pass declares for its four attachments
are the formats of the images attached at the same positions, namely R8G8B8A8_UNORM,
R16G16B16A16_SFLOAT, R32G32B32A32_SFLOAT and the depth format of the device; and
`render_gbuffer` returns and begins one render pass, whose render area is the size of the
framebuffer. -/
theorem gbuffer_attachments_agree (w h : Nat) (b : Backend) (m : Mesh)
    (steps : List Step)
    (hm : b.mesh_files "mesh/sponza.obj" = some m)
    (hp : ∀ p, b.pipeline_creation_fails p = false)
    (hwf : m.well_formed = true) :
    ∃ s', session w h b steps = some s' ∧
    ∃ fbo, s'.m_g_buffer_fbo = some fbo ∧
    ∃ rp, s'.m_g_buffer_rp = some rp ∧
    ∃ g1 g2 g3 gd, [s'.m_g_buffer_1, s'.m_g_buffer_2, s'.m_g_buffer_3, s'.m_g_buffer_depth] =
      [some g1, some g2, some g3, some gd] ∧
    ∃ v1 v2 v3 vd, [s'.m_g_buffer_1_view, s'.m_g_buffer_2_view, s'.m_g_buffer_3_view,
        s'.m_g_buffer_depth_view] = [some v1, some v2, some v3, some vd] ∧
      (fbo.width, fbo.height) = (s'.m_width, s'.m_height) ∧
      [g1, g2, g3, gd].map (fun i => (i.width, i.height)) =
        List.replicate 4 (fbo.width, fbo.height) ∧
      fbo.views = [v1, v2, v3, vd] ∧
      [v1, v2, v3, vd].map (·.image) = [g1, g2, g3, gd] ∧
      rp.attachments.map (·.format) = [g1, g2, g3, gd].map (·.format) ∧
      rp.attachments.map (·.format) =
        [ .VK_FORMAT_R8G8B8A8_UNORM, .VK_FORMAT_R16G16B16A16_SFLOAT,
          .VK_FORMAT_R32G32B32A32_SFLOAT, b.swap_chain_depth_format ] ∧
      ∃ cmds, render_gbuffer s' [] = some cmds ∧
        render_areas cmds = [(fbo.width, fbo.height)] := by
  obtain ⟨s0, s', -, -, hs, hr, hc, hd⟩ := session_ready w h b m steps hm hp hwf
  obtain ⟨o, ho⟩ := points_to_of_ready s' hr
  have hareas : render_areas ([] ++ render_gbuffer_begin s'.m_width s'.m_height
      (dynamic_offset s') o.rp o.fbo o.gpipe o.mesh o.glayout o.pf ++
      draw_commands o.glayout.handle o.mesh o.mesh.sub_meshes ++
      [Cmd.vkCmdEndRenderPass, Cmd.end_sample "render_gbuffer"]) =
      [(s'.m_width, s'.m_height)] := by
    have hd := render_areas_draw_commands o.glayout.handle o.mesh o.mesh.sub_meshes
    simp only [render_areas] at hd ⊢
    simp [List.filterMap_append, hd, render_gbuffer_begin]
  simp only [Sample.attachments_consistent, Bool.and_eq_true, decide_eq_true_eq, ho.fbo, ho.rp,
    ho.g1v, ho.g2v, ho.g3v, ho.gdv, Option.map_some', Option.some.injEq, Prod.mk.injEq,
    List.map_cons, List.map_nil, hd] at hc
  obtain ⟨⟨⟨⟨hw, hh, hv⟩, hi⟩, hdim⟩, hf⟩ := hc
  have hv' : o.fbo.views = [o.g1v, o.g2v, o.g3v, o.gdv] :=
    List.map_injective_iff.mpr (Option.some_injective _) (hv.trans (by simp))
  simp only [List.cons.injEq, and_true] at hi
  obtain ⟨h1, h2, h3, h4⟩ := hi
  rw [← h1, ← h2, ← h3, ← h4] at hdim
  simp only [Option.map_some', List.cons.injEq, Option.some.injEq, Prod.mk.injEq,
    and_true] at hdim
  obtain ⟨⟨a1, a2, a3⟩, ⟨b1, b2, b3⟩, ⟨c1, c2, c3⟩, ⟨d1, d2, d3⟩⟩ := hdim
  refine ⟨s', hs, o.fbo, ho.fbo, o.rp, ho.rp, o.g1v.image, o.g2v.image, o.g3v.image,
    o.gdv.image, by rw [← h1, ← h2, ← h3, ← h4], o.g1v, o.g2v, o.g3v, o.gdv,
    by rw [ho.g1v, ho.g2v, ho.g3v, ho.gdv], by rw [hw, hh], ?_, hv', rfl, ?_, hf, _,
    render_gbuffer_eq s' o ho [], by rw [hareas, hw, hh]⟩
  · simp [a1, a2, b1, b2, c1, c2, d1, d2, hw, hh]
  · simp [hf, a3, b3, c3, d3]

/-- Witness for C29: on the concrete device and mesh, after `init` at 1920 x 1080, a
frame, a resize to 1280 x 720 whose arguments are another size, and a frame, the
framebuffer has the stored size 1280 x 720. -/
theorem gbuffer_attachments_agree_witness :
    device.mesh_files "mesh/sponza.obj" = some sponza ∧
    (∀ p, device.pipeline_creation_fails p = false) ∧ sponza.well_formed = true ∧
    ∃ s' fbo, session 1920 1080 device [.frame 1, .resize 1280 720 640 480, .frame 2] =
        some s' ∧
      s'.m_g_buffer_fbo = some fbo ∧ (fbo.width, fbo.height) = (s'.m_width, s'.m_height) ∧
      fbo.views.map (fun v => some v.image) =
        [s'.m_g_buffer_1, s'.m_g_buffer_2, s'.m_g_buffer_3, s'.m_g_buffer_depth] :=
  ⟨rfl, fun _ => rfl, rfl,
    let ⟨s', hs, fbo, hfbo, _, _, _, _, _, _, hg, _, _, _, _, _, hdim, _, hv, hi, _⟩ :=
      gbuffer_attachments_agree 1920 1080 device sponza
        [.frame 1, .resize 1280 720 640 480, .frame 2] rfl (fun _ => rfl) rfl
    ⟨s', fbo, hs, hfbo, hdim, by rw [hv, hg]; simpa using hi⟩⟩

end HybridRendering
